import Mathlib

/-!
# Sensor ingest pipeline: ring buffers, record parser, counters

A shallow embedding of `unified_project/src/communication.c`,
`unified_project/src/sensor_data.c` and the callbacks of
`unified_project/src/main.c`, with the properties of the specification proved
over it.

Conventions of the embedding.

* Module-level `static` variables of a C file become the fields of one state
  record; a C function becomes a function from the state (and its arguments) to
  its return value and the new state.
* `uint8_t`, `uint16_t` and `uint32_t` values are natural numbers; an increment
  of a 32-bit counter is taken modulo `2 ^ 32`.  The ring indices are
  `uint16_t` in C; the embedding proves that they stay below the buffer size,
  so they never wrap.
* A C string is the list of its characters before the terminating NUL, one
  `Char` per byte.
-/

/-! ## communication.c : state -/

/-- `RX_BUFFER_SIZE` of config.h. -/
def RX_BUFFER_SIZE : Nat := 256

/-- `TX_BUFFER_SIZE` of config.h. -/
def TX_BUFFER_SIZE : Nat := 512

/-- Increment of a `uint32_t` counter (`x++`). -/
def incr32 (x : Nat) : Nat := (x + 1) % 4294967296

/-- Communication status, communication.h. -/
inductive comm_status_t where
  | COMM_STATUS_IDLE
  | COMM_STATUS_RECEIVING
  | COMM_STATUS_TRANSMITTING
  | COMM_STATUS_ERROR
deriving DecidableEq, Repr

/-- Communication error kinds, communication.h. -/
inductive comm_error_t where
  | COMM_ERROR_NONE
  | COMM_ERROR_TIMEOUT
  | COMM_ERROR_OVERRUN
  | COMM_ERROR_FRAMING
  | COMM_ERROR_PARITY
  | COMM_ERROR_BUFFER_FULL
  | COMM_ERROR_INVALID_PARAM
deriving DecidableEq, Repr

/-- Communication statistics, communication.h (all fields `uint32_t`). -/
structure comm_statistics_t where
  bytes_received : Nat
  bytes_transmitted : Nat
  packets_received : Nat
  packets_transmitted : Nat
  error_count : Nat
  timeout_count : Nat
deriving DecidableEq, Repr

/-- The values the function pointer `error_callback` takes in the repository:
`NULL` (its initial value and the value after `communication_deinit`) or
`communication_error_callback` of main.c, installed by `system_init`. -/
inductive error_callback_t where
  | null
  | communication_error_callback
deriving DecidableEq, Repr

/-- The static variables of communication.c, with the function-static
`tick_count` of `get_system_tick`.  The two buffers are functions from index to
byte. -/
structure CommState where
  current_status : comm_status_t
  last_error : comm_error_t
  statistics : comm_statistics_t
  rx_buffer : Nat → Nat
  tx_buffer : Nat → Nat
  rx_head : Nat
  rx_tail : Nat
  tx_head : Nat
  tx_tail : Nat
  error_callback : error_callback_t
  UART1_CR1 : Nat
  tick_count : Nat

/-- The all-zero statistics record (`memset(&statistics, 0, ...)`). -/
def zero_statistics : comm_statistics_t :=
  { bytes_received := 0, bytes_transmitted := 0, packets_received := 0,
    packets_transmitted := 0, error_count := 0, timeout_count := 0 }

/-- State of communication.c at program start (static initialisers). -/
def comm_boot : CommState :=
  { current_status := comm_status_t.COMM_STATUS_IDLE
    last_error := comm_error_t.COMM_ERROR_NONE
    statistics := zero_statistics
    rx_buffer := fun _ => 0
    tx_buffer := fun _ => 0
    rx_head := 0
    rx_tail := 0
    tx_head := 0
    tx_tail := 0
    error_callback := error_callback_t.null
    UART1_CR1 := 0
    tick_count := 0 }

/-- `UART_CR1_RXNEIE`, bit 5. -/
def UART_CR1_RXNEIE : Nat := 32

/-- `UART_CR1_TXEIE`, bit 7. -/
def UART_CR1_TXEIE : Nat := 128

/-- `communication_init` with a configuration accepted by
`is_valid_comm_config`: indices, buffers, statistics, status and last error are
reset; the callbacks are left as they are; `uart_enable_interrupts` sets
RXNEIE. -/
def communication_init (s : CommState) : CommState :=
  { s with
    rx_head := 0
    rx_tail := 0
    tx_head := 0
    tx_tail := 0
    rx_buffer := fun _ => 0
    tx_buffer := fun _ => 0
    statistics := zero_statistics
    current_status := comm_status_t.COMM_STATUS_IDLE
    last_error := comm_error_t.COMM_ERROR_NONE
    UART1_CR1 := s.UART1_CR1 ||| UART_CR1_RXNEIE }

/-- `communication_set_error_callback`. -/
def communication_set_error_callback (s : CommState) (cb : error_callback_t) : CommState :=
  { s with error_callback := cb }

/-! ## communication.c : ring buffers -/

/-- `get_rx_buffer_count`: the result is converted to `uint16_t`. -/
def get_rx_buffer_count (s : CommState) : Nat :=
  let head := s.rx_head
  let tail := s.rx_tail
  if head ≥ tail then (head - tail) % 65536
  else (((RX_BUFFER_SIZE : Int) - tail + head) % 65536).toNat

/-- `get_tx_buffer_space`: the result is converted to `uint16_t`. -/
def get_tx_buffer_space (s : CommState) : Nat :=
  let head := s.tx_head
  let tail := s.tx_tail
  if head ≥ tail then ((((TX_BUFFER_SIZE : Int) - 1) - (head - tail)) % 65536).toNat
  else (tail - head - 1) % 65536

/-- `put_rx_byte`: returns `false` and leaves the state alone when the slot
after `rx_head` is `rx_tail`. -/
def put_rx_byte (s : CommState) (byte : Nat) : Bool × CommState :=
  let next_head := (s.rx_head + 1) % RX_BUFFER_SIZE
  if next_head = s.rx_tail then (false, s)
  else
    (true, { s with
      rx_buffer := fun i => if i = s.rx_head then byte else s.rx_buffer i
      rx_head := next_head })

/-- `get_rx_byte`: `none` stands for the return value `false` (nothing is
written through the pointer), `some b` for `true` with `*byte = b`. -/
def get_rx_byte (s : CommState) : Option Nat × CommState :=
  if s.rx_tail = s.rx_head then (none, s)
  else (some (s.rx_buffer s.rx_tail), { s with rx_tail := (s.rx_tail + 1) % RX_BUFFER_SIZE })

/-- `put_tx_byte`. -/
def put_tx_byte (s : CommState) (byte : Nat) : Bool × CommState :=
  let next_head := (s.tx_head + 1) % TX_BUFFER_SIZE
  if next_head = s.tx_tail then (false, s)
  else
    (true, { s with
      tx_buffer := fun i => if i = s.tx_head then byte else s.tx_buffer i
      tx_head := next_head })

/-- `get_tx_byte`. -/
def get_tx_byte (s : CommState) : Option Nat × CommState :=
  if s.tx_tail = s.tx_head then (none, s)
  else (some (s.tx_buffer s.tx_tail), { s with tx_tail := (s.tx_tail + 1) % TX_BUFFER_SIZE })

/-- `communication_clear_rx_buffer`. -/
def communication_clear_rx_buffer (s : CommState) : CommState :=
  { s with rx_head := 0, rx_tail := 0 }

/-- `communication_clear_tx_buffer`. -/
def communication_clear_tx_buffer (s : CommState) : CommState :=
  { s with tx_head := 0, tx_tail := 0 }

/-! ## main.c and communication.c : error path and interrupt service routine -/

/-- `communication_error_callback` of main.c: on `COMM_ERROR_BUFFER_FULL` it
calls `communication_clear_rx_buffer`; every other error is only logged. -/
def communication_error_callback (s : CommState) (error : comm_error_t) : CommState :=
  match error with
  | comm_error_t.COMM_ERROR_BUFFER_FULL => communication_clear_rx_buffer s
  | _ => s

/-- Call through the function pointer `error_callback` when it is not `NULL`. -/
def call_error_callback (s : CommState) (error : comm_error_t) : CommState :=
  match s.error_callback with
  | error_callback_t.null => s
  | error_callback_t.communication_error_callback => communication_error_callback s error

/-- `set_last_error`: records the error, bumps `statistics.error_count`, calls
the error callback, then bumps `timeout_count` for a timeout. -/
def set_last_error (s : CommState) (error : comm_error_t) : CommState :=
  let s1 := { s with
    last_error := error
    statistics := { s.statistics with error_count := incr32 s.statistics.error_count } }
  let s2 := call_error_callback s1 error
  match error with
  | comm_error_t.COMM_ERROR_TIMEOUT =>
      { s2 with statistics :=
          { s2.statistics with timeout_count := incr32 s2.statistics.timeout_count } }
  | _ => s2

/-- The receive branch of `communication_uart_isr` (taken when `UART_SR_RXNE`
is set); `dr` is the value read from `UART1_DR`. -/
def uart_isr_receive (s : CommState) (dr : Nat) : CommState :=
  let data := dr % 256
  let r := put_rx_byte s data
  let s1 := if r.1 = false then set_last_error r.2 comm_error_t.COMM_ERROR_BUFFER_FULL else r.2
  { s1 with current_status := comm_status_t.COMM_STATUS_RECEIVING }

/-- The transmit branch of `communication_uart_isr` (taken when `UART_SR_TXE`
is set): the byte handed to `UART1_DR`, if any, and the new state. -/
def uart_isr_transmit (s : CommState) : Option Nat × CommState :=
  match get_tx_byte s with
  | (some data, s1) => (some data, s1)
  | (none, s1) =>
      (none, { s1 with
        UART1_CR1 := s1.UART1_CR1 &&& (4294967295 - UART_CR1_TXEIE)
        current_status := comm_status_t.COMM_STATUS_IDLE })

/-- `communication_uart_isr` (the `IAR_LEGACY_SUPPORT` build): `sr` is the
value read from `UART1_SR`, `dr` the value read from `UART1_DR`.  Returns the
byte written to `UART1_DR`, if any, and the new state. -/
def communication_uart_isr (s : CommState) (sr dr : Nat) : Option Nat × CommState :=
  let s1 := if sr &&& 32 ≠ 0 then uart_isr_receive s dr else s
  let t := if sr &&& 128 ≠ 0 then uart_isr_transmit s1 else (none, s1)
  let s3 := if sr &&& 8 ≠ 0 then set_last_error t.2 comm_error_t.COMM_ERROR_OVERRUN else t.2
  let s4 := if sr &&& 2 ≠ 0 then set_last_error s3 comm_error_t.COMM_ERROR_FRAMING else s3
  let s5 := if sr &&& 1 ≠ 0 then set_last_error s4 comm_error_t.COMM_ERROR_PARITY else s4
  (t.1, s5)

/-- The communication part of `system_init` of main.c: `communication_init`
with `DEFAULT_COMM_CONFIG`, then the error callback is installed. -/
def system_init_comm (s : CommState) : CommState :=
  communication_set_error_callback (communication_init s)
    error_callback_t.communication_error_callback

/-! ## Ring operations as a labelled transition system -/

/-- The calls of the ring interface. -/
inductive RingCall where
  | put_rx (byte : Nat)
  | get_rx
  | clear_rx
  | put_tx (byte : Nat)
  | get_tx
  | clear_tx
deriving DecidableEq, Repr

/-- Effect of one ring call on the state. -/
def ring_step (s : CommState) : RingCall → CommState
  | RingCall.put_rx b => (put_rx_byte s b).2
  | RingCall.get_rx => (get_rx_byte s).2
  | RingCall.clear_rx => communication_clear_rx_buffer s
  | RingCall.put_tx b => (put_tx_byte s b).2
  | RingCall.get_tx => (get_tx_byte s).2
  | RingCall.clear_tx => communication_clear_tx_buffer s

/-- Effect of a sequence of ring calls. -/
def ring_run (s : CommState) (calls : List RingCall) : CommState :=
  calls.foldl ring_step s

/-- The index invariant of both rings. -/
def ring_inv (s : CommState) : Prop :=
  s.rx_head < RX_BUFFER_SIZE ∧ s.rx_tail < RX_BUFFER_SIZE ∧
  s.tx_head < TX_BUFFER_SIZE ∧ s.tx_tail < TX_BUFFER_SIZE

/-- Occupancy of the TX ring, `(tx_head - tx_tail) mod 512`. -/
def tx_occupancy (s : CommState) : Nat :=
  (((s.tx_head : Int) - s.tx_tail) % 512).toNat

/-! ## The RX ring against a bounded FIFO queue -/

/-- Calls on the RX ring made by its producer (`put_rx_byte`) and its consumer
(`get_rx_byte`). -/
inductive RxCall where
  | put (byte : Nat)
  | get
deriving DecidableEq, Repr

/-- Return values of the RX ring calls: the boolean of `put_rx_byte`, and for
`get_rx_byte` the byte delivered (`none` for the return value `false`). -/
inductive RxRet where
  | put_ret (ok : Bool)
  | get_ret (byte : Option Nat)
deriving DecidableEq, Repr

/-- One call on the RX ring of communication.c. -/
def rx_call (s : CommState) : RxCall → RxRet × CommState
  | RxCall.put b => (RxRet.put_ret (put_rx_byte s b).1, (put_rx_byte s b).2)
  | RxCall.get => (RxRet.get_ret (get_rx_byte s).1, (get_rx_byte s).2)

/-- Return values and final state of a sequence of RX ring calls. -/
def rx_trace (s : CommState) : List RxCall → List RxRet × CommState
  | [] => ([], s)
  | c :: cs => ((rx_call s c).1 :: (rx_trace (rx_call s c).2 cs).1, (rx_trace (rx_call s c).2 cs).2)

/-- The specification queue, in the words of the specification: a push is
accepted and appended when fewer than 255 bytes are held, a pop returns the
oldest byte, and fails when nothing is held. -/
def fifo_call (q : List Nat) : RxCall → RxRet × List Nat
  | RxCall.put b => if q.length < 255 then (RxRet.put_ret true, q ++ [b]) else (RxRet.put_ret false, q)
  | RxCall.get =>
    match q with
    | [] => (RxRet.get_ret none, [])
    | x :: xs => (RxRet.get_ret (some x), xs)

/-- Return values and final content of a sequence of calls on the specification
queue. -/
def fifo_trace (q : List Nat) : List RxCall → List RxRet × List Nat
  | [] => ([], q)
  | c :: cs => ((fifo_call q c).1 :: (fifo_trace (fifo_call q c).2 cs).1, (fifo_trace (fifo_call q c).2 cs).2)

/-- The bytes held by the RX ring, oldest first: the slots from `rx_tail` up to
`rx_head`, read circularly. -/
def rx_contents (s : CommState) : List Nat :=
  (List.range (get_rx_buffer_count s)).map (fun i => s.rx_buffer ((s.rx_tail + i) % RX_BUFFER_SIZE))

/-- The bytes of the pushes that returned `true`, in call order. -/
def accepted_bytes : List RxCall → List RxRet → List Nat
  | RxCall.put b :: cs, RxRet.put_ret true :: rs => b :: accepted_bytes cs rs
  | _ :: cs, _ :: rs => accepted_bytes cs rs
  | _, _ => []

/-- The bytes delivered by the pops, in call order. -/
def popped_bytes : List RxRet → List Nat
  | RxRet.get_ret (some b) :: rs => b :: popped_bytes rs
  | _ :: rs => popped_bytes rs
  | [] => []

/-- The UART interrupt delivering the bytes `drs` one after the other, each
with only `UART_SR_RXNE` set. -/
def isr_receive_all (s : CommState) (drs : List Nat) : CommState :=
  drs.foldl (fun t dr => (communication_uart_isr t 32 dr).2) s

/-- A state of communication.c after `system_init` in which the interrupt has
delivered 255 bytes `'A'` and the mainline has read none of them. -/
def full_rx_state : CommState :=
  isr_receive_all (system_init_comm comm_boot) (List.replicate 255 65)

/-! ## sensor_data.c : types and state -/

/-- The C enum `sensor_status_t` (config.h); an enum object can hold any
integer. -/
abbrev sensor_status_t := Int

abbrev SENSOR_STATUS_NORMAL : sensor_status_t := 0
abbrev SENSOR_STATUS_WARNING : sensor_status_t := 1
abbrev SENSOR_STATUS_ERROR : sensor_status_t := 2
abbrev SENSOR_STATUS_OFFLINE : sensor_status_t := 3

/-- The C enum `sensor_type_t` (config.h). -/
abbrev sensor_type_t := Int

abbrev SENSOR_TYPE_UNKNOWN : sensor_type_t := 0
abbrev SENSOR_TYPE_TEMP_HUMIDITY : sensor_type_t := 1
abbrev SENSOR_TYPE_INTERRUPT : sensor_type_t := 2

/-- The C enum `interrupt_type_t` (config.h). -/
abbrev interrupt_type_t := Int

abbrev INTERRUPT_TYPE_NONE : interrupt_type_t := 0
abbrev INTERRUPT_TYPE_RISING : interrupt_type_t := 1
abbrev INTERRUPT_TYPE_FALLING : interrupt_type_t := 2
abbrev INTERRUPT_TYPE_BOTH : interrupt_type_t := 3

abbrev MAX_STUDENT_ID_LEN : Nat := 20
abbrev MAX_SENSOR_NAME_LEN : Nat := 16

abbrev ERROR_MSG_INVALID_FORMAT : String := "Invalid data format"
abbrev ERROR_MSG_INVALID_RANGE : String := "Data out of range"
abbrev ERROR_MSG_INVALID_ID : String := "Invalid student ID"
abbrev ERROR_MSG_INVALID_NAME : String := "Invalid sensor name"
abbrev ERROR_MSG_BUFFER_TOO_SMALL : String := "Buffer too small"

/-- A value of the C type `float`.  Every finite single-precision number is a
rational; the conversion from decimal text is a parameter of the parser (see
`parse_float_safe`). -/
abbrev c_float := ℚ

abbrev MIN_TEMPERATURE : c_float := -40
abbrev MAX_TEMPERATURE : c_float := 85
abbrev MIN_HUMIDITY : c_float := 0
abbrev MAX_HUMIDITY : c_float := 100

/-- The struct `sensor1_data_t` (sensor_data.h). -/
structure sensor1_data_t where
  student_id : List Char
  sensor_name : List Char
  temperature : c_float
  humidity : c_float
  status : sensor_status_t
  timestamp : Nat
deriving DecidableEq

/-- The struct `sensor2_data_t` (sensor_data.h). -/
structure sensor2_data_t where
  student_id : List Char
  sensor_name : List Char
  interrupt_type : interrupt_type_t
  interrupt_count : Nat
  status : sensor_status_t
  timestamp : Nat
deriving DecidableEq

/-- The union member of `sensor_data_t` that was written last. -/
inductive sensor_union where
  | sensor1 (d : sensor1_data_t)
  | sensor2 (d : sensor2_data_t)
deriving DecidableEq

/-- The struct `sensor_data_t` (sensor_data.h). -/
structure sensor_data_t where
  type : sensor_type_t
  data : sensor_union
deriving DecidableEq

/-- The struct `parse_result_t` (sensor_data.h).  `type` is `none` while the
field has not been assigned (in `parse_sensor_data` the local `result` is
declared without initialiser). -/
structure parse_result_t where
  is_valid : Bool
  type : Option sensor_type_t
  error_msg : String
deriving DecidableEq

/-- The values the function pointer `data_callback` takes in the repository:
`NULL` or `sensor_data_callback` of main.c, which only prints. -/
inductive data_callback_t where
  | null
  | sensor_data_callback
deriving DecidableEq, Repr

/-- The static variables of sensor_data.c, with the function-static
`tick_count` of `get_timestamp`. -/
structure SensorState where
  total_data_count : Nat
  valid_data_count : Nat
  error_data_count : Nat
  tick_count : Nat
  data_callback : data_callback_t
deriving DecidableEq, Repr

/-- State of sensor_data.c at program start (static initialisers). -/
def sensor_boot : SensorState :=
  { total_data_count := 0, valid_data_count := 0, error_data_count := 0, tick_count := 0,
    data_callback := data_callback_t.null }

/-- `sensor_data_init`: counters and callback are reset, the tick is not. -/
def sensor_data_init (st : SensorState) : SensorState :=
  { st with total_data_count := 0, valid_data_count := 0, error_data_count := 0,
            data_callback := data_callback_t.null }

/-- `reset_sensor_statistics`. -/
def reset_sensor_statistics (st : SensorState) : SensorState :=
  { st with total_data_count := 0, valid_data_count := 0, error_data_count := 0 }

/-- `get_timestamp`: `return ++tick_count;` on a `uint32_t`. -/
def get_timestamp (st : SensorState) : Nat × SensorState :=
  (incr32 st.tick_count, { st with tick_count := incr32 st.tick_count })

/-! ## sensor_data.c : string helpers -/

/-- The four characters `trim_whitespace` removes. -/
def is_trim_char (c : Char) : Bool :=
  c == ' ' || c == '\t' || c == '\r' || c == '\n'

/-- `trim_whitespace`: `start` skips the leading run; an empty remainder gives
the empty string; otherwise `end` walks back from the last character while
`end > start` and `*end` is one of the four characters, so the first remaining
character is never examined. -/
def trim_whitespace (str : List Char) : List Char :=
  match str.dropWhile is_trim_char with
  | [] => []
  | c :: rest => c :: (rest.reverse.dropWhile is_trim_char).reverse

/-- The body loop of `is_numeric_string` from index `i` on, with the flag
`has_dot`. -/
def is_numeric_loop : List Char → Bool → Bool
  | [], _ => true
  | c :: cs, has_dot =>
    if c = '.' then
      if has_dot then false else is_numeric_loop cs true
    else if c < '0' ∨ c > '9' then false
    else is_numeric_loop cs has_dot

/-- `is_numeric_string`: after the loop `i` is the length of the string, and the
result is `i > (str[0] == '-' ? 1 : 0)`. -/
def is_numeric_string (str : List Char) : Bool :=
  match str with
  | [] => false
  | c :: _ =>
    let start := if c = '-' then 1 else 0
    if is_numeric_loop (str.drop start) false then decide (str.length > start) else false

/-- Decimal digit test. -/
def is_digit (c : Char) : Bool := decide ('0' ≤ c) && decide (c ≤ '9')

/-- Value of a run of decimal digits, most significant first. -/
def digits_value (ds : List Char) : Nat :=
  ds.foldl (fun acc c => 10 * acc + (c.toNat - 48)) 0

/-- What the C library functions `atof` and `atoi` read from a string that
`is_numeric_string` accepts: the sign, the digits before the point and the
digits after it. -/
structure decimal_parts where
  negative : Bool
  int_digits : List Char
  frac_digits : List Char
deriving DecidableEq, Repr

/-- Scan of a string the way `strtod` scans a decimal number without exponent:
an optional `-`, a run of digits, and after a `.` a second run of digits. -/
def scan_decimal (str : List Char) : decimal_parts :=
  let negative := decide (str.head? = some '-')
  let body := if negative then str.drop 1 else str
  let int_digits := body.takeWhile is_digit
  let frac_digits :=
    match body.dropWhile is_digit with
    | '.' :: r => r.takeWhile is_digit
    | _ => []
  { negative := negative, int_digits := int_digits, frac_digits := frac_digits }

/-- The exact decimal value `atof` converts: `0` when the string holds no
digit (no conversion is performed), else the signed value of the digits. -/
def atof_value (str : List Char) : ℚ :=
  let p := scan_decimal str
  let v : ℚ := (digits_value (p.int_digits ++ p.frac_digits) : ℚ) / (10 : ℚ) ^ p.frac_digits.length
  if p.negative then -v else v

/-- `parse_float_safe`: `(float)atof(str)`.  The C library rounds the decimal
value to a `double` and the cast rounds it to a `float`; `rnd` is the resulting
map from the exact decimal value to the stored single-precision value. -/
def parse_float_safe (rnd : ℚ → ℚ) (str : List Char) : c_float :=
  rnd (atof_value str)

/-- `parse_int_safe`: `atoi(str)`.  When the signed value of the leading run of
digits fits an `int` (`atoi_fits`) the result is that value (`atoi_value`).  C
leaves the result undefined when it does not fit, and C libraries differ there
(some saturate, others wrap); this definition takes the saturated value.  What
is stated of the integer value of the third token of a Sensor-2 frame is stated
with the library function as a parameter (`parse_sensor2_data_atoi`, for every
`c_atoi`), so that it does not rest on that choice. -/
def parse_int_safe (str : List Char) : Int :=
  let p := scan_decimal str
  let v : Int := digits_value p.int_digits
  let r := if p.negative then -v else v
  max (-2147483648) (min 2147483647 r)

/-- The signed value of the leading run of digits of a string: the integer
`atoi` reads when it fits an `int`. -/
def atoi_value (str : List Char) : Int :=
  let p := scan_decimal str
  let v : Int := digits_value p.int_digits
  if p.negative then -v else v

/-- The value `atoi` reads fits an `int`, so that the call is defined. -/
def atoi_fits (str : List Char) : Bool :=
  decide (-2147483648 ≤ atoi_value str ∧ atoi_value str ≤ 2147483647)

/-- `strtok` with the delimiter set `","`: skip leading commas; if nothing is
left return `NULL`; else the token runs to the next comma or the end, and the
scan resumes after that comma.  Returns the token and the rest to scan. -/
def strtok (s : List Char) : Option (List Char × List Char) :=
  match s.dropWhile (fun c => c == ',') with
  | [] => none
  | c :: cs =>
    some ((c :: cs).takeWhile (fun c => c != ','), ((c :: cs).dropWhile (fun c => c != ',')).drop 1)

/-- `is_valid_student_id` (sensor_data.h). -/
def is_valid_student_id (student_id : List Char) : Bool :=
  if student_id.length = 0 then false else decide (student_id.length < MAX_STUDENT_ID_LEN)

/-- `is_valid_sensor_name` (sensor_data.h). -/
def is_valid_sensor_name (sensor_name : List Char) : Bool :=
  if sensor_name.length = 0 then false else decide (sensor_name.length < MAX_SENSOR_NAME_LEN)

/-- `validate_sensor1_data`. -/
def validate_sensor1_data (d : sensor1_data_t) : Bool :=
  if !is_valid_student_id d.student_id then false
  else if d.temperature < MIN_TEMPERATURE ∨ d.temperature > MAX_TEMPERATURE then false
  else if d.humidity < MIN_HUMIDITY ∨ d.humidity > MAX_HUMIDITY then false
  else true

/-- `validate_sensor2_data`. -/
def validate_sensor2_data (d : sensor2_data_t) : Bool :=
  if !is_valid_student_id d.student_id then false
  else if !is_valid_sensor_name d.sensor_name then false
  else if d.interrupt_type < INTERRUPT_TYPE_NONE ∨ d.interrupt_type > INTERRUPT_TYPE_BOTH then
    false
  else true

/-- `determine_sensor1_status`. -/
def determine_sensor1_status (d : sensor1_data_t) : sensor_status_t :=
  if d.temperature < -20 ∨ d.temperature > 60 then SENSOR_STATUS_WARNING
  else if d.humidity < 10 ∨ d.humidity > 90 then SENSOR_STATUS_WARNING
  else SENSOR_STATUS_NORMAL

/-- `determine_sensor2_status`. -/
def determine_sensor2_status (d : sensor2_data_t) : sensor_status_t :=
  if d.interrupt_type = INTERRUPT_TYPE_NONE then SENSOR_STATUS_NORMAL
  else SENSOR_STATUS_WARNING

/-! ## sensor_data.c : the parsers

The `while (token != NULL && field_count < 3)` loop of the two field parsers
runs at most three times; the embedding writes its three iterations out, one
`strtok` call each, with the `switch` case of that iteration.  The record
returned is the content of `*sensor_data` after the call; `none` means that the
function returned before writing to it. -/

/-- The string literal `"TEMP_HUMIDITY"` that `parse_sensor1_data` copies into
`sensor_name`. -/
def SENSOR1_NAME : List Char := ['T', 'E', 'M', 'P', '_', 'H', 'U', 'M', 'I', 'D', 'I', 'T', 'Y']

/-- The record after `memset(sensor_data, 0, sizeof(sensor1_data_t))`. -/
def sensor1_zero : sensor1_data_t :=
  { student_id := [], sensor_name := [], temperature := 0, humidity := 0,
    status := 0, timestamp := 0 }

/-- The record after `memset(sensor_data, 0, sizeof(sensor2_data_t))`. -/
def sensor2_zero : sensor2_data_t :=
  { student_id := [], sensor_name := [], interrupt_type := 0, interrupt_count := 0,
    status := 0, timestamp := 0 }

/-- A rejecting return of `parse_sensor1_data`. -/
def reject1 (st : SensorState) (msg : String) (d : Option sensor1_data_t) :
    parse_result_t × Option sensor1_data_t × SensorState :=
  ({ is_valid := false, type := some SENSOR_TYPE_TEMP_HUMIDITY, error_msg := msg }, d, st)

/-- A rejecting return of `parse_sensor2_data`. -/
def reject2 (st : SensorState) (msg : String) (d : Option sensor2_data_t) :
    parse_result_t × Option sensor2_data_t × SensorState :=
  ({ is_valid := false, type := some SENSOR_TYPE_INTERRUPT, error_msg := msg }, d, st)

/-- `parse_sensor1_data` with non-null arguments. -/
def parse_sensor1_data (rnd : ℚ → ℚ) (st : SensorState) (data_str : List Char) :
    parse_result_t × Option sensor1_data_t × SensorState :=
  if data_str.length ≥ 128 then reject1 st ERROR_MSG_BUFFER_TOO_SMALL none
  else
    let d0 := { sensor1_zero with sensor_name := SENSOR1_NAME }
    match strtok data_str with
    | none => reject1 st ERROR_MSG_INVALID_FORMAT (some d0)
    | some (tok0, rest0) =>
      let token0 := trim_whitespace tok0
      if token0.length ≥ MAX_STUDENT_ID_LEN then reject1 st ERROR_MSG_INVALID_ID (some d0)
      else
        let d1 := { d0 with student_id := token0 }
        match strtok rest0 with
        | none => reject1 st ERROR_MSG_INVALID_FORMAT (some d1)
        | some (tok1, rest1) =>
          let token1 := trim_whitespace tok1
          if !is_numeric_string token1 then reject1 st ERROR_MSG_INVALID_FORMAT (some d1)
          else
            let d2 := { d1 with temperature := parse_float_safe rnd token1 }
            match strtok rest1 with
            | none => reject1 st ERROR_MSG_INVALID_FORMAT (some d2)
            | some (tok2, _) =>
              let token2 := trim_whitespace tok2
              if !is_numeric_string token2 then reject1 st ERROR_MSG_INVALID_FORMAT (some d2)
              else
                let d3 := { d2 with humidity := parse_float_safe rnd token2 }
                if !validate_sensor1_data d3 then reject1 st ERROR_MSG_INVALID_RANGE (some d3)
                else
                  let t := get_timestamp st
                  let d4 := { d3 with timestamp := t.1 }
                  let d5 := { d4 with status := determine_sensor1_status d4 }
                  ({ is_valid := true, type := some SENSOR_TYPE_TEMP_HUMIDITY, error_msg := "" },
                    some d5, t.2)

/-- `parse_sensor2_data` with non-null arguments. -/
def parse_sensor2_data (st : SensorState) (data_str : List Char) :
    parse_result_t × Option sensor2_data_t × SensorState :=
  if data_str.length ≥ 128 then reject2 st ERROR_MSG_BUFFER_TOO_SMALL none
  else
    let d0 := sensor2_zero
    match strtok data_str with
    | none => reject2 st ERROR_MSG_INVALID_FORMAT (some d0)
    | some (tok0, rest0) =>
      let token0 := trim_whitespace tok0
      if token0.length ≥ MAX_STUDENT_ID_LEN then reject2 st ERROR_MSG_INVALID_ID (some d0)
      else
        let d1 := { d0 with student_id := token0 }
        match strtok rest0 with
        | none => reject2 st ERROR_MSG_INVALID_FORMAT (some d1)
        | some (tok1, rest1) =>
          let token1 := trim_whitespace tok1
          if token1.length ≥ MAX_SENSOR_NAME_LEN then reject2 st ERROR_MSG_INVALID_NAME (some d1)
          else
            let d2 := { d1 with sensor_name := token1 }
            match strtok rest1 with
            | none => reject2 st ERROR_MSG_INVALID_FORMAT (some d2)
            | some (tok2, _) =>
              let token2 := trim_whitespace tok2
              if !is_numeric_string token2 then reject2 st ERROR_MSG_INVALID_FORMAT (some d2)
              else
                let interrupt_val := parse_int_safe token2
                if interrupt_val < 0 ∨ interrupt_val > 3 then
                  reject2 st ERROR_MSG_INVALID_RANGE (some d2)
                else
                  let d3 := { d2 with interrupt_type := interrupt_val,
                                      interrupt_count := if interrupt_val > 0 then 1 else 0 }
                  if !validate_sensor2_data d3 then reject2 st ERROR_MSG_INVALID_RANGE (some d3)
                  else
                    let t := get_timestamp st
                    let d4 := { d3 with timestamp := t.1 }
                    let d5 := { d4 with status := determine_sensor2_status d4 }
                    ({ is_valid := true, type := some SENSOR_TYPE_INTERRUPT, error_msg := "" },
                      some d5, t.2)

/-- The statistics update that ends `parse_sensor_data`; the data callback of
main.c only prints, so calling it changes nothing. -/
def update_statistics (r : parse_result_t × Option sensor_data_t × SensorState) :
    parse_result_t × Option sensor_data_t × SensorState :=
  if r.1.is_valid then
    (r.1, r.2.1, { r.2.2 with valid_data_count := incr32 r.2.2.valid_data_count })
  else
    (r.1, r.2.1, { r.2.2 with error_data_count := incr32 r.2.2.error_data_count })

/-- The branch of `parse_sensor_data` that sets the type to
`SENSOR_TYPE_TEMP_HUMIDITY` and calls `parse_sensor1_data`. -/
def dispatch_sensor1 (rnd : ℚ → ℚ) (st : SensorState) (data_str : List Char) :
    parse_result_t × Option sensor_data_t × SensorState :=
  let r := parse_sensor1_data rnd st data_str
  (r.1, r.2.1.map (fun d => { type := SENSOR_TYPE_TEMP_HUMIDITY, data := sensor_union.sensor1 d }),
    r.2.2)

/-- The branch of `parse_sensor_data` that sets the type to
`SENSOR_TYPE_INTERRUPT` and calls `parse_sensor2_data`. -/
def dispatch_sensor2 (st : SensorState) (data_str : List Char) :
    parse_result_t × Option sensor_data_t × SensorState :=
  let r := parse_sensor2_data st data_str
  (r.1, r.2.1.map (fun d => { type := SENSOR_TYPE_INTERRUPT, data := sensor_union.sensor2 d }),
    r.2.2)

/-- `parse_sensor_data` with non-null arguments.  The result is `none` when
the call has undefined behaviour: with two commas the frame is copied by
`strcpy` into the 128-byte `input_copy` without a length check.  Otherwise it
is the returned `parse_result_t`, the content written to `*sensor_data`
(`none` when nothing is written) and the new module state. -/
def parse_sensor_data (rnd : ℚ → ℚ) (st : SensorState) (data_str : List Char) :
    Option (parse_result_t × Option sensor_data_t × SensorState) :=
  let comma_count := data_str.count ','
  let st1 := { st with total_data_count := incr32 st.total_data_count }
  if comma_count = 2 then
    if data_str.length ≥ 128 then none
    else
      match strtok data_str with
      | some (_, rest) =>
        match strtok rest with
        | some (token, _) =>
          if is_numeric_string token then some (update_statistics (dispatch_sensor1 rnd st1 data_str))
          else some (update_statistics (dispatch_sensor2 st1 data_str))
        | none => some (update_statistics (dispatch_sensor2 st1 data_str))
      | none =>
        some (update_statistics
          ({ is_valid := false, type := none, error_msg := ERROR_MSG_INVALID_FORMAT }, none, st1))
  else
    some (update_statistics
      ({ is_valid := false, type := none, error_msg := ERROR_MSG_INVALID_FORMAT }, none, st1))

/-- Calls of the sensor-data module that touch the frame counters. -/
inductive SensorCall where
  | parse (frame : List Char)
  | reset
deriving DecidableEq, Repr

/-- One call; `none` when the call has undefined behaviour. -/
def sensor_step (rnd : ℚ → ℚ) (st : SensorState) : SensorCall → Option SensorState
  | SensorCall.parse frame => (parse_sensor_data rnd st frame).map (fun r => r.2.2)
  | SensorCall.reset => some (reset_sensor_statistics st)

/-- A sequence of calls. -/
def sensor_run (rnd : ℚ → ℚ) (st : SensorState) : List SensorCall → Option SensorState
  | [] => some st
  | c :: cs =>
    match sensor_step rnd st c with
    | none => none
    | some st1 => sensor_run rnd st1 cs

/-- The call is defined in C: a frame with two commas is shorter than 128 bytes,
so that `strcpy` into `input_copy` stays in bounds. -/
def call_defined : SensorCall → Bool
  | SensorCall.parse frame => decide (frame.count ',' = 2 → frame.length < 128)
  | SensorCall.reset => true

/-! ## Specification-side notions -/

/-- Split of a frame on `','`: the comma-separated fields, empty ones
included. -/
def split_fields : List Char → List (List Char)
  | [] => [[]]
  | c :: cs =>
    if c = ',' then [] :: split_fields cs
    else
      match split_fields cs with
      | [] => [[c]]
      | f :: fs => (c :: f) :: fs

/-- The split of the frame yields exactly three non-empty tokens. -/
def three_tokens (frame : List Char) : Prop :=
  (split_fields frame).length = 3 ∧ ∀ f ∈ split_fields frame, f ≠ []

instance (frame : List Char) : Decidable (three_tokens frame) := by
  unfold three_tokens; infer_instance

/-- The non-empty tokens of a frame, in order. -/
def tokens (frame : List Char) : List (List Char) :=
  (split_fields frame).filter (fun f => f ≠ [])

/-- A well-formed decimal number in the words of the specification: an optional
leading `-`, then only digits and `.`, at most one `.`, at least one digit. -/
def well_formed_decimal (s : List Char) : Bool :=
  let body := if s.head? = some '-' then s.drop 1 else s
  body.all (fun c => is_digit c || c == '.') && decide (body.count '.' ≤ 1) && body.any is_digit

/-- What the embedding assumes of the C library conversion from decimal text to
`float` where a property needs it: it is monotone, and exact on the numbers
`m / 2 ^ k` with `|m| ≤ 2 ^ 24` and `k ≤ 64`, all of which are single-precision
(and double-precision) numbers. -/
def float_conversion (rnd : ℚ → ℚ) : Prop :=
  Monotone rnd ∧ ∀ (m : Int) (k : Nat), |m| ≤ 16777216 → k ≤ 64 → rnd (m / 2 ^ k) = m / 2 ^ k

/-- What one `parse_sensor_data` call does to the three counters. -/
def counters_step (st : SensorState) (r : parse_result_t × Option sensor_data_t × SensorState) :
    Prop :=
  r.2.2.total_data_count = incr32 st.total_data_count ∧
    (r.1.is_valid = true →
      r.2.2.valid_data_count = incr32 st.valid_data_count ∧
      r.2.2.error_data_count = st.error_data_count) ∧
    (r.1.is_valid = false →
      r.2.2.error_data_count = incr32 st.error_data_count ∧
      r.2.2.valid_data_count = st.valid_data_count)

/-- The counter invariant `total = valid + rejected` modulo `2 ^ 32`. -/
def counters_inv (st : SensorState) : Prop :=
  st.total_data_count = (st.valid_data_count + st.error_data_count) % 4294967296

/-- What `parse_sensor_data` reports for a frame without three tokens: the
frame is rejected and counted as rejected, with the reason worked out from the
number of commas and the non-empty tokens present. -/
def reject_report (st : SensorState) (frame : List Char)
    (r : parse_result_t × Option sensor_data_t × SensorState) : Prop :=
  r.1.is_valid = false ∧
    r.2.2.total_data_count = incr32 st.total_data_count ∧
    r.2.2.valid_data_count = st.valid_data_count ∧
    r.2.2.error_data_count = incr32 st.error_data_count ∧
    (frame.count ',' ≠ 2 → r.1.error_msg = ERROR_MSG_INVALID_FORMAT) ∧
    (frame.count ',' = 2 → ∀ t0 ts, tokens frame = t0 :: ts →
      20 ≤ (trim_whitespace t0).length → r.1.error_msg = ERROR_MSG_INVALID_ID) ∧
    (frame.count ',' = 2 → ∀ t0 t1 ts, tokens frame = t0 :: t1 :: ts →
      (trim_whitespace t0).length < 20 → is_numeric_string t1 = false →
      16 ≤ (trim_whitespace t1).length → r.1.error_msg = ERROR_MSG_INVALID_NAME) ∧
    ((∀ t0 ts, tokens frame = t0 :: ts → (trim_whitespace t0).length < 20) →
      (∀ t0 t1 ts, tokens frame = t0 :: t1 :: ts →
        is_numeric_string t1 = true ∨ (trim_whitespace t1).length < 16) →
      r.1.error_msg = ERROR_MSG_INVALID_FORMAT)

/-! ## communication.c : the line receiver

The receive functions run with no interrupt taken during the call: the content
of the RX ring changes only through the `get_rx_byte` calls of the loop.  The
`while` loop is a recursion on `fuel`, the number of loop tests still allowed;
`none` is returned when the fuel runs out before the loop exits. -/

/-- `system_status_t` (config.h). -/
inductive system_status_t where
  | SYSTEM_OK
  | SYSTEM_ERROR
  | SYSTEM_BUSY
  | SYSTEM_TIMEOUT
deriving DecidableEq, Repr

/-- `COMM_CHAR_CR` (communication.h). -/
abbrev COMM_CHAR_CR : Nat := 13

/-- `COMM_CHAR_LF` (communication.h). -/
abbrev COMM_CHAR_LF : Nat := 10

/-- `get_system_tick`: `return ++tick_count;` on a `uint32_t`. -/
def get_system_tick (s : CommState) : Nat × CommState :=
  (incr32 s.tick_count, { s with tick_count := incr32 s.tick_count })

/-- `communication_data_available`. -/
def communication_data_available (s : CommState) : Bool :=
  decide (get_rx_buffer_count s > 0)

/-- The code of `communication_receive_line` after its loop: the terminating
NUL is written after the `count` bytes of `line`, the statistics are updated
when `count > 0`, and `SYSTEM_OK` is returned with the line written. -/
def receive_line_finish (s : CommState) (line : List Nat) :
    system_status_t × Option (List Nat) × CommState :=
  (system_status_t.SYSTEM_OK, some line,
    if line.length > 0 then
      { s with statistics :=
          { s.statistics with
            bytes_received := (s.statistics.bytes_received + line.length) % 4294967296
            packets_received := incr32 s.statistics.packets_received } }
    else s)

/-- The `while (count < buffer_size - 1)` loop of `communication_receive_line`.
`line` holds `buffer[0 .. count-1]`.  The result is the returned status, the
string left in `buffer` (`none` when the function returns without terminating
it) and the new state. -/
def receive_line_loop (buffer_size timeout_ms start_time : Nat) :
    Nat → CommState → List Nat → Option (system_status_t × Option (List Nat) × CommState)
  | 0, _, _ => none
  | fuel + 1, s, line =>
    if line.length < buffer_size - 1 then
      match get_rx_byte s with
      | (some byte, s1) =>
        if byte = COMM_CHAR_CR ∨ byte = COMM_CHAR_LF then some (receive_line_finish s1 line)
        else if byte ≥ 32 ∧ byte ≤ 126 then
          receive_line_loop buffer_size timeout_ms start_time fuel s1 (line ++ [byte])
        else receive_line_loop buffer_size timeout_ms start_time fuel s1 line
      | (none, s1) =>
        if timeout_ms > 0 then
          if ((get_system_tick s1).1 + 4294967296 - start_time) % 4294967296 > timeout_ms then
            if line.length = 0 then
              some (system_status_t.SYSTEM_TIMEOUT, none,
                set_last_error (get_system_tick s1).2 comm_error_t.COMM_ERROR_TIMEOUT)
            else some (receive_line_finish (get_system_tick s1).2 line)
          else
            receive_line_loop buffer_size timeout_ms start_time fuel (get_system_tick s1).2 line
        else receive_line_loop buffer_size timeout_ms start_time fuel s1 line
    else some (receive_line_finish s line)

/-- `communication_receive_line` with a non-null buffer. -/
def communication_receive_line (s : CommState) (buffer_size timeout_ms fuel : Nat) :
    Option (system_status_t × Option (List Nat) × CommState) :=
  if buffer_size < 2 then
    some (system_status_t.SYSTEM_ERROR, none,
      set_last_error s comm_error_t.COMM_ERROR_INVALID_PARAM)
  else
    receive_line_loop buffer_size timeout_ms (get_system_tick s).1 fuel (get_system_tick s).2 []

/-- The part of `process_received_data` (main.c) before the call of
`parse_sensor_data`: nothing is done when no data is available; otherwise a
line is received into the 128-byte `line_buffer` with a timeout of 1000, and it
is handed to the parser when the status is `SYSTEM_OK` and `strlen` of it is
positive.  Returns the line handed to the parser, if any. -/
def process_received_data_line (s : CommState) (fuel : Nat) :
    Option (Option (List Char) × CommState) :=
  if communication_data_available s = false then some (none, s)
  else
    match communication_receive_line s 128 1000 fuel with
    | none => none
    | some (status, line, s1) =>
      match line with
      | some l =>
        if status = system_status_t.SYSTEM_OK ∧ l.length > 0 then
          some (some (l.map Char.ofNat), s1)
        else some (none, s1)
      | none => some (none, s1)

/-- The RX ring after the bytes `bytes` have been pushed by `put_rx_byte`. -/
def rx_fill (s : CommState) (bytes : List Nat) : CommState :=
  bytes.foldl (fun t b => (put_rx_byte t b).2) s

/-- A printable byte, `0x20 .. 0x7E`. -/
def is_printable (byte : Nat) : Bool := decide (32 ≤ byte) && decide (byte ≤ 126)

/-- A line delimiter, CR or LF. -/
def is_delimiter (byte : Nat) : Bool := byte == 13 || byte == 10

/-- The scan of the line receiver over a ring content that lets the loop exit
without waiting: with `limit = buffer_size - 1`, the line and the bytes left in
the ring when a delimiter is consumed or the line is full; `none` when the
content is used up first. -/
def scan_line (limit : Nat) : List Nat → List Nat → Option (List Nat × List Nat)
  | line, [] => if line.length < limit then none else some (line, [])
  | line, b :: cs =>
    if line.length < limit then
      if is_delimiter b then some (line, cs)
      else if is_printable b then scan_line limit (line ++ [b]) cs
      else scan_line limit line cs
    else some (line, b :: cs)

/-- The code of `communication_receive` after its loop: `*received_length` is
set to `count`, the statistics are updated when `count > 0`, and `SYSTEM_OK` is
returned with the bytes written. -/
def receive_finish (s : CommState) (buf : List Nat) :
    system_status_t × Option (List Nat) × CommState :=
  (system_status_t.SYSTEM_OK, some buf,
    if buf.length > 0 then
      { s with statistics :=
          { s.statistics with
            bytes_received := (s.statistics.bytes_received + buf.length) % 4294967296
            packets_received := incr32 s.statistics.packets_received } }
    else s)

/-- The `while (count < buffer_size)` loop of `communication_receive`.  `buf`
holds `buffer[0 .. count-1]`.  The result is the returned status, the bytes
`buffer[0 .. *received_length - 1]` and the new state. -/
def receive_loop (buffer_size timeout_ms start_time : Nat) :
    Nat → CommState → List Nat → Option (system_status_t × Option (List Nat) × CommState)
  | 0, _, _ => none
  | fuel + 1, s, buf =>
    if buf.length < buffer_size then
      match get_rx_byte s with
      | (some byte, s1) => receive_loop buffer_size timeout_ms start_time fuel s1 (buf ++ [byte])
      | (none, s1) =>
        if timeout_ms > 0 then
          if ((get_system_tick s1).1 + 4294967296 - start_time) % 4294967296 > timeout_ms then
            if buf.length = 0 then
              some (system_status_t.SYSTEM_TIMEOUT, some [],
                set_last_error (get_system_tick s1).2 comm_error_t.COMM_ERROR_TIMEOUT)
            else some (receive_finish (get_system_tick s1).2 buf)
          else receive_loop buffer_size timeout_ms start_time fuel (get_system_tick s1).2 buf
        else receive_loop buffer_size timeout_ms start_time fuel s1 buf
    else some (receive_finish s buf)

/-- `communication_receive` with non-null pointers.  The bytes are `none` when
`*received_length` is not written. -/
def communication_receive (s : CommState) (buffer_size timeout_ms fuel : Nat) :
    Option (system_status_t × Option (List Nat) × CommState) :=
  if buffer_size = 0 then
    some (system_status_t.SYSTEM_ERROR, none,
      set_last_error s comm_error_t.COMM_ERROR_INVALID_PARAM)
  else
    receive_loop buffer_size timeout_ms (get_system_tick s).1 fuel (get_system_tick s).2 []

/-- `COMM_MAX_PACKET_SIZE` (communication.h). -/
abbrev COMM_MAX_PACKET_SIZE : Nat := 256

/-- The loop `while (length < sizeof(temp_buffer) && get_rx_byte(...)) length++`
of `communication_process_rx_data`; `room` is `sizeof(temp_buffer) - length`. -/
def process_rx_drain : Nat → CommState → List Nat → List Nat × CommState
  | 0, s, buf => (buf, s)
  | room + 1, s, buf =>
    match get_rx_byte s with
    | (some byte, s1) => process_rx_drain room s1 (buf ++ [byte])
    | (none, s1) => (buf, s1)

/-- `communication_process_rx_data`: when the ring is not empty, up to 256 bytes
are taken out of it into a local buffer, which is handed to the receive
callback when one is installed.  The callback installed by `system_init`,
`data_received_callback` of main.c, only prints.  Returns the bytes taken out
(`none` when no byte was taken) and the new state. -/
def communication_process_rx_data (s : CommState) : Option (List Nat) × CommState :=
  if get_rx_buffer_count s > 0 then
    let r := process_rx_drain COMM_MAX_PACKET_SIZE s []
    (if r.1.length > 0 then some r.1 else none, r.2)
  else (none, s)

/-! ## sensor_data.c : labels and formatting -/

/-- The array `SENSOR_STATUS_STRINGS`. -/
def SENSOR_STATUS_STRINGS : List String := ["NORMAL", "WARNING", "ERROR", "OFFLINE"]

/-- The array `INTERRUPT_TYPE_STRINGS`. -/
def INTERRUPT_TYPE_STRINGS : List String := ["NONE", "RISING", "FALLING", "BOTH"]

/-- `get_sensor_status_string`: the array entry when `0 ≤ status < 4`, else
`"UNKNOWN"`. -/
def get_sensor_status_string (status : sensor_status_t) : String :=
  if status ≥ 0 ∧ status < 4 then SENSOR_STATUS_STRINGS.getD status.toNat "" else "UNKNOWN"

/-- `get_interrupt_type_string`: the array entry when `0 ≤ type < 4`, else
`"UNKNOWN"`. -/
def get_interrupt_type_string (type : interrupt_type_t) : String :=
  if type ≥ 0 ∧ type < 4 then INTERRUPT_TYPE_STRINGS.getD type.toNat "" else "UNKNOWN"

/-- The conversion `%lu`: the decimal digits of the number. -/
def format_lu (n : Nat) : List Char := Nat.toDigits 10 n

/-- The text `sprintf` produces in `format_sensor1_data`.  The conversion
`%.2f` of the C library is the parameter `fmt2`. -/
def format_sensor1_text (fmt2 : c_float → List Char) (d : sensor1_data_t) : List Char :=
  "ID:".toList ++ d.student_id ++ ",Sensor:".toList ++ d.sensor_name ++
    ",Temp:".toList ++ fmt2 d.temperature ++ ",Humid:".toList ++ fmt2 d.humidity ++
    ",Status:".toList ++ (get_sensor_status_string d.status).toList ++
    ",Time:".toList ++ format_lu d.timestamp

/-- The text `sprintf` produces in `format_sensor2_data`. -/
def format_sensor2_text (d : sensor2_data_t) : List Char :=
  "ID:".toList ++ d.student_id ++ ",Sensor:".toList ++ d.sensor_name ++
    ",IntType:".toList ++ (get_interrupt_type_string d.interrupt_type).toList ++
    ",Count:".toList ++ format_lu d.interrupt_count ++
    ",Status:".toList ++ (get_sensor_status_string d.status).toList ++
    ",Time:".toList ++ format_lu d.timestamp

/-- `format_sensor1_data` with non-null pointers.  `sprintf` writes the text
and its NUL before the length is compared with `buffer_size`, so the call is
undefined (`none`) when the text does not fit. -/
def format_sensor1_data (fmt2 : c_float → List Char) (d : sensor1_data_t) (buffer_size : Nat) :
    Option (system_status_t × Option (List Char)) :=
  if buffer_size = 0 then some (system_status_t.SYSTEM_ERROR, none)
  else if (format_sensor1_text fmt2 d).length ≥ buffer_size then none
  else some (system_status_t.SYSTEM_OK, some (format_sensor1_text fmt2 d))

/-- `format_sensor2_data` with non-null pointers; `none` as for
`format_sensor1_data`. -/
def format_sensor2_data (d : sensor2_data_t) (buffer_size : Nat) :
    Option (system_status_t × Option (List Char)) :=
  if buffer_size = 0 then some (system_status_t.SYSTEM_ERROR, none)
  else if (format_sensor2_text d).length ≥ buffer_size then none
  else some (system_status_t.SYSTEM_OK, some (format_sensor2_text d))

/-- `set_sensor_data_callback`. -/
def set_sensor_data_callback (st : SensorState) (cb : data_callback_t) : SensorState :=
  { st with data_callback := cb }

/-! ## database.c

The store is simulated in the repository: an insert that passes its checks
returns success without keeping the record.  The SQL text, which is only
printed, is left out. -/

/-- `db_status_t` (database.h). -/
inductive db_status_t where
  | DB_STATUS_DISCONNECTED
  | DB_STATUS_CONNECTED
  | DB_STATUS_ERROR
  | DB_STATUS_BUSY
deriving DecidableEq, Repr

/-- The values the function pointer `error_callback` of database.c takes in the
repository: `NULL` or `database_error_callback` of main.c. -/
inductive db_error_callback_t where
  | null
  | database_error_callback
deriving DecidableEq, Repr

abbrev DB_ERROR_NONE : Int := 0
abbrev DB_ERROR_CONNECTION : Int := 1001
abbrev DB_ERROR_INVALID_PARAM : Int := 1009

/-- `db_result_t` (database.h). -/
structure db_result_t where
  success : Bool
  error_code : Int
  error_message : String
  affected_rows : Nat
  insert_id : Nat
deriving DecidableEq, Repr

/-- The static variables of database.c (without `current_config`, which is only
written). -/
structure DbState where
  current_status : db_status_t
  last_error_message : String
  error_callback : db_error_callback_t
deriving DecidableEq, Repr

/-- State of database.c at program start (static initialisers). -/
def db_boot : DbState :=
  { current_status := db_status_t.DB_STATUS_DISCONNECTED, last_error_message := "",
    error_callback := db_error_callback_t.null }

/-- `database_init`. -/
def database_init (_db : DbState) : DbState :=
  { current_status := db_status_t.DB_STATUS_DISCONNECTED, last_error_message := "",
    error_callback := db_error_callback_t.null }

/-- `create_success_result`. -/
def create_success_result (affected_rows insert_id : Nat) : db_result_t :=
  { success := true, error_code := DB_ERROR_NONE, error_message := "",
    affected_rows := affected_rows, insert_id := insert_id }

/-- `database_connect` with `DEFAULT_DB_CONFIG`, which `is_valid_db_config`
accepts. -/
def database_connect (db : DbState) : db_result_t × DbState :=
  if db.current_status = db_status_t.DB_STATUS_CONNECTED then (create_success_result 0 0, db)
  else (create_success_result 0 0, { db with current_status := db_status_t.DB_STATUS_CONNECTED })

/-- `database_disconnect`. -/
def database_disconnect (db : DbState) : db_result_t × DbState :=
  if db.current_status = db_status_t.DB_STATUS_DISCONNECTED then (create_success_result 0 0, db)
  else
    (create_success_result 0 0, { db with current_status := db_status_t.DB_STATUS_DISCONNECTED })

/-- `database_set_error_callback`. -/
def database_set_error_callback (db : DbState) (cb : db_error_callback_t) : DbState :=
  { db with error_callback := cb }

/-- `database_error_callback` of main.c: disconnect, and on success connect
again with `DEFAULT_DB_CONFIG`. -/
def database_error_callback (db : DbState) : DbState :=
  let r := database_disconnect db
  if r.1.success then (database_connect r.2).2 else r.2

/-- The static `set_last_error` of database.c with a non-null message: the
message is stored, then the error callback is called when one is installed. -/
def database_set_last_error (db : DbState) (error_msg : String) : DbState :=
  let db1 := { db with last_error_message := error_msg }
  match db1.error_callback with
  | db_error_callback_t.null => db1
  | db_error_callback_t.database_error_callback => database_error_callback db1

/-- `create_error_result` with a non-null message. -/
def create_error_result (db : DbState) (error_code : Int) (error_msg : String) :
    db_result_t × DbState :=
  ({ success := false, error_code := error_code, error_message := error_msg,
     affected_rows := 0, insert_id := 0 },
    database_set_last_error db error_msg)

/-- The characters `validate_sql_injection` refuses: apostrophe, semicolon,
double quote and backslash. -/
def dangerous_chars : List Char := [Char.ofNat 39, ';', Char.ofNat 34, Char.ofNat 92]

/-- `validate_sql_injection` with a non-null string. -/
def validate_sql_injection (input : List Char) : Bool :=
  input.all (fun c => !dangerous_chars.contains c)

/-- `database_insert_sensor1_data` with a non-null record. -/
def database_insert_sensor1_data (db : DbState) (data : sensor1_data_t) :
    db_result_t × DbState :=
  if db.current_status ≠ db_status_t.DB_STATUS_CONNECTED then
    create_error_result db DB_ERROR_CONNECTION "Database not connected"
  else if !validate_sensor1_data data then
    create_error_result db DB_ERROR_INVALID_PARAM "Invalid sensor data"
  else if !validate_sql_injection data.student_id || !validate_sql_injection data.sensor_name
  then create_error_result db DB_ERROR_INVALID_PARAM "Invalid characters in data"
  else (create_success_result 1 0, db)

/-- `database_insert_sensor2_data` with a non-null record. -/
def database_insert_sensor2_data (db : DbState) (data : sensor2_data_t) :
    db_result_t × DbState :=
  if db.current_status ≠ db_status_t.DB_STATUS_CONNECTED then
    create_error_result db DB_ERROR_CONNECTION "Database not connected"
  else if !validate_sensor2_data data then
    create_error_result db DB_ERROR_INVALID_PARAM "Invalid sensor data"
  else if !validate_sql_injection data.student_id || !validate_sql_injection data.sensor_name
  then create_error_result db DB_ERROR_INVALID_PARAM "Invalid characters in data"
  else (create_success_result 1 0, db)

/-- `database_insert_sensor_data` with a non-null record.  The result is `none`
when the type tag names the union member that was not written last. -/
def database_insert_sensor_data (db : DbState) (data : sensor_data_t) :
    Option (db_result_t × DbState) :=
  if data.type = SENSOR_TYPE_TEMP_HUMIDITY then
    match data.data with
    | sensor_union.sensor1 d => some (database_insert_sensor1_data db d)
    | sensor_union.sensor2 _ => none
  else if data.type = SENSOR_TYPE_INTERRUPT then
    match data.data with
    | sensor_union.sensor2 d => some (database_insert_sensor2_data db d)
    | sensor_union.sensor1 _ => none
  else some (create_error_result db DB_ERROR_INVALID_PARAM "Unknown sensor type")

/-! ## main.c : the ingest step and the main loop -/

/-- The static variables of the three modules and `main_loop_count` of main.c.
The heartbeat bookkeeping of main.c, which only drives printing, is left
out. -/
structure SystemState where
  comm : CommState
  sensor : SensorState
  db : DbState
  main_loop_count : Nat

/-- What one call of `process_received_data` did: the line handed to
`parse_sensor_data` (`none` when the parser was not called), the parse result,
and the record handed to `database_insert_sensor_data` with the result of that
call (`none` when the store was not called). -/
structure process_report where
  line : Option (List Char)
  parse : Option parse_result_t
  insert : Option (sensor_data_t × db_result_t)
deriving DecidableEq

/-- The report of a call that neither parses nor stores. -/
def no_report : process_report := { line := none, parse := none, insert := none }

/-- `process_received_data` of main.c.  `none` when the receive loop runs out of
fuel or a callee has undefined behaviour. -/
def process_received_data (rnd : ℚ → ℚ) (sys : SystemState) (fuel : Nat) :
    Option (process_report × SystemState) :=
  if communication_data_available sys.comm = false then some (no_report, sys)
  else
    match communication_receive_line sys.comm 128 1000 fuel with
    | none => none
    | some (status, line, c1) =>
      match line with
      | some l =>
        if status = system_status_t.SYSTEM_OK ∧ l.length > 0 then
          match parse_sensor_data rnd sys.sensor (l.map Char.ofNat) with
          | none => none
          | some (res, rec, st1) =>
            if res.is_valid then
              match rec with
              | some d =>
                match database_insert_sensor_data sys.db d with
                | some (dbres, db1) =>
                  some ({ line := some (l.map Char.ofNat), parse := some res,
                          insert := some (d, dbres) },
                        { sys with comm := c1, sensor := st1, db := db1 })
                | none => none
              | none => none
            else
              some ({ line := some (l.map Char.ofNat), parse := some res, insert := none },
                    { sys with comm := c1, sensor := st1 })
        else some (no_report, { sys with comm := c1 })
      | none => some (no_report, { sys with comm := c1 })

/-- `k` calls of `process_received_data` in a row, with their reports. -/
def process_received_data_times (rnd : ℚ → ℚ) (fuel : Nat) :
    Nat → SystemState → Option (List process_report × SystemState)
  | 0, sys => some ([], sys)
  | k + 1, sys =>
    match process_received_data rnd sys fuel with
    | none => none
    | some (rep, sys1) =>
      match process_received_data_times rnd fuel k sys1 with
      | none => none
      | some (reps, sys2) => some (rep :: reps, sys2)

/-- `system_main_loop` of main.c without its printing: the loop count is
incremented, `process_received_data` runs, then
`communication_process_rx_data`.  Returns the report of the first and the bytes
the second took out of the ring. -/
def system_main_loop (rnd : ℚ → ℚ) (sys : SystemState) (fuel : Nat) :
    Option ((process_report × Option (List Nat)) × SystemState) :=
  let sys0 := { sys with main_loop_count := incr32 sys.main_loop_count }
  match process_received_data rnd sys0 fuel with
  | none => none
  | some (rep, sys1) =>
    let r := communication_process_rx_data sys1.comm
    some ((rep, r.1), { sys1 with comm := r.2 })

/-- The state `system_init` of main.c leaves when it starts from the static
initialisers: the three modules set up, the store connected, the callbacks
installed. -/
def system_init_state : SystemState :=
  { comm := system_init_comm comm_boot
    sensor := set_sensor_data_callback (sensor_data_init sensor_boot)
      data_callback_t.sensor_data_callback
    db := database_set_error_callback (database_connect (database_init db_boot)).2
      db_error_callback_t.database_error_callback
    main_loop_count := 0 }

/-- The timestamp of the record a `sensor_data_t` holds. -/
def record_timestamp (d : sensor_data_t) : Nat :=
  match d.data with
  | sensor_union.sensor1 x => x.timestamp
  | sensor_union.sensor2 y => y.timestamp

/-- The module state after `n` calls of `parse_sensor_data` on the same frame
(`none` when a call has undefined behaviour). -/
def parse_times (rnd : ℚ → ℚ) (frame : List Char) : Nat → SensorState → Option SensorState
  | 0, st => some st
  | n + 1, st =>
    match parse_sensor_data rnd st frame with
    | none => none
    | some r => parse_times rnd frame n r.2.2

/-- The bytes of the stream `"A,D,1\nB,D,2\n"`: two frames, each followed by
LF. -/
def two_frame_stream : List Nat := [65, 44, 68, 44, 49, 10, 66, 44, 68, 44, 50, 10]

/-- The state after `system_init` with `two_frame_stream` in the RX ring. -/
def two_frame_state : SystemState :=
  { system_init_state with comm := rx_fill system_init_state.comm two_frame_stream }

/-- The state after `system_init` when the store has been disconnected and the
frame `"A,D,1"` followed by LF is in the RX ring. -/
def disconnected_state : SystemState :=
  { system_init_state with
    comm := rx_fill system_init_state.comm [65, 44, 68, 44, 49, 10]
    db := (database_disconnect system_init_state.db).2 }

/-! ## communication.c : `communication_send` -/

/-- The `for` loop of `communication_send` over the bytes still to be queued:
`true` when every `put_tx_byte` returned `true`; at the first `false` the loop
is left, the bytes queued before staying in the ring. -/
def send_loop : CommState → List Nat → Bool × CommState
  | s, [] => (true, s)
  | s, b :: bs =>
    match put_tx_byte s b with
    | (false, s1) => (false, s1)
    | (true, s1) => send_loop s1 bs

/-- `communication_send` (the `IAR_LEGACY_SUPPORT` build), no interrupt being
taken during the call.  `none` is the `NULL` pointer; `length` is the length of
the list, a `uint16_t`. -/
def communication_send (s : CommState) (data : Option (List Nat)) :
    system_status_t × CommState :=
  match data with
  | none => (system_status_t.SYSTEM_ERROR, set_last_error s comm_error_t.COMM_ERROR_INVALID_PARAM)
  | some bytes =>
    if bytes.length = 0 then
      (system_status_t.SYSTEM_ERROR, set_last_error s comm_error_t.COMM_ERROR_INVALID_PARAM)
    else if get_tx_buffer_space s < bytes.length then
      (system_status_t.SYSTEM_ERROR, set_last_error s comm_error_t.COMM_ERROR_BUFFER_FULL)
    else
      match send_loop s bytes with
      | (false, s1) =>
        (system_status_t.SYSTEM_ERROR, set_last_error s1 comm_error_t.COMM_ERROR_BUFFER_FULL)
      | (true, s1) =>
        (system_status_t.SYSTEM_OK,
          { s1 with
            current_status := comm_status_t.COMM_STATUS_TRANSMITTING
            UART1_CR1 := s1.UART1_CR1 ||| UART_CR1_TXEIE
            statistics := { s1.statistics with
              bytes_transmitted := (s1.statistics.bytes_transmitted + bytes.length) % 4294967296
              packets_transmitted := incr32 s1.statistics.packets_transmitted } })

/-- The bytes held by the TX ring, oldest first: the slots from `tx_tail` up to
`tx_head`, read circularly. -/
def tx_contents (s : CommState) : List Nat :=
  (List.range (tx_occupancy s)).map (fun i => s.tx_buffer ((s.tx_tail + i) % TX_BUFFER_SIZE))

/-! ## Successive line reads -/

/-- A consumer that calls `communication_receive_line` with a 128-byte buffer
while `communication_data_available` holds, at most `n` times: the non-empty
lines returned, in call order, and the final state.  `none` when a call runs
out of fuel, or when data is still available after `n` calls. -/
def receive_lines (timeout_ms fuel : Nat) : Nat → CommState → Option (List (List Nat) × CommState)
  | 0, s => if communication_data_available s then none else some ([], s)
  | n + 1, s =>
    if communication_data_available s then
      match communication_receive_line s 128 timeout_ms fuel with
      | none => none
      | some (_, line, s1) =>
        match receive_lines timeout_ms fuel n s1 with
        | none => none
        | some (ls, s2) =>
          match line with
          | some (b :: l) => some ((b :: l) :: ls, s2)
          | _ => some (ls, s2)
    else some ([], s)

/-- The byte stream `f1 d1 f2 d2 ... fN dN` of the frames `fi`, each followed by
its delimiter run `di`. -/
def frame_stream : List (List Nat × List Nat) → List Nat
  | [] => []
  | p :: ps => p.1 ++ p.2 ++ frame_stream ps

/-! ## The tick across a sequence of parser calls -/

/-- Calls of the three parsing entry points of sensor_data.c. -/
inductive ParserCall where
  | sensor1 (frame : List Char)
  | sensor2 (frame : List Char)
  | any (frame : List Char)
deriving DecidableEq, Repr

/-- One parser call: the timestamp of the record when the frame is accepted
(`is_valid` is `true`), and the new module state; `none` when the call has
undefined behaviour. -/
def parser_step (rnd : ℚ → ℚ) (st : SensorState) : ParserCall → Option (Option Nat × SensorState)
  | ParserCall.sensor1 frame =>
    let r := parse_sensor1_data rnd st frame
    some (if r.1.is_valid then r.2.1.map (fun d => d.timestamp) else none, r.2.2)
  | ParserCall.sensor2 frame =>
    let r := parse_sensor2_data st frame
    some (if r.1.is_valid then r.2.1.map (fun d => d.timestamp) else none, r.2.2)
  | ParserCall.any frame =>
    match parse_sensor_data rnd st frame with
    | none => none
    | some r => some (if r.1.is_valid then r.2.1.map record_timestamp else none, r.2.2)

/-- The timestamps of the records accepted during a sequence of parser calls,
in call order, and the final module state. -/
def accepted_timestamps (rnd : ℚ → ℚ) :
    SensorState → List ParserCall → Option (List Nat × SensorState)
  | st, [] => some ([], st)
  | st, c :: cs =>
    match parser_step rnd st c with
    | none => none
    | some (t, st1) =>
      match accepted_timestamps rnd st1 cs with
      | none => none
      | some (ts, st2) => some (t.toList ++ ts, st2)

/-- The frame `O'NEIL,D,1`: a student id with an apostrophe, a sensor name and
an interrupt type. -/
def apostrophe_frame : List Char := "O".toList ++ [Char.ofNat 39] ++ "NEIL,D,1".toList

/-- The record `parse_sensor_data` writes for `apostrophe_frame` at start-up. -/
def apostrophe_record : sensor_data_t :=
  { type := SENSOR_TYPE_INTERRUPT,
    data := sensor_union.sensor2
      { student_id := "O".toList ++ [Char.ofNat 39] ++ "NEIL".toList,
        sensor_name := "D".toList,
        interrupt_type := INTERRUPT_TYPE_RISING, interrupt_count := 1,
        status := SENSOR_STATUS_WARNING, timestamp := 1 } }

/-! ## database.c : the other public operations

The SQL text matters only where it is written into the 1024-byte local `sql`
with a caller-supplied string: such a call is undefined when the text does not
fit. -/

/-- `db_config_t` (database.h). -/
structure db_config_t where
  host : List Char
  port : Nat
  username : List Char
  password : List Char
  database : List Char
  timeout : Nat
deriving DecidableEq, Repr

/-- `DEFAULT_DB_CONFIG` (database.c, with the values of config.h). -/
def DEFAULT_DB_CONFIG : db_config_t :=
  { host := "localhost".toList, port := 3306, username := "sensor_user".toList,
    password := "sensor_pass".toList, database := "sensor_data".toList, timeout := 30 }

/-- `is_valid_db_config` (database.h); `none` is the `NULL` pointer. -/
def is_valid_db_config : Option db_config_t → Bool
  | none => false
  | some config =>
    if config.host.length = 0 then false
    else if config.port = 0 then false
    else if config.username.length = 0 then false
    else if config.database.length = 0 then false
    else true

/-- `database_connect` with an arbitrary configuration pointer. -/
def database_connect_config (db : DbState) (config : Option db_config_t) :
    db_result_t × DbState :=
  if !is_valid_db_config config then
    create_error_result db DB_ERROR_INVALID_PARAM "Invalid database configuration"
  else if db.current_status = db_status_t.DB_STATUS_CONNECTED then (create_success_result 0 0, db)
  else (create_success_result 0 0, { db with current_status := db_status_t.DB_STATUS_CONNECTED })

/-- `database_get_status`. -/
def database_get_status (db : DbState) : db_status_t := db.current_status

/-- `database_get_last_error`. -/
def database_get_last_error (db : DbState) : String := db.last_error_message

/-- `MAX_SQL_LENGTH` (database.h). -/
def MAX_SQL_LENGTH : Nat := 1024

/-- `db_query_result_t` (database.h); the two pointer fields are `NULL` in every
result the module returns. -/
structure db_query_result_t where
  row_count : Nat
  column_count : Nat
deriving DecidableEq, Repr

/-- The result after `memset(&result, 0, sizeof(db_query_result_t))`. -/
def zero_query_result : db_query_result_t := { row_count := 0, column_count := 0 }

/-- The text of a `SELECT` of `database_query_sensor1_data` /
`database_query_sensor2_data` on the table `table`: the `..._BY_ID` template
filled with the student id when one is given and not empty, the `..._ALL`
template otherwise, followed by the `LIMIT` clause when `limit > 0`. -/
def select_sql (table : String) (student_id : Option (List Char)) (limit : Nat) : List Char :=
  (match student_id with
    | some (c :: cs) =>
      "SELECT * FROM ".toList ++ table.toList ++ " WHERE student_id = ".toList ++
        [Char.ofNat 39] ++ (c :: cs) ++ [Char.ofNat 39] ++ " ORDER BY created_at DESC".toList
    | _ => "SELECT * FROM ".toList ++ table.toList ++ " ORDER BY created_at DESC".toList) ++
  (if limit > 0 then " LIMIT ".toList ++ format_lu limit else [])

/-- The common body of `database_query_sensor1_data` and
`database_query_sensor2_data`, which differ in the table name only.  `none` when
the text overruns `sql`. -/
def database_query_sensor_data (table : String) (db : DbState) (student_id : Option (List Char))
    (limit : Nat) : Option (db_query_result_t × DbState) :=
  if db.current_status ≠ db_status_t.DB_STATUS_CONNECTED then
    some (zero_query_result, database_set_last_error db "Database not connected")
  else
    match student_id with
    | some (c :: cs) =>
      if !validate_sql_injection (c :: cs) then
        some (zero_query_result, database_set_last_error db "Invalid student ID")
      else if (select_sql table student_id limit).length ≥ MAX_SQL_LENGTH then none
      else some ({ row_count := 0, column_count := 7 }, db)
    | _ =>
      if (select_sql table student_id limit).length ≥ MAX_SQL_LENGTH then none
      else some ({ row_count := 0, column_count := 7 }, db)

/-- `database_query_sensor1_data`. -/
def database_query_sensor1_data (db : DbState) (student_id : Option (List Char)) (limit : Nat) :
    Option (db_query_result_t × DbState) :=
  database_query_sensor_data "sensor1_data" db student_id limit

/-- `database_query_sensor2_data`. -/
def database_query_sensor2_data (db : DbState) (student_id : Option (List Char)) (limit : Nat) :
    Option (db_query_result_t × DbState) :=
  database_query_sensor_data "sensor2_data" db student_id limit

/-- `database_execute_query`; `none` is the `NULL` pointer. -/
def database_execute_query (db : DbState) (sql : Option (List Char)) :
    db_query_result_t × DbState :=
  match sql with
  | some (_ :: _) =>
    if db.current_status ≠ db_status_t.DB_STATUS_CONNECTED then
      (zero_query_result, database_set_last_error db "Database not connected")
    else (zero_query_result, db)
  | _ => (zero_query_result, database_set_last_error db "Empty SQL statement")

/-- `database_execute_update`; `none` is the `NULL` pointer. -/
def database_execute_update (db : DbState) (sql : Option (List Char)) : db_result_t × DbState :=
  match sql with
  | some (_ :: _) =>
    if db.current_status ≠ db_status_t.DB_STATUS_CONNECTED then
      create_error_result db DB_ERROR_CONNECTION "Database not connected"
    else (create_success_result 0 0, db)
  | _ => create_error_result db DB_ERROR_INVALID_PARAM "Empty SQL statement"

/-- `database_free_query_result`: the result is set to zero; the module state is
not touched. -/
def database_free_query_result (_result : db_query_result_t) : db_query_result_t :=
  zero_query_result

/-- `database_begin_transaction`. -/
def database_begin_transaction (db : DbState) : db_result_t × DbState :=
  if db.current_status ≠ db_status_t.DB_STATUS_CONNECTED then
    create_error_result db DB_ERROR_CONNECTION "Database not connected"
  else database_execute_update db (some "BEGIN".toList)

/-- `database_commit_transaction`. -/
def database_commit_transaction (db : DbState) : db_result_t × DbState :=
  if db.current_status ≠ db_status_t.DB_STATUS_CONNECTED then
    create_error_result db DB_ERROR_CONNECTION "Database not connected"
  else database_execute_update db (some "COMMIT".toList)

/-- `database_rollback_transaction`. -/
def database_rollback_transaction (db : DbState) : db_result_t × DbState :=
  if db.current_status ≠ db_status_t.DB_STATUS_CONNECTED then
    create_error_result db DB_ERROR_CONNECTION "Database not connected"
  else database_execute_update db (some "ROLLBACK".toList)

/-- `database_table_exists`; `none` as argument is the `NULL` pointer, `none` as
result an overrun of `sql` by `SHOW TABLES LIKE` followed by the quoted
name. -/
def database_table_exists (db : DbState) (table_name : Option (List Char)) :
    Option (Bool × DbState) :=
  match table_name with
  | none => some (false, db)
  | some name =>
    if db.current_status ≠ db_status_t.DB_STATUS_CONNECTED then some (false, db)
    else
      let sql := "SHOW TABLES LIKE ".toList ++ [Char.ofNat 39] ++ name ++ [Char.ofNat 39]
      if sql.length ≥ MAX_SQL_LENGTH then none
      else
        let r := database_execute_query db (some sql)
        some (decide (r.1.row_count > 0), r.2)

/-- `SQL_CREATE_SENSOR1_TABLE` (database.h). -/
def SQL_CREATE_SENSOR1_TABLE : String :=
  "CREATE TABLE IF NOT EXISTS sensor1_data (" ++
  "id INT AUTO_INCREMENT PRIMARY KEY, " ++
  "student_id VARCHAR(20) NOT NULL, " ++
  "sensor_name VARCHAR(16) NOT NULL, " ++
  "temperature DECIMAL(5,2) NOT NULL, " ++
  "humidity DECIMAL(5,2) NOT NULL, " ++
  "status VARCHAR(10) NOT NULL, " ++
  "timestamp INT UNSIGNED NOT NULL, " ++
  "created_at TIMESTAMP DEFAULT CURRENT_TIMESTAMP, " ++
  "INDEX idx_student_id (student_id), " ++
  "INDEX idx_timestamp (timestamp)" ++
  ")"

/-- `SQL_CREATE_SENSOR2_TABLE` (database.h). -/
def SQL_CREATE_SENSOR2_TABLE : String :=
  "CREATE TABLE IF NOT EXISTS sensor2_data (" ++
  "id INT AUTO_INCREMENT PRIMARY KEY, " ++
  "student_id VARCHAR(20) NOT NULL, " ++
  "sensor_name VARCHAR(16) NOT NULL, " ++
  "interrupt_type TINYINT NOT NULL, " ++
  "interrupt_count INT UNSIGNED NOT NULL, " ++
  "status VARCHAR(10) NOT NULL, " ++
  "timestamp INT UNSIGNED NOT NULL, " ++
  "created_at TIMESTAMP DEFAULT CURRENT_TIMESTAMP, " ++
  "INDEX idx_student_id (student_id), " ++
  "INDEX idx_sensor_name (sensor_name), " ++
  "INDEX idx_timestamp (timestamp)" ++
  ")"

/-- `database_create_tables`. -/
def database_create_tables (db : DbState) : db_result_t × DbState :=
  if db.current_status ≠ db_status_t.DB_STATUS_CONNECTED then
    create_error_result db DB_ERROR_CONNECTION "Database not connected"
  else
    let r1 := database_execute_update db (some SQL_CREATE_SENSOR1_TABLE.toList)
    if !r1.1.success then r1
    else
      let r2 := database_execute_update r1.2 (some SQL_CREATE_SENSOR2_TABLE.toList)
      if !r2.1.success then r2
      else (create_success_result 0 0, r2.2)

/-- `database_get_statistics`: the two booleans tell which of the two output
pointers are not `NULL`; the values written through them are 0. -/
def database_get_statistics (db : DbState) (sensor1_count sensor2_count : Bool) :
    db_result_t × Option Nat × Option Nat × DbState :=
  if db.current_status ≠ db_status_t.DB_STATUS_CONNECTED then
    let r := create_error_result db DB_ERROR_CONNECTION "Database not connected"
    (r.1, none, none, r.2)
  else
    let db1 :=
      if sensor1_count then
        (database_execute_query db (some "SELECT COUNT(*) FROM sensor1_data".toList)).2
      else db
    let db2 :=
      if sensor2_count then
        (database_execute_query db1 (some "SELECT COUNT(*) FROM sensor2_data".toList)).2
      else db1
    (create_success_result 0 0, if sensor1_count then some 0 else none,
      if sensor2_count then some 0 else none, db2)

/-- The text `database_cleanup_old_data` writes into `sql` for one table. -/
def cleanup_sql (table : String) (days_old : Nat) : List Char :=
  "DELETE FROM ".toList ++ table.toList ++
    " WHERE created_at < DATE_SUB(NOW(), INTERVAL ".toList ++ format_lu days_old ++ " DAY)".toList

/-- `database_cleanup_old_data`. -/
def database_cleanup_old_data (db : DbState) (days_old : Nat) : db_result_t × DbState :=
  if db.current_status ≠ db_status_t.DB_STATUS_CONNECTED then
    create_error_result db DB_ERROR_CONNECTION "Database not connected"
  else
    let r1 := database_execute_update db (some (cleanup_sql "sensor1_data" days_old))
    if !r1.1.success then r1
    else database_execute_update r1.2 (some (cleanup_sql "sensor2_data" days_old))

/-- `database_backup`; `none` is the `NULL` pointer. -/
def database_backup (db : DbState) (backup_path : Option (List Char)) : db_result_t × DbState :=
  match backup_path with
  | none => create_error_result db DB_ERROR_INVALID_PARAM "Invalid backup path"
  | some _ =>
    if db.current_status ≠ db_status_t.DB_STATUS_CONNECTED then
      create_error_result db DB_ERROR_CONNECTION "Database not connected"
    else (create_success_result 0 0, db)

/-- `database_restore`; `none` is the `NULL` pointer. -/
def database_restore (db : DbState) (backup_path : Option (List Char)) : db_result_t × DbState :=
  match backup_path with
  | none => create_error_result db DB_ERROR_INVALID_PARAM "Invalid backup path"
  | some _ =>
    if db.current_status ≠ db_status_t.DB_STATUS_CONNECTED then
      create_error_result db DB_ERROR_CONNECTION "Database not connected"
    else (create_success_result 0 0, db)

/-- The calls of the public interface of database.c.  A `none` argument is a
`NULL` pointer. -/
inductive DbCall where
  | init
  | connect (config : Option db_config_t)
  | disconnect
  | get_status
  | insert_sensor1 (data : Option sensor1_data_t)
  | insert_sensor2 (data : Option sensor2_data_t)
  | insert (data : Option sensor_data_t)
  | query_sensor1 (student_id : Option (List Char)) (limit : Nat)
  | query_sensor2 (student_id : Option (List Char)) (limit : Nat)
  | execute_query (sql : Option (List Char))
  | execute_update (sql : Option (List Char))
  | free_query_result
  | begin_transaction
  | commit_transaction
  | rollback_transaction
  | table_exists (table_name : Option (List Char))
  | create_tables
  | get_statistics (sensor1_count sensor2_count : Bool)
  | cleanup_old_data (days_old : Nat)
  | backup (backup_path : Option (List Char))
  | restore (backup_path : Option (List Char))
  | set_error_callback (callback : db_error_callback_t)
  | get_last_error

/-- The module state after one call; `none` when the call has undefined
behaviour.  An insert with a `NULL` record fails with "Null sensor data". -/
def db_step (db : DbState) : DbCall → Option DbState
  | DbCall.init => some (database_init db)
  | DbCall.connect config => some (database_connect_config db config).2
  | DbCall.disconnect => some (database_disconnect db).2
  | DbCall.get_status => some db
  | DbCall.insert_sensor1 none =>
    some (create_error_result db DB_ERROR_INVALID_PARAM "Null sensor data").2
  | DbCall.insert_sensor1 (some d) => some (database_insert_sensor1_data db d).2
  | DbCall.insert_sensor2 none =>
    some (create_error_result db DB_ERROR_INVALID_PARAM "Null sensor data").2
  | DbCall.insert_sensor2 (some d) => some (database_insert_sensor2_data db d).2
  | DbCall.insert none =>
    some (create_error_result db DB_ERROR_INVALID_PARAM "Null sensor data").2
  | DbCall.insert (some d) => (database_insert_sensor_data db d).map (fun r => r.2)
  | DbCall.query_sensor1 student_id limit =>
    (database_query_sensor1_data db student_id limit).map (fun r => r.2)
  | DbCall.query_sensor2 student_id limit =>
    (database_query_sensor2_data db student_id limit).map (fun r => r.2)
  | DbCall.execute_query sql => some (database_execute_query db sql).2
  | DbCall.execute_update sql => some (database_execute_update db sql).2
  | DbCall.free_query_result => some db
  | DbCall.begin_transaction => some (database_begin_transaction db).2
  | DbCall.commit_transaction => some (database_commit_transaction db).2
  | DbCall.rollback_transaction => some (database_rollback_transaction db).2
  | DbCall.table_exists table_name => (database_table_exists db table_name).map (fun r => r.2)
  | DbCall.create_tables => some (database_create_tables db).2
  | DbCall.get_statistics c1 c2 => some (database_get_statistics db c1 c2).2.2.2
  | DbCall.cleanup_old_data days_old => some (database_cleanup_old_data db days_old).2
  | DbCall.backup backup_path => some (database_backup db backup_path).2
  | DbCall.restore backup_path => some (database_restore db backup_path).2
  | DbCall.set_error_callback callback => some (database_set_error_callback db callback)
  | DbCall.get_last_error => some db

/-- A sequence of calls. -/
def db_run (db : DbState) : List DbCall → Option DbState
  | [] => some db
  | c :: cs =>
    match db_step db c with
    | none => none
    | some db1 => db_run db1 cs

/-- The status is one of the two values the module assigns. -/
def db_status_inv (db : DbState) : Prop :=
  db.current_status = db_status_t.DB_STATUS_DISCONNECTED ∨
    db.current_status = db_status_t.DB_STATUS_CONNECTED

/-! ## The first version of the firmware: src/src/communication.c

The declarations of src/src are kept apart in the namespace `legacy`, since
they share their names with the unified project. -/

namespace legacy

/-- `comm_interface_t` (src/src/communication.h). -/
inductive comm_interface_t where
  | COMM_UART
  | COMM_SPI
  | COMM_I2C
  | COMM_ETHERNET
deriving DecidableEq, Repr

/-- `comm_status_t` (src/src/communication.h). -/
inductive comm_status_t where
  | COMM_STATUS_IDLE
  | COMM_STATUS_RECEIVING
  | COMM_STATUS_PROCESSING
  | COMM_STATUS_ERROR
deriving DecidableEq, Repr

/-- `rx_buffer_t`: the array as a function from index to byte, and the three
`uint16_t` fields. -/
structure rx_buffer_t where
  buffer : Nat → Nat
  head : Nat
  tail : Nat
  count : Nat
  overflow : Bool

/-- `tx_buffer_t`. -/
structure tx_buffer_t where
  buffer : Nat → Nat
  head : Nat
  tail : Nat
  count : Nat

/-- `comm_module_t`, the type of the static `comm_module`. -/
structure comm_module_t where
  interface : comm_interface_t
  status : comm_status_t
  rx_buf : rx_buffer_t
  tx_buf : tx_buffer_t
  rx_count : Nat
  tx_count : Nat
  error_count : Nat

/-- `communication_init`: `memset` to zero, then the interface and the status
are set (both to the enumerator of value 0). -/
def communication_init (_m : comm_module_t) : comm_module_t :=
  { interface := comm_interface_t.COMM_UART
    status := comm_status_t.COMM_STATUS_IDLE
    rx_buf := { buffer := fun _ => 0, head := 0, tail := 0, count := 0, overflow := false }
    tx_buf := { buffer := fun _ => 0, head := 0, tail := 0, count := 0 }
    rx_count := 0, tx_count := 0, error_count := 0 }

/-- `communication_is_data_available`. -/
def communication_is_data_available (m : comm_module_t) : Bool :=
  decide (m.rx_buf.count > 0)

/-- The `while` loop of `communication_read_data`; the first argument is
`max_length - bytes_read`.  It returns the bytes written to `buffer`, in the
order written. -/
def read_loop : Nat → comm_module_t → List Nat × comm_module_t
  | 0, m => ([], m)
  | n + 1, m =>
    if m.rx_buf.count > 0 then
      let byte := m.rx_buf.buffer m.rx_buf.tail
      let m1 := { m with rx_buf := { m.rx_buf with
        tail := (m.rx_buf.tail + 1) % RX_BUFFER_SIZE
        count := m.rx_buf.count - 1 } }
      let r := read_loop n m1
      (byte :: r.1, r.2)
    else ([], m)

/-- `communication_read_data` with a non-null `buffer`: the bytes written to it
(the returned `bytes_read` is their number) and the new state.  With
`max_length = 0` nothing is read. -/
def communication_read_data (m : comm_module_t) (max_length : Nat) : List Nat × comm_module_t :=
  if max_length = 0 then ([], m) else read_loop max_length m

/-- The `for` loop of `communication_send_data`. -/
def send_data_loop : List Nat → comm_module_t → comm_module_t
  | [], m => m
  | b :: bs, m =>
    send_data_loop bs { m with tx_buf := { m.tx_buf with
      buffer := fun i => if i = m.tx_buf.head then b else m.tx_buf.buffer i
      head := (m.tx_buf.head + 1) % TX_BUFFER_SIZE
      count := m.tx_buf.count + 1 } }

/-- `communication_send_data`; `none` is the `NULL` pointer, `length` is the
length of the list. -/
def communication_send_data (m : comm_module_t) (data : Option (List Nat)) :
    Bool × comm_module_t :=
  match data with
  | none => (false, m)
  | some bytes =>
    if bytes.length = 0 then (false, m)
    else if m.tx_buf.count + bytes.length > TX_BUFFER_SIZE then (false, m)
    else
      let m1 := send_data_loop bytes m
      (true, { m1 with tx_count := (m1.tx_count + bytes.length) % 4294967296 })

/-- `communication_process_rx_interrupt`. -/
def communication_process_rx_interrupt (m : comm_module_t) (data : Nat) : comm_module_t :=
  if m.rx_buf.count ≥ RX_BUFFER_SIZE then
    { m with rx_buf := { m.rx_buf with overflow := true }, error_count := incr32 m.error_count }
  else
    { m with
      rx_buf := { m.rx_buf with
        buffer := fun i => if i = m.rx_buf.head then data else m.rx_buf.buffer i
        head := (m.rx_buf.head + 1) % RX_BUFFER_SIZE
        count := m.rx_buf.count + 1 }
      rx_count := incr32 m.rx_count
      status := comm_status_t.COMM_STATUS_RECEIVING }

/-- `communication_process_tx_interrupt`: the byte taken from the ring, if
any, and the new state. -/
def communication_process_tx_interrupt (m : comm_module_t) : Option Nat × comm_module_t :=
  if m.tx_buf.count > 0 then
    let data := m.tx_buf.buffer m.tx_buf.tail
    let m1 := { m with tx_buf := { m.tx_buf with
      tail := (m.tx_buf.tail + 1) % TX_BUFFER_SIZE
      count := m.tx_buf.count - 1 } }
    if m1.tx_buf.count = 0 then (some data, { m1 with status := comm_status_t.COMM_STATUS_IDLE })
    else (some data, m1)
  else (none, m)

/-- `communication_get_status`. -/
def communication_get_status (m : comm_module_t) : comm_status_t := m.status

/-- `communication_clear_buffers`: both buffer structs are set to zero. -/
def communication_clear_buffers (m : comm_module_t) : comm_module_t :=
  { m with
    rx_buf := { buffer := fun _ => 0, head := 0, tail := 0, count := 0, overflow := false }
    tx_buf := { buffer := fun _ => 0, head := 0, tail := 0, count := 0 } }

/-- Calls on the two counted rings. -/
inductive CommCall where
  | rx_interrupt (data : Nat)
  | read_data (max_length : Nat)
  | send_data (data : Option (List Nat))
  | tx_interrupt
  | clear_buffers

/-- The state after one call. -/
def comm_step (m : comm_module_t) : CommCall → comm_module_t
  | CommCall.rx_interrupt data => communication_process_rx_interrupt m data
  | CommCall.read_data max_length => (communication_read_data m max_length).2
  | CommCall.send_data data => (communication_send_data m data).2
  | CommCall.tx_interrupt => (communication_process_tx_interrupt m).2
  | CommCall.clear_buffers => communication_clear_buffers m

/-- The state after a sequence of calls. -/
def comm_run (m : comm_module_t) : List CommCall → comm_module_t
  | [] => m
  | c :: cs => comm_run (comm_step m c) cs

/-- The invariant of the two counted rings. -/
def counted_inv (m : comm_module_t) : Prop :=
  m.rx_buf.head = (m.rx_buf.tail + m.rx_buf.count) % RX_BUFFER_SIZE ∧
    m.rx_buf.count ≤ RX_BUFFER_SIZE ∧
    m.tx_buf.head = (m.tx_buf.tail + m.tx_buf.count) % TX_BUFFER_SIZE ∧
    m.tx_buf.count ≤ TX_BUFFER_SIZE

/-- The bytes held by the RX ring, oldest first: the `count` slots from `tail`
on, read circularly. -/
def rx_contents (m : comm_module_t) : List Nat :=
  (List.range m.rx_buf.count).map (fun i => m.rx_buf.buffer ((m.rx_buf.tail + i) % RX_BUFFER_SIZE))

end legacy

namespace legacy

/-- `PACKET_START_MARKER`, `0xAA`. -/
def PACKET_START_MARKER : Nat := 170

/-- `PACKET_END_MARKER`, `0x55`. -/
def PACKET_END_MARKER : Nat := 85

/-- One of the two search loops of `communication_parse_packet`, on the bytes
from index `i` on: the index of the first byte equal to `marker` (where the
loop breaks), `none` when the loop runs to `length`. -/
def find_marker (marker : Nat) : List Nat → Nat → Option Nat
  | [], _ => none
  | b :: bs, i => if b = marker then some i else find_marker marker bs (i + 1)

/-- `communication_calculate_checksum`: the exclusive or of the bytes. -/
def communication_calculate_checksum (data : List Nat) : Nat :=
  data.foldl (fun checksum b => checksum ^^^ b) 0

/-- `communication_parse_packet` with a non-null `output` of `output_size`
bytes: the returned flag and the bytes written to `output` (`none` when nothing
is written).  `none` as `data` is the `NULL` pointer; `length` is the length of
the list, a `uint16_t`, so the `uint16_t` indices do not wrap.  The checksum
the function computes at the end is not used. -/
def communication_parse_packet (data : Option (List Nat)) (output_size : Nat) :
    Bool × Option (List Nat) :=
  match data with
  | none => (false, none)
  | some bytes =>
    if bytes.length < 3 ∨ output_size = 0 then (false, none)
    else
      match find_marker PACKET_START_MARKER bytes 0 with
      | none => (false, none)
      | some i =>
        let start_pos := i + 1
        match find_marker PACKET_END_MARKER (bytes.drop start_pos) start_pos with
        | none => (false, none)
        | some end_pos =>
          if end_pos ≤ start_pos then (false, none)
          else
            let data_length :=
              if end_pos - start_pos ≥ output_size then output_size - 1 else end_pos - start_pos
            (true, some ((bytes.drop start_pos).take data_length ++ [0]))

end legacy

/-- The bytes of the payload of the packet in `test_communication_module`,
`2021001ZS,25.6,60.2`. -/
def test_packet_payload : List Nat := "2021001ZS,25.6,60.2".toList.map Char.toNat

/-! ## The first version of the firmware: src/src/sensor_data.c -/

namespace legacy

/-- `parse_result_t` of src/src/sensor_data.h, an enumeration. -/
inductive parse_result_t where
  | PARSE_SUCCESS
  | PARSE_ERROR_FORMAT
  | PARSE_ERROR_LENGTH
  | PARSE_ERROR_CHECKSUM
deriving DecidableEq, Repr

/-- `sensor1_data_t` of src/src/sensor_data.h. -/
structure sensor1_data_t where
  student_id : List Char
  sensor_name : List Char
  temperature : c_float
  humidity : c_float
  status : sensor_status_t
  timestamp : Nat
deriving DecidableEq

/-- `sensor2_data_t` of src/src/sensor_data.h; `interrupt_type` is a
`uint8_t`. -/
structure sensor2_data_t where
  student_id : List Char
  sensor_name : List Char
  interrupt_type : Nat
  interrupt_count : Nat
  status : sensor_status_t
  timestamp : Nat
deriving DecidableEq

/-- `MAX_DATA_LENGTH` (src/src/config.h). -/
def MAX_DATA_LENGTH : Nat := 128

/-- `MAX_STUDENT_ID_LENGTH` (src/src/config.h). -/
def MAX_STUDENT_ID_LENGTH : Nat := 20

/-- `SENSOR1_ID` (src/src/config.h). -/
def SENSOR1_ID : List Char := "TEMP_HUM".toList

/-- `get_system_timestamp`: the value of the static `system_tick`. -/
def get_system_timestamp (system_tick : Nat) : Nat := system_tick

/-- `system_tick_handler`: `system_tick++` on a `uint32_t`. -/
def system_tick_handler (system_tick : Nat) : Nat := incr32 system_tick

/-- `parse_sensor1_data` with non-null arguments.  `atof_float` is the
conversion `(float)atof(token)` of the C library, `system_tick` the static
counter, `sensor_data` the content of the caller's struct before the call; the
result is the returned code and the content of the struct after the call (the
fields parsed before a missing token are written). -/
def parse_sensor1_data (atof_float : List Char → c_float) (system_tick : Nat)
    (raw_data : List Char) (sensor_data : sensor1_data_t) : parse_result_t × sensor1_data_t :=
  let temp_buffer := raw_data.take (MAX_DATA_LENGTH - 1)
  match strtok temp_buffer with
  | none => (parse_result_t.PARSE_ERROR_FORMAT, sensor_data)
  | some (token1, rest1) =>
    let d1 := { sensor_data with student_id := token1.take (MAX_STUDENT_ID_LENGTH - 1) }
    match strtok rest1 with
    | none => (parse_result_t.PARSE_ERROR_FORMAT, d1)
    | some (token2, rest2) =>
      let d2 := { d1 with temperature := atof_float token2 }
      match strtok rest2 with
      | none => (parse_result_t.PARSE_ERROR_FORMAT, d2)
      | some (token3, _) =>
        let d3 := { d2 with
          humidity := atof_float token3
          sensor_name := SENSOR1_ID
          status := SENSOR_STATUS_NORMAL
          timestamp := get_system_timestamp system_tick }
        let d4 :=
          if d3.temperature < -40 ∨ d3.temperature > 85 then
            { d3 with status := SENSOR_STATUS_WARNING }
          else d3
        let d5 :=
          if d4.humidity < 0 ∨ d4.humidity > 100 then { d4 with status := SENSOR_STATUS_WARNING }
          else d4
        (parse_result_t.PARSE_SUCCESS, d5)

/-- `parse_sensor2_data` with non-null arguments.  `atoi_int` is `atoi` of the
C library; the cast to `uint8_t` keeps the value modulo 256. -/
def parse_sensor2_data (atoi_int : List Char → Int) (system_tick : Nat)
    (raw_data : List Char) (sensor_data : sensor2_data_t) : parse_result_t × sensor2_data_t :=
  let temp_buffer := raw_data.take (MAX_DATA_LENGTH - 1)
  match strtok temp_buffer with
  | none => (parse_result_t.PARSE_ERROR_FORMAT, sensor_data)
  | some (token1, rest1) =>
    let d1 := { sensor_data with student_id := token1.take (MAX_STUDENT_ID_LENGTH - 1) }
    match strtok rest1 with
    | none => (parse_result_t.PARSE_ERROR_FORMAT, d1)
    | some (token2, rest2) =>
      let d2 := { d1 with sensor_name := token2.take 15 }
      match strtok rest2 with
      | none => (parse_result_t.PARSE_ERROR_FORMAT, d2)
      | some (token3, _) =>
        (parse_result_t.PARSE_SUCCESS,
          { d2 with
            interrupt_type := (atoi_int token3 % 256).toNat
            status := SENSOR_STATUS_NORMAL
            timestamp := get_system_timestamp system_tick
            interrupt_count := 1 })

/-- A struct whose fields are all zero, for the content before a call. -/
def sensor1_blank : sensor1_data_t :=
  { student_id := [], sensor_name := [], temperature := 0, humidity := 0, status := 0,
    timestamp := 0 }

/-- A struct whose fields are all zero, for the content before a call. -/
def sensor2_blank : sensor2_data_t :=
  { student_id := [], sensor_name := [], interrupt_type := 0, interrupt_count := 0, status := 0,
    timestamp := 0 }

end legacy

/-! ## The C library conversion from decimal text to `float`

`(float)atof(str)` rounds the decimal value to the nearest `double` and the
cast rounds that to the nearest `float`, ties to even (IEEE 754).  Values too
large for the format, which become infinite in C, keep a finite value here; it
is above every bound a value is compared with. -/

/-- Rounding of a rational to the nearest integer, ties to the even one. -/
def round_half_even (q : ℚ) : Int :=
  if q - ⌊q⌋ < 1 / 2 then ⌊q⌋
  else if q - ⌊q⌋ > 1 / 2 then ⌊q⌋ + 1
  else if ⌊q⌋ % 2 = 0 then ⌊q⌋ else ⌊q⌋ + 1

/-- Rounding of `x ≥ 0` to the nearest binary floating-point number with `p`
significand bits and least exponent `emin`: the spacing of the numbers around
`x` is `2 ^ (e - (p - 1))` with `e` the exponent of `x`, at least `emin`. -/
def round_binary_nonneg (p : Nat) (emin : Int) (x : ℚ) : ℚ :=
  (round_half_even (x / 2 ^ (max (Int.log 2 x) emin - ((p : Int) - 1))) : ℚ) *
    2 ^ (max (Int.log 2 x) emin - ((p : Int) - 1))

/-- Rounding to the nearest binary floating-point number, symmetric in the
sign. -/
def round_binary (p : Nat) (emin : Int) (x : ℚ) : ℚ :=
  if x < 0 then -round_binary_nonneg p emin (-x) else round_binary_nonneg p emin x

/-- The value `(float)atof` stores for a decimal value: rounded to `double` (53
bits, least exponent -1022), then to `float` (24 bits, least exponent -126). -/
def float_of_decimal (x : ℚ) : c_float :=
  round_binary 24 (-126) (round_binary 53 (-1022) x)

/-! ## Sample frames of 128 bytes and more -/

/-- A frame of 130 bytes with two commas: 126 times `A`, then `,D,1`. -/
def overlong_frame : List Char := List.replicate 126 'A' ++ ",D,1".toList

/-- What C fixes of `atoi`: on a string whose value fits an `int` the result is
that value.  The result on any other string is left to the library. -/
def c_atoi (atoi : List Char → Int) : Prop :=
  ∀ s : List Char, atoi_fits s = true → atoi s = atoi_value s

/-- An `atoi` that keeps the low 32 bits of the value it reads, as a library
does whose accumulation in `int` wraps around. -/
def atoi_wrap (str : List Char) : Int :=
  (atoi_value str + 2147483648) % 4294967296 - 2147483648

/-- `parse_sensor2_data` with non-null arguments, with the `atoi` that
`parse_int_safe` calls as a parameter. -/
def parse_sensor2_data_atoi (atoi : List Char → Int) (st : SensorState)
    (data_str : List Char) : parse_result_t × Option sensor2_data_t × SensorState :=
  if data_str.length ≥ 128 then reject2 st ERROR_MSG_BUFFER_TOO_SMALL none
  else
    let d0 := sensor2_zero
    match strtok data_str with
    | none => reject2 st ERROR_MSG_INVALID_FORMAT (some d0)
    | some (tok0, rest0) =>
      let token0 := trim_whitespace tok0
      if token0.length ≥ MAX_STUDENT_ID_LEN then reject2 st ERROR_MSG_INVALID_ID (some d0)
      else
        let d1 := { d0 with student_id := token0 }
        match strtok rest0 with
        | none => reject2 st ERROR_MSG_INVALID_FORMAT (some d1)
        | some (tok1, rest1) =>
          let token1 := trim_whitespace tok1
          if token1.length ≥ MAX_SENSOR_NAME_LEN then reject2 st ERROR_MSG_INVALID_NAME (some d1)
          else
            let d2 := { d1 with sensor_name := token1 }
            match strtok rest1 with
            | none => reject2 st ERROR_MSG_INVALID_FORMAT (some d2)
            | some (tok2, _) =>
              let token2 := trim_whitespace tok2
              if !is_numeric_string token2 then reject2 st ERROR_MSG_INVALID_FORMAT (some d2)
              else
                let interrupt_val := atoi token2
                if interrupt_val < 0 ∨ interrupt_val > 3 then
                  reject2 st ERROR_MSG_INVALID_RANGE (some d2)
                else
                  let d3 := { d2 with interrupt_type := interrupt_val,
                                      interrupt_count := if interrupt_val > 0 then 1 else 0 }
                  if !validate_sensor2_data d3 then reject2 st ERROR_MSG_INVALID_RANGE (some d3)
                  else
                    let t := get_timestamp st
                    let d4 := { d3 with timestamp := t.1 }
                    let d5 := { d4 with status := determine_sensor2_status d4 }
                    ({ is_valid := true, type := some SENSOR_TYPE_INTERRUPT, error_msg := "" },
                      some d5, t.2)

/-! # Properties -/

theorem ring_inv_step (s : CommState) (c : RingCall) (h : ring_inv s) :
    ring_inv (ring_step s c) := by
  obtain ⟨h1, h2, h3, h4⟩ := h
  simp only [RX_BUFFER_SIZE, TX_BUFFER_SIZE] at h1 h2 h3 h4
  cases c <;>
    simp only [ring_step, ring_inv, put_rx_byte, get_rx_byte, put_tx_byte, get_tx_byte,
      communication_clear_rx_buffer, communication_clear_tx_buffer, RX_BUFFER_SIZE,
      TX_BUFFER_SIZE] <;>
    (try split) <;> (try simp only []) <;> omega

theorem ring_inv_run (calls : List RingCall) (s : CommState) (h : ring_inv s) :
    ring_inv (ring_run s calls) := by
  induction calls generalizing s with
  | nil => exact h
  | cons c cs ih => exact ih (ring_step s c) (ring_inv_step s c h)

theorem ring_inv_init (s : CommState) : ring_inv (communication_init s) := by
  simp [ring_inv, communication_init, RX_BUFFER_SIZE, TX_BUFFER_SIZE]

theorem rx_count_of_inv (s : CommState) (h : ring_inv s) :
    (get_rx_buffer_count s : Int) = ((s.rx_head : Int) - s.rx_tail) % 256 ∧
      get_rx_buffer_count s ≤ 255 := by
  obtain ⟨h1, h2, _, _⟩ := h
  simp only [RX_BUFFER_SIZE] at h1 h2
  simp only [get_rx_buffer_count, RX_BUFFER_SIZE]
  split <;> omega

theorem rx_count_of_inv_rx (s : CommState) (hh : s.rx_head < 256) (ht : s.rx_tail < 256) :
    (get_rx_buffer_count s : Int) = ((s.rx_head : Int) - s.rx_tail) % 256 := by
  simp only [get_rx_buffer_count, RX_BUFFER_SIZE]
  split <;> omega

theorem rx_count_eq (s : CommState) (hh : s.rx_head < 256) (ht : s.rx_tail < 256) :
    get_rx_buffer_count s = (s.rx_head + 256 - s.rx_tail) % 256 := by
  simp only [get_rx_buffer_count, RX_BUFFER_SIZE]
  split <;> omega

theorem tx_space_of_inv (s : CommState) (h : ring_inv s) :
    tx_occupancy s ≤ 511 ∧ get_tx_buffer_space s = 511 - tx_occupancy s := by
  obtain ⟨_, _, h3, h4⟩ := h
  simp only [TX_BUFFER_SIZE] at h3 h4
  simp only [get_tx_buffer_space, tx_occupancy, TX_BUFFER_SIZE]
  split <;> omega

/-- C1. After `communication_init`, every sequence of `put_rx_byte`,
`get_rx_byte`, `communication_clear_rx_buffer`, `put_tx_byte`, `get_tx_byte` and
`communication_clear_tx_buffer` calls leaves `rx_head`, `rx_tail` in `[0, 256)`
and `tx_head`, `tx_tail` in `[0, 512)`; `get_rx_buffer_count` equals
`(rx_head - rx_tail) mod 256` and is at most 255; the TX occupancy
`(tx_head - tx_tail) mod 512` is at most 511 and `get_tx_buffer_space` is 511
minus it. -/
theorem C1_ring_indices_and_occupancy (s0 : CommState) (calls : List RingCall) :
    let s := ring_run (communication_init s0) calls
    s.rx_head < 256 ∧ s.rx_tail < 256 ∧ s.tx_head < 512 ∧ s.tx_tail < 512 ∧
      (get_rx_buffer_count s : Int) = ((s.rx_head : Int) - s.rx_tail) % 256 ∧
      get_rx_buffer_count s ≤ 255 ∧
      tx_occupancy s ≤ 511 ∧ get_tx_buffer_space s = 511 - tx_occupancy s := by
  intro s
  have hinv : ring_inv s := ring_inv_run calls _ (ring_inv_init s0)
  obtain ⟨hc1, hc2⟩ := rx_count_of_inv s hinv
  obtain ⟨ht1, ht2⟩ := tx_space_of_inv s hinv
  obtain ⟨h1, h2, h3, h4⟩ := hinv
  exact ⟨h1, h2, h3, h4, hc1, hc2, ht1, ht2⟩

/-! ## RX ring refinement -/

theorem rx_contents_length (s : CommState) : (rx_contents s).length = get_rx_buffer_count s := by
  simp [rx_contents]

theorem rx_count_put (s : CommState) (b : Nat) (hh : s.rx_head < 256) (ht : s.rx_tail < 256)
    (hfull : ¬ (s.rx_head + 1) % 256 = s.rx_tail) :
    get_rx_buffer_count (put_rx_byte s b).2 = get_rx_buffer_count s + 1 := by
  simp only [put_rx_byte, RX_BUFFER_SIZE, hfull, if_false, get_rx_buffer_count]
  split <;> split <;> omega

theorem rx_count_get (s : CommState) (hh : s.rx_head < 256) (ht : s.rx_tail < 256)
    (hne : ¬ s.rx_tail = s.rx_head) :
    get_rx_buffer_count (get_rx_byte s).2 + 1 = get_rx_buffer_count s := by
  simp only [get_rx_byte, RX_BUFFER_SIZE, hne, if_false, get_rx_buffer_count]
  split <;> split <;> omega

theorem rx_put_sim (s : CommState) (b : Nat) (hh : s.rx_head < 256) (ht : s.rx_tail < 256) :
    (rx_call s (RxCall.put b)).1 = (fifo_call (rx_contents s) (RxCall.put b)).1 ∧
      rx_contents (rx_call s (RxCall.put b)).2 = (fifo_call (rx_contents s) (RxCall.put b)).2 ∧
      (rx_call s (RxCall.put b)).2.rx_head < 256 ∧ (rx_call s (RxCall.put b)).2.rx_tail < 256 := by
  have hcnt := rx_count_eq s hh ht
  by_cases hfull : (s.rx_head + 1) % 256 = s.rx_tail
  · have h255 : ¬ get_rx_buffer_count s < 255 := by omega
    simp [rx_call, fifo_call, rx_contents_length, put_rx_byte, RX_BUFFER_SIZE, hfull, h255, hh, ht]
  · have hlt : get_rx_buffer_count s < 255 := by omega
    have hc2 := rx_count_put s b hh ht hfull
    simp only [rx_call, fifo_call, rx_contents_length, hlt, if_true]
    simp only [rx_contents, hc2]
    simp only [put_rx_byte, RX_BUFFER_SIZE, hfull, if_false, List.range_succ, List.map_append,
      List.map_cons, List.map_nil, true_and]
    refine ⟨?_, Nat.mod_lt _ (by norm_num), ht⟩
    congr 1
    · apply List.map_congr_left
      intro i hi
      have hi2 : i < get_rx_buffer_count s := List.mem_range.mp hi
      have hne : (s.rx_tail + i) % 256 ≠ s.rx_head := by omega
      simp [hne]
    · have he : (s.rx_tail + get_rx_buffer_count s) % 256 = s.rx_head := by omega
      simp [he]

theorem rx_get_sim (s : CommState) (hh : s.rx_head < 256) (ht : s.rx_tail < 256) :
    (rx_call s RxCall.get).1 = (fifo_call (rx_contents s) RxCall.get).1 ∧
      rx_contents (rx_call s RxCall.get).2 = (fifo_call (rx_contents s) RxCall.get).2 ∧
      (rx_call s RxCall.get).2.rx_head < 256 ∧ (rx_call s RxCall.get).2.rx_tail < 256 := by
  have hcnt := rx_count_eq s hh ht
  by_cases hemp : s.rx_tail = s.rx_head
  · have h0 : get_rx_buffer_count s = 0 := by omega
    simp [rx_call, fifo_call, rx_contents, get_rx_byte, hemp, h0, hh]
  · have hc2 := rx_count_get s hh ht hemp
    obtain ⟨n, hn⟩ : ∃ n, get_rx_buffer_count s = n + 1 := ⟨get_rx_buffer_count s - 1, by omega⟩
    have hc3 : get_rx_buffer_count (get_rx_byte s).2 = n := by omega
    simp only [rx_call, fifo_call]
    simp only [rx_contents, hn, hc3, List.range_succ_eq_map, List.map_cons, List.map_map]
    simp only [get_rx_byte, RX_BUFFER_SIZE, hemp, if_false, true_and]
    have h0 : (s.rx_tail + 0) % 256 = s.rx_tail := by omega
    refine ⟨by rw [h0], ?_, hh, Nat.mod_lt _ (by norm_num)⟩
    apply List.map_congr_left
    intro i _
    have : ((s.rx_tail + 1) % 256 + i) % 256 = (s.rx_tail + (i + 1)) % 256 := by omega
    simp [this]

theorem rx_call_sim (s : CommState) (c : RxCall) (hh : s.rx_head < 256) (ht : s.rx_tail < 256) :
    (rx_call s c).1 = (fifo_call (rx_contents s) c).1 ∧
      rx_contents (rx_call s c).2 = (fifo_call (rx_contents s) c).2 ∧
      (rx_call s c).2.rx_head < 256 ∧ (rx_call s c).2.rx_tail < 256 := by
  cases c with
  | put b => exact rx_put_sim s b hh ht
  | get => exact rx_get_sim s hh ht

theorem rx_trace_sim (calls : List RxCall) (s : CommState) (hh : s.rx_head < 256)
    (ht : s.rx_tail < 256) :
    (rx_trace s calls).1 = (fifo_trace (rx_contents s) calls).1 ∧
      rx_contents (rx_trace s calls).2 = (fifo_trace (rx_contents s) calls).2 := by
  induction calls generalizing s with
  | nil => simp [rx_trace, fifo_trace]
  | cons c cs ih =>
    obtain ⟨h1, h2, h3, h4⟩ := rx_call_sim s c hh ht
    obtain ⟨i1, i2⟩ := ih (rx_call s c).2 h3 h4
    simp only [rx_trace, fifo_trace]
    rw [h1, i1, i2, h2]
    exact ⟨rfl, rfl⟩

theorem fifo_trace_conservation (calls : List RxCall) (q : List Nat) :
    q ++ accepted_bytes calls (fifo_trace q calls).1 =
      popped_bytes (fifo_trace q calls).1 ++ (fifo_trace q calls).2 := by
  induction calls generalizing q with
  | nil => simp [fifo_trace, accepted_bytes, popped_bytes]
  | cons c cs ih =>
    cases c with
    | put b =>
      by_cases hq : q.length < 255
      · have := ih (q ++ [b])
        simp only [fifo_trace, fifo_call, hq, if_true, accepted_bytes, popped_bytes]
        simpa using this
      · have := ih q
        simp only [fifo_trace, fifo_call, hq, if_false, accepted_bytes, popped_bytes]
        simpa using this
    | get =>
      cases q with
      | nil =>
        have := ih []
        simp only [fifo_trace, fifo_call, accepted_bytes, popped_bytes]
        simpa using this
      | cons x xs =>
        have := ih xs
        simp only [fifo_trace, fifo_call, accepted_bytes, popped_bytes]
        simp [this]

/-- C2. Started from an empty RX ring, every sequence of `put_rx_byte` and
`get_rx_byte` calls returns exactly what the bounded FIFO queue of capacity 255
returns (a push is accepted and appended when fewer than 255 bytes are held, a
pop returns the oldest byte and fails exactly when nothing is held), the ring
holds the content of that queue afterwards, and the accepted bytes are the
popped bytes followed by the bytes still held, in arrival order. -/
theorem C2_rx_ring_refines_bounded_fifo (s0 : CommState) (calls : List RxCall)
    (hempty : s0.rx_head = s0.rx_tail) (hidx : s0.rx_head < 256) :
    (rx_trace s0 calls).1 = (fifo_trace [] calls).1 ∧
      rx_contents (rx_trace s0 calls).2 = (fifo_trace [] calls).2 ∧
      accepted_bytes calls (rx_trace s0 calls).1 =
        popped_bytes (rx_trace s0 calls).1 ++ rx_contents (rx_trace s0 calls).2 := by
  have ht : s0.rx_tail < 256 := by omega
  have h0 : rx_contents s0 = [] := by
    have := rx_count_eq s0 hidx ht
    have hz : get_rx_buffer_count s0 = 0 := by omega
    simp [rx_contents, hz]
  obtain ⟨h1, h2⟩ := rx_trace_sim calls s0 hidx ht
  rw [h0] at h1 h2
  refine ⟨h1, h2, ?_⟩
  rw [h1, h2]
  simpa using fifo_trace_conservation calls []

/-- Witness of C2 on the ring after `communication_init`: two pushes, three
pops. -/
theorem C2_witness :
    (rx_trace (communication_init comm_boot)
        [RxCall.put 7, RxCall.put 9, RxCall.get, RxCall.get, RxCall.get]).1 =
      [RxRet.put_ret true, RxRet.put_ret true, RxRet.get_ret (some 7), RxRet.get_ret (some 9),
        RxRet.get_ret none] :=
  (C2_rx_ring_refines_bounded_fifo (communication_init comm_boot)
    [RxCall.put 7, RxCall.put 9, RxCall.get, RxCall.get, RxCall.get] rfl (by decide)).1.trans
    (by decide)

/-! ## Overflow of the RX ring -/

theorem put_rx_byte_false_iff (s : CommState) (byte : Nat) :
    (put_rx_byte s byte).1 = false ↔ (s.rx_head + 1) % 256 = s.rx_tail := by
  simp only [put_rx_byte, RX_BUFFER_SIZE]
  split <;> simp_all

theorem put_rx_byte_false_state (s : CommState) (byte : Nat)
    (h : (s.rx_head + 1) % 256 = s.rx_tail) : put_rx_byte s byte = (false, s) := by
  simp [put_rx_byte, RX_BUFFER_SIZE, h]

theorem set_last_error_buffer_full (s : CommState) :
    (set_last_error s comm_error_t.COMM_ERROR_BUFFER_FULL).last_error =
        comm_error_t.COMM_ERROR_BUFFER_FULL ∧
      (set_last_error s comm_error_t.COMM_ERROR_BUFFER_FULL).statistics.error_count =
        incr32 s.statistics.error_count := by
  cases hcb : s.error_callback <;>
    simp [set_last_error, call_error_callback, communication_error_callback,
      communication_clear_rx_buffer, hcb]

theorem uart_isr_receive_full (s : CommState) (dr : Nat)
    (h : (s.rx_head + 1) % 256 = s.rx_tail) :
    uart_isr_receive s dr =
      { set_last_error s comm_error_t.COMM_ERROR_BUFFER_FULL with
        current_status := comm_status_t.COMM_STATUS_RECEIVING } := by
  simp [uart_isr_receive, put_rx_byte_false_state s (dr % 256) h]

theorem uart_isr_transmit_keeps (s : CommState) :
    (uart_isr_transmit s).2.last_error = s.last_error ∧
      (uart_isr_transmit s).2.statistics = s.statistics ∧
      (uart_isr_transmit s).2.rx_head = s.rx_head ∧
      (uart_isr_transmit s).2.rx_tail = s.rx_tail ∧
      (uart_isr_transmit s).2.rx_buffer = s.rx_buffer := by
  by_cases h : s.tx_tail = s.tx_head <;> simp [uart_isr_transmit, get_tx_byte, h]

/-- C3. In every state with ring indices below 256, `put_rx_byte` returns
`false` if and only if the RX ring holds 255 bytes, that is, if and only if
`(rx_head + 1) mod 256 = rx_tail`; the state (indices and stored bytes) is then
unchanged.  On such a full ring the receive branch of `communication_uart_isr`
records `COMM_ERROR_BUFFER_FULL` and increases `statistics.error_count` by
exactly one (modulo `2 ^ 32`); the same holds for the whole interrupt routine
when none of the overrun, framing and parity flags is set. -/
theorem C3_put_rx_byte_full_ring (s : CommState) (byte sr dr : Nat)
    (hh : s.rx_head < 256) (ht : s.rx_tail < 256) :
    ((put_rx_byte s byte).1 = false ↔ get_rx_buffer_count s = 255) ∧
      ((put_rx_byte s byte).1 = false ↔ (s.rx_head + 1) % 256 = s.rx_tail) ∧
      ((put_rx_byte s byte).1 = false → (put_rx_byte s byte).2 = s) ∧
      ((s.rx_head + 1) % 256 = s.rx_tail →
        (uart_isr_receive s dr).last_error = comm_error_t.COMM_ERROR_BUFFER_FULL ∧
        (uart_isr_receive s dr).statistics.error_count = incr32 s.statistics.error_count ∧
        (sr &&& 32 ≠ 0 → sr &&& 8 = 0 → sr &&& 2 = 0 → sr &&& 1 = 0 →
          (communication_uart_isr s sr dr).2.last_error = comm_error_t.COMM_ERROR_BUFFER_FULL ∧
          (communication_uart_isr s sr dr).2.statistics.error_count =
            incr32 s.statistics.error_count)) := by
  have hiff := put_rx_byte_false_iff s byte
  have hcnt := rx_count_eq s hh ht
  refine ⟨?_, hiff, ?_, ?_⟩
  · rw [hiff]; omega
  · intro h
    rw [put_rx_byte_false_state s byte (hiff.mp h)]
  · intro hfull
    obtain ⟨e1, e2⟩ := set_last_error_buffer_full s
    have hrx := uart_isr_receive_full s dr hfull
    refine ⟨by rw [hrx]; exact e1, by rw [hrx]; exact e2, ?_⟩
    intro h32 h8 h2 h1
    obtain ⟨k1, k2, _, _, _⟩ := uart_isr_transmit_keeps (uart_isr_receive s dr)
    simp only [communication_uart_isr, h32, h8, h2, h1, ne_eq, not_false_eq_true, if_true,
      not_true_eq_false, if_false]
    split
    · rw [k1, k2, hrx]; exact ⟨e1, e2⟩
    · rw [hrx]; exact ⟨e1, e2⟩

/-- Witness of C3: a ring with `rx_head = 255`, `rx_tail = 0` refuses the push
and the interrupt routine counts one error. -/
theorem C3_witness :
    (put_rx_byte { comm_boot with rx_head := 255 } 7).1 = false ∧
      (communication_uart_isr { comm_boot with rx_head := 255 } 32 7).2.statistics.error_count
        = 1 := by
  have h := C3_put_rx_byte_full_ring { comm_boot with rx_head := 255 } 7 32 7
    (by decide) (by decide)
  refine ⟨h.2.1.mpr (by decide), ?_⟩
  have h2 := (h.2.2.2 (by decide)).2.2 (by decide) (by decide) (by decide) (by decide)
  rw [h2.2]
  decide

theorem uart_isr_rxne_only (s : CommState) (dr : Nat) :
    (communication_uart_isr s 32 dr).2 = uart_isr_receive s dr := by
  have a : (32 : Nat) &&& 32 ≠ 0 := by decide
  have b : (32 : Nat) &&& 128 = 0 := by decide
  have c : (32 : Nat) &&& 8 = 0 := by decide
  have d : (32 : Nat) &&& 2 = 0 := by decide
  have e : (32 : Nat) &&& 1 = 0 := by decide
  simp [communication_uart_isr, a, b, c, d, e]

theorem uart_isr_receive_full_callback (s : CommState) (dr : Nat)
    (hcb : s.error_callback = error_callback_t.communication_error_callback)
    (hfull : (s.rx_head + 1) % 256 = s.rx_tail) :
    (uart_isr_receive s dr).rx_head = 0 ∧ (uart_isr_receive s dr).rx_tail = 0 ∧
      (uart_isr_receive s dr).rx_buffer = s.rx_buffer ∧
      (uart_isr_receive s dr).statistics.error_count = incr32 s.statistics.error_count := by
  rw [uart_isr_receive_full s dr hfull]
  simp [set_last_error, call_error_callback, communication_error_callback,
    communication_clear_rx_buffer, hcb]

theorem isr_receive_all_fill (n : Nat) (s : CommState) (k : Nat)
    (hcb : s.error_callback = error_callback_t.communication_error_callback)
    (hh : s.rx_head = k) (ht : s.rx_tail = 0) (hk : k + n ≤ 255)
    (hbuf : ∀ i, i < k → s.rx_buffer i = 65) :
    (isr_receive_all s (List.replicate n 65)).error_callback =
        error_callback_t.communication_error_callback ∧
      (isr_receive_all s (List.replicate n 65)).rx_head = k + n ∧
      (isr_receive_all s (List.replicate n 65)).rx_tail = 0 ∧
      ∀ i, i < k + n → (isr_receive_all s (List.replicate n 65)).rx_buffer i = 65 := by
  induction n generalizing s k with
  | zero => exact ⟨hcb, by simpa using hh, ht, by simpa using hbuf⟩
  | succ n ih =>
    have hnf : ¬ (s.rx_head + 1) % 256 = s.rx_tail := by omega
    have hstep : (communication_uart_isr s 32 65).2 =
        { s with
          rx_buffer := fun i => if i = s.rx_head then 65 else s.rx_buffer i
          rx_head := (s.rx_head + 1) % 256
          current_status := comm_status_t.COMM_STATUS_RECEIVING } := by
      rw [uart_isr_rxne_only]
      simp [uart_isr_receive, put_rx_byte, RX_BUFFER_SIZE, hnf]
    have hm : (s.rx_head + 1) % 256 = k + 1 := by omega
    have := ih (communication_uart_isr s 32 65).2 (k + 1) (by rw [hstep]; exact hcb)
      (by rw [hstep]; exact hm) (by rw [hstep]; exact ht) (by omega)
      (by
        intro i hi
        rw [hstep]
        by_cases hik : i = s.rx_head
        · simp [hik]
        · have : i < k := by omega
          simp [hik, hbuf i this])
    simp only [isr_receive_all, List.replicate_succ, List.foldl_cons] at this ⊢
    have e : k + 1 + n = k + (n + 1) := by omega
    rw [e] at this
    exact this

theorem full_rx_state_facts :
    full_rx_state.error_callback = error_callback_t.communication_error_callback ∧
      full_rx_state.rx_head = 255 ∧ full_rx_state.rx_tail = 0 ∧
      ∀ i, i < 255 → full_rx_state.rx_buffer i = 65 := by
  have := isr_receive_all_fill 255 (system_init_comm comm_boot) 0 rfl rfl rfl (by norm_num)
    (by intro i hi; omega)
  simp only [Nat.zero_add] at this
  exact this

/-- C4, as the code has it. With the error callback installed by `system_init`,
a byte received by the UART interrupt while the RX ring is full is not stored,
`statistics.error_count` increases by exactly one, and the callback clears the
RX ring: `rx_head = rx_tail = 0`, the occupancy is 0 and the next `get_rx_byte`
returns `false`, so the 255 buffered bytes are discarded together with the new
one. -/
theorem C4_overflow_clears_rx_ring (s : CommState) (dr : Nat)
    (hcb : s.error_callback = error_callback_t.communication_error_callback)
    (hfull : (s.rx_head + 1) % 256 = s.rx_tail) :
    (communication_uart_isr s 32 dr).2.rx_head = 0 ∧
      (communication_uart_isr s 32 dr).2.rx_tail = 0 ∧
      get_rx_buffer_count (communication_uart_isr s 32 dr).2 = 0 ∧
      (get_rx_byte (communication_uart_isr s 32 dr).2).1 = none ∧
      (communication_uart_isr s 32 dr).2.rx_buffer = s.rx_buffer ∧
      (communication_uart_isr s 32 dr).2.statistics.error_count =
        incr32 s.statistics.error_count := by
  obtain ⟨h1, h2, h3, h4⟩ := uart_isr_receive_full_callback s dr hcb hfull
  rw [uart_isr_rxne_only]
  refine ⟨h1, h2, ?_, ?_, h3, h4⟩
  · simp [get_rx_buffer_count, h1, h2]
  · simp [get_rx_byte, h1, h2]

/-- Witness of C4 on the ring filled with 255 bytes after `system_init`. -/
theorem C4_witness :
    get_rx_buffer_count (communication_uart_isr full_rx_state 32 66).2 = 0 :=
  (C4_overflow_clears_rx_ring full_rx_state 66 full_rx_state_facts.1
    (by rw [full_rx_state_facts.2.1, full_rx_state_facts.2.2.1])).2.2.1

/-- C4 as stated fails: after `system_init` and 255 received bytes `'A'` the
ring holds 255 bytes and `get_rx_byte` would deliver `'A'`; one more received
byte leaves a ring from which `get_rx_byte` delivers nothing, so the 255
buffered bytes are not delivered. -/
theorem C4_counterexample :
    get_rx_buffer_count full_rx_state = 255 ∧
      (get_rx_byte full_rx_state).1 = some 65 ∧
      (get_rx_byte (communication_uart_isr full_rx_state 32 66).2).1 = none := by
  obtain ⟨hcb, hh, ht, hbuf⟩ := full_rx_state_facts
  refine ⟨?_, ?_, ?_⟩
  · simp [get_rx_buffer_count, hh, ht]
  · simp [get_rx_byte, hh, ht, hbuf 0 (by norm_num)]
  · obtain ⟨h1, h2, _, _⟩ := uart_isr_receive_full_callback full_rx_state 66 hcb
      (by rw [hh, ht])
    rw [uart_isr_rxne_only]
    simp [get_rx_byte, h1, h2]

/-! ## Tokens and `strtok` -/

theorem split_fields_ne_nil (s : List Char) : split_fields s ≠ [] := by
  cases s with
  | nil => simp [split_fields]
  | cons c cs =>
    simp only [split_fields]
    split
    · simp
    · split <;> simp

theorem split_fields_length (s : List Char) : (split_fields s).length = s.count ',' + 1 := by
  induction s with
  | nil => simp [split_fields]
  | cons c cs ih =>
    by_cases hc : c = ','
    · subst hc
      simp [split_fields, ih]
    · have hne := split_fields_ne_nil cs
      have hc2 : ¬ (',' = c) := fun h => hc h.symm
      cases hs : split_fields cs with
      | nil => exact absurd hs hne
      | cons f fs =>
        rw [hs] at ih
        simp only [split_fields, hc, if_false, hs]
        rw [List.count_cons_of_ne hc2]
        simpa using ih

theorem split_fields_unfold (s : List Char) :
    split_fields s = s.takeWhile (fun c => c != ',') ::
      (match s.dropWhile (fun c => c != ',') with
        | [] => []
        | _ :: rest => split_fields rest) := by
  induction s with
  | nil => simp [split_fields]
  | cons c cs ih =>
    by_cases hc : c = ','
    · subst hc
      simp [split_fields]
    · simp only [split_fields, hc, if_false]
      rw [ih]
      simp [hc]

theorem tokens_cons_comma (cs : List Char) : tokens (',' :: cs) = tokens cs := by
  simp [tokens, split_fields]

theorem strtok_cons_comma (cs : List Char) : strtok (',' :: cs) = strtok cs := by
  simp [strtok]

theorem strtok_some_tokens (s : List Char) (t r : List Char) (h : strtok s = some (t, r)) :
    tokens s = t :: tokens r := by
  induction s with
  | nil => simp [strtok] at h
  | cons c cs ih =>
    by_cases hc : c = ','
    · subst hc
      rw [strtok_cons_comma] at h
      rw [tokens_cons_comma]
      exact ih h
    · have hd : (c :: cs).dropWhile (fun c => c == ',') = c :: cs := by simp [hc]
      simp only [strtok, hd, Option.some.injEq, Prod.mk.injEq] at h
      obtain ⟨h1, h2⟩ := h
      have hu := split_fields_unfold (c :: cs)
      have htne : t ≠ [] := by
        rw [← h1]; simp [hc]
      simp only [tokens]
      rw [hu, h1]
      rw [List.filter_cons_of_pos (by simpa using htne)]
      congr 1
      rw [← h2]
      cases hdrop : (c :: cs).dropWhile (fun c => c != ',') with
      | nil => simp [split_fields]
      | cons x rest => simp

theorem strtok_none_tokens (s : List Char) (h : strtok s = none) : tokens s = [] := by
  induction s with
  | nil => simp [tokens, split_fields]
  | cons c cs ih =>
    by_cases hc : c = ','
    · subst hc
      rw [strtok_cons_comma] at h
      rw [tokens_cons_comma]
      exact ih h
    · have hd : (c :: cs).dropWhile (fun c => c == ',') = c :: cs := by simp [hc]
      simp [strtok, hd] at h

theorem strtok_of_tokens_nil (s : List Char) (h : tokens s = []) : strtok s = none := by
  cases hs : strtok s with
  | none => rfl
  | some p =>
    obtain ⟨t, r⟩ := p
    have := strtok_some_tokens s t r hs
    rw [h] at this
    exact absurd this (by simp)

theorem strtok_of_tokens_cons (s t : List Char) (ts : List (List Char))
    (h : tokens s = t :: ts) : ∃ r, strtok s = some (t, r) ∧ tokens r = ts := by
  cases hs : strtok s with
  | none =>
    have := strtok_none_tokens s hs
    rw [h] at this
    exact absurd this (by simp)
  | some p =>
    obtain ⟨t1, r⟩ := p
    have := strtok_some_tokens s t1 r hs
    rw [h] at this
    simp only [List.cons.injEq] at this
    exact ⟨r, by rw [this.1], this.2.symm⟩

theorem three_tokens_iff (frame : List Char) :
    three_tokens frame ↔ frame.count ',' = 2 ∧ (tokens frame).length = 3 := by
  unfold three_tokens tokens
  have hl := split_fields_length frame
  constructor
  · rintro ⟨h3, hne⟩
    refine ⟨by omega, ?_⟩
    rw [List.filter_eq_self.mpr (by intro f hf; simpa using hne f hf)]
    exact h3
  · rintro ⟨hc, hf⟩
    have h3 : (split_fields frame).length = 3 := by omega
    refine ⟨h3, ?_⟩
    have hsub : (split_fields frame).filter (fun f => f ≠ []) = split_fields frame := by
      exact List.Sublist.eq_of_length (List.filter_sublist _) (by rw [hf, h3])
    intro f hf2
    rw [← hsub] at hf2
    simpa using (List.mem_filter.mp hf2).2

/-! ## Frame counters -/

theorem parse_sensor1_data_state (rnd : ℚ → ℚ) (st : SensorState) (f : List Char) :
    ((parse_sensor1_data rnd st f).1.is_valid = false ∧ (parse_sensor1_data rnd st f).2.2 = st) ∨
      ((parse_sensor1_data rnd st f).1.is_valid = true ∧
        (parse_sensor1_data rnd st f).2.2 = (get_timestamp st).2) := by
  unfold parse_sensor1_data
  repeat' split
  all_goals (simp only [reject1]; (try split_ifs) <;> simp)

theorem parse_sensor2_data_state (st : SensorState) (f : List Char) :
    ((parse_sensor2_data st f).1.is_valid = false ∧ (parse_sensor2_data st f).2.2 = st) ∨
      ((parse_sensor2_data st f).1.is_valid = true ∧
        (parse_sensor2_data st f).2.2 = (get_timestamp st).2) := by
  unfold parse_sensor2_data
  repeat' split
  all_goals (simp only [reject2]; (try split_ifs) <;> simp)

theorem update_statistics_counters (x : parse_result_t × Option sensor_data_t × SensorState) :
    (update_statistics x).1 = x.1 ∧ (update_statistics x).2.1 = x.2.1 ∧
      (update_statistics x).2.2.total_data_count = x.2.2.total_data_count ∧
      (update_statistics x).2.2.tick_count = x.2.2.tick_count ∧
      (x.1.is_valid = true →
        (update_statistics x).2.2.valid_data_count = incr32 x.2.2.valid_data_count ∧
        (update_statistics x).2.2.error_data_count = x.2.2.error_data_count) ∧
      (x.1.is_valid = false →
        (update_statistics x).2.2.error_data_count = incr32 x.2.2.error_data_count ∧
        (update_statistics x).2.2.valid_data_count = x.2.2.valid_data_count) := by
  unfold update_statistics
  split <;> simp_all

theorem dispatch_sensor1_counters (rnd : ℚ → ℚ) (st : SensorState) (f : List Char) :
    (dispatch_sensor1 rnd st f).2.2.total_data_count = st.total_data_count ∧
      (dispatch_sensor1 rnd st f).2.2.valid_data_count = st.valid_data_count ∧
      (dispatch_sensor1 rnd st f).2.2.error_data_count = st.error_data_count := by
  simp only [dispatch_sensor1]
  rcases parse_sensor1_data_state rnd st f with h | h <;> rw [h.2] <;> simp [get_timestamp]

theorem dispatch_sensor2_counters (st : SensorState) (f : List Char) :
    (dispatch_sensor2 st f).2.2.total_data_count = st.total_data_count ∧
      (dispatch_sensor2 st f).2.2.valid_data_count = st.valid_data_count ∧
      (dispatch_sensor2 st f).2.2.error_data_count = st.error_data_count := by
  simp only [dispatch_sensor2]
  rcases parse_sensor2_data_state st f with h | h <;> rw [h.2] <;> simp [get_timestamp]

theorem counters_step_update (st : SensorState)
    (x : parse_result_t × Option sensor_data_t × SensorState)
    (h1 : x.2.2.total_data_count = incr32 st.total_data_count)
    (h2 : x.2.2.valid_data_count = st.valid_data_count)
    (h3 : x.2.2.error_data_count = st.error_data_count) :
    counters_step st (update_statistics x) := by
  obtain ⟨e1, _, e3, _, e5, e6⟩ := update_statistics_counters x
  unfold counters_step
  rw [e1, e3, h1]
  refine ⟨rfl, ?_, ?_⟩
  · intro hv
    have := e5 hv
    rw [this.1, this.2, h2, h3]
    exact ⟨rfl, rfl⟩
  · intro hv
    have := e6 hv
    rw [this.1, this.2, h2, h3]
    exact ⟨rfl, rfl⟩

theorem parse_sensor_data_counters (rnd : ℚ → ℚ) (st : SensorState) (frame : List Char)
    (hlen : frame.count ',' = 2 → frame.length < 128) :
    ∃ r, parse_sensor_data rnd st frame = some r ∧ counters_step st r := by
  unfold parse_sensor_data
  by_cases hc : frame.count ',' = 2
  · have hl : ¬ frame.length ≥ 128 := by have := hlen hc; omega
    simp only [hc, hl, if_true, if_false]
    split
    · split
      · split
        · obtain ⟨a, b, c⟩ := dispatch_sensor1_counters rnd
            { st with total_data_count := incr32 st.total_data_count } frame
          exact ⟨_, rfl, counters_step_update st _ a b c⟩
        · obtain ⟨a, b, c⟩ := dispatch_sensor2_counters
            { st with total_data_count := incr32 st.total_data_count } frame
          exact ⟨_, rfl, counters_step_update st _ a b c⟩
      · obtain ⟨a, b, c⟩ := dispatch_sensor2_counters
          { st with total_data_count := incr32 st.total_data_count } frame
        exact ⟨_, rfl, counters_step_update st _ a b c⟩
    · exact ⟨_, rfl, counters_step_update st _ rfl rfl rfl⟩
  · simp only [hc, if_false]
    exact ⟨_, rfl, counters_step_update st _ rfl rfl rfl⟩

theorem counters_inv_step (rnd : ℚ → ℚ) (st : SensorState) (c : SensorCall)
    (hlen : call_defined c = true)
    (hinv : counters_inv st) :
    ∃ st1, sensor_step rnd st c = some st1 ∧ counters_inv st1 := by
  cases c with
  | reset => exact ⟨_, rfl, by simp [counters_inv, reset_sensor_statistics]⟩
  | parse f =>
    obtain ⟨r, hr, h1, h2, h3⟩ := parse_sensor_data_counters rnd st f
      (of_decide_eq_true hlen)
    refine ⟨r.2.2, by simp [sensor_step, hr], ?_⟩
    unfold counters_inv at hinv ⊢
    unfold incr32 at h1 h2 h3
    cases hv : r.1.is_valid with
    | true =>
      obtain ⟨a, b⟩ := h2 hv
      rw [h1, a, b, hinv]; omega
    | false =>
      obtain ⟨a, b⟩ := h3 hv
      rw [h1, a, b, hinv]; omega

theorem counters_inv_run (rnd : ℚ → ℚ) (calls : List SensorCall) (st : SensorState)
    (hlen : ∀ c ∈ calls, call_defined c = true)
    (hinv : counters_inv st) :
    ∃ st1, sensor_run rnd st calls = some st1 ∧ counters_inv st1 := by
  induction calls generalizing st with
  | nil => exact ⟨st, rfl, hinv⟩
  | cons c cs ih =>
    obtain ⟨st1, hs, hi⟩ := counters_inv_step rnd st c (hlen c (List.mem_cons_self _ _)) hinv
    obtain ⟨st2, hs2, hi2⟩ := ih st1 (fun d hd => hlen d (List.mem_cons_of_mem _ hd)) hi
    exact ⟨st2, by simp [sensor_run, hs, hs2], hi2⟩

/-- From `sensor_data_init`, every sequence of `parse_sensor_data` and
`reset_sensor_statistics` calls in which the frames with two commas are shorter
than 128 bytes, so that the copy into `input_copy` is defined, ends in a state with
`total = (valid + rejected) mod 2 ^ 32`; and every such `parse_sensor_data`
call increases `total_data_count` by one, `valid_data_count` by one when the
returned `is_valid` is true and `error_data_count` by one otherwise (each
modulo `2 ^ 32`), leaving the other counter unchanged. -/
theorem counters_total_on_defined_calls (rnd : ℚ → ℚ) (st0 : SensorState)
    (calls : List SensorCall) (hdef : ∀ c ∈ calls, call_defined c = true) :
    (∃ st, sensor_run rnd (sensor_data_init st0) calls = some st ∧
        st.total_data_count = (st.valid_data_count + st.error_data_count) % 4294967296) ∧
      ∀ st f, call_defined (SensorCall.parse f) = true →
        ∃ r, parse_sensor_data rnd st f = some r ∧
          r.2.2.total_data_count = incr32 st.total_data_count ∧
          (r.1.is_valid = true →
            r.2.2.valid_data_count = incr32 st.valid_data_count ∧
            r.2.2.error_data_count = st.error_data_count) ∧
          (r.1.is_valid = false →
            r.2.2.error_data_count = incr32 st.error_data_count ∧
            r.2.2.valid_data_count = st.valid_data_count) := by
  refine ⟨?_, ?_⟩
  · exact counters_inv_run rnd calls (sensor_data_init st0) hdef
      (by simp [counters_inv, sensor_data_init])
  · intro st f hf
    exact parse_sensor_data_counters rnd st f (of_decide_eq_true hf)

/-- The five frames of `example_complete_data_flow`, with a reset in
between. -/
theorem counters_total_example :
    ∃ st, sensor_run id (sensor_data_init sensor_boot)
        [SensorCall.parse "2021003WH,26.8,65.3".toList,
         SensorCall.parse "2021003WH,WINDOW_SENSOR,1".toList,
         SensorCall.reset,
         SensorCall.parse "2021004XY,22.1,45.7".toList,
         SensorCall.parse "INVALID_DATA".toList,
         SensorCall.parse "2021004XY,MOTION_SENSOR,2".toList] = some st ∧
      st.total_data_count = (st.valid_data_count + st.error_data_count) % 4294967296 :=
  (counters_total_on_defined_calls id sensor_boot
    [SensorCall.parse "2021003WH,26.8,65.3".toList,
     SensorCall.parse "2021003WH,WINDOW_SENSOR,1".toList,
     SensorCall.reset,
     SensorCall.parse "2021004XY,22.1,45.7".toList,
     SensorCall.parse "INVALID_DATA".toList,
     SensorCall.parse "2021004XY,MOTION_SENSOR,2".toList]
    (by decide)).1

/-! ## Frames without three tokens -/

theorem tokens_length_le (frame : List Char) :
    (tokens frame).length ≤ frame.count ',' + 1 := by
  rw [← split_fields_length]
  exact List.length_filter_le _ _

theorem parse_sensor1_data_short (rnd : ℚ → ℚ) (st : SensorState) (frame : List Char)
    (hlen : frame.length < 128) (hshort : (tokens frame).length ≤ 2) :
    (parse_sensor1_data rnd st frame).1.is_valid = false ∧
      (parse_sensor1_data rnd st frame).2.2 = st ∧
      (∀ t0 ts, tokens frame = t0 :: ts → 20 ≤ (trim_whitespace t0).length →
        (parse_sensor1_data rnd st frame).1.error_msg = ERROR_MSG_INVALID_ID) ∧
      ((∀ t0 ts, tokens frame = t0 :: ts → (trim_whitespace t0).length < 20) →
        (parse_sensor1_data rnd st frame).1.error_msg = ERROR_MSG_INVALID_FORMAT) := by
  have hl : ¬ frame.length ≥ 128 := by omega
  rcases h0 : tokens frame with _ | ⟨t0, ts0⟩
  · have hs0 := strtok_of_tokens_nil frame h0
    simp [parse_sensor1_data, hl, hs0, reject1]
  · obtain ⟨r0, hs0, hr0⟩ := strtok_of_tokens_cons frame t0 ts0 h0
    by_cases hid : 20 ≤ (trim_whitespace t0).length
    · simp only [parse_sensor1_data, hl, hs0, reject1, if_false, ge_iff_le, hid, if_true]
      refine ⟨trivial, trivial, fun _ _ _ _ => trivial, ?_⟩
      intro h
      have := h t0 ts0 rfl
      omega
    · rcases h1 : ts0 with _ | ⟨t1, ts1⟩
      · rw [h1] at hr0
        have hs1 := strtok_of_tokens_nil r0 hr0
        simp only [parse_sensor1_data, hl, hs0, hs1, reject1, if_false, ge_iff_le, hid]
        refine ⟨trivial, trivial, ?_, fun _ => trivial⟩
        intro a b hab hlong
        simp only [List.cons.injEq] at hab
        rw [← hab.1] at hlong
        exact absurd hlong hid
      · rw [h1] at hr0
        obtain ⟨r1, hs1, hr1⟩ := strtok_of_tokens_cons r0 t1 ts1 hr0
        have hts1 : ts1 = [] := by
          rw [h0, h1] at hshort
          simp only [List.length_cons] at hshort
          exact List.eq_nil_of_length_eq_zero (by omega)
        rw [hts1] at hr1
        have hs2 := strtok_of_tokens_nil r1 hr1
        simp only [parse_sensor1_data, hl, hs0, hs1, hs2, reject1, if_false, ge_iff_le, hid]
        refine ⟨by split <;> trivial, by split <;> trivial, ?_, fun _ => by split <;> trivial⟩
        intro a b hab hlong
        simp only [List.cons.injEq] at hab
        rw [← hab.1] at hlong
        exact absurd hlong hid

theorem parse_sensor2_data_short (st : SensorState) (frame : List Char)
    (hlen : frame.length < 128) (hshort : (tokens frame).length ≤ 2) :
    (parse_sensor2_data st frame).1.is_valid = false ∧
      (parse_sensor2_data st frame).2.2 = st ∧
      (∀ t0 ts, tokens frame = t0 :: ts → 20 ≤ (trim_whitespace t0).length →
        (parse_sensor2_data st frame).1.error_msg = ERROR_MSG_INVALID_ID) ∧
      (∀ t0 t1 ts, tokens frame = t0 :: t1 :: ts → (trim_whitespace t0).length < 20 →
        16 ≤ (trim_whitespace t1).length →
        (parse_sensor2_data st frame).1.error_msg = ERROR_MSG_INVALID_NAME) ∧
      ((∀ t0 ts, tokens frame = t0 :: ts → (trim_whitespace t0).length < 20) →
        (∀ t0 t1 ts, tokens frame = t0 :: t1 :: ts → (trim_whitespace t1).length < 16) →
        (parse_sensor2_data st frame).1.error_msg = ERROR_MSG_INVALID_FORMAT) := by
  have hl : ¬ frame.length ≥ 128 := by omega
  rcases h0 : tokens frame with _ | ⟨t0, ts0⟩
  · have hs0 := strtok_of_tokens_nil frame h0
    simp [parse_sensor2_data, hl, hs0, reject2]
  · obtain ⟨r0, hs0, hr0⟩ := strtok_of_tokens_cons frame t0 ts0 h0
    by_cases hid : 20 ≤ (trim_whitespace t0).length
    · simp only [parse_sensor2_data, hl, hs0, reject2, if_false, ge_iff_le, hid, if_true]
      refine ⟨trivial, trivial, fun _ _ _ _ => trivial, ?_, ?_⟩
      · intro a b c habc hshort0
        simp only [List.cons.injEq] at habc
        rw [← habc.1] at hshort0
        omega
      · intro h
        have := h t0 ts0 rfl
        omega
    · rcases h1 : ts0 with _ | ⟨t1, ts1⟩
      · rw [h1] at hr0
        have hs1 := strtok_of_tokens_nil r0 hr0
        simp only [parse_sensor2_data, hl, hs0, hs1, reject2, if_false, ge_iff_le, hid]
        refine ⟨trivial, trivial, ?_, ?_, fun _ _ => trivial⟩
        · intro a b hab hlong
          simp only [List.cons.injEq] at hab
          rw [← hab.1] at hlong
          exact absurd hlong hid
        · intro a b c habc
          simp at habc
      · rw [h1] at hr0
        obtain ⟨r1, hs1, hr1⟩ := strtok_of_tokens_cons r0 t1 ts1 hr0
        have hts1 : ts1 = [] := by
          rw [h0, h1] at hshort
          simp only [List.length_cons] at hshort
          exact List.eq_nil_of_length_eq_zero (by omega)
        rw [hts1] at hr1
        have hs2 := strtok_of_tokens_nil r1 hr1
        by_cases hname : 16 ≤ (trim_whitespace t1).length
        · simp only [parse_sensor2_data, hl, hs0, hs1, reject2, if_false, ge_iff_le, hid,
            hname, if_true]
          refine ⟨trivial, trivial, ?_, fun _ _ _ _ _ _ => trivial, ?_⟩
          · intro a b hab hlong
            simp only [List.cons.injEq] at hab
            rw [← hab.1] at hlong
            exact absurd hlong hid
          · intro _ h
            have := h t0 t1 ts1 rfl
            omega
        · simp only [parse_sensor2_data, hl, hs0, hs1, hs2, reject2, if_false, ge_iff_le, hid,
            hname]
          refine ⟨trivial, trivial, ?_, ?_, fun _ _ => trivial⟩
          · intro a b hab hlong
            simp only [List.cons.injEq] at hab
            rw [← hab.1] at hlong
            exact absurd hlong hid
          · intro a b c habc _ hlong
            simp only [List.cons.injEq] at habc
            rw [← habc.2.1] at hlong
            exact absurd hlong hname

theorem update_statistics_invalid (res : parse_result_t) (out : Option sensor_data_t)
    (st : SensorState) (h : res.is_valid = false) :
    update_statistics (res, out, st) =
      (res, out, { st with error_data_count := incr32 st.error_data_count }) := by
  simp [update_statistics, h]

theorem rejected_frame_counters (st : SensorState)
    (x : parse_result_t × Option sensor_data_t × SensorState)
    (hv : x.1.is_valid = false)
    (hst : x.2.2 = { st with total_data_count := incr32 st.total_data_count }) :
    (update_statistics x).1 = x.1 ∧
      (update_statistics x).2.2.total_data_count = incr32 st.total_data_count ∧
      (update_statistics x).2.2.valid_data_count = st.valid_data_count ∧
      (update_statistics x).2.2.error_data_count = incr32 st.error_data_count := by
  obtain ⟨e1, _, e3, _, _, e6⟩ := update_statistics_counters x
  obtain ⟨a, b⟩ := e6 hv
  rw [e1, e3, a, b, hst]
  exact ⟨rfl, rfl, rfl, rfl⟩

theorem reject_report_format (st : SensorState) (frame : List Char)
    (h : frame.count ',' ≠ 2 ∨ tokens frame = []) :
    reject_report st frame
      (update_statistics
        ({ is_valid := false, type := none, error_msg := ERROR_MSG_INVALID_FORMAT }, none,
          { st with total_data_count := incr32 st.total_data_count })) := by
  obtain ⟨e1, e2, e3, e4⟩ := rejected_frame_counters st
    ({ is_valid := false, type := none, error_msg := ERROR_MSG_INVALID_FORMAT }, none,
      { st with total_data_count := incr32 st.total_data_count }) rfl rfl
  refine ⟨by rw [e1], e2, e3, e4, fun _ => by rw [e1], ?_, ?_, fun _ _ => by rw [e1]⟩
  · intro hc a b hab
    rcases h with h | h
    · exact absurd hc h
    · rw [h] at hab; simp at hab
  · intro hc a b c habc
    rcases h with h | h
    · exact absurd hc h
    · rw [h] at habc; simp at habc

theorem reject_report_sensor2 (st : SensorState) (frame : List Char)
    (hlen : frame.length < 128) (hc : frame.count ',' = 2) (hshort : (tokens frame).length ≤ 2)
    (hnum : ∀ t0 t1 ts, tokens frame = t0 :: t1 :: ts → is_numeric_string t1 = false) :
    reject_report st frame
      (update_statistics
        (dispatch_sensor2 { st with total_data_count := incr32 st.total_data_count } frame)) := by
  obtain ⟨b1, b2, b3, b4, b5⟩ := parse_sensor2_data_short
    { st with total_data_count := incr32 st.total_data_count } frame hlen hshort
  obtain ⟨e1, e2, e3, e4⟩ := rejected_frame_counters st
    (dispatch_sensor2 { st with total_data_count := incr32 st.total_data_count } frame)
    (by simpa [dispatch_sensor2] using b1) (by simpa [dispatch_sensor2] using b2)
  have hmsg : (update_statistics (dispatch_sensor2
      { st with total_data_count := incr32 st.total_data_count } frame)).1.error_msg =
      (parse_sensor2_data { st with total_data_count := incr32 st.total_data_count }
        frame).1.error_msg := by rw [e1]; rfl
  refine ⟨by rw [e1]; simpa [dispatch_sensor2] using b1, e2, e3, e4,
    fun h => absurd hc h, ?_, ?_, ?_⟩
  · intro _ a b hab hlong
    rw [hmsg]; exact b3 a b hab hlong
  · intro _ a b c habc hs _ hlong
    rw [hmsg]; exact b4 a b c habc hs hlong
  · intro hA hB
    rw [hmsg]
    refine b5 hA ?_
    intro a b c habc
    rcases hB a b c habc with hnumt | hlt
    · rw [hnum a b c habc] at hnumt
      exact absurd hnumt (by simp)
    · exact hlt

theorem reject_report_sensor1 (rnd : ℚ → ℚ) (st : SensorState) (frame : List Char)
    (hlen : frame.length < 128) (hc : frame.count ',' = 2) (hshort : (tokens frame).length ≤ 2)
    (hnum : ∀ t0 t1 ts, tokens frame = t0 :: t1 :: ts → is_numeric_string t1 = true) :
    reject_report st frame
      (update_statistics
        (dispatch_sensor1 rnd { st with total_data_count := incr32 st.total_data_count }
          frame)) := by
  obtain ⟨a1, a2, a3, a4⟩ := parse_sensor1_data_short rnd
    { st with total_data_count := incr32 st.total_data_count } frame hlen hshort
  obtain ⟨e1, e2, e3, e4⟩ := rejected_frame_counters st
    (dispatch_sensor1 rnd { st with total_data_count := incr32 st.total_data_count } frame)
    (by simpa [dispatch_sensor1] using a1) (by simpa [dispatch_sensor1] using a2)
  have hmsg : (update_statistics (dispatch_sensor1 rnd
      { st with total_data_count := incr32 st.total_data_count } frame)).1.error_msg =
      (parse_sensor1_data rnd { st with total_data_count := incr32 st.total_data_count }
        frame).1.error_msg := by rw [e1]; rfl
  refine ⟨by rw [e1]; simpa [dispatch_sensor1] using a1, e2, e3, e4,
    fun h => absurd hc h, ?_, ?_, ?_⟩
  · intro _ a b hab hlong
    rw [hmsg]; exact a3 a b hab hlong
  · intro _ a b c habc _ hn _
    rw [hnum a b c habc] at hn
    exact absurd hn (by simp)
  · intro hA _
    rw [hmsg]
    exact a4 hA

theorem parse_sensor_data_reject_report (rnd : ℚ → ℚ) (st : SensorState) (frame : List Char)
    (hlen : frame.length < 128) (h3 : ¬ three_tokens frame) :
    ∃ r, parse_sensor_data rnd st frame = some r ∧ reject_report st frame r := by
  have hl : ¬ frame.length ≥ 128 := by omega
  by_cases hc : frame.count ',' = 2
  · have hshort : (tokens frame).length ≤ 2 := by
      have h1 := tokens_length_le frame
      have h2 : (tokens frame).length ≠ 3 := fun h => h3 ((three_tokens_iff frame).mpr ⟨hc, h⟩)
      omega
    cases h0 : tokens frame with
    | nil =>
      have hs0 := strtok_of_tokens_nil frame h0
      exact ⟨_, by simp only [parse_sensor_data, hc, hl, hs0, if_true, if_false],
        reject_report_format st frame (Or.inr h0)⟩
    | cons t0 ts0 =>
      obtain ⟨r0, hs0, hr0⟩ := strtok_of_tokens_cons frame t0 ts0 h0
      cases h1 : ts0 with
      | nil =>
        rw [h1] at hr0
        have hs1 := strtok_of_tokens_nil r0 hr0
        refine ⟨_, by simp only [parse_sensor_data, hc, hl, hs0, hs1, if_true, if_false],
          reject_report_sensor2 st frame hlen hc hshort ?_⟩
        intro a b c habc
        rw [h0, h1] at habc
        simp at habc
      | cons t1 ts1 =>
        rw [h1] at hr0
        obtain ⟨r1, hs1, _⟩ := strtok_of_tokens_cons r0 t1 ts1 hr0
        by_cases hnum : is_numeric_string t1 = true
        · refine ⟨_, by simp only [parse_sensor_data, hc, hl, hs0, hs1, hnum, if_true, if_false],
            reject_report_sensor1 rnd st frame hlen hc hshort ?_⟩
          intro a b c habc
          rw [h0, h1] at habc
          simp only [List.cons.injEq] at habc
          rw [← habc.2.1]; exact hnum
        · have hnf : is_numeric_string t1 = false := by simpa using hnum
          refine ⟨_, by
              simp only [parse_sensor_data, hc, hl, hs0, hs1, hnf, if_true, if_false]
              rfl,
            reject_report_sensor2 st frame hlen hc hshort ?_⟩
          intro a b c habc
          rw [h0, h1] at habc
          simp only [List.cons.injEq] at habc
          rw [← habc.2.1]; exact hnf
  · exact ⟨_, by simp only [parse_sensor_data, hc, if_false],
      reject_report_format st frame (Or.inl hc)⟩

/-- C6, as the code has it. For every frame shorter than 128 bytes whose split
on `','` does not yield exactly three non-empty tokens, `parse_sensor_data`
returns `is_valid = false` and counts the frame as rejected (total and rejected
go up by one, valid is unchanged).  The reason is "Invalid data format" when
the frame does not have exactly two commas, and also when its first non-empty
token trims to fewer than 20 bytes and its second non-empty token, if there is
one, is numeric or trims to fewer than 16 bytes.  With two commas, a first
non-empty token that trims to 20 bytes or more gives "Invalid student ID", and
otherwise a non-numeric second non-empty token that trims to 16 bytes or more
gives "Invalid sensor name". -/
theorem C6_reject_without_three_tokens (rnd : ℚ → ℚ) (st : SensorState) (frame : List Char)
    (hlen : frame.length < 128) (h3 : ¬ three_tokens frame) :
    ∃ r, parse_sensor_data rnd st frame = some r ∧ r.1.is_valid = false ∧
      r.2.2.total_data_count = incr32 st.total_data_count ∧
      r.2.2.valid_data_count = st.valid_data_count ∧
      r.2.2.error_data_count = incr32 st.error_data_count ∧
      (frame.count ',' ≠ 2 → r.1.error_msg = "Invalid data format") ∧
      (frame.count ',' = 2 → ∀ t0 ts, tokens frame = t0 :: ts →
        20 ≤ (trim_whitespace t0).length → r.1.error_msg = "Invalid student ID") ∧
      (frame.count ',' = 2 → ∀ t0 t1 ts, tokens frame = t0 :: t1 :: ts →
        (trim_whitespace t0).length < 20 → is_numeric_string t1 = false →
        16 ≤ (trim_whitespace t1).length → r.1.error_msg = "Invalid sensor name") ∧
      ((∀ t0 ts, tokens frame = t0 :: ts → (trim_whitespace t0).length < 20) →
        (∀ t0 t1 ts, tokens frame = t0 :: t1 :: ts →
          is_numeric_string t1 = true ∨ (trim_whitespace t1).length < 16) →
        r.1.error_msg = "Invalid data format") := by
  obtain ⟨r, hr, hrep⟩ := parse_sensor_data_reject_report rnd st frame hlen h3
  exact ⟨r, hr, hrep⟩

/-- Witness of C6: `"invalid,data"` has one comma; from the initial state it is
rejected with "Invalid data format" and the counters become total 1, valid 0,
rejected 1. -/
theorem C6_witness :
    ∃ r, parse_sensor_data id (sensor_data_init sensor_boot) "invalid,data".toList = some r ∧
      r.1.is_valid = false ∧ r.1.error_msg = "Invalid data format" ∧
      r.2.2.total_data_count = 1 ∧ r.2.2.valid_data_count = 0 ∧ r.2.2.error_data_count = 1 := by
  obtain ⟨r, h1, h2, h3, h4, h5, h6, _⟩ :=
    C6_reject_without_three_tokens id (sensor_data_init sensor_boot) "invalid,data".toList
      (by decide) (by decide)
  exact ⟨r, h1, h2, h6 (by decide), h3, h4, h5⟩

/-- C6 as stated fails: the frame of 25 letters `A` followed by `",,1"` is
shorter than 128 bytes and has an empty token, yet `parse_sensor_data` rejects
it with "Invalid student ID", not with "Invalid data format". -/
theorem C6_counterexample :
    "AAAAAAAAAAAAAAAAAAAAAAAAA,,1".toList.length < 128 ∧
      ¬ three_tokens "AAAAAAAAAAAAAAAAAAAAAAAAA,,1".toList ∧
      (parse_sensor_data id sensor_boot "AAAAAAAAAAAAAAAAAAAAAAAAA,,1".toList).map
        (fun r => (r.1.is_valid, r.1.error_msg)) = some (false, "Invalid student ID") := by
  decide

/-! ## Numeric strings -/

theorem is_digit_iff (c : Char) : is_digit c = true ↔ ¬ (c < '0' ∨ c > '9') := by
  simp only [is_digit, Bool.and_eq_true, decide_eq_true_eq, not_or, not_lt, gt_iff_lt]

theorem is_digit_ne_dot (c : Char) (h : is_digit c = true) : c ≠ '.' := by
  rintro rfl
  exact absurd h (by decide)

theorem is_numeric_loop_iff (l : List Char) (has_dot : Bool) :
    is_numeric_loop l has_dot = true ↔
      (∀ c ∈ l, is_digit c = true ∨ c = '.') ∧ l.count '.' + (if has_dot then 1 else 0) ≤ 1 := by
  induction l generalizing has_dot with
  | nil => cases has_dot <;> simp [is_numeric_loop]
  | cons c cs ih =>
    by_cases hdot : c = '.'
    · subst hdot
      cases has_dot with
      | true => simp [is_numeric_loop]
      | false =>
        simp only [is_numeric_loop, if_true, Bool.false_eq_true, if_false, ih true,
          List.mem_cons, forall_eq_or_imp, or_true, true_and, List.count_cons_self, add_zero]
    · by_cases hd : c < '0' ∨ c > '9'
      · have hnd : ¬ is_digit c = true := fun h => (is_digit_iff c).mp h hd
        simp only [is_numeric_loop, hdot, if_false, hd, if_true, Bool.false_eq_true, false_iff,
          List.mem_cons, forall_eq_or_imp, not_and]
        intro h
        rcases h.1 with h1 | h1
        · exact absurd h1 hnd
        · first
          | exact absurd h1 hdot
          | exact h1.elim
      · have hdg : is_digit c = true := (is_digit_iff c).mpr hd
        have hne : ¬ ('.' = c) := fun h => hdot h.symm
        simp only [is_numeric_loop, hdot, if_false, hd, ih has_dot, List.mem_cons,
          forall_eq_or_imp, hdg, true_or, true_and, List.count_cons_of_ne hne]

/-- What `is_numeric_string` computes: after an optional leading `-` the rest
is non-empty, consists of digits and `.` only, and has at most one `.`. -/
theorem is_numeric_string_iff (s : List Char) :
    is_numeric_string s = true ↔
      ((if s.head? = some '-' then s.drop 1 else s) ≠ [] ∧
        (∀ c ∈ (if s.head? = some '-' then s.drop 1 else s), is_digit c = true ∨ c = '.') ∧
        (if s.head? = some '-' then s.drop 1 else s).count '.' ≤ 1) := by
  cases s with
  | nil => simp [is_numeric_string]
  | cons c cs =>
    by_cases hc : c = '-'
    · subst hc
      have := is_numeric_loop_iff cs false
      simp only [Bool.false_eq_true, if_false, add_zero] at this
      cases cs with
      | nil => simp [is_numeric_string]
      | cons d ds =>
        simp only [is_numeric_string, if_true, List.drop_succ_cons, List.drop_zero,
          List.head?_cons, List.length_cons]
        by_cases hloop : is_numeric_loop (d :: ds) false = true
        · simpa [hloop] using this.mp hloop
        · simp only [hloop, if_false, Bool.false_eq_true, false_iff]
          exact fun h => hloop (this.mpr h.2)
    · have := is_numeric_loop_iff (c :: cs) false
      simp only [Bool.false_eq_true, if_false, add_zero] at this
      have hh : ¬ (some c = some '-') := by simpa using hc
      simp only [is_numeric_string, hc, if_false, List.drop_zero, List.head?_cons, hh,
        List.length_cons]
      by_cases hloop : is_numeric_loop (c :: cs) false = true
      · simpa [hloop] using this.mp hloop
      · simp only [hloop, if_false, Bool.false_eq_true, false_iff]
        exact fun h => hloop (this.mpr h.2)

theorem well_formed_decimal_iff (s : List Char) :
    well_formed_decimal s = true ↔
      ((∀ c ∈ (if s.head? = some '-' then s.drop 1 else s), is_digit c = true ∨ c = '.') ∧
        (if s.head? = some '-' then s.drop 1 else s).count '.' ≤ 1 ∧
        ∃ c ∈ (if s.head? = some '-' then s.drop 1 else s), is_digit c = true) := by
  simp [well_formed_decimal, and_assoc]

theorem well_formed_is_numeric (s : List Char) (h : well_formed_decimal s = true) :
    is_numeric_string s = true := by
  obtain ⟨h1, h2, c, hc, _⟩ := (well_formed_decimal_iff s).mp h
  exact (is_numeric_string_iff s).mpr ⟨List.ne_nil_of_mem hc, h1, h2⟩

theorem only_dots_singleton (body : List Char) (hne : body ≠ [])
    (hall : ∀ c ∈ body, c = '.') (hcount : body.count '.' ≤ 1) : body = ['.'] := by
  match body, hne, hall, hcount with
  | [c], _, hall, _ => rw [hall c (List.mem_singleton_self c)]
  | c :: d :: rest, _, hall, hcount =>
    have h1 := hall c (List.mem_cons_self _ _)
    have h2 := hall d (List.mem_cons_of_mem _ (List.mem_cons_self _ _))
    subst h1 h2
    simp at hcount

/-- The strings `is_numeric_string` accepts are the well-formed decimal numbers
of the specification and, beyond them, exactly `"."` and `"-."`. -/
theorem is_numeric_string_spec (s : List Char) :
    is_numeric_string s = true ↔
      (well_formed_decimal s = true ∨ s = ['.'] ∨ s = ['-', '.']) := by
  constructor
  · intro h
    obtain ⟨hne, hall, hcount⟩ := (is_numeric_string_iff s).mp h
    by_cases hdig : ∃ c ∈ (if s.head? = some '-' then s.drop 1 else s), is_digit c = true
    · exact Or.inl ((well_formed_decimal_iff s).mpr ⟨hall, hcount, hdig⟩)
    · right
      have hdots : ∀ c ∈ (if s.head? = some '-' then s.drop 1 else s), c = '.' := by
        intro c hc
        rcases hall c hc with h1 | h1
        · exact absurd ⟨c, hc, h1⟩ hdig
        · exact h1
      have hb := only_dots_singleton _ hne hdots hcount
      cases s with
      | nil => simp at hne
      | cons x xs =>
        by_cases hx : x = '-'
        · subst hx
          simp only [List.head?_cons, if_true, List.drop_succ_cons, List.drop_zero] at hb
          right; rw [hb]
        · have hh : ¬ (some x = some '-') := by simpa using hx
          simp only [List.head?_cons, hh, if_false] at hb
          left; exact hb
  · rintro (h | h | h)
    · exact well_formed_is_numeric s h
    · subst h; decide
    · subst h; decide

/-- C8 at its failing inputs: `is_numeric_string` returns `true` for `"."` and
for `"-."`, neither of which is a well-formed decimal number; on `""`, `"-"`,
`"1.2.3"` and `"12a"` it returns `false`. -/
theorem C8_is_numeric_string_accepts_lone_dot :
    is_numeric_string ".".toList = true ∧ is_numeric_string "-.".toList = true ∧
      well_formed_decimal ".".toList = false ∧ well_formed_decimal "-.".toList = false ∧
      is_numeric_string "".toList = false ∧ is_numeric_string "-".toList = false ∧
      is_numeric_string "1.2.3".toList = false ∧ is_numeric_string "12a".toList = false := by
  decide

/-! ## Sensor-1 frames -/

/-- The record `parse_sensor1_data` has filled in when it reaches the range
check. -/
theorem parse_sensor1_data_three (rnd : ℚ → ℚ) (st : SensorState) (frame : List Char)
    (t1 t2 t3 : List Char) (ts : List (List Char)) (hlen : frame.length < 128)
    (htok : tokens frame = t1 :: t2 :: t3 :: ts)
    (hid : (trim_whitespace t1).length < 20)
    (hn2 : is_numeric_string (trim_whitespace t2) = true)
    (hn3 : is_numeric_string (trim_whitespace t3) = true) :
    parse_sensor1_data rnd st frame =
      if validate_sensor1_data
          { student_id := trim_whitespace t1, sensor_name := SENSOR1_NAME,
            temperature := parse_float_safe rnd (trim_whitespace t2),
            humidity := parse_float_safe rnd (trim_whitespace t3),
            status := 0, timestamp := 0 } = false then
        reject1 st ERROR_MSG_INVALID_RANGE
          (some { student_id := trim_whitespace t1, sensor_name := SENSOR1_NAME,
                  temperature := parse_float_safe rnd (trim_whitespace t2),
                  humidity := parse_float_safe rnd (trim_whitespace t3),
                  status := 0, timestamp := 0 })
      else
        ({ is_valid := true, type := some SENSOR_TYPE_TEMP_HUMIDITY, error_msg := "" },
          some { student_id := trim_whitespace t1, sensor_name := SENSOR1_NAME,
                 temperature := parse_float_safe rnd (trim_whitespace t2),
                 humidity := parse_float_safe rnd (trim_whitespace t3),
                 status := determine_sensor1_status
                   { student_id := trim_whitespace t1, sensor_name := SENSOR1_NAME,
                     temperature := parse_float_safe rnd (trim_whitespace t2),
                     humidity := parse_float_safe rnd (trim_whitespace t3),
                     status := 0, timestamp := incr32 st.tick_count },
                 timestamp := incr32 st.tick_count },
          { st with tick_count := incr32 st.tick_count }) := by
  have hl : ¬ frame.length ≥ 128 := by omega
  have hid2 : ¬ (trim_whitespace t1).length ≥ 20 := by omega
  obtain ⟨r0, hs0, hr0⟩ := strtok_of_tokens_cons frame t1 _ htok
  obtain ⟨r1, hs1, hr1⟩ := strtok_of_tokens_cons r0 t2 _ hr0
  obtain ⟨r2, hs2, _⟩ := strtok_of_tokens_cons r1 t3 _ hr1
  simp only [parse_sensor1_data, hl, hs0, hs1, hs2, hid2, hn2, hn3, if_false, Bool.not_true,
    Bool.false_eq_true, sensor1_zero, get_timestamp]
  split <;> simp_all

theorem validate_sensor1_data_iff (d : sensor1_data_t) :
    validate_sensor1_data d = true ↔
      (is_valid_student_id d.student_id = true ∧ -40 ≤ d.temperature ∧ d.temperature ≤ 85 ∧
        0 ≤ d.humidity ∧ d.humidity ≤ 100) := by
  unfold validate_sensor1_data
  split_ifs with a b c
  · simp_all
  · simp only [Bool.false_eq_true, false_iff, not_and, not_le]
    intro _ h40 h85
    rcases b with b | b
    · exact absurd h40 (not_le.mpr b)
    · exact absurd h85 (not_le.mpr b)
  · simp only [Bool.false_eq_true, false_iff, not_and, not_le]
    intro _ _ _ h0
    rcases c with c | c
    · exact absurd h0 (not_le.mpr c)
    · exact c
  · simp only [not_or, not_lt, gt_iff_lt] at b c
    simp only [Bool.not_eq_true, Bool.not_eq_true', Bool.not_eq_false] at a
    exact ⟨fun _ => ⟨a, b.1, b.2, c.1, c.2⟩, fun _ => rfl⟩

theorem atof_value_of_scan (s : List Char) (p : decimal_parts) (m : Nat)
    (hp : scan_decimal s = p) (hm : digits_value (p.int_digits ++ p.frac_digits) = m) :
    atof_value s =
      if p.negative then -((m : ℚ) / 10 ^ p.frac_digits.length)
      else (m : ℚ) / 10 ^ p.frac_digits.length := by
  simp only [atof_value, hp, hm]

theorem float_conversion_int (rnd : ℚ → ℚ) (h : float_conversion rnd) (m : Int)
    (hm : |m| ≤ 16777216) : rnd (m : ℚ) = (m : ℚ) := by
  have := h.2 m 0 hm (by norm_num)
  simpa using this

theorem float_conversion_between (rnd : ℚ → ℚ) (h : float_conversion rnd) (lo hi : Int)
    (hlo : |lo| ≤ 16777216) (hhi : |hi| ≤ 16777216) (x : ℚ)
    (h1 : (lo : ℚ) ≤ x) (h2 : x ≤ (hi : ℚ)) : (lo : ℚ) ≤ rnd x ∧ rnd x ≤ (hi : ℚ) := by
  have a := h.1 h1
  have b := h.1 h2
  rw [float_conversion_int rnd h lo hlo] at a
  rw [float_conversion_int rnd h hi hhi] at b
  exact ⟨a, b⟩

theorem id_float_conversion : float_conversion id :=
  ⟨fun _ _ h => h, fun _ _ _ _ => rfl⟩

/-- C7 at its failing input: `"A, 25.6 ,60.2"` has three non-empty tokens and
its second token trims to the well-formed decimal `"25.6"`, which
`parse_sensor1_data` accepts; `parse_sensor_data` tests the untrimmed token
`" 25.6 "`, classifies the frame as Sensor-2 and rejects it with "Data out of
range". -/
theorem C7_untrimmed_token_classified_sensor2 :
    three_tokens "A, 25.6 ,60.2".toList ∧
      tokens "A, 25.6 ,60.2".toList = ["A".toList, " 25.6 ".toList, "60.2".toList] ∧
      well_formed_decimal (trim_whitespace " 25.6 ".toList) = true ∧
      is_numeric_string " 25.6 ".toList = false ∧
      (parse_sensor_data id sensor_boot "A, 25.6 ,60.2".toList).map
        (fun r => (r.1.is_valid, r.1.type, r.1.error_msg, r.2.1.map (fun d => d.type))) =
        some (false, some SENSOR_TYPE_INTERRUPT, "Data out of range",
          some SENSOR_TYPE_INTERRUPT) ∧
      (parse_sensor1_data id sensor_boot "A, 25.6 ,60.2".toList).1.is_valid = true := by
  refine ⟨by decide, by decide, by decide, by decide, by decide, ?_⟩
  rw [parse_sensor1_data_three id sensor_boot "A, 25.6 ,60.2".toList "A".toList
    " 25.6 ".toList "60.2".toList [] (by decide) (by decide) (by decide) (by decide)
    (by decide)]
  have hv : validate_sensor1_data
      { student_id := trim_whitespace "A".toList, sensor_name := SENSOR1_NAME,
        temperature := parse_float_safe id (trim_whitespace " 25.6 ".toList),
        humidity := parse_float_safe id (trim_whitespace "60.2".toList),
        status := 0, timestamp := 0 } = true := by
    rw [validate_sensor1_data_iff]
    have e1 : trim_whitespace " 25.6 ".toList = "25.6".toList := by decide
    have e2 : trim_whitespace "60.2".toList = "60.2".toList := by decide
    have a1 := atof_value_of_scan "25.6".toList
      { negative := false, int_digits := "25".toList, frac_digits := "6".toList } 256
      (by decide) (by decide)
    have a2 := atof_value_of_scan "60.2".toList
      { negative := false, int_digits := "60".toList, frac_digits := "2".toList } 602
      (by decide) (by decide)
    simp only [parse_float_safe, e1, e2, a1, a2, id]
    refine ⟨by decide, ?_, ?_, ?_, ?_⟩ <;> norm_num
  rw [hv]
  simp

theorem is_valid_student_id_iff (s : List Char) :
    is_valid_student_id s = true ↔ (1 ≤ s.length ∧ s.length ≤ 19) := by
  unfold is_valid_student_id
  split
  · simp_all
  · simp only [MAX_STUDENT_ID_LEN, decide_eq_true_eq]; omega

/-- Outcome of `parse_sensor1_data` on a frame whose first three tokens pass
the shape checks: only the range check is left. -/
theorem sensor1_range_outcome (rnd : ℚ → ℚ) (st : SensorState) (frame : List Char)
    (t1 t2 t3 : List Char) (ts : List (List Char)) (hlen : frame.length < 128)
    (htok : tokens frame = t1 :: t2 :: t3 :: ts)
    (hid : is_valid_student_id (trim_whitespace t1) = true)
    (hn2 : is_numeric_string (trim_whitespace t2) = true)
    (hn3 : is_numeric_string (trim_whitespace t3) = true) :
    ((parse_sensor1_data rnd st frame).1.is_valid = true ↔
        (-40 ≤ parse_float_safe rnd (trim_whitespace t2) ∧
          parse_float_safe rnd (trim_whitespace t2) ≤ 85 ∧
          0 ≤ parse_float_safe rnd (trim_whitespace t3) ∧
          parse_float_safe rnd (trim_whitespace t3) ≤ 100)) ∧
      ((parse_sensor1_data rnd st frame).1.is_valid = false →
        (parse_sensor1_data rnd st frame).1.error_msg = ERROR_MSG_INVALID_RANGE) ∧
      ((parse_sensor1_data rnd st frame).1.is_valid = true →
        (parse_sensor1_data rnd st frame) =
          ({ is_valid := true, type := some SENSOR_TYPE_TEMP_HUMIDITY, error_msg := "" },
            some { student_id := trim_whitespace t1, sensor_name := SENSOR1_NAME,
                   temperature := parse_float_safe rnd (trim_whitespace t2),
                   humidity := parse_float_safe rnd (trim_whitespace t3),
                   status := determine_sensor1_status
                     { student_id := trim_whitespace t1, sensor_name := SENSOR1_NAME,
                       temperature := parse_float_safe rnd (trim_whitespace t2),
                       humidity := parse_float_safe rnd (trim_whitespace t3),
                       status := 0, timestamp := incr32 st.tick_count },
                   timestamp := incr32 st.tick_count },
            { st with tick_count := incr32 st.tick_count })) := by
  have hid2 : (trim_whitespace t1).length < 20 := by
    have := (is_valid_student_id_iff _).mp hid
    omega
  rw [parse_sensor1_data_three rnd st frame t1 t2 t3 ts hlen htok hid2 hn2 hn3]
  have hiff := validate_sensor1_data_iff
    { student_id := trim_whitespace t1, sensor_name := SENSOR1_NAME,
      temperature := parse_float_safe rnd (trim_whitespace t2),
      humidity := parse_float_safe rnd (trim_whitespace t3),
      status := 0, timestamp := 0 }
  simp only [hid, true_and] at hiff
  by_cases hv : validate_sensor1_data
      { student_id := trim_whitespace t1, sensor_name := SENSOR1_NAME,
        temperature := parse_float_safe rnd (trim_whitespace t2),
        humidity := parse_float_safe rnd (trim_whitespace t3),
        status := 0, timestamp := 0 } = true
  · have hr := hiff.mp hv
    simp [hv, hr]
  · have hvf : validate_sensor1_data
        { student_id := trim_whitespace t1, sensor_name := SENSOR1_NAME,
          temperature := parse_float_safe rnd (trim_whitespace t2),
          humidity := parse_float_safe rnd (trim_whitespace t3),
          status := 0, timestamp := 0 } = false := by simpa using hv
    have hnr := fun h => hv (hiff.mpr h)
    simp only [hvf, if_true, reject1, Bool.false_eq_true, false_iff, false_implies, and_true,
      implies_true, true_and]
    exact hnr

/-- Every record written by an accepting `parse_sensor1_data` call passed
`validate_sensor1_data`. -/
theorem parse_sensor1_data_accept_range (rnd : ℚ → ℚ) (st : SensorState) (frame : List Char) :
    (parse_sensor1_data rnd st frame).1.is_valid = true →
    ∃ d, (parse_sensor1_data rnd st frame).2.1 = some d ∧
      -40 ≤ d.temperature ∧ d.temperature ≤ 85 ∧ 0 ≤ d.humidity ∧ d.humidity ≤ 100 := by
  unfold parse_sensor1_data
  repeat' split
  all_goals (simp only [reject1]; try split_ifs)
  all_goals (try (intro h; simp at h; done))
  all_goals simp_all [validate_sensor1_data_iff]

/-- An accepting `parse_sensor1_data` call wrote the trimmed first token, the
literal sensor name and the converted second and third tokens. -/
theorem parse_sensor1_data_accept_fields (rnd : ℚ → ℚ) (st : SensorState) (frame : List Char)
    (t1 t2 t3 : List Char) (ts : List (List Char))
    (htok : tokens frame = t1 :: t2 :: t3 :: ts) :
    (parse_sensor1_data rnd st frame).1.is_valid = true →
    ∃ d, (parse_sensor1_data rnd st frame).2.1 = some d ∧
      d.student_id = trim_whitespace t1 ∧ d.sensor_name = SENSOR1_NAME ∧
      d.temperature = parse_float_safe rnd (trim_whitespace t2) ∧
      d.humidity = parse_float_safe rnd (trim_whitespace t3) ∧
      d.timestamp = incr32 st.tick_count ∧
      (parse_sensor1_data rnd st frame).2.2 = { st with tick_count := incr32 st.tick_count } := by
  obtain ⟨r0, hs0, hr0⟩ := strtok_of_tokens_cons frame t1 _ htok
  obtain ⟨r1, hs1, hr1⟩ := strtok_of_tokens_cons r0 t2 _ hr0
  obtain ⟨r2, hs2, _⟩ := strtok_of_tokens_cons r1 t3 _ hr1
  simp only [parse_sensor1_data, hs0, hs1, hs2, reject1, sensor1_zero, get_timestamp]
  split_ifs <;> simp

theorem parse_sensor2_data_type (st : SensorState) (frame : List Char) :
    (parse_sensor2_data st frame).1.type = some SENSOR_TYPE_INTERRUPT := by
  unfold parse_sensor2_data
  repeat' split
  all_goals (simp only [reject2]; try split_ifs)
  all_goals rfl

theorem float_conversion_le_dyadic (rnd : ℚ → ℚ) (h : float_conversion rnd) (m : Int) (k : Nat)
    (hm : |m| ≤ 16777216) (hk : k ≤ 64) (x : ℚ) (hx : x ≤ (m : ℚ) / 2 ^ k) :
    rnd x ≤ (m : ℚ) / 2 ^ k := by
  have := h.1 hx
  rwa [h.2 m k hm hk] at this

theorem float_conversion_ge_dyadic (rnd : ℚ → ℚ) (h : float_conversion rnd) (m : Int) (k : Nat)
    (hm : |m| ≤ 16777216) (hk : k ≤ 64) (x : ℚ) (hx : (m : ℚ) / 2 ^ k ≤ x) :
    (m : ℚ) / 2 ^ k ≤ rnd x := by
  have := h.1 hx
  rwa [h.2 m k hm hk] at this

theorem atof_value_examples :
    atof_value "-40.0".toList = -40 ∧ atof_value "85.0".toList = 85 ∧
      atof_value "-40.01".toList = -4001 / 100 ∧ atof_value "85.01".toList = 8501 / 100 ∧
      atof_value "120.0".toList = 120 ∧ atof_value "60.2".toList = 301 / 5 ∧
      atof_value "25.6".toList = 128 / 5 := by
  have a1 := atof_value_of_scan "-40.0".toList
    { negative := true, int_digits := "40".toList, frac_digits := "0".toList } 400
    (by decide) (by decide)
  have a2 := atof_value_of_scan "85.0".toList
    { negative := false, int_digits := "85".toList, frac_digits := "0".toList } 850
    (by decide) (by decide)
  have a3 := atof_value_of_scan "-40.01".toList
    { negative := true, int_digits := "40".toList, frac_digits := "01".toList } 4001
    (by decide) (by decide)
  have a4 := atof_value_of_scan "85.01".toList
    { negative := false, int_digits := "85".toList, frac_digits := "01".toList } 8501
    (by decide) (by decide)
  have a5 := atof_value_of_scan "120.0".toList
    { negative := false, int_digits := "120".toList, frac_digits := "0".toList } 1200
    (by decide) (by decide)
  have a6 := atof_value_of_scan "60.2".toList
    { negative := false, int_digits := "60".toList, frac_digits := "2".toList } 602
    (by decide) (by decide)
  have a7 := atof_value_of_scan "25.6".toList
    { negative := false, int_digits := "25".toList, frac_digits := "6".toList } 256
    (by decide) (by decide)
  rw [a1, a2, a3, a4, a5, a6, a7]
  norm_num

theorem float_conversion_examples (rnd : ℚ → ℚ) (h : float_conversion rnd) :
    rnd (-40) = -40 ∧ rnd 85 = 85 ∧ rnd 120 = 120 ∧ rnd (-4001 / 100) < -40 ∧
      85 < rnd (8501 / 100) ∧ (0 ≤ rnd (301 / 5) ∧ rnd (301 / 5) ≤ 100) ∧
      (10 ≤ rnd (301 / 5) ∧ rnd (301 / 5) ≤ 90) ∧ (-20 ≤ rnd (128 / 5) ∧ rnd (128 / 5) ≤ 60) := by
  have e1 := float_conversion_int rnd h (-40) (by norm_num)
  have e2 := float_conversion_int rnd h 85 (by norm_num)
  have e3 := float_conversion_int rnd h 120 (by norm_num)
  have e4 := float_conversion_le_dyadic rnd h (-5121) 7 (by norm_num) (by norm_num)
    (-4001 / 100) (by norm_num)
  have e5 := float_conversion_ge_dyadic rnd h 10881 7 (by norm_num) (by norm_num)
    (8501 / 100) (by norm_num)
  have e6 := float_conversion_between rnd h 0 100 (by norm_num) (by norm_num) (301 / 5)
    (by norm_num) (by norm_num)
  have e7 := float_conversion_between rnd h 10 90 (by norm_num) (by norm_num) (301 / 5)
    (by norm_num) (by norm_num)
  have e8 := float_conversion_between rnd h (-20) 60 (by norm_num) (by norm_num) (128 / 5)
    (by norm_num) (by norm_num)
  norm_num at e1 e2 e3 e4 e5 e6 e7 e8
  refine ⟨e1, e2, e3, ?_, ?_, e6, e7, e8⟩
  · linarith
  · linarith

theorem parse_sensor1_data_type (rnd : ℚ → ℚ) (st : SensorState) (frame : List Char) :
    (parse_sensor1_data rnd st frame).1.type = some SENSOR_TYPE_TEMP_HUMIDITY := by
  unfold parse_sensor1_data
  repeat' split
  all_goals (simp only [reject1]; try split_ifs)
  all_goals rfl

/-- What the classification of `parse_sensor_data` computes on a frame of three
non-empty tokens: Sensor-1 exactly when `is_numeric_string` accepts the second
token as `strtok` returns it, untrimmed. -/
theorem parse_sensor_data_classification (rnd : ℚ → ℚ) (st : SensorState)
    (frame t1 t2 t3 : List Char) (hlen : frame.length < 128) (h3 : three_tokens frame)
    (htok : tokens frame = [t1, t2, t3]) :
    ∃ r, parse_sensor_data rnd st frame = some r ∧
      (r.1.type = some SENSOR_TYPE_TEMP_HUMIDITY ↔ is_numeric_string t2 = true) ∧
      (r.1.type = some SENSOR_TYPE_INTERRUPT ↔ is_numeric_string t2 = false) := by
  obtain ⟨hc, _⟩ := (three_tokens_iff frame).mp h3
  have hl : ¬ frame.length ≥ 128 := by omega
  obtain ⟨r0, hs0, hr0⟩ := strtok_of_tokens_cons frame t1 _ htok
  obtain ⟨r1, hs1, _⟩ := strtok_of_tokens_cons r0 t2 _ hr0
  by_cases hnum : is_numeric_string t2 = true
  · have hsel : parse_sensor_data rnd st frame = some (update_statistics
        (dispatch_sensor1 rnd { st with total_data_count := incr32 st.total_data_count }
          frame)) := by
      simp only [parse_sensor_data, hc, hl, hs0, hs1, hnum, if_true, if_false]
    refine ⟨_, hsel, ?_⟩
    rw [(update_statistics_counters _).1]
    simp only [dispatch_sensor1, parse_sensor1_data_type, hnum]
    decide
  · have hnf : is_numeric_string t2 = false := by simpa using hnum
    have hsel : parse_sensor_data rnd st frame = some (update_statistics
        (dispatch_sensor2 { st with total_data_count := incr32 st.total_data_count }
          frame)) := by
      simp only [parse_sensor_data, hc, hl, hs0, hs1, hnf, if_true, if_false]
      rfl
    refine ⟨_, hsel, ?_⟩
    rw [(update_statistics_counters _).1]
    simp only [dispatch_sensor2, parse_sensor2_data_type, hnf]
    decide

/-! ## Accepted Sensor-1 records -/

theorem update_statistics_valid (x : parse_result_t × Option sensor_data_t × SensorState)
    (h : x.1.is_valid = true) :
    update_statistics x =
      (x.1, x.2.1, { x.2.2 with valid_data_count := incr32 x.2.2.valid_data_count }) := by
  simp [update_statistics, h]

/-- A frame that `parse_sensor_data` accepts with result type
`SENSOR_TYPE_TEMP_HUMIDITY` has exactly three tokens, and the record written
holds them. -/
theorem parse_sensor_data_accept_sensor1 (rnd : ℚ → ℚ) (st : SensorState) (frame : List Char)
    (r : parse_result_t × Option sensor_data_t × SensorState)
    (hr : parse_sensor_data rnd st frame = some r) (hv : r.1.is_valid = true)
    (ht : r.1.type = some SENSOR_TYPE_TEMP_HUMIDITY) :
    ∃ t1 t2 t3 d, three_tokens frame ∧ tokens frame = [t1, t2, t3] ∧
      r.2.1 = some { type := SENSOR_TYPE_TEMP_HUMIDITY, data := sensor_union.sensor1 d } ∧
      d.student_id = trim_whitespace t1 ∧ d.sensor_name = SENSOR1_NAME ∧
      d.temperature = parse_float_safe rnd (trim_whitespace t2) ∧
      d.humidity = parse_float_safe rnd (trim_whitespace t3) ∧
      d.timestamp = incr32 st.tick_count := by
  by_cases hlen : frame.length < 128
  · by_cases h3 : three_tokens frame
    · obtain ⟨hc, hl3⟩ := (three_tokens_iff frame).mp h3
      obtain ⟨t1, t2, t3, htok⟩ : ∃ t1 t2 t3, tokens frame = [t1, t2, t3] := by
        match hm : tokens frame, hl3 with
        | [a, b, c], _ => exact ⟨a, b, c, rfl⟩
      have hl : ¬ frame.length ≥ 128 := by omega
      obtain ⟨r0, hs0, hr0⟩ := strtok_of_tokens_cons frame t1 _ htok
      obtain ⟨r1, hs1, _⟩ := strtok_of_tokens_cons r0 t2 _ hr0
      by_cases hnum : is_numeric_string t2 = true
      · simp only [parse_sensor_data, hc, hl, hs0, hs1, hnum, if_true, if_false,
          Option.some.injEq] at hr
        have hv1 : (parse_sensor1_data rnd
            { st with total_data_count := incr32 st.total_data_count } frame).1.is_valid = true := by
          rw [← hr] at hv
          rw [(update_statistics_counters _).1] at hv
          exact hv
        obtain ⟨d, hd, f1, f2, f3, f4, f5, _⟩ := parse_sensor1_data_accept_fields rnd
          { st with total_data_count := incr32 st.total_data_count } frame t1 t2 t3 [] htok hv1
        refine ⟨t1, t2, t3, d, h3, htok, ?_, f1, f2, f3, f4, f5⟩
        rw [← hr, (update_statistics_counters _).2.1]
        simp [dispatch_sensor1, hd]
      · have hnf : is_numeric_string t2 = false := by simpa using hnum
        simp only [parse_sensor_data, hc, hl, hs0, hs1, hnf, if_true, if_false,
          Option.some.injEq, Bool.false_eq_true] at hr
        rw [← hr, (update_statistics_counters _).1] at ht
        simp only [dispatch_sensor2, parse_sensor2_data_type] at ht
        exact absurd ht (by decide)
    · obtain ⟨r', hr', hrep⟩ := parse_sensor_data_reject_report rnd st frame hlen h3
      rw [hr] at hr'
      simp only [Option.some.injEq] at hr'
      rw [hr', hrep.1] at hv
      exact absurd hv (by simp)
  · by_cases hc : frame.count ',' = 2
    · have hl : frame.length ≥ 128 := by omega
      simp [parse_sensor_data, hc, hl] at hr
    · simp only [parse_sensor_data, hc, if_false, Option.some.injEq] at hr
      rw [← hr, (update_statistics_counters _).1] at hv
      exact absurd hv (by simp)

theorem determine_sensor1_status_normal (d : sensor1_data_t)
    (h1 : -20 ≤ d.temperature) (h2 : d.temperature ≤ 60) (h3 : 10 ≤ d.humidity)
    (h4 : d.humidity ≤ 90) : determine_sensor1_status d = SENSOR_STATUS_NORMAL := by
  unfold determine_sensor1_status
  have a : ¬ (d.temperature < -20 ∨ d.temperature > 60) := by
    simp only [not_or, not_lt, gt_iff_lt]; exact ⟨h1, h2⟩
  have b : ¬ (d.humidity < 10 ∨ d.humidity > 90) := by
    simp only [not_or, not_lt, gt_iff_lt]; exact ⟨h3, h4⟩
  simp only [a, b, if_false]

theorem sensor1_frame_s1 (rnd : ℚ → ℚ) (hf : float_conversion rnd) (st : SensorState) :
    parse_sensor_data rnd (sensor_data_init st) "2021001ZS,25.6,60.2".toList =
      some ({ is_valid := true, type := some SENSOR_TYPE_TEMP_HUMIDITY, error_msg := "" },
        some { type := SENSOR_TYPE_TEMP_HUMIDITY,
               data := sensor_union.sensor1
                 { student_id := "2021001ZS".toList, sensor_name := SENSOR1_NAME,
                   temperature := rnd (128 / 5), humidity := rnd (301 / 5),
                   status := SENSOR_STATUS_NORMAL, timestamp := incr32 st.tick_count } },
        { total_data_count := 1, valid_data_count := 1, error_data_count := 0,
          tick_count := incr32 st.tick_count, data_callback := data_callback_t.null }) := by
  obtain ⟨_, _, _, _, _, a6, a7⟩ := atof_value_examples
  obtain ⟨_, _, _, _, _, e6, e7, e8⟩ := float_conversion_examples rnd hf
  have hc : "2021001ZS,25.6,60.2".toList.count ',' = 2 := by decide
  have hl : ¬ "2021001ZS,25.6,60.2".toList.length ≥ 128 := by decide
  have hs0 : strtok "2021001ZS,25.6,60.2".toList =
      some ("2021001ZS".toList, "25.6,60.2".toList) := by decide
  have hs1 : strtok "25.6,60.2".toList = some ("25.6".toList, "60.2".toList) := by decide
  have hnum : is_numeric_string "25.6".toList = true := by decide
  have hp := parse_sensor1_data_three rnd
    { sensor_data_init st with
      total_data_count := incr32 (sensor_data_init st).total_data_count }
    "2021001ZS,25.6,60.2".toList "2021001ZS".toList "25.6".toList "60.2".toList []
    (by decide) (by decide) (by decide) (by decide) (by decide)
  have t1 : trim_whitespace "2021001ZS".toList = "2021001ZS".toList := by decide
  have t2 : trim_whitespace "25.6".toList = "25.6".toList := by decide
  have t3 : trim_whitespace "60.2".toList = "60.2".toList := by decide
  simp only [t1, t2, t3, parse_float_safe, a6, a7] at hp
  have hval : validate_sensor1_data
      { student_id := "2021001ZS".toList, sensor_name := SENSOR1_NAME,
        temperature := rnd (128 / 5), humidity := rnd (301 / 5),
        status := 0, timestamp := 0 } = true := by
    rw [validate_sensor1_data_iff]
    have hid : is_valid_student_id "2021001ZS".toList = true := by decide
    exact ⟨hid, by linarith [e8.1], by linarith [e8.2], e6.1, e6.2⟩
  have hstat := determine_sensor1_status_normal
    { student_id := "2021001ZS".toList, sensor_name := SENSOR1_NAME,
      temperature := rnd (128 / 5), humidity := rnd (301 / 5), status := 0,
      timestamp := incr32 (sensor_data_init st).tick_count } e8.1 e8.2 e7.1 e7.2
  simp only [hval, Bool.true_eq_false, if_false, hstat] at hp
  simp only [parse_sensor_data, hc, hl, hs0, hs1, hnum, if_true, if_false, dispatch_sensor1, hp,
    update_statistics, Option.map_some']
  simp [sensor_data_init, incr32]

/-! ## Status of accepted Sensor-1 records -/

theorem determine_sensor1_status_eq (d : sensor1_data_t) :
    (d.temperature < -20 ∨ d.temperature > 60 ∨ d.humidity < 10 ∨ d.humidity > 90 →
        determine_sensor1_status d = SENSOR_STATUS_WARNING) ∧
      (¬ (d.temperature < -20 ∨ d.temperature > 60 ∨ d.humidity < 10 ∨ d.humidity > 90) →
        determine_sensor1_status d = SENSOR_STATUS_NORMAL) ∧
      determine_sensor1_status d ≠ SENSOR_STATUS_ERROR ∧
      determine_sensor1_status d ≠ SENSOR_STATUS_OFFLINE := by
  unfold determine_sensor1_status
  split_ifs with h1 h2
  · exact ⟨fun _ => rfl, fun h => (h (by tauto)).elim, by decide, by decide⟩
  · exact ⟨fun _ => rfl, fun h => (h (by tauto)).elim, by decide, by decide⟩
  · exact ⟨fun h => absurd h (by tauto), fun _ => rfl, by decide, by decide⟩

/-- The status written by an accepting `parse_sensor1_data` call is
`determine_sensor1_status` of the record. -/
theorem parse_sensor1_data_accept_status (rnd : ℚ → ℚ) (st : SensorState) (frame : List Char) :
    (parse_sensor1_data rnd st frame).1.is_valid = true →
    ∃ d, (parse_sensor1_data rnd st frame).2.1 = some d ∧
      d.status = determine_sensor1_status d := by
  unfold parse_sensor1_data
  repeat' split
  all_goals (simp only [reject1]; try split_ifs)
  all_goals (try (intro h; simp at h; done))
  all_goals simp [determine_sensor1_status]

/-- The record `parse_sensor_data` writes as Sensor-1 is the one written by the
`parse_sensor1_data` call it makes, and the result is the result of that
call. -/
theorem parse_sensor_data_sensor1_record (rnd : ℚ → ℚ) (st : SensorState) (frame : List Char)
    (r : parse_result_t × Option sensor_data_t × SensorState) (ty : sensor_type_t)
    (d : sensor1_data_t) (hr : parse_sensor_data rnd st frame = some r)
    (hd : r.2.1 = some { type := ty, data := sensor_union.sensor1 d }) :
    r.1 = (parse_sensor1_data rnd
        { st with total_data_count := incr32 st.total_data_count } frame).1 ∧
      (parse_sensor1_data rnd
        { st with total_data_count := incr32 st.total_data_count } frame).2.1 = some d := by
  by_cases hc : frame.count ',' = 2
  · by_cases hl : frame.length ≥ 128
    · simp [parse_sensor_data, hc, hl] at hr
    · have hwrong : ∀ x : Option sensor2_data_t,
          ¬ (x.map (fun q : sensor2_data_t =>
              ({ type := SENSOR_TYPE_INTERRUPT, data := sensor_union.sensor2 q } : sensor_data_t))
            = some { type := ty, data := sensor_union.sensor1 d }) := by
        intro x hx
        cases x with
        | none => simp at hx
        | some q => simp at hx
      cases hs0 : strtok frame with
      | none =>
        simp only [parse_sensor_data, hc, hl, hs0, if_true, if_false, Option.some.injEq] at hr
        rw [← hr, (update_statistics_counters _).2.1] at hd
        simp at hd
      | some p0 =>
        obtain ⟨t0, r0⟩ := p0
        cases hs1 : strtok r0 with
        | none =>
          simp only [parse_sensor_data, hc, hl, hs0, hs1, if_true, if_false,
            Option.some.injEq] at hr
          rw [← hr, (update_statistics_counters _).2.1] at hd
          exact absurd hd (hwrong _)
        | some p1 =>
          obtain ⟨t1, r1⟩ := p1
          by_cases hnum : is_numeric_string t1 = true
          · simp only [parse_sensor_data, hc, hl, hs0, hs1, hnum, if_true, if_false,
              Option.some.injEq] at hr
            rw [← hr, (update_statistics_counters _).2.1] at hd
            rw [← hr, (update_statistics_counters _).1]
            simp only [dispatch_sensor1] at hd ⊢
            cases hq : (parse_sensor1_data rnd
                { st with total_data_count := incr32 st.total_data_count } frame).2.1 with
            | none => rw [hq] at hd; simp at hd
            | some q =>
              rw [hq] at hd
              simp only [Option.map_some', Option.some.injEq, sensor_data_t.mk.injEq,
                sensor_union.sensor1.injEq] at hd
              exact ⟨trivial, by rw [hd.2]⟩
          · have hnf : is_numeric_string t1 = false := by simpa using hnum
            simp only [parse_sensor_data, hc, hl, hs0, hs1, hnf, if_true, if_false,
              Option.some.injEq, Bool.false_eq_true] at hr
            rw [← hr, (update_statistics_counters _).2.1] at hd
            exact absurd hd (hwrong _)
  · simp only [parse_sensor_data, hc, if_false, Option.some.injEq] at hr
    rw [← hr, (update_statistics_counters _).2.1] at hd
    simp at hd

/-- Status written by `parse_sensor1_data` for a frame of three well-shaped
tokens whose converted values are in range. -/
theorem sensor1_example_status (rnd : ℚ → ℚ) (st : SensorState) (frame t1 t2 t3 : List Char)
    (x y : ℚ) (hlen : frame.length < 128) (htok : tokens frame = [t1, t2, t3])
    (hid : is_valid_student_id (trim_whitespace t1) = true)
    (hn2 : is_numeric_string (trim_whitespace t2) = true)
    (hn3 : is_numeric_string (trim_whitespace t3) = true)
    (hx : atof_value (trim_whitespace t2) = x) (hy : atof_value (trim_whitespace t3) = y)
    (hr : -40 ≤ rnd x ∧ rnd x ≤ 85 ∧ 0 ≤ rnd y ∧ rnd y ≤ 100) :
    (parse_sensor1_data rnd st frame).1.is_valid = true ∧
      (parse_sensor1_data rnd st frame).2.1.map (fun d => d.status) =
        some (if rnd x < -20 ∨ rnd x > 60 then SENSOR_STATUS_WARNING
          else if rnd y < 10 ∨ rnd y > 90 then SENSOR_STATUS_WARNING
          else SENSOR_STATUS_NORMAL) := by
  obtain ⟨h1, _, h3⟩ := sensor1_range_outcome rnd st frame t1 t2 t3 [] hlen htok hid hn2 hn3
  simp only [parse_float_safe, hx, hy] at h1 h3
  have hv := h1.mpr hr
  rw [h3 hv]
  simp [determine_sensor1_status]

theorem atof_value_examples_status :
    atof_value "-20.0".toList = -20 ∧ atof_value "60.0".toList = 60 ∧
      atof_value "10.0".toList = 10 ∧ atof_value "90.0".toList = 90 ∧
      atof_value "-20.5".toList = -41 / 2 ∧ atof_value "90.5".toList = 181 / 2 ∧
      atof_value "50.0".toList = 50 ∧ atof_value "25.0".toList = 25 := by
  have a1 := atof_value_of_scan "-20.0".toList
    { negative := true, int_digits := "20".toList, frac_digits := "0".toList } 200
    (by decide) (by decide)
  have a2 := atof_value_of_scan "60.0".toList
    { negative := false, int_digits := "60".toList, frac_digits := "0".toList } 600
    (by decide) (by decide)
  have a3 := atof_value_of_scan "10.0".toList
    { negative := false, int_digits := "10".toList, frac_digits := "0".toList } 100
    (by decide) (by decide)
  have a4 := atof_value_of_scan "90.0".toList
    { negative := false, int_digits := "90".toList, frac_digits := "0".toList } 900
    (by decide) (by decide)
  have a5 := atof_value_of_scan "-20.5".toList
    { negative := true, int_digits := "20".toList, frac_digits := "5".toList } 205
    (by decide) (by decide)
  have a6 := atof_value_of_scan "90.5".toList
    { negative := false, int_digits := "90".toList, frac_digits := "5".toList } 905
    (by decide) (by decide)
  have a7 := atof_value_of_scan "50.0".toList
    { negative := false, int_digits := "50".toList, frac_digits := "0".toList } 500
    (by decide) (by decide)
  have a8 := atof_value_of_scan "25.0".toList
    { negative := false, int_digits := "25".toList, frac_digits := "0".toList } 250
    (by decide) (by decide)
  rw [a1, a2, a3, a4, a5, a6, a7, a8]
  norm_num

theorem float_conversion_examples_status (rnd : ℚ → ℚ) (h : float_conversion rnd) :
    rnd (-20) = -20 ∧ rnd 60 = 60 ∧ rnd 10 = 10 ∧ rnd 90 = 90 ∧ rnd (-41 / 2) = -41 / 2 ∧
      rnd (181 / 2) = 181 / 2 ∧ rnd 50 = 50 ∧ rnd 25 = 25 := by
  have e1 := float_conversion_int rnd h (-20) (by norm_num)
  have e2 := float_conversion_int rnd h 60 (by norm_num)
  have e3 := float_conversion_int rnd h 10 (by norm_num)
  have e4 := float_conversion_int rnd h 90 (by norm_num)
  have e5 := h.2 (-41) 1 (by norm_num) (by norm_num)
  have e6 := h.2 181 1 (by norm_num) (by norm_num)
  have e7 := float_conversion_int rnd h 50 (by norm_num)
  have e8 := float_conversion_int rnd h 25 (by norm_num)
  norm_num at e1 e2 e3 e4 e5 e6 e7 e8
  have e5' : rnd (-41 / 2) = -41 / 2 := by
    have hq : (-41 / 2 : ℚ) = -(41 / 2) := by norm_num
    rw [hq]; exact e5
  exact ⟨e1, e2, e3, e4, e5', e6, e7, e8⟩

/-- C11. Every record written by an accepting `parse_sensor1_data` call, and
every Sensor-1 record written by an accepting `parse_sensor_data` call, has
status WARNING if temperature < -20 or temperature > 60 or humidity < 10 or
humidity > 90, and NORMAL otherwise; it is never ERROR or OFFLINE.  With a
float conversion, the boundary frames `"A,-20.0,10.0"` and `"A,60.0,90.0"` give
NORMAL, and `"A,-20.5,50.0"` and `"A,25.0,90.5"` give WARNING. -/
theorem C11_sensor1_status (rnd : ℚ → ℚ) (st : SensorState) :
    (∀ frame : List Char, (parse_sensor1_data rnd st frame).1.is_valid = true →
      ∃ d, (parse_sensor1_data rnd st frame).2.1 = some d ∧
        (d.temperature < -20 ∨ d.temperature > 60 ∨ d.humidity < 10 ∨ d.humidity > 90 →
          d.status = SENSOR_STATUS_WARNING) ∧
        (¬ (d.temperature < -20 ∨ d.temperature > 60 ∨ d.humidity < 10 ∨ d.humidity > 90) →
          d.status = SENSOR_STATUS_NORMAL) ∧
        d.status ≠ SENSOR_STATUS_ERROR ∧ d.status ≠ SENSOR_STATUS_OFFLINE) ∧
    (∀ (frame : List Char) (r : parse_result_t × Option sensor_data_t × SensorState)
        (ty : sensor_type_t) (d : sensor1_data_t),
      parse_sensor_data rnd st frame = some r → r.1.is_valid = true →
      r.2.1 = some { type := ty, data := sensor_union.sensor1 d } →
      (d.temperature < -20 ∨ d.temperature > 60 ∨ d.humidity < 10 ∨ d.humidity > 90 →
          d.status = SENSOR_STATUS_WARNING) ∧
        (¬ (d.temperature < -20 ∨ d.temperature > 60 ∨ d.humidity < 10 ∨ d.humidity > 90) →
          d.status = SENSOR_STATUS_NORMAL) ∧
        d.status ≠ SENSOR_STATUS_ERROR ∧ d.status ≠ SENSOR_STATUS_OFFLINE) ∧
    (float_conversion rnd →
      (parse_sensor1_data rnd st "A,-20.0,10.0".toList).2.1.map (fun d => d.status) =
        some SENSOR_STATUS_NORMAL ∧
      (parse_sensor1_data rnd st "A,60.0,90.0".toList).2.1.map (fun d => d.status) =
        some SENSOR_STATUS_NORMAL ∧
      (parse_sensor1_data rnd st "A,-20.5,50.0".toList).2.1.map (fun d => d.status) =
        some SENSOR_STATUS_WARNING ∧
      (parse_sensor1_data rnd st "A,25.0,90.5".toList).2.1.map (fun d => d.status) =
        some SENSOR_STATUS_WARNING) := by
  have key : ∀ (st1 : SensorState) (frame : List Char),
      (parse_sensor1_data rnd st1 frame).1.is_valid = true →
      ∃ d, (parse_sensor1_data rnd st1 frame).2.1 = some d ∧
        (d.temperature < -20 ∨ d.temperature > 60 ∨ d.humidity < 10 ∨ d.humidity > 90 →
          d.status = SENSOR_STATUS_WARNING) ∧
        (¬ (d.temperature < -20 ∨ d.temperature > 60 ∨ d.humidity < 10 ∨ d.humidity > 90) →
          d.status = SENSOR_STATUS_NORMAL) ∧
        d.status ≠ SENSOR_STATUS_ERROR ∧ d.status ≠ SENSOR_STATUS_OFFLINE := by
    intro st1 frame hv
    obtain ⟨d, hd, hs⟩ := parse_sensor1_data_accept_status rnd st1 frame hv
    refine ⟨d, hd, ?_⟩
    rw [hs]
    exact determine_sensor1_status_eq d
  refine ⟨key st, ?_, ?_⟩
  · intro frame r ty d hr hv hd
    obtain ⟨h1, h2⟩ := parse_sensor_data_sensor1_record rnd st frame r ty d hr hd
    rw [h1] at hv
    obtain ⟨d', hd', hrest⟩ := key _ frame hv
    rw [h2] at hd'
    simp only [Option.some.injEq] at hd'
    rw [hd']
    exact hrest
  · intro hf
    obtain ⟨a1, a2, a3, a4, a5, a6, a7, a8⟩ := atof_value_examples_status
    obtain ⟨e1, e2, e3, e4, e5, e6, e7, e8⟩ := float_conversion_examples_status rnd hf
    refine ⟨?_, ?_, ?_, ?_⟩
    · have := (sensor1_example_status rnd st "A,-20.0,10.0".toList "A".toList "-20.0".toList
        "10.0".toList (-20) 10 (by decide) (by decide) (by decide) (by decide) (by decide)
        a1 a3 (by rw [e1, e3]; norm_num)).2
      rw [this, e1, e3]; norm_num
    · have := (sensor1_example_status rnd st "A,60.0,90.0".toList "A".toList "60.0".toList
        "90.0".toList 60 90 (by decide) (by decide) (by decide) (by decide) (by decide)
        a2 a4 (by rw [e2, e4]; norm_num)).2
      rw [this, e2, e4]; norm_num
    · have := (sensor1_example_status rnd st "A,-20.5,50.0".toList "A".toList "-20.5".toList
        "50.0".toList (-41 / 2) 50 (by decide) (by decide) (by decide) (by decide) (by decide)
        a5 a7 (by rw [e5, e7]; norm_num)).2
      rw [this, e5, e7]; norm_num
    · have := (sensor1_example_status rnd st "A,25.0,90.5".toList "A".toList "25.0".toList
        "90.5".toList 25 (181 / 2) (by decide) (by decide) (by decide) (by decide) (by decide)
        a8 a6 (by rw [e8, e6]; norm_num)).2
      rw [this, e8, e6]; norm_num

/-- Witness of C11 with exact arithmetic as the conversion: the boundary frame
`"A,-20.0,10.0"` gets status NORMAL and `"A,25.0,90.5"` gets WARNING. -/
theorem C11_witness :
    (parse_sensor1_data id sensor_boot "A,-20.0,10.0".toList).2.1.map (fun d => d.status) =
        some SENSOR_STATUS_NORMAL ∧
      (parse_sensor1_data id sensor_boot "A,25.0,90.5".toList).2.1.map (fun d => d.status) =
        some SENSOR_STATUS_WARNING :=
  ⟨((C11_sensor1_status id sensor_boot).2.2 id_float_conversion).1,
    ((C11_sensor1_status id sensor_boot).2.2 id_float_conversion).2.2.2⟩

/-! ## Sensor-2 frames -/

theorem list_three_of_length {α : Type} (l : List α) (h : 3 ≤ l.length) :
    ∃ a b c ts, l = a :: b :: c :: ts := by
  match l, h with
  | a :: b :: c :: ts, _ => exact ⟨a, b, c, ts, rfl⟩

/-- The checks of `parse_sensor2_data` on a frame with at least three tokens,
in the order the code makes them. -/
theorem parse_sensor2_data_three (st : SensorState) (frame : List Char)
    (t1 t2 t3 : List Char) (ts : List (List Char)) (hlen : frame.length < 128)
    (htok : tokens frame = t1 :: t2 :: t3 :: ts) :
    parse_sensor2_data st frame =
      if 20 ≤ (trim_whitespace t1).length then
        reject2 st ERROR_MSG_INVALID_ID (some sensor2_zero)
      else if 16 ≤ (trim_whitespace t2).length then
        reject2 st ERROR_MSG_INVALID_NAME
          (some { sensor2_zero with student_id := trim_whitespace t1 })
      else if is_numeric_string (trim_whitespace t3) = false then
        reject2 st ERROR_MSG_INVALID_FORMAT
          (some { sensor2_zero with student_id := trim_whitespace t1,
                                    sensor_name := trim_whitespace t2 })
      else if parse_int_safe (trim_whitespace t3) < 0 ∨ parse_int_safe (trim_whitespace t3) > 3
      then
        reject2 st ERROR_MSG_INVALID_RANGE
          (some { sensor2_zero with student_id := trim_whitespace t1,
                                    sensor_name := trim_whitespace t2 })
      else if validate_sensor2_data
          { student_id := trim_whitespace t1, sensor_name := trim_whitespace t2,
            interrupt_type := parse_int_safe (trim_whitespace t3),
            interrupt_count := if parse_int_safe (trim_whitespace t3) > 0 then 1 else 0,
            status := 0, timestamp := 0 } = false then
        reject2 st ERROR_MSG_INVALID_RANGE
          (some { student_id := trim_whitespace t1, sensor_name := trim_whitespace t2,
                  interrupt_type := parse_int_safe (trim_whitespace t3),
                  interrupt_count := if parse_int_safe (trim_whitespace t3) > 0 then 1 else 0,
                  status := 0, timestamp := 0 })
      else
        ({ is_valid := true, type := some SENSOR_TYPE_INTERRUPT, error_msg := "" },
          some { student_id := trim_whitespace t1, sensor_name := trim_whitespace t2,
                 interrupt_type := parse_int_safe (trim_whitespace t3),
                 interrupt_count := if parse_int_safe (trim_whitespace t3) > 0 then 1 else 0,
                 status := if parse_int_safe (trim_whitespace t3) = 0 then SENSOR_STATUS_NORMAL
                   else SENSOR_STATUS_WARNING,
                 timestamp := incr32 st.tick_count },
          { st with tick_count := incr32 st.tick_count }) := by
  have hl : ¬ frame.length ≥ 128 := by omega
  obtain ⟨r0, hs0, hr0⟩ := strtok_of_tokens_cons frame t1 _ htok
  obtain ⟨r1, hs1, hr1⟩ := strtok_of_tokens_cons r0 t2 _ hr0
  obtain ⟨r2, hs2, _⟩ := strtok_of_tokens_cons r1 t3 _ hr1
  simp only [parse_sensor2_data, hl, hs0, hs1, hs2, if_false, sensor2_zero, get_timestamp,
    determine_sensor2_status, INTERRUPT_TYPE_NONE, MAX_STUDENT_ID_LEN, MAX_SENSOR_NAME_LEN,
    ge_iff_le]
  split_ifs <;> simp_all

theorem parse_sensor2_data_accept_tokens (st : SensorState) (frame : List Char)
    (h : (parse_sensor2_data st frame).1.is_valid = true) :
    frame.length < 128 ∧ ∃ t1 t2 t3 ts, tokens frame = t1 :: t2 :: t3 :: ts := by
  by_cases hlen : frame.length < 128
  · refine ⟨hlen, ?_⟩
    by_cases hshort : (tokens frame).length ≤ 2
    · have := (parse_sensor2_data_short st frame hlen hshort).1
      rw [this] at h
      exact absurd h (by simp)
    · exact list_three_of_length _ (by omega)
  · have hl : frame.length ≥ 128 := by omega
    simp [parse_sensor2_data, hl, reject2] at h

theorem validate_sensor2_data_iff (d : sensor2_data_t) :
    validate_sensor2_data d = true ↔
      (is_valid_student_id d.student_id = true ∧ is_valid_sensor_name d.sensor_name = true ∧
        0 ≤ d.interrupt_type ∧ d.interrupt_type ≤ 3) := by
  unfold validate_sensor2_data
  split_ifs with a b c
  · simp_all
  · simp_all
  · simp only [Bool.false_eq_true, false_iff, not_and, not_le]
    intro _ _ h0
    rcases c with c | c
    · exact absurd h0 (not_le.mpr c)
    · exact c
  · simp only [not_or, not_lt, gt_iff_lt] at c
    simp only [Bool.not_eq_true, Bool.not_eq_true', Bool.not_eq_false] at a b
    exact ⟨fun _ => ⟨a, b, c.1, c.2⟩, fun _ => rfl⟩

/-- What an accepting `parse_sensor2_data` call read and wrote. -/
theorem parse_sensor2_data_accept (st : SensorState) (frame : List Char)
    (h : (parse_sensor2_data st frame).1.is_valid = true) :
    ∃ t1 t2 t3 ts d, tokens frame = t1 :: t2 :: t3 :: ts ∧
      (parse_sensor2_data st frame).2.1 = some d ∧
      is_numeric_string (trim_whitespace t3) = true ∧
      0 ≤ parse_int_safe (trim_whitespace t3) ∧ parse_int_safe (trim_whitespace t3) ≤ 3 ∧
      d.student_id = trim_whitespace t1 ∧ d.sensor_name = trim_whitespace t2 ∧
      d.interrupt_type = parse_int_safe (trim_whitespace t3) ∧
      d.interrupt_count = (if d.interrupt_type = 0 then 0 else 1) ∧
      d.status = (if d.interrupt_type = 0 then SENSOR_STATUS_NORMAL
        else SENSOR_STATUS_WARNING) := by
  obtain ⟨hlen, t1, t2, t3, ts, htok⟩ := parse_sensor2_data_accept_tokens st frame h
  have he := parse_sensor2_data_three st frame t1 t2 t3 ts hlen htok
  rw [he] at h ⊢
  by_cases c1 : 20 ≤ (trim_whitespace t1).length
  · simp [c1, reject2] at h
  by_cases c2 : 16 ≤ (trim_whitespace t2).length
  · simp [c1, c2, reject2] at h
  by_cases c3 : is_numeric_string (trim_whitespace t3) = false
  · simp [c1, c2, c3, reject2] at h
  by_cases c4 : parse_int_safe (trim_whitespace t3) < 0 ∨ parse_int_safe (trim_whitespace t3) > 3
  · simp [c1, c2, c3, c4, reject2] at h
  by_cases c5 : validate_sensor2_data
      { student_id := trim_whitespace t1, sensor_name := trim_whitespace t2,
        interrupt_type := parse_int_safe (trim_whitespace t3),
        interrupt_count := if parse_int_safe (trim_whitespace t3) > 0 then 1 else 0,
        status := 0, timestamp := 0 } = false
  · simp [c1, c2, c3, c4, c5, reject2] at h
  simp only [c1, c2, c3, c4, c5, if_false]
  have hnum : is_numeric_string (trim_whitespace t3) = true := by simpa using c3
  simp only [not_or, not_lt, gt_iff_lt] at c4
  refine ⟨t1, t2, t3, ts, _, htok, rfl, hnum, c4.1, c4.2, rfl, rfl, rfl, ?_, rfl⟩
  by_cases hz : parse_int_safe (trim_whitespace t3) = 0
  · simp [hz]
  · have hpos : parse_int_safe (trim_whitespace t3) > 0 := lt_of_le_of_ne c4.1 (Ne.symm hz)
    simp [hz, hpos]

/-- Outcome of `parse_sensor2_data` on a frame of three tokens with valid id and
name whose third token is numeric with integer value `v`. -/
theorem sensor2_example_outcome (st : SensorState) (frame t1 t2 t3 : List Char) (v : Int)
    (hlen : frame.length < 128) (htok : tokens frame = [t1, t2, t3])
    (hid : is_valid_student_id (trim_whitespace t1) = true)
    (hname : is_valid_sensor_name (trim_whitespace t2) = true)
    (hnum : is_numeric_string (trim_whitespace t3) = true)
    (hv : parse_int_safe (trim_whitespace t3) = v) :
    ((0 ≤ v ∧ v ≤ 3) →
      (parse_sensor2_data st frame).1.is_valid = true ∧
      (parse_sensor2_data st frame).2.1.map
          (fun d => (d.interrupt_type, d.interrupt_count, d.status)) =
        some (v, if v > 0 then 1 else 0,
          if v = 0 then SENSOR_STATUS_NORMAL else SENSOR_STATUS_WARNING)) ∧
      (¬ (0 ≤ v ∧ v ≤ 3) →
        (parse_sensor2_data st frame).1.is_valid = false ∧
        (parse_sensor2_data st frame).1.error_msg = ERROR_MSG_INVALID_RANGE) := by
  have c1 : ¬ 20 ≤ (trim_whitespace t1).length := by
    have := (is_valid_student_id_iff _).mp hid
    omega
  have c2 : ¬ 16 ≤ (trim_whitespace t2).length := by
    intro h16
    unfold is_valid_sensor_name at hname
    split at hname
    · simp at hname
    · simp only [MAX_SENSOR_NAME_LEN, decide_eq_true_eq] at hname; omega
  rw [parse_sensor2_data_three st frame t1 t2 t3 [] hlen htok]
  simp only [c1, c2, hnum, hv, if_false, Bool.true_eq_false]
  constructor
  · intro hr
    have c4 : ¬ (v < 0 ∨ v > 3) := by
      simp only [not_or, not_lt, gt_iff_lt]; exact hr
    have c5 : validate_sensor2_data
        { student_id := trim_whitespace t1, sensor_name := trim_whitespace t2,
          interrupt_type := v, interrupt_count := if v > 0 then 1 else 0,
          status := 0, timestamp := 0 } = true := by
      rw [validate_sensor2_data_iff]
      exact ⟨hid, hname, hr.1, hr.2⟩
    simp [c4, c5]
  · intro hr
    have c4 : v < 0 ∨ v > 3 := by
      by_contra hc
      simp only [not_or, not_lt, gt_iff_lt] at hc
      exact hr hc
    simp [c4, reject2]

/-- C12. For every frame accepted by `parse_sensor2_data`, the record written
has `interrupt_type` in {0, 1, 2, 3}, `interrupt_count` 1 if the type is not 0
and 0 if it is 0, and status NORMAL if the type is 0 and WARNING otherwise.
The frame `"2021001ZS,DOOR_SENSOR,1"` is accepted with type RISING, count 1 and
status WARNING; with third token `"0"` it is accepted with type NONE, count 0
and status NORMAL. -/
theorem C12_sensor2_record (st : SensorState) :
    (∀ frame : List Char, (parse_sensor2_data st frame).1.is_valid = true →
      ∃ d, (parse_sensor2_data st frame).2.1 = some d ∧
        (d.interrupt_type = 0 ∨ d.interrupt_type = 1 ∨ d.interrupt_type = 2 ∨
          d.interrupt_type = 3) ∧
        (d.interrupt_type ≠ 0 → d.interrupt_count = 1) ∧
        (d.interrupt_type = 0 → d.interrupt_count = 0) ∧
        (d.interrupt_type = 0 → d.status = SENSOR_STATUS_NORMAL) ∧
        (d.interrupt_type ≠ 0 → d.status = SENSOR_STATUS_WARNING)) ∧
    ((parse_sensor2_data st "2021001ZS,DOOR_SENSOR,1".toList).1.is_valid = true ∧
      (parse_sensor2_data st "2021001ZS,DOOR_SENSOR,1".toList).2.1.map
          (fun d => (d.interrupt_type, d.interrupt_count, d.status)) =
        some (INTERRUPT_TYPE_RISING, 1, SENSOR_STATUS_WARNING)) ∧
    ((parse_sensor2_data st "2021001ZS,DOOR_SENSOR,0".toList).1.is_valid = true ∧
      (parse_sensor2_data st "2021001ZS,DOOR_SENSOR,0".toList).2.1.map
          (fun d => (d.interrupt_type, d.interrupt_count, d.status)) =
        some (INTERRUPT_TYPE_NONE, 0, SENSOR_STATUS_NORMAL)) := by
  refine ⟨?_, ?_, ?_⟩
  · intro frame hv
    obtain ⟨_, _, t3, _, d, _, hd, _, h0, h3, _, _, hty, hcnt, hst⟩ :=
      parse_sensor2_data_accept st frame hv
    refine ⟨d, hd, ?_, ?_, ?_, ?_, ?_⟩
    · rw [hty]
      have hk : ∀ v : Int, 0 ≤ v → v ≤ 3 → v = 0 ∨ v = 1 ∨ v = 2 ∨ v = 3 := by
        intro v; omega
      exact hk _ h0 h3
    · intro hne; rw [hcnt]; simp [hne]
    · intro he; rw [hcnt]; simp [he]
    · intro he; rw [hst]; simp [he]
    · intro hne; rw [hst]; simp [hne]
  · have := (sensor2_example_outcome st "2021001ZS,DOOR_SENSOR,1".toList "2021001ZS".toList
      "DOOR_SENSOR".toList "1".toList 1 (by decide) (by decide) (by decide) (by decide)
      (by decide) (by decide)).1 (by decide)
    exact ⟨this.1, by rw [this.2]; decide⟩
  · have := (sensor2_example_outcome st "2021001ZS,DOOR_SENSOR,0".toList "2021001ZS".toList
      "DOOR_SENSOR".toList "0".toList 0 (by decide) (by decide) (by decide) (by decide)
      (by decide) (by decide)).1 (by decide)
    exact ⟨this.1, by rw [this.2]; decide⟩

/-- Witness of C12 from the state at program start: the record of
`"2021001ZS,DOOR_SENSOR,1"` has a type among 0..3. -/
theorem C12_witness :
    ∃ d, (parse_sensor2_data sensor_boot "2021001ZS,DOOR_SENSOR,1".toList).2.1 = some d ∧
      (d.interrupt_type = 0 ∨ d.interrupt_type = 1 ∨ d.interrupt_type = 2 ∨
        d.interrupt_type = 3) := by
  obtain ⟨d, hd, hty, _⟩ := (C12_sensor2_record sensor_boot).1
    "2021001ZS,DOOR_SENSOR,1".toList (by decide)
  exact ⟨d, hd, hty⟩

/-- Outcome of `parse_sensor2_data` on a frame whose first three tokens pass
the checks made inside the loop: the frame is accepted exactly when the trimmed
identifier and name are valid, and is otherwise rejected with the range
message. -/
theorem parse_sensor2_data_validated (st : SensorState) (frame : List Char)
    (t1 t2 t3 : List Char) (ts : List (List Char)) (hlen : frame.length < 128)
    (htok : tokens frame = t1 :: t2 :: t3 :: ts)
    (h1 : (trim_whitespace t1).length < 20) (h2 : (trim_whitespace t2).length < 16)
    (hnum : is_numeric_string (trim_whitespace t3) = true)
    (h0 : 0 ≤ parse_int_safe (trim_whitespace t3))
    (h3 : parse_int_safe (trim_whitespace t3) ≤ 3) :
    ((is_valid_student_id (trim_whitespace t1) = true ∧
        is_valid_sensor_name (trim_whitespace t2) = true) →
      (parse_sensor2_data st frame).1.is_valid = true) ∧
    (¬ (is_valid_student_id (trim_whitespace t1) = true ∧
        is_valid_sensor_name (trim_whitespace t2) = true) →
      (parse_sensor2_data st frame).1.is_valid = false ∧
      (parse_sensor2_data st frame).1.error_msg = ERROR_MSG_INVALID_RANGE) := by
  have c1 : ¬ 20 ≤ (trim_whitespace t1).length := by omega
  have c2 : ¬ 16 ≤ (trim_whitespace t2).length := by omega
  have c4 : ¬ (parse_int_safe (trim_whitespace t3) < 0 ∨
      parse_int_safe (trim_whitespace t3) > 3) := by
    simp only [not_or, not_lt, gt_iff_lt]; exact ⟨h0, h3⟩
  rw [parse_sensor2_data_three st frame t1 t2 t3 ts hlen htok]
  simp only [c1, c2, c4, hnum, if_false, Bool.true_eq_false]
  constructor
  · intro hv
    have hval := (validate_sensor2_data_iff
      { student_id := trim_whitespace t1, sensor_name := trim_whitespace t2,
        interrupt_type := parse_int_safe (trim_whitespace t3),
        interrupt_count := if parse_int_safe (trim_whitespace t3) > 0 then 1 else 0,
        status := 0, timestamp := 0 }).mpr ⟨hv.1, hv.2, h0, h3⟩
    simp only [hval, Bool.true_eq_false, if_false]
  · intro hn
    have hval : validate_sensor2_data
        { student_id := trim_whitespace t1, sensor_name := trim_whitespace t2,
          interrupt_type := parse_int_safe (trim_whitespace t3),
          interrupt_count := if parse_int_safe (trim_whitespace t3) > 0 then 1 else 0,
          status := 0, timestamp := 0 } = false := by
      rw [Bool.eq_false_iff, Ne, validate_sensor2_data_iff]
      exact fun h => hn ⟨h.1, h.2.1⟩
    simp only [hval, if_true, reject2]
    exact ⟨trivial, trivial⟩

/-- A first token of 20 or more bytes after trimming makes `parse_sensor1_data`
return with the identifier message. -/
theorem parse_sensor1_data_long_id (rnd : ℚ → ℚ) (st : SensorState) (frame t0 : List Char)
    (ts : List (List Char)) (hlen : frame.length < 128) (htok : tokens frame = t0 :: ts)
    (hid : 20 ≤ (trim_whitespace t0).length) :
    (parse_sensor1_data rnd st frame).1.is_valid = false ∧
      (parse_sensor1_data rnd st frame).1.error_msg = ERROR_MSG_INVALID_ID := by
  have hl : ¬ frame.length ≥ 128 := by omega
  obtain ⟨r0, hs0, _⟩ := strtok_of_tokens_cons frame t0 ts htok
  simp only [parse_sensor1_data, hl, hs0, reject1, if_false, ge_iff_le, hid, if_true,
    MAX_STUDENT_ID_LEN]
  exact ⟨trivial, trivial⟩

/-- A first token that is empty after trimming passes the length check of the
loop of `parse_sensor1_data` and fails only in `validate_sensor1_data`, so the
frame is rejected with the range message. -/
theorem parse_sensor1_data_empty_id (rnd : ℚ → ℚ) (st : SensorState) (frame : List Char)
    (t1 t2 t3 : List Char) (ts : List (List Char)) (hlen : frame.length < 128)
    (htok : tokens frame = t1 :: t2 :: t3 :: ts) (hid : trim_whitespace t1 = [])
    (hn2 : is_numeric_string (trim_whitespace t2) = true)
    (hn3 : is_numeric_string (trim_whitespace t3) = true) :
    (parse_sensor1_data rnd st frame).1.is_valid = false ∧
      (parse_sensor1_data rnd st frame).1.error_msg = ERROR_MSG_INVALID_RANGE := by
  have h20 : (trim_whitespace t1).length < 20 := by rw [hid]; decide
  rw [parse_sensor1_data_three rnd st frame t1 t2 t3 ts hlen htok h20 hn2 hn3]
  have hval : validate_sensor1_data
      { student_id := trim_whitespace t1, sensor_name := SENSOR1_NAME,
        temperature := parse_float_safe rnd (trim_whitespace t2),
        humidity := parse_float_safe rnd (trim_whitespace t3),
        status := 0, timestamp := 0 } = false := by
    rw [Bool.eq_false_iff, Ne, validate_sensor1_data_iff]
    intro h
    have h1 := (is_valid_student_id_iff _).mp h.1
    simp only [hid, List.length_nil] at h1
    omega
  simp only [hval, if_true, reject1]
  exact ⟨trivial, trivial⟩

/-- C14 at its failing inputs. The frames `" ,25.6,60.2"` and `" ,DOOR,1"` have
three tokens, the first of which is empty after trimming; `parse_sensor1_data`
and `parse_sensor2_data` reject them with "Data out of range", not with
"Invalid student ID", while a first token of 20 bytes is rejected with
"Invalid student ID". -/
theorem C14_empty_student_id_reported_as_range :
    (tokens " ,25.6,60.2".toList).map trim_whitespace =
        ["".toList, "25.6".toList, "60.2".toList] ∧
      ((parse_sensor1_data id sensor_boot " ,25.6,60.2".toList).1.is_valid = false ∧
        (parse_sensor1_data id sensor_boot " ,25.6,60.2".toList).1.error_msg =
          "Data out of range") ∧
      (tokens " ,DOOR,1".toList).map trim_whitespace =
        ["".toList, "DOOR".toList, "1".toList] ∧
      ((parse_sensor2_data sensor_boot " ,DOOR,1".toList).1.is_valid = false ∧
        (parse_sensor2_data sensor_boot " ,DOOR,1".toList).1.error_msg =
          "Data out of range") ∧
      ((parse_sensor1_data id sensor_boot "AAAAAAAAAAAAAAAAAAAA,25.6,60.2".toList).1.is_valid =
          false ∧
        (parse_sensor1_data id sensor_boot "AAAAAAAAAAAAAAAAAAAA,25.6,60.2".toList).1.error_msg =
          "Invalid student ID") ∧
      (parse_sensor2_data sensor_boot "AAAAAAAAAAAAAAAAAAAA,DOOR,1".toList).1.error_msg =
        "Invalid student ID" := by
  refine ⟨by decide, ?_, by decide, by decide, ?_, by decide⟩
  · exact parse_sensor1_data_empty_id id sensor_boot " ,25.6,60.2".toList " ".toList
      "25.6".toList "60.2".toList [] (by decide) (by decide) (by decide) (by decide)
      (by decide)
  · exact parse_sensor1_data_long_id id sensor_boot "AAAAAAAAAAAAAAAAAAAA,25.6,60.2".toList
      "AAAAAAAAAAAAAAAAAAAA".toList ["25.6".toList, "60.2".toList] (by decide) (by decide)
      (by decide)

/-- C15 at its failing input. The frame `"A, ,1"` has three tokens, a valid
student id and a second token that is empty after trimming;
`parse_sensor2_data` rejects it with "Data out of range", not with "Invalid
sensor name", while a second token of 16 bytes is rejected with "Invalid sensor
name". -/
theorem C15_empty_sensor_name_reported_as_range :
    (tokens "A, ,1".toList).map trim_whitespace = ["A".toList, "".toList, "1".toList] ∧
      is_valid_student_id "A".toList = true ∧
      ((parse_sensor2_data sensor_boot "A, ,1".toList).1.is_valid = false ∧
        (parse_sensor2_data sensor_boot "A, ,1".toList).1.error_msg = "Data out of range") ∧
      ((parse_sensor2_data sensor_boot "A,AAAAAAAAAAAAAAAA,1".toList).1.is_valid = false ∧
        (parse_sensor2_data sensor_boot "A,AAAAAAAAAAAAAAAA,1".toList).1.error_msg =
          "Invalid sensor name") := by
  decide

/-- C16 at its failing inputs. The frames `"A,25.6,60.2,junk"` and
`"A,DOOR,1,9"` have four comma-separated fields; `parse_sensor1_data` accepts
the first and `parse_sensor2_data` accepts the second, the fourth field being
ignored, while `parse_sensor_data` rejects both. -/
theorem C16_fourth_field_ignored :
    tokens "A,25.6,60.2,junk".toList =
        ["A".toList, "25.6".toList, "60.2".toList, "junk".toList] ∧
      (parse_sensor1_data id sensor_boot "A,25.6,60.2,junk".toList).1.is_valid = true ∧
      tokens "A,DOOR,1,9".toList = ["A".toList, "DOOR".toList, "1".toList, "9".toList] ∧
      (parse_sensor2_data sensor_boot "A,DOOR,1,9".toList).1.is_valid = true ∧
      (parse_sensor_data id sensor_boot "A,25.6,60.2,junk".toList).map
          (fun r => (r.1.is_valid, r.1.error_msg)) = some (false, "Invalid data format") ∧
      (parse_sensor_data id sensor_boot "A,DOOR,1,9".toList).map
          (fun r => (r.1.is_valid, r.1.error_msg)) = some (false, "Invalid data format") := by
  refine ⟨by decide, ?_, by decide, by decide, by decide, by decide⟩
  obtain ⟨_, _, _, _, _, a6, a7⟩ := atof_value_examples
  have e1 : trim_whitespace "25.6".toList = "25.6".toList := by decide
  have e2 : trim_whitespace "60.2".toList = "60.2".toList := by decide
  refine (sensor1_range_outcome id sensor_boot "A,25.6,60.2,junk".toList "A".toList
    "25.6".toList "60.2".toList ["junk".toList] (by decide) (by decide) (by decide)
    (by decide) (by decide)).1.mpr ?_
  simp only [parse_float_safe, e1, e2, a6, a7, id]
  norm_num

/-! ## The line receiver -/

theorem rx_contents_eq_of_ring (s t : CommState) (h1 : t.rx_head = s.rx_head)
    (h2 : t.rx_tail = s.rx_tail) (h3 : t.rx_buffer = s.rx_buffer) :
    rx_contents t = rx_contents s := by
  simp only [rx_contents, get_rx_buffer_count, h1, h2, h3]

theorem rx_contents_finish (s : CommState) (line : List Nat) :
    rx_contents (receive_line_finish s line).2.2 = rx_contents s := by
  unfold receive_line_finish
  split_ifs <;> rfl

theorem rx_contents_tick (s : CommState) :
    rx_contents (get_system_tick s).2 = rx_contents s := rfl

/-- On an empty ring `get_rx_byte` returns `false` and changes nothing. -/
theorem get_rx_byte_nil (s : CommState) (hh : s.rx_head < 256) (ht : s.rx_tail < 256)
    (h : rx_contents s = []) : get_rx_byte s = (none, s) := by
  have hl := rx_contents_length s
  rw [h, rx_count_eq s hh ht] at hl
  simp only [List.length_nil] at hl
  have : s.rx_tail = s.rx_head := by omega
  simp [get_rx_byte, this]

/-- On a ring holding `b :: cs`, `get_rx_byte` delivers `b`, advances `rx_tail`
and leaves `cs`. -/
theorem get_rx_byte_cons (s : CommState) (b : Nat) (cs : List Nat) (hh : s.rx_head < 256)
    (ht : s.rx_tail < 256) (h : rx_contents s = b :: cs) :
    ∃ s1, get_rx_byte s = (some b, s1) ∧ rx_contents s1 = cs ∧
      s1 = { s with rx_tail := s1.rx_tail } ∧ s1.rx_tail < 256 := by
  obtain ⟨h1, h2, _, h4⟩ := rx_get_sim s hh ht
  simp only [rx_call, fifo_call, h, RxRet.get_ret.injEq] at h1 h2 h4
  refine ⟨(get_rx_byte s).2, Prod.ext h1 rfl, h2, ?_, h4⟩
  unfold get_rx_byte
  split_ifs <;> rfl

theorem is_delimiter_iff (b : Nat) :
    is_delimiter b = true ↔ (b = COMM_CHAR_CR ∨ b = COMM_CHAR_LF) := by
  simp [is_delimiter, COMM_CHAR_CR, COMM_CHAR_LF]

theorem is_printable_iff (b : Nat) : is_printable b = true ↔ (b ≥ 32 ∧ b ≤ 126) := by
  simp [is_printable]

theorem rx_tail_update_trans (s s1 s2 : CommState) (h1 : s1 = { s with rx_tail := s1.rx_tail })
    (h2 : s2 = { s1 with rx_tail := s2.rx_tail }) : s2 = { s with rx_tail := s2.rx_tail } := by
  rw [h2, h1]

/-- While the ring holds enough bytes for `scan_line` to end the line (a
delimiter, or a full line buffer), the loop of `communication_receive_line`
returns that line with `SYSTEM_OK` and leaves in the ring the bytes `scan_line`
has not examined; apart from `rx_tail`, only the statistics change. -/
theorem receive_line_loop_scan (buffer_size timeout_ms start_time : Nat) :
    ∀ (cs : List Nat) (fuel : Nat) (s : CommState) (line out rest : List Nat),
      s.rx_head < 256 → s.rx_tail < 256 → rx_contents s = cs →
      scan_line (buffer_size - 1) line cs = some (out, rest) → cs.length < fuel →
      ∃ s1, receive_line_loop buffer_size timeout_ms start_time fuel s line =
          some (receive_line_finish s1 out) ∧
        rx_contents s1 = rest ∧ s1 = { s with rx_tail := s1.rx_tail } ∧ s1.rx_tail < 256 := by
  intro cs
  induction cs with
  | nil =>
    intro fuel s line out rest hh ht hc hscan hfuel
    obtain ⟨f, rfl⟩ : ∃ f, fuel = f + 1 := ⟨fuel - 1, by simp at hfuel; omega⟩
    simp only [scan_line] at hscan
    split_ifs at hscan with hlt
    simp only [Option.some.injEq, Prod.mk.injEq] at hscan
    obtain ⟨rfl, rfl⟩ := hscan
    refine ⟨s, ?_, hc, rfl, ht⟩
    simp only [receive_line_loop, hlt, if_false]
  | cons b cs ih =>
    intro fuel s line out rest hh ht hc hscan hfuel
    obtain ⟨f, rfl⟩ : ∃ f, fuel = f + 1 := ⟨fuel - 1, by simp at hfuel; omega⟩
    have hf : cs.length < f := by simp at hfuel; omega
    simp only [scan_line] at hscan
    by_cases hlt : line.length < buffer_size - 1
    · obtain ⟨s1, hget, hc1, hs1, ht1⟩ := get_rx_byte_cons s b cs hh ht hc
      have hh1 : s1.rx_head < 256 := by rw [hs1]; exact hh
      simp only [hlt, if_true] at hscan
      by_cases hd : b = COMM_CHAR_CR ∨ b = COMM_CHAR_LF
      · have hd2 := (is_delimiter_iff b).mpr hd
        simp only [hd2, if_true, Option.some.injEq, Prod.mk.injEq] at hscan
        obtain ⟨rfl, rfl⟩ := hscan
        refine ⟨s1, ?_, hc1, hs1, ht1⟩
        simp only [receive_line_loop, hlt, if_true, hget, hd]
      · have hd2 : is_delimiter b = false := by
          rw [Bool.eq_false_iff, Ne, is_delimiter_iff]; exact hd
        simp only [hd2, Bool.false_eq_true, if_false] at hscan
        by_cases hp : b ≥ 32 ∧ b ≤ 126
        · have hp2 := (is_printable_iff b).mpr hp
          simp only [hp2, if_true] at hscan
          obtain ⟨s2, hloop, hc2, hs2, ht2⟩ := ih f s1 (line ++ [b]) out rest hh1 ht1 hc1 hscan hf
          refine ⟨s2, ?_, hc2, rx_tail_update_trans s s1 s2 hs1 hs2, ht2⟩
          simp only [receive_line_loop, hlt, if_true, hget, hd, if_false, hp, hloop, and_self]
        · have hp2 : is_printable b = false := by
            rw [Bool.eq_false_iff, Ne, is_printable_iff]; exact hp
          simp only [hp2, Bool.false_eq_true, if_false] at hscan
          obtain ⟨s2, hloop, hc2, hs2, ht2⟩ := ih f s1 line out rest hh1 ht1 hc1 hscan hf
          refine ⟨s2, ?_, hc2, rx_tail_update_trans s s1 s2 hs1 hs2, ht2⟩
          simp only [receive_line_loop, hlt, if_true, hget, hd, if_false, hp, hloop]
    · simp only [hlt, if_false, Option.some.injEq, Prod.mk.injEq] at hscan
      obtain ⟨rfl, rfl⟩ := hscan
      refine ⟨s, ?_, hc, rfl, ht⟩
      simp only [receive_line_loop, hlt, if_false]

theorem is_delimiter_of_printable (b : Nat) (h : is_printable b = true) :
    is_delimiter b = false := by
  rw [is_printable_iff] at h
  rw [Bool.eq_false_iff, Ne, is_delimiter_iff]
  simp only [COMM_CHAR_CR, COMM_CHAR_LF]
  omega

theorem scan_line_full (limit : Nat) (line cs : List Nat) (h : ¬ line.length < limit) :
    scan_line limit line cs = some (line, cs) := by
  cases cs <;> simp [scan_line, h]

/-- A run of printable bytes that fills the line buffer ends the scan without
a delimiter: the bytes after the run are not examined. -/
theorem scan_line_run_full (limit : Nat) :
    ∀ (run line rest : List Nat), (∀ b ∈ run, is_printable b = true) →
      line.length + run.length = limit →
      scan_line limit line (run ++ rest) = some (line ++ run, rest) := by
  intro run
  induction run with
  | nil =>
    intro line rest _ hlen
    simp only [List.length_nil, Nat.add_zero] at hlen
    simpa using scan_line_full limit line rest (by omega)
  | cons b run ih =>
    intro line rest hpr hlen
    simp only [List.length_cons] at hlen
    have hlt : line.length < limit := by omega
    have hb := hpr b (List.mem_cons_self _ _)
    have hd := is_delimiter_of_printable b hb
    have := ih (line ++ [b]) rest (fun x hx => hpr x (List.mem_cons_of_mem _ hx))
      (by simp only [List.length_append, List.length_singleton]; omega)
    simp only [List.cons_append, scan_line, hlt, if_true, hd, hb, Bool.false_eq_true, if_false]
    simpa using this

/-- A run of printable bytes shorter than the line buffer and followed by a
delimiter is the line; the delimiter is examined and dropped. -/
theorem scan_line_run_delimiter (limit : Nat) :
    ∀ (run line : List Nat) (d : Nat) (rest : List Nat), (∀ b ∈ run, is_printable b = true) →
      is_delimiter d = true → line.length + run.length < limit →
      scan_line limit line (run ++ d :: rest) = some (line ++ run, rest) := by
  intro run
  induction run with
  | nil =>
    intro line d rest _ hd hlen
    simp only [List.length_nil, Nat.add_zero] at hlen
    simp [scan_line, hlen, hd]
  | cons b run ih =>
    intro line d rest hpr hd hlen
    simp only [List.length_cons] at hlen
    have hlt : line.length < limit := by omega
    have hb := hpr b (List.mem_cons_self _ _)
    have hbd := is_delimiter_of_printable b hb
    have := ih (line ++ [b]) d rest (fun x hx => hpr x (List.mem_cons_of_mem _ hx)) hd
      (by simp only [List.length_append, List.length_singleton]; omega)
    simp only [List.cons_append, scan_line, hlt, if_true, hbd, hb, Bool.false_eq_true, if_false]
    simpa using this

/-- The call `communication_receive_line` on a ring where `scan_line` ends the
line: it returns that line with `SYSTEM_OK`; the ring keeps the bytes not
examined; one tick is taken; `last_error` and the error counters are left
alone. -/
theorem communication_receive_line_scan (s : CommState) (buffer_size timeout_ms fuel : Nat)
    (out rest : List Nat) (hbs : 2 ≤ buffer_size) (hh : s.rx_head < 256) (ht : s.rx_tail < 256)
    (hscan : scan_line (buffer_size - 1) [] (rx_contents s) = some (out, rest))
    (hfuel : (rx_contents s).length < fuel) :
    ∃ s1, communication_receive_line s buffer_size timeout_ms fuel =
        some (system_status_t.SYSTEM_OK, some out, s1) ∧
      rx_contents s1 = rest ∧ s1.rx_head < 256 ∧ s1.rx_tail < 256 ∧
      s1.last_error = s.last_error ∧ s1.error_callback = s.error_callback ∧
      s1.statistics.error_count = s.statistics.error_count ∧
      s1.statistics.timeout_count = s.statistics.timeout_count ∧
      s1.statistics.packets_received =
        (if out.length > 0 then incr32 s.statistics.packets_received
         else s.statistics.packets_received) := by
  obtain ⟨s1, hloop, hc1, hs1, ht1⟩ := receive_line_loop_scan buffer_size timeout_ms
    (get_system_tick s).1 (rx_contents s) fuel (get_system_tick s).2 [] out rest hh ht rfl
    hscan hfuel
  have hbs2 : ¬ buffer_size < 2 := by omega
  refine ⟨(receive_line_finish s1 out).2.2, ?_, ?_, ?_, ?_, ?_, ?_, ?_, ?_, ?_⟩
  · simp only [communication_receive_line, hbs2, if_false, hloop]
    rfl
  · rw [rx_contents_finish, hc1]
  all_goals
    rw [hs1]
    unfold receive_line_finish
    split_ifs <;> first | rfl | assumption

/-- Pushing bytes into a ring that has room for them appends them to its
content. -/
theorem rx_fill_contents : ∀ (bytes : List Nat) (s : CommState), s.rx_head < 256 →
    s.rx_tail < 256 → (rx_contents s).length + bytes.length ≤ 255 →
    rx_contents (rx_fill s bytes) = rx_contents s ++ bytes ∧
      (rx_fill s bytes).rx_head < 256 ∧ (rx_fill s bytes).rx_tail < 256 := by
  intro bytes
  induction bytes with
  | nil => intro s hh ht _; simpa [rx_fill] using ⟨hh, ht⟩
  | cons b bs ih =>
    intro s hh ht hlen
    simp only [List.length_cons] at hlen
    obtain ⟨_, h2, h3, h4⟩ := rx_put_sim s b hh ht
    have hlt : (rx_contents s).length < 255 := by omega
    simp only [rx_call, fifo_call, hlt, if_true] at h2 h3 h4
    have hlen2 : (rx_contents (put_rx_byte s b).2).length + bs.length ≤ 255 := by
      rw [h2]
      simp only [List.length_append, List.length_singleton]
      omega
    have := ih (put_rx_byte s b).2 h3 h4 hlen2
    rw [h2] at this
    simpa [rx_fill] using this

theorem rx_contents_init : rx_contents (system_init_comm comm_boot) = [] := by decide

/-- The ring right after `system_init`, filled with at most 255 bytes. -/
theorem rx_fill_init (bytes : List Nat) (h : bytes.length ≤ 255) :
    rx_contents (rx_fill (system_init_comm comm_boot) bytes) = bytes ∧
      (rx_fill (system_init_comm comm_boot) bytes).rx_head < 256 ∧
      (rx_fill (system_init_comm comm_boot) bytes).rx_tail < 256 := by
  have := rx_fill_contents bytes (system_init_comm comm_boot) (by decide) (by decide)
    (by rw [rx_contents_init]; simpa using h)
  rw [rx_contents_init] at this
  simpa using this

theorem is_printable_of_range (l : List Nat) (h : ∀ b ∈ l, 32 ≤ b ∧ b ≤ 126) :
    ∀ b ∈ l, is_printable b = true :=
  fun b hb => (is_printable_iff b).mpr (h b hb)

/-- A ring that starts with a run of 127 printable bytes: the call with the
128-byte line buffer returns the run and leaves what follows it. -/
theorem communication_receive_line_full (s : CommState) (run rest : List Nat)
    (timeout_ms fuel : Nat) (hh : s.rx_head < 256) (ht : s.rx_tail < 256)
    (hring : rx_contents s = run ++ rest) (hlen : run.length = 127)
    (hpr : ∀ b ∈ run, 32 ≤ b ∧ b ≤ 126) (hfuel : (rx_contents s).length < fuel) :
    ∃ s1, communication_receive_line s 128 timeout_ms fuel =
        some (system_status_t.SYSTEM_OK, some run, s1) ∧
      rx_contents s1 = rest ∧ s1.rx_head < 256 ∧ s1.rx_tail < 256 ∧
      s1.last_error = s.last_error ∧
      s1.statistics.error_count = s.statistics.error_count := by
  have hscan : scan_line (128 - 1) [] (rx_contents s) = some (run, rest) := by
    rw [hring]
    simpa using scan_line_run_full 127 run [] rest (is_printable_of_range run hpr)
      (by simpa using hlen)
  obtain ⟨s1, h1, h2, h3, h4, h5, _, h7, _⟩ := communication_receive_line_scan s 128 timeout_ms
    fuel run rest (by norm_num) hh ht hscan hfuel
  exact ⟨s1, h1, h2, h3, h4, h5, h7⟩

/-- A ring that starts with fewer than 127 printable bytes followed by CR or
LF: the call with the 128-byte line buffer returns the run, drops the delimiter
and leaves what follows it. -/
theorem communication_receive_line_delimited (s : CommState) (run : List Nat) (d : Nat)
    (rest : List Nat) (timeout_ms fuel : Nat) (hh : s.rx_head < 256) (ht : s.rx_tail < 256)
    (hring : rx_contents s = run ++ d :: rest) (hlen : run.length < 127)
    (hpr : ∀ b ∈ run, 32 ≤ b ∧ b ≤ 126) (hd : d = COMM_CHAR_CR ∨ d = COMM_CHAR_LF)
    (hfuel : (rx_contents s).length < fuel) :
    ∃ s1, communication_receive_line s 128 timeout_ms fuel =
        some (system_status_t.SYSTEM_OK, some run, s1) ∧
      rx_contents s1 = rest ∧ s1.rx_head < 256 ∧ s1.rx_tail < 256 ∧
      s1.last_error = s.last_error ∧
      s1.statistics.error_count = s.statistics.error_count := by
  have hscan : scan_line (128 - 1) [] (rx_contents s) = some (run, rest) := by
    rw [hring]
    simpa using scan_line_run_delimiter 127 run [] d rest (is_printable_of_range run hpr)
      ((is_delimiter_iff d).mpr hd) (by simpa using hlen)
  obtain ⟨s1, h1, h2, h3, h4, h5, _, h7, _⟩ := communication_receive_line_scan s 128 timeout_ms
    fuel run rest (by norm_num) hh ht hscan hfuel
  exact ⟨s1, h1, h2, h3, h4, h5, h7⟩

/-- What `process_received_data` does with a non-empty line returned with
`SYSTEM_OK`: it hands it to the parser. -/
theorem process_received_data_line_of_receive (s s1 : CommState) (fuel : Nat) (l : List Nat)
    (hne : rx_contents s ≠ []) (hl : l ≠ [])
    (h : communication_receive_line s 128 1000 fuel =
      some (system_status_t.SYSTEM_OK, some l, s1)) :
    process_received_data_line s fuel = some (some (l.map Char.ofNat), s1) := by
  have hav : communication_data_available s = true := by
    have := rx_contents_length s
    have hpos : 0 < (rx_contents s).length := List.length_pos.mpr hne
    simp only [communication_data_available, decide_eq_true_eq]
    omega
  have hlen : l.length > 0 := List.length_pos.mpr hl
  simp [process_received_data_line, hav, h, hlen]

/-- C19. A frame of exactly 127 printable bytes followed by LF, held by the RX
ring (ring indices within the buffer, whatever follows the LF), is returned by
one call of `communication_receive_line` with `buffer_size` 128 as the line,
with `SYSTEM_OK`: the line is the frame, byte for byte; the ring is left with
the LF and what followed it; and the next call returns the empty line and
leaves what followed the LF. The loop is given more iterations than the ring
holds bytes. -/
theorem C19_full_length_frame (s : CommState) (frame rest : List Nat) (timeout_ms fuel : Nat)
    (hh : s.rx_head < 256) (ht : s.rx_tail < 256)
    (hring : rx_contents s = frame ++ COMM_CHAR_LF :: rest) (hlen : frame.length = 127)
    (hpr : ∀ b ∈ frame, 32 ≤ b ∧ b ≤ 126) (hfuel : (rx_contents s).length < fuel) :
    ∃ s1, communication_receive_line s 128 timeout_ms fuel =
        some (system_status_t.SYSTEM_OK, some frame, s1) ∧
      rx_contents s1 = COMM_CHAR_LF :: rest ∧
      ∃ s2, communication_receive_line s1 128 timeout_ms fuel =
          some (system_status_t.SYSTEM_OK, some [], s2) ∧
        rx_contents s2 = rest := by
  obtain ⟨s1, h1, h2, h3, h4, _⟩ := communication_receive_line_full s frame
    (COMM_CHAR_LF :: rest) timeout_ms fuel hh ht hring hlen hpr hfuel
  have hfuel1 : (rx_contents s1).length < fuel := by
    rw [h2]; rw [hring] at hfuel
    simp only [List.length_append, List.length_cons] at hfuel ⊢
    omega
  obtain ⟨s2, k1, k2, _⟩ := communication_receive_line_delimited s1 [] COMM_CHAR_LF rest
    timeout_ms fuel h3 h4 (by simpa using h2) (by simp) (by simp) (Or.inr rfl) hfuel1
  exact ⟨s1, h1, h2, s2, k1, k2⟩

/-- Witness of C19: 127 bytes `A` and LF pushed into the ring after
`system_init`. -/
theorem C19_witness :
    ∃ s1, communication_receive_line
        (rx_fill (system_init_comm comm_boot) (List.replicate 127 65 ++ [10])) 128 1000 129 =
        some (system_status_t.SYSTEM_OK, some (List.replicate 127 65), s1) ∧
      rx_contents s1 = [10] ∧
      ∃ s2, communication_receive_line s1 128 1000 129 =
          some (system_status_t.SYSTEM_OK, some [], s2) ∧
        rx_contents s2 = [] := by
  obtain ⟨hc, hh, ht⟩ := rx_fill_init (List.replicate 127 65 ++ [10]) (by simp)
  exact C19_full_length_frame (rx_fill (system_init_comm comm_boot) (List.replicate 127 65 ++ [10]))
    (List.replicate 127 65) [] 1000 129 hh ht hc (by simp)
    (fun b hb => by rw [List.eq_of_mem_replicate hb]; decide) (by rw [hc]; simp)

/-- C18, as the code has it. When the RX ring (ring indices within the buffer)
starts with 127 printable bytes followed by further printable bytes, fewer than
127, and then CR or LF, `communication_receive_line` with the 128-byte line
buffer returns the first 127 bytes as a line with `SYSTEM_OK` and leaves the
rest in the ring, and the next call returns the remaining printable bytes as a
second line and drops the delimiter; neither call changes `last_error` or
`statistics.error_count`. The loop is given more iterations than the ring holds
bytes. -/
theorem C18_overlong_run_split (s : CommState) (run run2 : List Nat) (d : Nat)
    (rest : List Nat) (timeout_ms fuel : Nat) (hh : s.rx_head < 256) (ht : s.rx_tail < 256)
    (hring : rx_contents s = run ++ (run2 ++ d :: rest)) (hlen : run.length = 127)
    (hlen2 : run2.length < 127) (hpr : ∀ b ∈ run ++ run2, 32 ≤ b ∧ b ≤ 126)
    (hd : d = COMM_CHAR_CR ∨ d = COMM_CHAR_LF) (hfuel : (rx_contents s).length < fuel) :
    ∃ s1, communication_receive_line s 128 timeout_ms fuel =
        some (system_status_t.SYSTEM_OK, some run, s1) ∧
      rx_contents s1 = run2 ++ d :: rest ∧
      s1.last_error = s.last_error ∧
      s1.statistics.error_count = s.statistics.error_count ∧
      ∃ s2, communication_receive_line s1 128 timeout_ms fuel =
          some (system_status_t.SYSTEM_OK, some run2, s2) ∧
        rx_contents s2 = rest ∧
        s2.last_error = s.last_error ∧
        s2.statistics.error_count = s.statistics.error_count := by
  obtain ⟨s1, h1, h2, h3, h4, h5, h6⟩ := communication_receive_line_full s run
    (run2 ++ d :: rest) timeout_ms fuel hh ht hring hlen
    (fun b hb => hpr b (List.mem_append_left _ hb)) hfuel
  have hfuel1 : (rx_contents s1).length < fuel := by
    rw [h2]; rw [hring] at hfuel
    simp only [List.length_append, List.length_cons] at hfuel ⊢
    omega
  obtain ⟨s2, k1, k2, _, _, k5, k6⟩ := communication_receive_line_delimited s1 run2 d rest
    timeout_ms fuel h3 h4 h2 hlen2 (fun b hb => hpr b (List.mem_append_right _ hb)) hd hfuel1
  exact ⟨s1, h1, h2, h5, h6, s2, k1, k2, k5.trans h5, k6.trans h6⟩

theorem rx_fill_statistics : ∀ (bytes : List Nat) (t : CommState),
    (rx_fill t bytes).statistics = t.statistics := by
  intro bytes
  induction bytes with
  | nil => intro t; rfl
  | cons b bs ih =>
    intro t
    have : (put_rx_byte t b).2.statistics = t.statistics := by
      simp only [put_rx_byte]
      split_ifs <;> rfl
    simpa [rx_fill, this] using ih (put_rx_byte t b).2

/-- Witness of C18: 200 bytes `A` and LF pushed into the ring after
`system_init` come out as a line of 127 bytes and a line of 73 bytes. -/
theorem C18_witness :
    ∃ s1, communication_receive_line
        (rx_fill (system_init_comm comm_boot) (List.replicate 200 65 ++ [10])) 128 1000 202 =
        some (system_status_t.SYSTEM_OK, some (List.replicate 127 65), s1) ∧
      ∃ s2, communication_receive_line s1 128 1000 202 =
          some (system_status_t.SYSTEM_OK, some (List.replicate 73 65), s2) ∧
        rx_contents s2 = [] ∧ s2.statistics.error_count = 0 := by
  have hlen : (List.replicate 200 65 ++ [10]).length = 201 := by
    simp only [List.length_append, List.length_replicate, List.length_singleton]
  obtain ⟨hc, hh, ht⟩ := rx_fill_init (List.replicate 200 65 ++ [10]) (by omega)
  have hsplit : List.replicate 200 65 ++ [10] =
      List.replicate 127 65 ++ (List.replicate 73 65 ++ 10 :: []) := by
    rw [← List.append_assoc, ← List.replicate_add]
  obtain ⟨s1, h1, _, _, _, s2, k1, k2, _, k4⟩ := C18_overlong_run_split
    (rx_fill (system_init_comm comm_boot) (List.replicate 200 65 ++ [10]))
    (List.replicate 127 65) (List.replicate 73 65) 10 [] 1000 202 hh ht (hc.trans hsplit)
    (List.length_replicate _ _) (by rw [List.length_replicate]; omega)
    (fun b hb => by
      rw [← List.replicate_add] at hb
      rw [List.eq_of_mem_replicate hb]; decide)
    (Or.inr rfl) (by rw [hc, hlen]; omega)
  refine ⟨s1, h1, s2, k1, k2, ?_⟩
  rw [k4, rx_fill_statistics]
  rfl

/-- C18 as stated fails: with 200 bytes `A` and LF in the ring after
`system_init`, the first call of `communication_receive_line` with the
128-byte buffer returns a line, the first 127 bytes, with `SYSTEM_OK`, and
`process_received_data` hands that line to the parser; the rest of the run
stays in the ring. -/
theorem C18_counterexample :
    ∃ s1, communication_receive_line
        (rx_fill (system_init_comm comm_boot) (List.replicate 200 65 ++ [10])) 128 1000 202 =
        some (system_status_t.SYSTEM_OK, some (List.replicate 127 65), s1) ∧
      process_received_data_line
        (rx_fill (system_init_comm comm_boot) (List.replicate 200 65 ++ [10])) 202 =
        some (some (List.replicate 127 'A'), s1) ∧
      rx_contents s1 = List.replicate 73 65 ++ [10] := by
  have hlen : (List.replicate 200 65 ++ [10]).length = 201 := by
    simp only [List.length_append, List.length_replicate, List.length_singleton]
  obtain ⟨hc, hh, ht⟩ := rx_fill_init (List.replicate 200 65 ++ [10]) (by omega)
  have hsplit : List.replicate 200 65 ++ [10] =
      List.replicate 127 65 ++ (List.replicate 73 65 ++ [10]) := by
    rw [← List.append_assoc, ← List.replicate_add]
  obtain ⟨s1, h1, h2, _⟩ := communication_receive_line_full
    (rx_fill (system_init_comm comm_boot) (List.replicate 200 65 ++ [10]))
    (List.replicate 127 65) (List.replicate 73 65 ++ [10]) 1000 202 hh ht (hc.trans hsplit)
    (List.length_replicate _ _) (fun b hb => by rw [List.eq_of_mem_replicate hb]; decide)
    (by rw [hc, hlen]; omega)
  refine ⟨s1, h1, ?_, h2⟩
  have hne : rx_contents (rx_fill (system_init_comm comm_boot)
      (List.replicate 200 65 ++ [10])) ≠ [] := by
    intro h
    have := congrArg List.length h
    rw [hc, hlen] at this
    simp at this
  have hne2 : List.replicate 127 65 ≠ [] := by
    intro h
    have := congrArg List.length h
    rw [List.length_replicate] at this
    simp at this
  rw [process_received_data_line_of_receive _ s1 202 (List.replicate 127 65) hne hne2 h1,
    List.map_replicate]

/-! ## What a returned line is -/

theorem is_printable_of_delimiter (b : Nat) (h : is_delimiter b = true) :
    is_printable b = false := by
  cases hp : is_printable b with
  | false => rfl
  | true => rw [is_delimiter_of_printable b hp] at h; exact absurd h (by decide)

theorem mem_dropLast_cons (x b : Nat) (l : List Nat) (h : x ∈ (b :: l).dropLast) :
    x = b ∨ x ∈ l.dropLast := by
  cases l with
  | nil => simp at h
  | cons y l => simpa [List.dropLast] using h

theorem receive_line_finish_eq (s : CommState) (line : List Nat) :
    receive_line_finish s line =
      (system_status_t.SYSTEM_OK, some line, (receive_line_finish s line).2.2) := rfl

/-- On an empty ring the loop of `communication_receive_line` can only return
after the timeout: with `SYSTEM_TIMEOUT` when no byte was stored, with the
bytes stored so far otherwise.  The ring is still empty. -/
theorem receive_line_loop_empty (buffer_size timeout_ms start_time : Nat) :
    ∀ (fuel : Nat) (s : CommState) (line : List Nat)
      (r : system_status_t × Option (List Nat) × CommState),
      s.rx_head < 256 → s.rx_tail < 256 → rx_contents s = [] →
      line.length < buffer_size - 1 →
      receive_line_loop buffer_size timeout_ms start_time fuel s line = some r →
      (r.1 = system_status_t.SYSTEM_TIMEOUT ∧ r.2.1 = none ∧ line = []) ∨
      (r.1 = system_status_t.SYSTEM_OK ∧ r.2.1 = some line ∧ rx_contents r.2.2 = []) := by
  intro fuel
  induction fuel with
  | zero => intro s line r _ _ _ _ h; simp [receive_line_loop] at h
  | succ f ih =>
    intro s line r hh ht hc hlt h
    have hget := get_rx_byte_nil s hh ht hc
    simp only [receive_line_loop, hlt, if_true, hget] at h
    by_cases hto : timeout_ms > 0
    · simp only [hto, if_true] at h
      by_cases hel : ((get_system_tick s).1 + 4294967296 - start_time) % 4294967296 > timeout_ms
      · simp only [hel, if_true] at h
        by_cases h0 : line.length = 0
        · simp only [h0, if_true, Option.some.injEq] at h
          left
          rw [← h]
          exact ⟨rfl, rfl, List.length_eq_zero.mp h0⟩
        · simp only [h0, if_false, Option.some.injEq] at h
          right
          rw [← h]
          exact ⟨rfl, rfl, by rw [rx_contents_finish, rx_contents_tick, hc]⟩
      · simp only [hel, if_false] at h
        exact ih (get_system_tick s).2 line r hh ht hc hlt h
    · simp only [hto, if_false] at h
      exact ih s line r hh ht hc hlt h

/-- Every line the loop of `communication_receive_line` returns with
`SYSTEM_OK`: it is the line so far followed by the printable bytes among the
`n` bytes taken from the ring, which is also the first `buffer_size - 1` bytes
of the line so far followed by the printable bytes before the first CR or LF;
no byte after a delimiter is taken. -/
theorem receive_line_loop_result (buffer_size timeout_ms start_time : Nat) :
    ∀ (cs : List Nat) (fuel : Nat) (s : CommState) (line : List Nat)
      (r : system_status_t × Option (List Nat) × CommState),
      s.rx_head < 256 → s.rx_tail < 256 → rx_contents s = cs →
      line.length ≤ buffer_size - 1 →
      receive_line_loop buffer_size timeout_ms start_time fuel s line = some r →
      r.1 = system_status_t.SYSTEM_OK →
      ∃ out n, r.2.1 = some out ∧ n ≤ cs.length ∧ rx_contents r.2.2 = cs.drop n ∧
        out = line ++ (cs.take n).filter is_printable ∧
        out = (line ++ (cs.takeWhile (fun b => !is_delimiter b)).filter is_printable).take
          (buffer_size - 1) ∧
        ∀ b ∈ (cs.take n).dropLast, is_delimiter b = false := by
  intro cs
  induction cs with
  | nil =>
    intro fuel s line r hh ht hc hle h hok
    refine ⟨line, 0, ?_, le_refl _, ?_, by simp, ?_, by simp⟩
    · cases fuel with
      | zero => simp [receive_line_loop] at h
      | succ f =>
        by_cases hlt : line.length < buffer_size - 1
        · rcases receive_line_loop_empty buffer_size timeout_ms start_time (f + 1) s line r hh ht
            hc hlt h with h1 | h1
          · rw [h1.1] at hok; exact absurd hok (by decide)
          · exact h1.2.1
        · simp only [receive_line_loop, hlt, if_false, Option.some.injEq] at h
          rw [← h]; rfl
    · cases fuel with
      | zero => simp [receive_line_loop] at h
      | succ f =>
        by_cases hlt : line.length < buffer_size - 1
        · rcases receive_line_loop_empty buffer_size timeout_ms start_time (f + 1) s line r hh ht
            hc hlt h with h1 | h1
          · rw [h1.1] at hok; exact absurd hok (by decide)
          · simpa using h1.2.2
        · simp only [receive_line_loop, hlt, if_false, Option.some.injEq] at h
          rw [← h, rx_contents_finish, hc]; rfl
    · simp only [List.takeWhile_nil, List.filter_nil, List.append_nil]
      exact (List.take_of_length_le hle).symm
  | cons b cs ih =>
    intro fuel s line r hh ht hc hle h hok
    cases fuel with
    | zero => simp [receive_line_loop] at h
    | succ f =>
      by_cases hlt : line.length < buffer_size - 1
      · obtain ⟨s1, hget, hc1, hs1, ht1⟩ := get_rx_byte_cons s b cs hh ht hc
        have hh1 : s1.rx_head < 256 := by rw [hs1]; exact hh
        by_cases hd : b = COMM_CHAR_CR ∨ b = COMM_CHAR_LF
        · have hd2 := (is_delimiter_iff b).mpr hd
          have hp2 := is_printable_of_delimiter b hd2
          simp only [receive_line_loop, hlt, if_true, hget, hd, Option.some.injEq] at h
          refine ⟨line, 1, by rw [← h]; rfl, by simp, ?_, ?_, ?_, by simp⟩
          · rw [← h, rx_contents_finish, hc1]; rfl
          · simp [hp2]
          · simp only [List.takeWhile_cons, hd2, Bool.not_true, Bool.false_eq_true, if_false,
              List.filter_nil, List.append_nil]
            exact (List.take_of_length_le hle).symm
        · have hd2 : is_delimiter b = false := by
            rw [Bool.eq_false_iff, Ne, is_delimiter_iff]; exact hd
          by_cases hp : b ≥ 32 ∧ b ≤ 126
          · have hp2 := (is_printable_iff b).mpr hp
            simp only [receive_line_loop, hlt, if_true, hget, hd, if_false, hp, and_self] at h
            obtain ⟨out, n, k1, k2, k3, k4, k5, k6⟩ := ih f s1 (line ++ [b]) r hh1 ht1 hc1
              (by simp only [List.length_append, List.length_singleton]; omega) h hok
            refine ⟨out, n + 1, k1, by simpa using k2, by simpa using k3, ?_, ?_, ?_⟩
            · rw [k4]; simp [hp2]
            · rw [k5]; simp [hd2, hp2]
            · intro x hx
              simp only [List.take_succ_cons] at hx
              rcases mem_dropLast_cons x b _ hx with hx1 | hx1
              · rw [hx1]; exact hd2
              · exact k6 x hx1
          · have hp2 : is_printable b = false := by
              rw [Bool.eq_false_iff, Ne, is_printable_iff]; exact hp
            simp only [receive_line_loop, hlt, if_true, hget, hd, if_false, hp] at h
            obtain ⟨out, n, k1, k2, k3, k4, k5, k6⟩ := ih f s1 line r hh1 ht1 hc1 hle h hok
            refine ⟨out, n + 1, k1, by simpa using k2, by simpa using k3, ?_, ?_, ?_⟩
            · rw [k4]; simp [hp2]
            · rw [k5]; simp [hd2, hp2]
            · intro x hx
              simp only [List.take_succ_cons] at hx
              rcases mem_dropLast_cons x b _ hx with hx1 | hx1
              · rw [hx1]; exact hd2
              · exact k6 x hx1
      · simp only [receive_line_loop, hlt, if_false, Option.some.injEq] at h
        refine ⟨line, 0, by rw [← h]; rfl, by simp, ?_, by simp, ?_, by simp⟩
        · rw [← h, rx_contents_finish, hc]; rfl
        · have hfull : line.length = buffer_size - 1 := by omega
          rw [List.take_append_of_le_length (by omega), List.take_of_length_le (by omega)]

/-! ## Termination of the line receiver -/

/-- On an empty ring, with a timeout between 1 and `0xFFFFFFFE` ticks, the loop
of `communication_receive_line` returns once the tick counter has moved more
than `timeout_ms` past `start_time`. -/
theorem receive_line_loop_empty_returns (buffer_size timeout_ms start_time : Nat)
    (hto : 0 < timeout_ms) (hmax : timeout_ms + 1 < 4294967296)
    (hstart : start_time < 4294967296) :
    ∀ (fuel : Nat) (s : CommState) (line : List Nat),
      s.rx_head < 256 → s.rx_tail < 256 → rx_contents s = [] → s.tick_count < 4294967296 →
      (s.tick_count + 4294967296 - start_time) % 4294967296 ≤ timeout_ms →
      timeout_ms + 1 ≤ fuel + (s.tick_count + 4294967296 - start_time) % 4294967296 →
      (receive_line_loop buffer_size timeout_ms start_time fuel s line).isSome = true := by
  intro fuel
  induction fuel with
  | zero => intro s line _ _ _ _ he hf; omega
  | succ f ih =>
    intro s line hh ht hc htick he hf
    by_cases hlt : line.length < buffer_size - 1
    · have hget := get_rx_byte_nil s hh ht hc
      simp only [receive_line_loop, hlt, if_true, hget, hto, gt_iff_lt]
      by_cases hel : timeout_ms <
          ((get_system_tick s).1 + 4294967296 - start_time) % 4294967296
      · simp only [hel, if_true]
        split_ifs <;> rfl
      · simp only [hel, if_false]
        have htk : (get_system_tick s).2.tick_count = (s.tick_count + 1) % 4294967296 := rfl
        have htk1 : (get_system_tick s).1 = (s.tick_count + 1) % 4294967296 := rfl
        rw [htk1] at hel
        apply ih (get_system_tick s).2 line hh ht hc
        · rw [htk]; omega
        · rw [htk]; omega
        · rw [htk]; omega
    · simp only [receive_line_loop, hlt, if_false]
      rfl

/-- With a timeout between 1 and `0xFFFFFFFE` ticks and no interrupt taken,
the loop of `communication_receive_line` returns within as many iterations as
the ring holds bytes, plus `timeout_ms + 2`. -/
theorem receive_line_loop_returns (buffer_size timeout_ms start_time : Nat)
    (hto : 0 < timeout_ms) (hmax : timeout_ms + 1 < 4294967296)
    (hstart : start_time < 4294967296) :
    ∀ (cs : List Nat) (fuel : Nat) (s : CommState) (line : List Nat),
      s.rx_head < 256 → s.rx_tail < 256 → rx_contents s = cs → s.tick_count = start_time →
      cs.length + timeout_ms + 2 ≤ fuel →
      (receive_line_loop buffer_size timeout_ms start_time fuel s line).isSome = true := by
  intro cs
  induction cs with
  | nil =>
    intro fuel s line hh ht hc htick hf
    simp only [List.length_nil] at hf
    apply receive_line_loop_empty_returns buffer_size timeout_ms start_time hto hmax hstart fuel
      s line hh ht hc
    · rw [htick]; exact hstart
    · rw [htick]; omega
    · rw [htick]; omega
  | cons b cs ih =>
    intro fuel s line hh ht hc htick hf
    simp only [List.length_cons] at hf
    obtain ⟨f, rfl⟩ : ∃ f, fuel = f + 1 := ⟨fuel - 1, by omega⟩
    by_cases hlt : line.length < buffer_size - 1
    · obtain ⟨s1, hget, hc1, hs1, ht1⟩ := get_rx_byte_cons s b cs hh ht hc
      have hh1 : s1.rx_head < 256 := by rw [hs1]; exact hh
      have htick1 : s1.tick_count = start_time := by rw [hs1]; exact htick
      simp only [receive_line_loop, hlt, if_true, hget]
      split_ifs
      · rfl
      · exact ih f s1 _ hh1 ht1 hc1 htick1 (by omega)
      · exact ih f s1 _ hh1 ht1 hc1 htick1 (by omega)
    · simp only [receive_line_loop, hlt, if_false]
      rfl

/-- With a timeout between 1 and `0xFFFFFFFE` ticks and no interrupt taken,
the call `communication_receive_line` returns. -/
theorem communication_receive_line_returns (s : CommState) (buffer_size timeout_ms fuel : Nat)
    (hh : s.rx_head < 256) (ht : s.rx_tail < 256) (hto : 0 < timeout_ms)
    (hmax : timeout_ms + 1 < 4294967296)
    (hfuel : (rx_contents s).length + timeout_ms + 2 ≤ fuel) :
    (communication_receive_line s buffer_size timeout_ms fuel).isSome = true := by
  unfold communication_receive_line
  split_ifs
  · rfl
  · have hlt : (get_system_tick s).1 < 4294967296 := Nat.mod_lt _ (by norm_num)
    exact receive_line_loop_returns buffer_size timeout_ms (get_system_tick s).1 hto hmax hlt
      (rx_contents s) fuel (get_system_tick s).2 [] hh ht rfl rfl hfuel

/-- C20. For every RX ring state with indices within the buffer, every
`buffer_size ≥ 2` and every `timeout_ms`: whenever `communication_receive_line`
returns `SYSTEM_OK`, the line it wrote is the first `buffer_size - 1` bytes of
the printable bytes (0x20..0x7E) of the longest prefix of the ring content
without CR or LF; the bytes removed from the ring are a prefix of its content,
the line is exactly the printable bytes of that prefix, and no byte after a
delimiter is removed. With `timeout_ms` between 1 and `0xFFFFFFFE` the call
returns within as many loop iterations as the ring holds bytes, plus
`timeout_ms + 2`. -/
theorem C20_returned_line (s : CommState) (buffer_size timeout_ms : Nat)
    (hh : s.rx_head < 256) (ht : s.rx_tail < 256) (hbs : 2 ≤ buffer_size) :
    (∀ (fuel : Nat) (r : system_status_t × Option (List Nat) × CommState),
      communication_receive_line s buffer_size timeout_ms fuel = some r →
      r.1 = system_status_t.SYSTEM_OK →
      ∃ out n, r.2.1 = some out ∧
        out = (((rx_contents s).takeWhile (fun b => !is_delimiter b)).filter is_printable).take
          (buffer_size - 1) ∧
        n ≤ (rx_contents s).length ∧ rx_contents r.2.2 = (rx_contents s).drop n ∧
        out = ((rx_contents s).take n).filter is_printable ∧
        ∀ b ∈ ((rx_contents s).take n).dropLast, is_delimiter b = false) ∧
    (0 < timeout_ms → timeout_ms + 1 < 4294967296 → ∀ fuel : Nat,
      (rx_contents s).length + timeout_ms + 2 ≤ fuel →
      (communication_receive_line s buffer_size timeout_ms fuel).isSome = true) := by
  refine ⟨?_, fun hto hmax fuel hfuel =>
    communication_receive_line_returns s buffer_size timeout_ms fuel hh ht hto hmax hfuel⟩
  intro fuel r hret hok
  have hbs2 : ¬ buffer_size < 2 := by omega
  simp only [communication_receive_line, hbs2, if_false] at hret
  obtain ⟨out, n, k1, k2, k3, k4, k5, k6⟩ := receive_line_loop_result buffer_size timeout_ms
    (get_system_tick s).1 (rx_contents s) fuel (get_system_tick s).2 [] r hh ht rfl
    (Nat.zero_le _) hret hok
  exact ⟨out, n, k1, by simpa using k5, k2, k3, by simpa using k4, k6⟩

/-- Witness of C20: the ring after `system_init` with the bytes `A`, 0x01, `B`,
CR, `C` pushed into it; the call returns the line `AB`. -/
theorem C20_witness :
    (communication_receive_line (rx_fill (system_init_comm comm_boot) [65, 1, 66, 13, 67])
        128 1000 10).map (fun r => (r.1, r.2.1)) =
      some (system_status_t.SYSTEM_OK, some [65, 66]) ∧
    ∃ r, communication_receive_line (rx_fill (system_init_comm comm_boot) [65, 1, 66, 13, 67])
        128 1000 10 = some r ∧
      ∃ out n, r.2.1 = some out ∧
        out = (((rx_contents (rx_fill (system_init_comm comm_boot)
          [65, 1, 66, 13, 67])).takeWhile (fun b => !is_delimiter b)).filter is_printable).take
          (128 - 1) ∧
        n ≤ (rx_contents (rx_fill (system_init_comm comm_boot) [65, 1, 66, 13, 67])).length ∧
        rx_contents r.2.2 =
          (rx_contents (rx_fill (system_init_comm comm_boot) [65, 1, 66, 13, 67])).drop n ∧
        out = ((rx_contents (rx_fill (system_init_comm comm_boot)
          [65, 1, 66, 13, 67])).take n).filter is_printable ∧
        ∀ b ∈ ((rx_contents (rx_fill (system_init_comm comm_boot)
          [65, 1, 66, 13, 67])).take n).dropLast, is_delimiter b = false := by
  have hval : (communication_receive_line (rx_fill (system_init_comm comm_boot)
      [65, 1, 66, 13, 67]) 128 1000 10).map (fun r => (r.1, r.2.1)) =
      some (system_status_t.SYSTEM_OK, some [65, 66]) := by decide
  refine ⟨hval, ?_⟩
  cases hr : communication_receive_line (rx_fill (system_init_comm comm_boot)
      [65, 1, 66, 13, 67]) 128 1000 10 with
  | none => rw [hr] at hval; simp at hval
  | some r =>
    rw [hr] at hval
    simp only [Option.map_some', Option.some.injEq, Prod.mk.injEq] at hval
    exact ⟨r, rfl, (C20_returned_line (rx_fill (system_init_comm comm_boot)
      [65, 1, 66, 13, 67]) 128 1000 (by decide) (by decide) (by decide)).1 10 r hr hval.1⟩

/-! ## Shape of the lines handed to the parser -/

theorem char_ofNat_toNat : ∀ n, n < 127 → (Char.ofNat n).toNat = n := by decide

/-- Every line the loop of `communication_receive_line` returns is made of
stored printable bytes only and fits the buffer with its terminating NUL,
whatever the ring holds. -/
theorem receive_line_loop_shape (buffer_size timeout_ms start_time : Nat) :
    ∀ (fuel : Nat) (s : CommState) (line : List Nat)
      (r : system_status_t × Option (List Nat) × CommState),
      line.length ≤ buffer_size - 1 → (∀ b ∈ line, 32 ≤ b ∧ b ≤ 126) →
      receive_line_loop buffer_size timeout_ms start_time fuel s line = some r →
      ∀ out, r.2.1 = some out →
        r.1 = system_status_t.SYSTEM_OK ∧ out.length ≤ buffer_size - 1 ∧
          ∀ b ∈ out, 32 ≤ b ∧ b ≤ 126 := by
  intro fuel
  induction fuel with
  | zero => intro s line r _ _ h; simp [receive_line_loop] at h
  | succ f ih =>
    intro s line r hle hpr h out hout
    have hfin : ∀ t : CommState, receive_line_finish t line = r →
        r.1 = system_status_t.SYSTEM_OK ∧ out.length ≤ buffer_size - 1 ∧
          ∀ b ∈ out, 32 ≤ b ∧ b ≤ 126 := by
      intro t ht
      rw [← ht] at hout ⊢
      simp only [receive_line_finish, Option.some.injEq] at hout
      rw [← hout]
      exact ⟨rfl, hle, hpr⟩
    by_cases hlt : line.length < buffer_size - 1
    · simp only [receive_line_loop, hlt, if_true] at h
      cases hg : get_rx_byte s with
      | mk o s1 =>
        rw [hg] at h
        cases o with
        | some byte =>
          simp only at h
          by_cases hd : byte = COMM_CHAR_CR ∨ byte = COMM_CHAR_LF
          · simp only [hd, if_true, Option.some.injEq] at h
            exact hfin s1 h
          · simp only [hd, if_false] at h
            by_cases hp : byte ≥ 32 ∧ byte ≤ 126
            · simp only [hp, and_self, if_true] at h
              refine ih s1 (line ++ [byte]) r ?_ ?_ h out hout
              · simp only [List.length_append, List.length_singleton]; omega
              · intro b hb
                rcases List.mem_append.mp hb with hb1 | hb1
                · exact hpr b hb1
                · rw [List.mem_singleton.mp hb1]; exact hp
            · simp only [hp, if_false] at h
              exact ih s1 line r hle hpr h out hout
        | none =>
          simp only at h
          by_cases hto : timeout_ms > 0
          · simp only [hto, if_true] at h
            by_cases hel :
                ((get_system_tick s1).1 + 4294967296 - start_time) % 4294967296 > timeout_ms
            · simp only [hel, if_true] at h
              by_cases h0 : line.length = 0
              · simp only [h0, if_true, Option.some.injEq] at h
                rw [← h] at hout
                simp at hout
              · simp only [h0, if_false, Option.some.injEq] at h
                exact hfin _ h
            · simp only [hel, if_false] at h
              exact ih _ line r hle hpr h out hout
          · simp only [hto, if_false] at h
            exact ih s1 line r hle hpr h out hout
    · simp only [receive_line_loop, hlt, if_false, Option.some.injEq] at h
      exact hfin s h

theorem parse_sensor1_data_fits (rnd : ℚ → ℚ) (st : SensorState) (frame : List Char)
    (hlen : frame.length < 128) :
    (parse_sensor1_data rnd st frame).1.error_msg ≠ ERROR_MSG_BUFFER_TOO_SMALL := by
  have hl : ¬ frame.length ≥ 128 := by omega
  unfold parse_sensor1_data
  rw [if_neg hl]
  repeat' split
  all_goals (simp only [reject1]; try split_ifs)
  all_goals (try dsimp only)
  all_goals decide

theorem parse_sensor2_data_fits (st : SensorState) (frame : List Char)
    (hlen : frame.length < 128) :
    (parse_sensor2_data st frame).1.error_msg ≠ ERROR_MSG_BUFFER_TOO_SMALL := by
  have hl : ¬ frame.length ≥ 128 := by omega
  unfold parse_sensor2_data
  rw [if_neg hl]
  repeat' split
  all_goals (simp only [reject2]; try split_ifs)
  all_goals (try dsimp only)
  all_goals decide

/-- On a frame shorter than 128 bytes `parse_sensor_data` is defined and never
reports "Buffer too small". -/
theorem parse_sensor_data_fits (rnd : ℚ → ℚ) (st : SensorState) (frame : List Char)
    (hlen : frame.length < 128) :
    ∃ r, parse_sensor_data rnd st frame = some r ∧
      r.1.error_msg ≠ ERROR_MSG_BUFFER_TOO_SMALL := by
  have hl : ¬ frame.length ≥ 128 := by omega
  unfold parse_sensor_data
  simp only [hl, if_false]
  split_ifs
  · split
    · split
      · split_ifs
        · refine ⟨_, rfl, ?_⟩
          rw [(update_statistics_counters _).1]
          exact parse_sensor1_data_fits rnd _ frame hlen
        · refine ⟨_, rfl, ?_⟩
          rw [(update_statistics_counters _).1]
          exact parse_sensor2_data_fits _ frame hlen
      · refine ⟨_, rfl, ?_⟩
        rw [(update_statistics_counters _).1]
        exact parse_sensor2_data_fits _ frame hlen
    · refine ⟨_, rfl, ?_⟩
      rw [(update_statistics_counters _).1]
      dsimp only
      decide
  · refine ⟨_, rfl, ?_⟩
    rw [(update_statistics_counters _).1]
    dsimp only
    decide

/-- C17. Every line that `process_received_data` hands to `parse_sensor_data`
(the line `communication_receive_line` returned with `SYSTEM_OK` for the
128-byte buffer, kept when its length is positive) has between 1 and 127 bytes,
each in 0x20..0x7E, whatever the RX ring holds; so `parse_sensor_data` is
defined on it (its 128-byte copy fits) and never answers "Buffer too small". -/
theorem C17_pipeline_line_shape (s : CommState) (fuel : Nat) (frame : List Char)
    (h : (process_received_data_line s fuel).map (fun r => r.1) = some (some frame)) :
    1 ≤ frame.length ∧ frame.length ≤ 127 ∧
      (∀ c ∈ frame, 32 ≤ c.toNat ∧ c.toNat ≤ 126) ∧
      ∀ (rnd : ℚ → ℚ) (st : SensorState),
        ∃ r, parse_sensor_data rnd st frame = some r ∧ r.1.error_msg ≠ "Buffer too small" := by
  have key : ∃ l : List Nat, frame = l.map Char.ofNat ∧ 0 < l.length ∧ l.length ≤ 127 ∧
      ∀ b ∈ l, 32 ≤ b ∧ b ≤ 126 := by
    unfold process_received_data_line at h
    by_cases hav : communication_data_available s = false
    · simp [hav] at h
    · simp only [hav, if_false] at h
      cases hr : communication_receive_line s 128 1000 fuel with
      | none => simp [hr] at h
      | some r =>
        obtain ⟨status, line, s1⟩ := r
        rw [hr] at h
        cases line with
        | none => simp at h
        | some l =>
          simp only at h
          by_cases hok : status = system_status_t.SYSTEM_OK ∧ l.length > 0
          · simp only [hok, and_self, if_true, Bool.true_eq_false, if_false, Option.map_some',
              Option.some.injEq] at h
            have h128 : ¬ (128 < 2) := by decide
            simp only [communication_receive_line, h128, if_false] at hr
            obtain ⟨_, k2, k3⟩ := receive_line_loop_shape 128 1000 (get_system_tick s).1 fuel
              (get_system_tick s).2 [] _ (Nat.zero_le _) (by simp) hr l rfl
            exact ⟨l, h.symm, hok.2, k2, k3⟩
          · simp [hok] at h
  obtain ⟨l, rfl, h1, h2, h3⟩ := key
  have hlen : (l.map Char.ofNat).length < 128 := by rw [List.length_map]; omega
  refine ⟨by rw [List.length_map]; omega, by rw [List.length_map]; omega, ?_, ?_⟩
  · intro c hc
    obtain ⟨b, hb, rfl⟩ := List.mem_map.mp hc
    have hb2 := h3 b hb
    rw [char_ofNat_toNat b (by omega)]
    exact hb2
  · intro rnd st
    exact parse_sensor_data_fits rnd st _ hlen

/-- Witness of C17: the bytes of `"A,1,2"` and LF pushed into the ring after
`system_init`; the pipeline hands `"A,1,2"` to the parser. -/
theorem C17_witness :
    1 ≤ "A,1,2".toList.length ∧ "A,1,2".toList.length ≤ 127 ∧
      (∀ c ∈ "A,1,2".toList, 32 ≤ c.toNat ∧ c.toNat ≤ 126) ∧
      ∀ (rnd : ℚ → ℚ) (st : SensorState),
        ∃ r, parse_sensor_data rnd st "A,1,2".toList = some r ∧
          r.1.error_msg ≠ "Buffer too small" :=
  C17_pipeline_line_shape (rx_fill (system_init_comm comm_boot) [65, 44, 49, 44, 50, 10]) 10
    "A,1,2".toList (by decide)

/-! ## Labels -/

/-- C30. `get_sensor_status_string` maps 0, 1, 2, 3 (NORMAL, WARNING, ERROR,
OFFLINE) to "NORMAL", "WARNING", "ERROR", "OFFLINE" and
`get_interrupt_type_string` maps 0, 1, 2, 3 to "NONE", "RISING", "FALLING",
"BOTH"; both are injective on 0..3 and return "UNKNOWN" for every other
value. -/
theorem C30_status_and_interrupt_labels :
    (get_sensor_status_string SENSOR_STATUS_NORMAL = "NORMAL" ∧
      get_sensor_status_string SENSOR_STATUS_WARNING = "WARNING" ∧
      get_sensor_status_string SENSOR_STATUS_ERROR = "ERROR" ∧
      get_sensor_status_string SENSOR_STATUS_OFFLINE = "OFFLINE") ∧
    (get_interrupt_type_string INTERRUPT_TYPE_NONE = "NONE" ∧
      get_interrupt_type_string INTERRUPT_TYPE_RISING = "RISING" ∧
      get_interrupt_type_string INTERRUPT_TYPE_FALLING = "FALLING" ∧
      get_interrupt_type_string INTERRUPT_TYPE_BOTH = "BOTH") ∧
    (∀ a b : Int, 0 ≤ a → a ≤ 3 → 0 ≤ b → b ≤ 3 →
      get_sensor_status_string a = get_sensor_status_string b → a = b) ∧
    (∀ a b : Int, 0 ≤ a → a ≤ 3 → 0 ≤ b → b ≤ 3 →
      get_interrupt_type_string a = get_interrupt_type_string b → a = b) ∧
    (∀ v : Int, (v < 0 ∨ 3 < v) →
      get_sensor_status_string v = "UNKNOWN" ∧ get_interrupt_type_string v = "UNKNOWN") := by
  refine ⟨by decide, by decide, ?_, ?_, ?_⟩
  · intro a b ha0 ha3 hb0 hb3
    interval_cases a <;> interval_cases b <;> decide
  · intro a b ha0 ha3 hb0 hb3
    interval_cases a <;> interval_cases b <;> decide
  · intro v hv
    have hc : ¬ (v ≥ 0 ∧ v < 4) := by omega
    simp only [get_sensor_status_string, get_interrupt_type_string, hc, if_false, and_self]

/-- Witness of C30: the labels of 1 and 2 differ, and 4 and -1 are
"UNKNOWN". -/
theorem C30_witness :
    ((get_sensor_status_string 1 = get_sensor_status_string 2 → (1 : Int) = 2) ∧
      get_sensor_status_string 4 = "UNKNOWN") ∧
      get_interrupt_type_string (-1) = "UNKNOWN" :=
  ⟨⟨C30_status_and_interrupt_labels.2.2.1 1 2 (by decide) (by decide) (by decide) (by decide),
    (C30_status_and_interrupt_labels.2.2.2.2 4 (Or.inr (by decide))).1⟩,
    (C30_status_and_interrupt_labels.2.2.2.2 (-1) (Or.inl (by decide))).2⟩

/-! ## Timestamps -/

/-- The three ways `parse_sensor_data` produces its result. -/
theorem parse_sensor_data_cases (rnd : ℚ → ℚ) (st : SensorState) (frame : List Char)
    (r : parse_result_t × Option sensor_data_t × SensorState)
    (h : parse_sensor_data rnd st frame = some r) :
    r = update_statistics
        (dispatch_sensor1 rnd { st with total_data_count := incr32 st.total_data_count } frame) ∨
      r = update_statistics
        (dispatch_sensor2 { st with total_data_count := incr32 st.total_data_count } frame) ∨
      r = update_statistics
        ({ is_valid := false, type := none, error_msg := ERROR_MSG_INVALID_FORMAT }, none,
          { st with total_data_count := incr32 st.total_data_count }) := by
  unfold parse_sensor_data at h
  simp only at h
  split_ifs at h
  · split at h
    · split at h
      · split_ifs at h
        · exact Or.inl (Option.some.inj h).symm
        · exact Or.inr (Or.inl (Option.some.inj h).symm)
      · exact Or.inr (Or.inl (Option.some.inj h).symm)
    · exact Or.inr (Or.inr (Option.some.inj h).symm)
  · exact Or.inr (Or.inr (Option.some.inj h).symm)

theorem parse_sensor1_data_timestamp (rnd : ℚ → ℚ) (st : SensorState) (frame : List Char) :
    (parse_sensor1_data rnd st frame).1.is_valid = true →
    ∃ d, (parse_sensor1_data rnd st frame).2.1 = some d ∧ d.timestamp = incr32 st.tick_count ∧
      (parse_sensor1_data rnd st frame).2.2.tick_count = incr32 st.tick_count := by
  unfold parse_sensor1_data
  repeat' split
  all_goals (simp only [reject1]; try split_ifs)
  all_goals (try (intro h; simp at h; done))
  all_goals simp [get_timestamp]

theorem parse_sensor2_data_timestamp (st : SensorState) (frame : List Char) :
    (parse_sensor2_data st frame).1.is_valid = true →
    ∃ d, (parse_sensor2_data st frame).2.1 = some d ∧ d.timestamp = incr32 st.tick_count ∧
      (parse_sensor2_data st frame).2.2.tick_count = incr32 st.tick_count := by
  unfold parse_sensor2_data
  repeat' split
  all_goals (simp only [reject2]; try split_ifs)
  all_goals (try (intro h; simp at h; done))
  all_goals simp [get_timestamp]

/-- The record of an accepted frame carries the value `get_timestamp` returned
during the call, the tick before the call plus one modulo 2^32. -/
theorem parse_sensor_data_timestamp (rnd : ℚ → ℚ) (st : SensorState) (frame : List Char)
    (r : parse_result_t × Option sensor_data_t × SensorState)
    (h : parse_sensor_data rnd st frame = some r) (hv : r.1.is_valid = true) :
    ∃ d, r.2.1 = some d ∧ record_timestamp d = incr32 st.tick_count ∧
      r.2.2.tick_count = incr32 st.tick_count := by
  rcases parse_sensor_data_cases rnd st frame r h with h1 | h1 | h1
  · rw [h1] at hv ⊢
    obtain ⟨e1, e2, _, e4, _⟩ := update_statistics_counters
      (dispatch_sensor1 rnd { st with total_data_count := incr32 st.total_data_count } frame)
    rw [e1] at hv
    rw [e2, e4]
    obtain ⟨d, hd, ht, hs⟩ := parse_sensor1_data_timestamp rnd
      { st with total_data_count := incr32 st.total_data_count } frame hv
    exact ⟨{ type := SENSOR_TYPE_TEMP_HUMIDITY, data := sensor_union.sensor1 d },
      by simp only [dispatch_sensor1, hd, Option.map_some'], ht, hs⟩
  · rw [h1] at hv ⊢
    obtain ⟨e1, e2, _, e4, _⟩ := update_statistics_counters
      (dispatch_sensor2 { st with total_data_count := incr32 st.total_data_count } frame)
    rw [e1] at hv
    rw [e2, e4]
    obtain ⟨d, hd, ht, hs⟩ := parse_sensor2_data_timestamp
      { st with total_data_count := incr32 st.total_data_count } frame hv
    exact ⟨{ type := SENSOR_TYPE_INTERRUPT, data := sensor_union.sensor2 d },
      by simp only [dispatch_sensor2, hd, Option.map_some'], ht, hs⟩
  · rw [h1, (update_statistics_counters _).1] at hv
    simp at hv

/-- What `parse_sensor_data` returns on the frame `"A,D,1"`. -/
theorem parse_sensor_data_sample (rnd : ℚ → ℚ) (st : SensorState) :
    parse_sensor_data rnd st "A,D,1".toList =
      some ({ is_valid := true, type := some SENSOR_TYPE_INTERRUPT, error_msg := "" },
        some { type := SENSOR_TYPE_INTERRUPT,
               data := sensor_union.sensor2
                 { student_id := "A".toList, sensor_name := "D".toList,
                   interrupt_type := INTERRUPT_TYPE_RISING, interrupt_count := 1,
                   status := SENSOR_STATUS_WARNING, timestamp := incr32 st.tick_count } },
        { total_data_count := incr32 st.total_data_count,
          valid_data_count := incr32 st.valid_data_count,
          error_data_count := st.error_data_count,
          tick_count := incr32 st.tick_count, data_callback := st.data_callback }) := by
  have hc : "A,D,1".toList.count ',' = 2 := by decide
  have hl : ¬ "A,D,1".toList.length ≥ 128 := by decide
  have hs0 : strtok "A,D,1".toList = some ("A".toList, "D,1".toList) := by decide
  have hs1 : strtok "D,1".toList = some ("D".toList, "1".toList) := by decide
  have hnum : is_numeric_string "D".toList = false := by decide
  have hp := parse_sensor2_data_three
    { st with total_data_count := incr32 st.total_data_count }
    "A,D,1".toList "A".toList "D".toList "1".toList [] (by decide) (by decide)
  have c1 : ¬ 20 ≤ (trim_whitespace "A".toList).length := by decide
  have c2 : ¬ 16 ≤ (trim_whitespace "D".toList).length := by decide
  have c3 : is_numeric_string (trim_whitespace "1".toList) = true := by decide
  have c4 : parse_int_safe (trim_whitespace "1".toList) = 1 := by decide
  have t1 : trim_whitespace "A".toList = "A".toList := by decide
  have t2 : trim_whitespace "D".toList = "D".toList := by decide
  have hval : validate_sensor2_data
      { student_id := "A".toList, sensor_name := "D".toList, interrupt_type := 1,
        interrupt_count := 1, status := 0, timestamp := 0 } = true := by decide
  have d1 : ¬ ((1 : Int) < 0 ∨ (1 : Int) > 3) := by decide
  have d2 : (1 : Int) > 0 := by decide
  have d3 : ¬ (1 : Int) = 0 := by decide
  have d4 : ¬ 20 ≤ "A".toList.length := by decide
  have d5 : ¬ 16 ≤ "D".toList.length := by decide
  simp only [c1, c2, c3, c4, t1, t2, d1, d2, d3, d4, d5, if_true, if_false,
    Bool.true_eq_false, hval] at hp
  simp only [parse_sensor_data, hc, hl, hs0, hs1, hnum, if_true, if_false, dispatch_sensor2, hp,
    update_statistics, Option.map_some', Bool.false_eq_true]

/-- After `n` accepted frames the tick of `get_timestamp` has advanced by `n`
modulo 2^32. -/
theorem parse_times_sample (rnd : ℚ → ℚ) : ∀ (n : Nat) (st : SensorState),
    st.tick_count < 4294967296 →
    ∃ st1, parse_times rnd "A,D,1".toList n st = some st1 ∧
      st1.tick_count = (st.tick_count + n) % 4294967296 := by
  intro n
  induction n with
  | zero =>
    intro st hst
    exact ⟨st, rfl, by simp only [Nat.add_zero]; omega⟩
  | succ n ih =>
    intro st hst
    obtain ⟨st1, h1, h2⟩ := ih
      { total_data_count := incr32 st.total_data_count,
        valid_data_count := incr32 st.valid_data_count,
        error_data_count := st.error_data_count,
        tick_count := incr32 st.tick_count, data_callback := st.data_callback }
      (Nat.mod_lt _ (by norm_num))
    refine ⟨st1, ?_, ?_⟩
    · simp only [parse_times, parse_sensor_data_sample rnd st]
      exact h1
    · rw [h2]
      simp only [incr32]
      omega

/-- C27, as the code has it. The timestamp of every accepted record is the
32-bit value `get_timestamp` returns during the successful parse, the tick
before the call plus one modulo 2^32. It is positive whenever the tick before
the call is below `0xFFFFFFFF`, and it is 0 when the tick before the call is
`0xFFFFFFFF`, which is the case for the 2^32-th record accepted since
start-up. -/
theorem C27_timestamp_is_next_tick (rnd : ℚ → ℚ) (st : SensorState) (frame : List Char)
    (r : parse_result_t × Option sensor_data_t × SensorState)
    (h : parse_sensor_data rnd st frame = some r) (hv : r.1.is_valid = true) :
    ∃ d, r.2.1 = some d ∧ record_timestamp d = incr32 st.tick_count ∧
      r.2.2.tick_count = incr32 st.tick_count ∧
      (st.tick_count < 4294967295 → 0 < record_timestamp d) ∧
      (st.tick_count = 4294967295 → record_timestamp d = 0) := by
  obtain ⟨d, h1, h2, h3⟩ := parse_sensor_data_timestamp rnd st frame r h hv
  refine ⟨d, h1, h2, h3, ?_, ?_⟩
  · intro hlt
    rw [h2]
    simp only [incr32]
    omega
  · intro he
    rw [h2, he]
    rfl

/-- Witness of C27: the first frame accepted after start-up gets timestamp
1. -/
theorem C27_witness :
    ∃ r d, parse_sensor_data id sensor_boot "A,D,1".toList = some r ∧ r.2.1 = some d ∧
      record_timestamp d = 1 := by
  obtain ⟨d, h1, h2, _⟩ := C27_timestamp_is_next_tick id sensor_boot "A,D,1".toList _
    (parse_sensor_data_sample id sensor_boot) rfl
  exact ⟨_, d, parse_sensor_data_sample id sensor_boot, h1, h2⟩

/-- C27 as stated fails: after 4294967295 accepted frames the next accepted
record has timestamp 0. -/
theorem C27_counterexample :
    ∃ st, parse_times id "A,D,1".toList 4294967295 sensor_boot = some st ∧
      (parse_sensor_data id st "A,D,1".toList).map
        (fun r => (r.1.is_valid, r.2.1.map record_timestamp)) = some (true, some 0) := by
  obtain ⟨st, h1, h2⟩ := parse_times_sample id 4294967295 sensor_boot (by decide)
  refine ⟨st, h1, ?_⟩
  have h3 : st.tick_count = 4294967295 := by rw [h2]; decide
  rw [parse_sensor_data_sample id st]
  simp only [Option.map_some', record_timestamp, h3]
  rfl

/-! ## The fields of a rejecting result -/

/-- C28 at its failing input. On the frame `"invalid,data"`, which does not
have two commas, and on `",,"`, which has two commas and no token,
`parse_sensor_data` returns with `is_valid = false` and "Invalid data format"
without ever assigning `result.type`, which is declared without initialiser;
`parse_sensor1_data` on the same frame returns an assigned type. -/
theorem C28_reject_type_unassigned :
    (parse_sensor_data id sensor_boot "invalid,data".toList).map
        (fun r => (r.1.is_valid, r.1.type, r.1.error_msg, r.2.1)) =
      some (false, none, "Invalid data format", none) ∧
    (parse_sensor_data id sensor_boot ",,".toList).map
        (fun r => (r.1.is_valid, r.1.type, r.1.error_msg, r.2.1)) =
      some (false, none, "Invalid data format", none) ∧
    (parse_sensor1_data id sensor_boot "invalid,data".toList).1.type =
      some SENSOR_TYPE_TEMP_HUMIDITY := by
  decide

/-! ## Formatting and parsing again -/

/-- A frame whose number of commas is not two is rejected by
`parse_sensor_data` with the format message, and nothing is written to the
record. -/
theorem parse_sensor_data_commas (rnd : ℚ → ℚ) (st : SensorState) (frame : List Char)
    (hc : frame.count ',' ≠ 2) :
    ∃ r, parse_sensor_data rnd st frame = some r ∧ r.1.is_valid = false ∧
      r.1.error_msg = ERROR_MSG_INVALID_FORMAT ∧ r.2.1 = none := by
  have he : parse_sensor_data rnd st frame = some (update_statistics
      ({ is_valid := false, type := none, error_msg := ERROR_MSG_INVALID_FORMAT }, none,
        { st with total_data_count := incr32 st.total_data_count })) := by
    simp only [parse_sensor_data, hc, if_false]
  obtain ⟨e1, e2, _⟩ := update_statistics_counters
    ({ is_valid := false, type := none, error_msg := ERROR_MSG_INVALID_FORMAT }, none,
      { st with total_data_count := incr32 st.total_data_count })
  refine ⟨_, he, ?_⟩
  rw [e1, e2]
  exact ⟨rfl, rfl, rfl⟩

theorem format_sensor1_text_commas (fmt2 : c_float → List Char) (d : sensor1_data_t) :
    5 ≤ (format_sensor1_text fmt2 d).count ',' := by
  have k1 : ",Sensor:".toList.count ',' = 1 := by decide
  have k2 : ",Temp:".toList.count ',' = 1 := by decide
  have k3 : ",Humid:".toList.count ',' = 1 := by decide
  have k4 : ",Status:".toList.count ',' = 1 := by decide
  have k5 : ",Time:".toList.count ',' = 1 := by decide
  simp only [format_sensor1_text, List.count_append, k1, k2, k3, k4, k5]
  omega

theorem format_sensor2_text_commas (d : sensor2_data_t) :
    5 ≤ (format_sensor2_text d).count ',' := by
  have k1 : ",Sensor:".toList.count ',' = 1 := by decide
  have k2 : ",IntType:".toList.count ',' = 1 := by decide
  have k3 : ",Count:".toList.count ',' = 1 := by decide
  have k4 : ",Status:".toList.count ',' = 1 := by decide
  have k5 : ",Time:".toList.count ',' = 1 := by decide
  simp only [format_sensor2_text, List.count_append, k1, k2, k3, k4, k5]
  omega

/-- C29, as the code has it. The line `format_sensor1_data` or
`format_sensor2_data` writes for a record is the labelled text
`ID:..,Sensor:..,..,Status:..,Time:..`, which holds at least five commas; for
every record, whatever the `%.2f` conversion, `parse_sensor_data` rejects that
line with "Invalid data format" and writes no record. So no record is read back
from its formatted line. -/
theorem C29_formatted_line_rejected (rnd : ℚ → ℚ) (fmt2 : c_float → List Char)
    (st : SensorState) :
    (∀ (d : sensor1_data_t) (buffer_size : Nat) (line : List Char),
      format_sensor1_data fmt2 d buffer_size = some (system_status_t.SYSTEM_OK, some line) →
      5 ≤ line.count ',' ∧
      ∃ r, parse_sensor_data rnd st line = some r ∧ r.1.is_valid = false ∧
        r.1.error_msg = "Invalid data format" ∧ r.2.1 = none) ∧
    (∀ (d : sensor2_data_t) (buffer_size : Nat) (line : List Char),
      format_sensor2_data d buffer_size = some (system_status_t.SYSTEM_OK, some line) →
      5 ≤ line.count ',' ∧
      ∃ r, parse_sensor_data rnd st line = some r ∧ r.1.is_valid = false ∧
        r.1.error_msg = "Invalid data format" ∧ r.2.1 = none) := by
  constructor
  · intro d buffer_size line h
    have hl : line = format_sensor1_text fmt2 d := by
      unfold format_sensor1_data at h
      split_ifs at h
      · simp at h
      · simpa using h.symm
    have hc := format_sensor1_text_commas fmt2 d
    rw [← hl] at hc
    exact ⟨hc, parse_sensor_data_commas rnd st line (by omega)⟩
  · intro d buffer_size line h
    have hl : line = format_sensor2_text d := by
      unfold format_sensor2_data at h
      split_ifs at h
      · simp at h
      · simpa using h.symm
    have hc := format_sensor2_text_commas d
    rw [← hl] at hc
    exact ⟨hc, parse_sensor_data_commas rnd st line (by omega)⟩

/-- Witness of C29: the record of the accepted frame `"A,D,1"`, formatted into
a 128-byte buffer. -/
theorem C29_witness :
    5 ≤ "ID:A,Sensor:D,IntType:RISING,Count:1,Status:WARNING,Time:1".toList.count ',' ∧
      ∃ r, parse_sensor_data id sensor_boot
          "ID:A,Sensor:D,IntType:RISING,Count:1,Status:WARNING,Time:1".toList = some r ∧
        r.1.is_valid = false ∧ r.1.error_msg = "Invalid data format" ∧ r.2.1 = none :=
  (C29_formatted_line_rejected id (fun _ => []) sensor_boot).2
    { student_id := "A".toList, sensor_name := "D".toList,
      interrupt_type := INTERRUPT_TYPE_RISING, interrupt_count := 1,
      status := SENSOR_STATUS_WARNING, timestamp := 1 } 128
    "ID:A,Sensor:D,IntType:RISING,Count:1,Status:WARNING,Time:1".toList (by decide)

/-- C29 as stated fails: the frame `"A,D,1"` is accepted, its record is
formatted by `format_sensor2_data` into a 128-byte buffer as
`"ID:A,Sensor:D,IntType:RISING,Count:1,Status:WARNING,Time:1"`, and
`parse_sensor_data` rejects that line. -/
theorem C29_counterexample :
    (parse_sensor_data id sensor_boot "A,D,1".toList).map
        (fun r => (r.1.is_valid, r.2.1)) =
      some (true, some { type := SENSOR_TYPE_INTERRUPT,
                         data := sensor_union.sensor2
                           { student_id := "A".toList, sensor_name := "D".toList,
                             interrupt_type := INTERRUPT_TYPE_RISING, interrupt_count := 1,
                             status := SENSOR_STATUS_WARNING, timestamp := 1 } }) ∧
    format_sensor2_data
        { student_id := "A".toList, sensor_name := "D".toList,
          interrupt_type := INTERRUPT_TYPE_RISING, interrupt_count := 1,
          status := SENSOR_STATUS_WARNING, timestamp := 1 } 128 =
      some (system_status_t.SYSTEM_OK,
        some "ID:A,Sensor:D,IntType:RISING,Count:1,Status:WARNING,Time:1".toList) ∧
    (parse_sensor_data id sensor_boot
        "ID:A,Sensor:D,IntType:RISING,Count:1,Status:WARNING,Time:1".toList).map
        (fun r => (r.1.is_valid, r.1.error_msg)) = some (false, "Invalid data format") := by
  refine ⟨?_, by decide, by decide⟩
  rw [parse_sensor_data_sample id sensor_boot]
  rfl

/-! ## Empty lines -/

theorem communication_data_available_cons (s : CommState) (b : Nat) (cs : List Nat)
    (h : rx_contents s = b :: cs) : communication_data_available s = true := by
  have hl := rx_contents_length s
  rw [h] at hl
  simp only [List.length_cons] at hl
  simp only [communication_data_available, decide_eq_true_eq]
  omega

/-- When the first byte in the ring is CR or LF, `communication_receive_line`
returns at once with `SYSTEM_OK` and the empty line; only `rx_tail` and the
tick change. -/
theorem communication_receive_line_empty_line (s : CommState)
    (buffer_size timeout_ms fuel d : Nat) (rest : List Nat) (hh : s.rx_head < 256)
    (ht : s.rx_tail < 256) (hbs : 2 ≤ buffer_size) (hring : rx_contents s = d :: rest)
    (hd : d = COMM_CHAR_CR ∨ d = COMM_CHAR_LF) (hfuel : 0 < fuel) :
    ∃ s1, communication_receive_line s buffer_size timeout_ms fuel =
        some (system_status_t.SYSTEM_OK, some [], s1) ∧
      rx_contents s1 = rest ∧ s1.rx_head < 256 ∧ s1.rx_tail < 256 ∧
      s1.statistics = s.statistics ∧ s1.last_error = s.last_error ∧
      s1.error_callback = s.error_callback := by
  obtain ⟨f, rfl⟩ : ∃ f, fuel = f + 1 := ⟨fuel - 1, by omega⟩
  obtain ⟨s1, hget, hc1, hs1, ht1⟩ := get_rx_byte_cons (get_system_tick s).2 d rest hh ht hring
  have hbs2 : ¬ buffer_size < 2 := by omega
  have hlt : 0 < buffer_size - 1 := by omega
  refine ⟨s1, ?_, hc1, by rw [hs1]; exact hh, ht1, by rw [hs1]; rfl, by rw [hs1]; rfl,
    by rw [hs1]; rfl⟩
  simp only [communication_receive_line, hbs2, if_false, receive_line_loop, List.length_nil, hlt,
    if_true, hget, hd, receive_line_finish, gt_iff_lt, Nat.lt_irrefl]

/-- A call of `process_received_data` on a ring whose first byte is CR or LF
takes that byte out and does nothing else. -/
theorem process_received_data_empty_line (rnd : ℚ → ℚ) (sys : SystemState) (fuel d : Nat)
    (rest : List Nat) (hh : sys.comm.rx_head < 256) (ht : sys.comm.rx_tail < 256)
    (hring : rx_contents sys.comm = d :: rest) (hd : d = COMM_CHAR_CR ∨ d = COMM_CHAR_LF)
    (hfuel : 0 < fuel) :
    ∃ s1, process_received_data rnd sys fuel = some (no_report, { sys with comm := s1 }) ∧
      communication_receive_line sys.comm 128 1000 fuel =
        some (system_status_t.SYSTEM_OK, some [], s1) ∧
      rx_contents s1 = rest ∧ s1.rx_head < 256 ∧ s1.rx_tail < 256 ∧
      s1.statistics = sys.comm.statistics := by
  obtain ⟨s1, h1, h2, h3, h4, h5, _⟩ := communication_receive_line_empty_line sys.comm 128 1000
    fuel d rest hh ht (by norm_num) hring hd hfuel
  have hav := communication_data_available_cons sys.comm d rest hring
  refine ⟨s1, ?_, h1, h2, h3, h4, h5⟩
  simp [process_received_data, hav, h1]

/-- C21. An empty frame is discarded silently. When the RX ring (indices
within the buffer) starts with a non-empty run of CR and LF bytes:
`communication_receive_line`, for every buffer size of at least 2 and every
timeout, returns `SYSTEM_OK` with the empty line after taking the first of them
and leaves the communication statistics unchanged; `process_received_data` then
calls neither the parser nor the store and changes no counter; and as many
calls of `process_received_data` as the run has bytes take the whole run out of
the ring, each without calling the parser or the store, leaving the counters
of the parser, the store and the communication statistics as they were. -/
theorem C21_empty_line_discarded (rnd : ℚ → ℚ) (sys : SystemState) (delims rest : List Nat)
    (fuel : Nat) (hh : sys.comm.rx_head < 256) (ht : sys.comm.rx_tail < 256)
    (hring : rx_contents sys.comm = delims ++ rest)
    (hd : ∀ b ∈ delims, b = COMM_CHAR_CR ∨ b = COMM_CHAR_LF) (hne : delims ≠ [])
    (hfuel : 0 < fuel) :
    (∀ buffer_size timeout_ms : Nat, 2 ≤ buffer_size →
      ∃ s1, communication_receive_line sys.comm buffer_size timeout_ms fuel =
          some (system_status_t.SYSTEM_OK, some [], s1) ∧
        rx_contents s1 = delims.tail ++ rest ∧ s1.statistics = sys.comm.statistics) ∧
    (∃ s1, process_received_data rnd sys fuel = some (no_report, { sys with comm := s1 }) ∧
      rx_contents s1 = delims.tail ++ rest ∧ s1.statistics = sys.comm.statistics) ∧
    (∃ sys1, process_received_data_times rnd fuel delims.length sys =
        some (List.replicate delims.length no_report, sys1) ∧
      rx_contents sys1.comm = rest ∧ sys1.sensor = sys.sensor ∧ sys1.db = sys.db ∧
      sys1.comm.statistics = sys.comm.statistics) := by
  refine ⟨?_, ?_, ?_⟩
  · intro buffer_size timeout_ms hbs
    cases delims with
    | nil => exact absurd rfl hne
    | cons d ds =>
      obtain ⟨s1, h1, h2, _, _, h5, _⟩ := communication_receive_line_empty_line sys.comm
        buffer_size timeout_ms fuel d (ds ++ rest) hh ht hbs hring
        (hd d (List.mem_cons_self _ _)) hfuel
      exact ⟨s1, h1, h2, h5⟩
  · cases delims with
    | nil => exact absurd rfl hne
    | cons d ds =>
      obtain ⟨s1, h1, _, h2, _, _, h5⟩ := process_received_data_empty_line rnd sys fuel d
        (ds ++ rest) hh ht hring (hd d (List.mem_cons_self _ _)) hfuel
      exact ⟨s1, h1, h2, h5⟩
  · clear hne
    induction delims generalizing sys with
    | nil => exact ⟨sys, rfl, by simpa using hring, rfl, rfl, rfl⟩
    | cons d ds ih =>
      obtain ⟨s1, h1, _, h2, h3, h4, h5⟩ := process_received_data_empty_line rnd sys fuel d
        (ds ++ rest) hh ht hring (hd d (List.mem_cons_self _ _)) hfuel
      obtain ⟨sys1, k1, k2, k3, k4, k5⟩ := ih { sys with comm := s1 } h3 h4 h2
        (fun b hb => hd b (List.mem_cons_of_mem _ hb))
      refine ⟨sys1, ?_, k2, k3, k4, k5.trans h5⟩
      simp only [List.length_cons, process_received_data_times, h1, k1, List.replicate_succ]

/-- Witness of C21: the ring after `system_init` holding CR, LF and the byte
`A`. -/
theorem C21_witness :
    ∃ sys1, process_received_data_times id 5 2
        { system_init_state with comm := rx_fill system_init_state.comm [13, 10, 65] } =
        some ([no_report, no_report], sys1) ∧
      rx_contents sys1.comm = [65] ∧ sys1.sensor = system_init_state.sensor ∧
      sys1.db = system_init_state.db := by
  obtain ⟨sys1, h1, h2, h3, h4, _⟩ := (C21_empty_line_discarded id
    { system_init_state with comm := rx_fill system_init_state.comm [13, 10, 65] }
    [13, 10] [65] 5 (by decide) (by decide) (by decide) (by decide) (by decide) (by decide)).2.2
  exact ⟨sys1, h1, h2, h3, h4⟩

/-! ## Timeouts -/

theorem set_last_error_timeout (s : CommState) :
    (set_last_error s comm_error_t.COMM_ERROR_TIMEOUT).last_error =
        comm_error_t.COMM_ERROR_TIMEOUT ∧
      (set_last_error s comm_error_t.COMM_ERROR_TIMEOUT).statistics.timeout_count =
        incr32 s.statistics.timeout_count ∧
      (set_last_error s comm_error_t.COMM_ERROR_TIMEOUT).statistics.error_count =
        incr32 s.statistics.error_count ∧
      rx_contents (set_last_error s comm_error_t.COMM_ERROR_TIMEOUT) = rx_contents s := by
  cases hcb : s.error_callback <;>
    simp [set_last_error, call_error_callback, communication_error_callback, hcb,
      rx_contents, get_rx_buffer_count]

/-- On an empty ring the loop of `communication_receive_line` returns, if it
returns, `SYSTEM_TIMEOUT` when no byte has been stored, recording the timeout,
and the bytes stored so far with `SYSTEM_OK` otherwise. -/
theorem receive_line_loop_empty_result (buffer_size timeout_ms start_time : Nat) :
    ∀ (fuel : Nat) (s : CommState) (line : List Nat)
      (r : system_status_t × Option (List Nat) × CommState),
      s.rx_head < 256 → s.rx_tail < 256 → rx_contents s = [] →
      line.length < buffer_size - 1 →
      receive_line_loop buffer_size timeout_ms start_time fuel s line = some r →
      (line = [] ∧ r.1 = system_status_t.SYSTEM_TIMEOUT ∧ r.2.1 = none ∧
        r.2.2.last_error = comm_error_t.COMM_ERROR_TIMEOUT ∧
        r.2.2.statistics.timeout_count = incr32 s.statistics.timeout_count ∧
        r.2.2.statistics.error_count = incr32 s.statistics.error_count) ∨
      (line ≠ [] ∧ r.1 = system_status_t.SYSTEM_OK ∧ r.2.1 = some line ∧
        rx_contents r.2.2 = [] ∧ r.2.2.last_error = s.last_error ∧
        r.2.2.statistics.error_count = s.statistics.error_count) := by
  intro fuel
  induction fuel with
  | zero => intro s line r _ _ _ _ h; simp [receive_line_loop] at h
  | succ f ih =>
    intro s line r hh ht hc hlt h
    have hget := get_rx_byte_nil s hh ht hc
    simp only [receive_line_loop, hlt, if_true, hget] at h
    by_cases hto : timeout_ms > 0
    · simp only [hto, if_true] at h
      by_cases hel : ((get_system_tick s).1 + 4294967296 - start_time) % 4294967296 > timeout_ms
      · simp only [hel, if_true] at h
        by_cases h0 : line.length = 0
        · simp only [h0, if_true, Option.some.injEq] at h
          left
          rw [← h]
          obtain ⟨e1, e2, e3, _⟩ := set_last_error_timeout (get_system_tick s).2
          exact ⟨List.length_eq_zero.mp h0, rfl, rfl, e1, e2, e3⟩
        · simp only [h0, if_false, Option.some.injEq] at h
          right
          rw [← h]
          refine ⟨fun hl => h0 (by rw [hl]; rfl), rfl, rfl,
            by rw [rx_contents_finish, rx_contents_tick, hc], ?_, ?_⟩
          · unfold receive_line_finish; split_ifs <;> rfl
          · unfold receive_line_finish; split_ifs <;> rfl
      · simp only [hel, if_false] at h
        exact ih (get_system_tick s).2 line r hh ht hc hlt h
    · simp only [hto, if_false] at h
      exact ih s line r hh ht hc hlt h

/-- When the loop of `communication_receive_line` returns, it returns
`SYSTEM_TIMEOUT` exactly when no byte was stored before the call and the ring
holds neither a delimiter nor a printable byte, and `SYSTEM_OK` otherwise. -/
theorem receive_line_loop_status (buffer_size timeout_ms start_time : Nat)
    (hbs : 2 ≤ buffer_size) :
    ∀ (cs : List Nat) (fuel : Nat) (s : CommState) (line : List Nat)
      (r : system_status_t × Option (List Nat) × CommState),
      s.rx_head < 256 → s.rx_tail < 256 → rx_contents s = cs →
      receive_line_loop buffer_size timeout_ms start_time fuel s line = some r →
      (r.1 = system_status_t.SYSTEM_TIMEOUT ↔
        (line = [] ∧ ∀ b ∈ cs, is_delimiter b = false ∧ is_printable b = false)) ∧
      (r.1 = system_status_t.SYSTEM_TIMEOUT →
        r.2.1 = none ∧ r.2.2.last_error = comm_error_t.COMM_ERROR_TIMEOUT ∧
        r.2.2.statistics.timeout_count = incr32 s.statistics.timeout_count ∧
        r.2.2.statistics.error_count = incr32 s.statistics.error_count) ∧
      (r.1 = system_status_t.SYSTEM_TIMEOUT ∨ r.1 = system_status_t.SYSTEM_OK) := by
  intro cs
  induction cs with
  | nil =>
    intro fuel s line r hh ht hc h
    cases fuel with
    | zero => simp [receive_line_loop] at h
    | succ f =>
      by_cases hlt : line.length < buffer_size - 1
      · rcases receive_line_loop_empty_result buffer_size timeout_ms start_time (f + 1) s line r
          hh ht hc hlt h with h1 | h1
        · obtain ⟨e0, e1, e2, e3, e4, e5⟩ := h1
          exact ⟨⟨fun _ => ⟨e0, by simp⟩, fun _ => e1⟩, fun _ => ⟨e2, e3, e4, e5⟩, Or.inl e1⟩
        · obtain ⟨e0, e1, _⟩ := h1
          refine ⟨⟨fun ht => ?_, fun hr => absurd hr.1 e0⟩, fun ht => ?_, Or.inr e1⟩
          · rw [e1] at ht; exact absurd ht (by decide)
          · rw [e1] at ht; exact absurd ht (by decide)
      · simp only [receive_line_loop, hlt, if_false, Option.some.injEq] at h
        have e1 : r.1 = system_status_t.SYSTEM_OK := by rw [← h]; rfl
        refine ⟨⟨fun ht => ?_, fun hr => ?_⟩, fun ht => ?_, Or.inr e1⟩
        · rw [e1] at ht; exact absurd ht (by decide)
        · rw [hr.1] at hlt
          simp only [List.length_nil] at hlt
          omega
        · rw [e1] at ht; exact absurd ht (by decide)
  | cons b cs ih =>
    intro fuel s line r hh ht hc h
    cases fuel with
    | zero => simp [receive_line_loop] at h
    | succ f =>
      by_cases hlt : line.length < buffer_size - 1
      · obtain ⟨s1, hget, hc1, hs1, ht1⟩ := get_rx_byte_cons s b cs hh ht hc
        have hh1 : s1.rx_head < 256 := by rw [hs1]; exact hh
        have hst : s1.statistics = s.statistics := by rw [hs1]
        by_cases hd : b = COMM_CHAR_CR ∨ b = COMM_CHAR_LF
        · have hd2 := (is_delimiter_iff b).mpr hd
          simp only [receive_line_loop, hlt, if_true, hget, hd, Option.some.injEq] at h
          have e1 : r.1 = system_status_t.SYSTEM_OK := by rw [← h]; rfl
          refine ⟨⟨fun ht => ?_, fun hr => ?_⟩, fun ht => ?_, Or.inr e1⟩
          · rw [e1] at ht; exact absurd ht (by decide)
          · have := (hr.2 b (List.mem_cons_self _ _)).1
            rw [hd2] at this
            exact absurd this (by decide)
          · rw [e1] at ht; exact absurd ht (by decide)
        · have hd2 : is_delimiter b = false := by
            rw [Bool.eq_false_iff, Ne, is_delimiter_iff]; exact hd
          by_cases hp : b ≥ 32 ∧ b ≤ 126
          · have hp2 := (is_printable_iff b).mpr hp
            simp only [receive_line_loop, hlt, if_true, hget, hd, if_false, hp, and_self] at h
            obtain ⟨k1, k2, k3⟩ := ih f s1 (line ++ [b]) r hh1 ht1 hc1 h
            refine ⟨⟨fun ht => ?_, fun hr => ?_⟩, fun ht => ?_, k3⟩
            · exact absurd (k1.mp ht).1 (by simp)
            · have := (hr.2 b (List.mem_cons_self _ _)).2
              rw [hp2] at this
              exact absurd this (by decide)
            · exact absurd (k1.mp ht).1 (by simp)
          · have hp2 : is_printable b = false := by
              rw [Bool.eq_false_iff, Ne, is_printable_iff]; exact hp
            simp only [receive_line_loop, hlt, if_true, hget, hd, if_false, hp] at h
            obtain ⟨k1, k2, k3⟩ := ih f s1 line r hh1 ht1 hc1 h
            refine ⟨⟨fun ht => ?_, fun hr => ?_⟩, fun ht => ?_, k3⟩
            · obtain ⟨a1, a2⟩ := k1.mp ht
              refine ⟨a1, fun x hx => ?_⟩
              rcases List.mem_cons.mp hx with hx1 | hx1
              · rw [hx1]; exact ⟨hd2, hp2⟩
              · exact a2 x hx1
            · exact k1.mpr ⟨hr.1, fun x hx => hr.2 x (List.mem_cons_of_mem _ hx)⟩
            · have := k2 ht
              rw [hst] at this
              exact this
      · simp only [receive_line_loop, hlt, if_false, Option.some.injEq] at h
        have e1 : r.1 = system_status_t.SYSTEM_OK := by rw [← h]; rfl
        refine ⟨⟨fun ht => ?_, fun hr => ?_⟩, fun ht => ?_, Or.inr e1⟩
        · rw [e1] at ht; exact absurd ht (by decide)
        · rw [hr.1] at hlt
          simp only [List.length_nil] at hlt
          omega
        · rw [e1] at ht; exact absurd ht (by decide)

/-- With `timeout_ms` 0 or `0xFFFFFFFF`, the loop of
`communication_receive_line` never exits on an empty ring while the line buffer
has room: the test of the elapsed ticks is skipped or can never succeed. -/
theorem receive_line_loop_spins (buffer_size timeout_ms start_time : Nat)
    (hspin : timeout_ms = 0 ∨ 4294967295 ≤ timeout_ms) :
    ∀ (fuel : Nat) (s : CommState) (line : List Nat),
      s.rx_head < 256 → s.rx_tail < 256 → rx_contents s = [] →
      line.length < buffer_size - 1 →
      receive_line_loop buffer_size timeout_ms start_time fuel s line = none := by
  intro fuel
  induction fuel with
  | zero => intro s line _ _ _ _; rfl
  | succ f ih =>
    intro s line hh ht hc hlt
    have hget := get_rx_byte_nil s hh ht hc
    simp only [receive_line_loop, hlt, if_true, hget]
    by_cases hto : timeout_ms > 0
    · have hel : ¬ ((get_system_tick s).1 + 4294967296 - start_time) % 4294967296 >
          timeout_ms := by
        have := Nat.mod_lt ((get_system_tick s).1 + 4294967296 - start_time)
          (by norm_num : 4294967296 > 0)
        omega
      simp only [hto, if_true, hel, if_false]
      exact ih (get_system_tick s).2 line hh ht hc hlt
    · simp only [hto, if_false]
      exact ih s line hh ht hc hlt

theorem communication_receive_line_spins (s : CommState) (buffer_size timeout_ms : Nat)
    (hh : s.rx_head < 256) (ht : s.rx_tail < 256) (hc : rx_contents s = [])
    (hbs : 2 ≤ buffer_size) (hspin : timeout_ms = 0 ∨ 4294967295 ≤ timeout_ms) (fuel : Nat) :
    communication_receive_line s buffer_size timeout_ms fuel = none := by
  have hbs2 : ¬ buffer_size < 2 := by omega
  simp only [communication_receive_line, hbs2, if_false]
  exact receive_line_loop_spins buffer_size timeout_ms _ hspin fuel (get_system_tick s).2 [] hh ht
    hc (by simp only [List.length_nil]; omega)

/-- C22, as the code has it. With `buffer_size` at least 2, `timeout_ms` between
1 and `0xFFFFFFFE`, ring indices within the buffer and no byte arriving during
the call, `communication_receive_line` returns, within as many loop iterations
as the ring holds bytes plus `timeout_ms + 2`; it returns `SYSTEM_TIMEOUT`
exactly when the ring holds neither CR, LF nor a printable byte (it runs empty
before a delimiter is taken and with nothing stored), and then no line is
written, `last_error` is `COMM_ERROR_TIMEOUT` and `statistics.timeout_count`
has grown by one; in every other case it returns `SYSTEM_OK`. -/
theorem C22_timeout_status (s : CommState) (buffer_size timeout_ms fuel : Nat)
    (hh : s.rx_head < 256) (ht : s.rx_tail < 256) (hbs : 2 ≤ buffer_size)
    (hto : 0 < timeout_ms) (hmax : timeout_ms < 4294967295)
    (hfuel : (rx_contents s).length + timeout_ms + 2 ≤ fuel) :
    ∃ r, communication_receive_line s buffer_size timeout_ms fuel = some r ∧
      (r.1 = system_status_t.SYSTEM_TIMEOUT ↔
        ∀ b ∈ rx_contents s, is_delimiter b = false ∧ is_printable b = false) ∧
      (r.1 = system_status_t.SYSTEM_TIMEOUT →
        r.2.1 = none ∧ r.2.2.last_error = comm_error_t.COMM_ERROR_TIMEOUT ∧
        r.2.2.statistics.timeout_count = incr32 s.statistics.timeout_count) ∧
      (r.1 ≠ system_status_t.SYSTEM_TIMEOUT → r.1 = system_status_t.SYSTEM_OK) := by
  have hsome := communication_receive_line_returns s buffer_size timeout_ms fuel hh ht hto
    (by omega) hfuel
  obtain ⟨r, hr⟩ := Option.isSome_iff_exists.mp hsome
  refine ⟨r, hr, ?_⟩
  have hbs2 : ¬ buffer_size < 2 := by omega
  simp only [communication_receive_line, hbs2, if_false] at hr
  obtain ⟨k1, k2, k3⟩ := receive_line_loop_status buffer_size timeout_ms (get_system_tick s).1
    hbs (rx_contents s) fuel (get_system_tick s).2 [] r hh ht rfl hr
  refine ⟨⟨fun h => (k1.mp h).2, fun h => k1.mpr ⟨rfl, h⟩⟩, fun h => ?_, fun h => ?_⟩
  · obtain ⟨a1, a2, a3, _⟩ := k2 h
    exact ⟨a1, a2, a3⟩
  · rcases k3 with h3 | h3
    · exact absurd h3 h
    · exact h3

/-- Witness of C22: the ring after `system_init` holding the single byte 0x01;
with a timeout of 10 ticks the call returns `SYSTEM_TIMEOUT`. -/
theorem C22_witness :
    ∃ r, communication_receive_line (rx_fill (system_init_comm comm_boot) [1]) 128 10 13 =
        some r ∧
      r.1 = system_status_t.SYSTEM_TIMEOUT ∧ r.2.1 = none ∧
      r.2.2.last_error = comm_error_t.COMM_ERROR_TIMEOUT ∧
      r.2.2.statistics.timeout_count = 1 := by
  obtain ⟨hc, hh, ht⟩ := rx_fill_init [1] (by decide)
  obtain ⟨r, h1, h2, h3, _⟩ := C22_timeout_status (rx_fill (system_init_comm comm_boot) [1])
    128 10 13 hh ht (by decide) (by decide) (by decide) (by rw [hc]; decide)
  have htm : r.1 = system_status_t.SYSTEM_TIMEOUT := by
    rw [h2, hc]
    decide
  obtain ⟨a1, a2, a3⟩ := h3 htm
  refine ⟨r, h1, htm, a1, a2, ?_⟩
  rw [a3, rx_fill_statistics]
  rfl

/-- C22 as stated fails for `timeout_ms = 0xFFFFFFFF`: on the empty ring after
`system_init` the call with the 128-byte buffer returns for no number of loop
iterations, so it does not return `SYSTEM_TIMEOUT`. -/
theorem C22_counterexample :
    rx_contents (system_init_comm comm_boot) = [] ∧
      ¬ ∃ fuel, (communication_receive_line (system_init_comm comm_boot) 128 4294967295
        fuel).isSome = true := by
  refine ⟨rx_contents_init, ?_⟩
  rintro ⟨fuel, h⟩
  rw [communication_receive_line_spins (system_init_comm comm_boot) 128 4294967295 (by decide)
    (by decide) rx_contents_init (by decide) (Or.inr (le_refl _)) fuel] at h
  exact absurd h (by decide)

/-! ## Lines cut by the timeout -/

/-- The loop of `communication_receive_line` keeps the ring indices within the
buffer. -/
theorem receive_line_loop_indices (buffer_size timeout_ms start_time : Nat) :
    ∀ (fuel : Nat) (s : CommState) (line : List Nat)
      (r : system_status_t × Option (List Nat) × CommState),
      s.rx_head < 256 → s.rx_tail < 256 →
      receive_line_loop buffer_size timeout_ms start_time fuel s line = some r →
      r.2.2.rx_head < 256 ∧ r.2.2.rx_tail < 256 := by
  intro fuel
  induction fuel with
  | zero => intro s line r _ _ h; simp [receive_line_loop] at h
  | succ f ih =>
    intro s line r hh ht h
    have hfin : ∀ t : CommState, t.rx_head < 256 → t.rx_tail < 256 →
        receive_line_finish t line = r → r.2.2.rx_head < 256 ∧ r.2.2.rx_tail < 256 := by
      intro t h1 h2 he
      rw [← he]
      unfold receive_line_finish
      split_ifs <;> exact ⟨h1, h2⟩
    have hg : (get_rx_byte s).2.rx_head < 256 ∧ (get_rx_byte s).2.rx_tail < 256 := by
      unfold get_rx_byte
      split_ifs
      · exact ⟨hh, ht⟩
      · exact ⟨hh, Nat.mod_lt _ (by norm_num [RX_BUFFER_SIZE])⟩
    by_cases hlt : line.length < buffer_size - 1
    · simp only [receive_line_loop, hlt, if_true] at h
      cases hgb : get_rx_byte s with
      | mk o s1 =>
        rw [hgb] at h hg
        have hg1 : s1.rx_head < 256 := hg.1
        have hg2 : s1.rx_tail < 256 := hg.2
        cases o with
        | some byte =>
          simp only at h
          split_ifs at h
          · exact hfin s1 hg1 hg2 (Option.some.inj h)
          · exact ih s1 _ r hg1 hg2 h
          · exact ih s1 _ r hg1 hg2 h
        | none =>
          simp only at h
          split_ifs at h
          · rw [← Option.some.inj h]
            cases hcb : s1.error_callback <;>
              simp [set_last_error, call_error_callback, communication_error_callback, hcb,
                get_system_tick, hg1, hg2]
          · exact hfin (get_system_tick s1).2 hg1 hg2 (Option.some.inj h)
          · exact ih (get_system_tick s1).2 _ r hg1 hg2 h
          · exact ih s1 _ r hg1 hg2 h
    · simp only [receive_line_loop, hlt, if_false, Option.some.injEq] at h
      exact hfin s hh ht h

/-- A ring that holds only a non-empty run of printable bytes shorter than the
line buffer, with no delimiter: the call waits for the timeout and then returns
the run as a line with `SYSTEM_OK`, leaving the ring empty. -/
theorem communication_receive_line_partial (s : CommState) (p : List Nat)
    (buffer_size timeout_ms fuel : Nat) (hh : s.rx_head < 256) (ht : s.rx_tail < 256)
    (hring : rx_contents s = p) (hne : p ≠ []) (hpr : ∀ b ∈ p, 32 ≤ b ∧ b ≤ 126)
    (hlen : p.length < buffer_size - 1) (hto : 0 < timeout_ms)
    (hmax : timeout_ms < 4294967295) (hfuel : p.length + timeout_ms + 2 ≤ fuel) :
    ∃ s1, communication_receive_line s buffer_size timeout_ms fuel =
        some (system_status_t.SYSTEM_OK, some p, s1) ∧
      rx_contents s1 = [] ∧ s1.rx_head < 256 ∧ s1.rx_tail < 256 := by
  have hbs : 2 ≤ buffer_size := by omega
  have hsome := communication_receive_line_returns s buffer_size timeout_ms fuel hh ht hto
    (by omega) (by rw [hring]; exact hfuel)
  obtain ⟨r, hr⟩ := Option.isSome_iff_exists.mp hsome
  have hbs2 : ¬ buffer_size < 2 := by omega
  have hr2 := hr
  simp only [communication_receive_line, hbs2, if_false] at hr2
  obtain ⟨k1, _, k3⟩ := receive_line_loop_status buffer_size timeout_ms (get_system_tick s).1
    hbs (rx_contents s) fuel (get_system_tick s).2 [] r hh ht rfl hr2
  have hprt := is_printable_of_range p hpr
  have hok : r.1 = system_status_t.SYSTEM_OK := by
    rcases k3 with h3 | h3
    · obtain ⟨b, hb⟩ := List.exists_mem_of_ne_nil p hne
      have := ((k1.mp h3).2 b (by rw [hring]; exact hb)).2
      rw [hprt b hb] at this
      exact absurd this (by decide)
    · exact h3
  obtain ⟨out, n, e1, e2, e3, e4, e5, _⟩ := receive_line_loop_result buffer_size timeout_ms
    (get_system_tick s).1 (rx_contents s) fuel (get_system_tick s).2 [] r hh ht rfl
    (Nat.zero_le _) hr2 hok
  obtain ⟨i1, i2⟩ := receive_line_loop_indices buffer_size timeout_ms (get_system_tick s).1 fuel
    (get_system_tick s).2 [] r hh ht hr2
  rw [hring] at e2 e3 e4 e5
  have htw : p.takeWhile (fun b => !is_delimiter b) = p := by
    rw [List.takeWhile_eq_self_iff]
    intro b hb
    rw [is_delimiter_of_printable b (hprt b hb)]
    rfl
  have hfl : p.filter is_printable = p := List.filter_eq_self.mpr hprt
  have hout : out = p := by
    rw [e5, htw, hfl, List.nil_append, List.take_of_length_le (by omega)]
  have hn : n = p.length := by
    have h1 : out.length ≤ (p.take n).length := by
      rw [e4, List.nil_append]
      exact List.length_filter_le _ _
    rw [hout, List.length_take] at h1
    omega
  refine ⟨r.2.2, ?_, ?_, i1, i2⟩
  · rw [hr]
    have : r = (r.1, r.2.1, r.2.2) := rfl
    rw [this, hok, e1, hout]
  · rw [e3, hn, List.drop_length]

/-- C23, as the code has it. Partial lines do not persist across calls of
`communication_receive_line`: the count and the line buffer are locals of one
call. For every frame `p ++ q` of at most 127 printable bytes with `p`
non-empty, if only `p` is in the RX ring (indices within the buffer) when the
first call is made with the 128-byte buffer and a timeout between 1 and
`0xFFFFFFFE`, that call returns `p` as a line with `SYSTEM_OK` and leaves the
ring empty; and when `q` followed by LF has been pushed into the ring before
the second call, the second call returns `q`. The frame comes out as the two
lines `p` and `q`, never as one line. -/
theorem C23_partial_line_returned (s : CommState) (p q : List Nat) (timeout_ms fuel : Nat)
    (hh : s.rx_head < 256) (ht : s.rx_tail < 256) (hring : rx_contents s = p) (hne : p ≠ [])
    (hpr : ∀ b ∈ p ++ q, 32 ≤ b ∧ b ≤ 126) (hlen : (p ++ q).length ≤ 127)
    (hto : 0 < timeout_ms) (hmax : timeout_ms < 4294967295)
    (hfuel : p.length + q.length + timeout_ms + 2 ≤ fuel) :
    ∃ s1, communication_receive_line s 128 timeout_ms fuel =
        some (system_status_t.SYSTEM_OK, some p, s1) ∧
      rx_contents s1 = [] ∧
      ∃ s2, communication_receive_line (rx_fill s1 (q ++ [COMM_CHAR_LF])) 128 timeout_ms fuel =
          some (system_status_t.SYSTEM_OK, some q, s2) ∧
        rx_contents s2 = [] := by
  simp only [List.length_append] at hlen
  have hfirst : ∃ s1, communication_receive_line s 128 timeout_ms fuel =
        some (system_status_t.SYSTEM_OK, some p, s1) ∧
      rx_contents s1 = [] ∧ s1.rx_head < 256 ∧ s1.rx_tail < 256 := by
    by_cases hp : p.length < 127
    · exact communication_receive_line_partial s p 128 timeout_ms fuel hh ht hring hne
        (fun b hb => hpr b (List.mem_append_left _ hb)) hp hto hmax (by omega)
    · obtain ⟨s1, h1, h2, h3, h4, _⟩ := communication_receive_line_full s p [] timeout_ms fuel
        hh ht (by simpa using hring) (by omega)
        (fun b hb => hpr b (List.mem_append_left _ hb)) (by rw [hring]; omega)
      exact ⟨s1, h1, h2, h3, h4⟩
  obtain ⟨s1, h1, h2, h3, h4⟩ := hfirst
  have hpos : 0 < p.length := List.length_pos.mpr hne
  obtain ⟨c1, c2, c3⟩ := rx_fill_contents (q ++ [COMM_CHAR_LF]) s1 h3 h4 (by
    rw [h2]
    simp only [List.length_nil, List.length_append, List.length_singleton]
    omega)
  rw [h2, List.nil_append] at c1
  have hfuel2 : (rx_contents (rx_fill s1 (q ++ [COMM_CHAR_LF]))).length < fuel := by
    rw [c1]
    simp only [List.length_append, List.length_singleton]
    omega
  obtain ⟨s2, k1, k2, _⟩ := communication_receive_line_delimited
    (rx_fill s1 (q ++ [COMM_CHAR_LF])) q COMM_CHAR_LF [] timeout_ms fuel c2 c3 c1 (by omega)
    (fun b hb => hpr b (List.mem_append_right _ hb)) (Or.inr rfl) hfuel2
  exact ⟨s1, h1, h2, s2, k1, k2⟩

/-- Witness of C23: the frame `ABC` with `AB` in the ring after `system_init`
at the first call, and `C` and LF pushed before the second. -/
theorem C23_witness :
    ∃ s1, communication_receive_line (rx_fill (system_init_comm comm_boot) [65, 66]) 128 1000
        1005 = some (system_status_t.SYSTEM_OK, some [65, 66], s1) ∧
      rx_contents s1 = [] ∧
      ∃ s2, communication_receive_line (rx_fill s1 ([67] ++ [COMM_CHAR_LF])) 128 1000 1005 =
          some (system_status_t.SYSTEM_OK, some [67], s2) ∧
        rx_contents s2 = [] := by
  obtain ⟨hc, hh, ht⟩ := rx_fill_init [65, 66] (by decide)
  exact C23_partial_line_returned (rx_fill (system_init_comm comm_boot) [65, 66]) [65, 66] [67]
    1000 1005 hh ht hc (by decide) (by decide) (by decide) (by decide) (by decide) (by decide)

/-- C23 as stated fails: with only `AB` of the frame `ABC` in the ring after
`system_init`, the first call returns the line `AB` with `SYSTEM_OK` after the
timeout, and `process_received_data` hands `AB` to the parser. -/
theorem C23_counterexample :
    ∃ s1, communication_receive_line (rx_fill (system_init_comm comm_boot) [65, 66]) 128 1000
        1004 = some (system_status_t.SYSTEM_OK, some [65, 66], s1) ∧
      process_received_data_line (rx_fill (system_init_comm comm_boot) [65, 66]) 1004 =
        some (some "AB".toList, s1) := by
  obtain ⟨hc, hh, ht⟩ := rx_fill_init [65, 66] (by decide)
  obtain ⟨s1, h1, _⟩ := communication_receive_line_partial
    (rx_fill (system_init_comm comm_boot) [65, 66]) [65, 66] 128 1000 1004 hh ht hc (by decide)
    (by decide) (by decide) (by decide) (by decide) (by decide)
  refine ⟨s1, h1, ?_⟩
  rw [process_received_data_line_of_receive _ s1 1004 [65, 66] (by rw [hc]; decide) (by decide)
    h1]
  rfl

/-! ## Termination of the receive calls -/

theorem receive_loop_empty_returns (buffer_size timeout_ms start_time : Nat)
    (hto : 0 < timeout_ms) (hmax : timeout_ms + 1 < 4294967296)
    (hstart : start_time < 4294967296) :
    ∀ (fuel : Nat) (s : CommState) (buf : List Nat),
      s.rx_head < 256 → s.rx_tail < 256 → rx_contents s = [] → s.tick_count < 4294967296 →
      (s.tick_count + 4294967296 - start_time) % 4294967296 ≤ timeout_ms →
      timeout_ms + 1 ≤ fuel + (s.tick_count + 4294967296 - start_time) % 4294967296 →
      (receive_loop buffer_size timeout_ms start_time fuel s buf).isSome = true := by
  intro fuel
  induction fuel with
  | zero => intro s buf _ _ _ _ he hf; omega
  | succ f ih =>
    intro s buf hh ht hc htick he hf
    by_cases hlt : buf.length < buffer_size
    · have hget := get_rx_byte_nil s hh ht hc
      simp only [receive_loop, hlt, if_true, hget, hto, gt_iff_lt]
      by_cases hel : timeout_ms <
          ((get_system_tick s).1 + 4294967296 - start_time) % 4294967296
      · simp only [hel, if_true]
        split_ifs <;> rfl
      · simp only [hel, if_false]
        have htk : (get_system_tick s).2.tick_count = (s.tick_count + 1) % 4294967296 := rfl
        have htk1 : (get_system_tick s).1 = (s.tick_count + 1) % 4294967296 := rfl
        rw [htk1] at hel
        apply ih (get_system_tick s).2 buf hh ht hc
        · rw [htk]; omega
        · rw [htk]; omega
        · rw [htk]; omega
    · simp only [receive_loop, hlt, if_false]
      rfl

theorem receive_loop_returns (buffer_size timeout_ms start_time : Nat)
    (hto : 0 < timeout_ms) (hmax : timeout_ms + 1 < 4294967296)
    (hstart : start_time < 4294967296) :
    ∀ (cs : List Nat) (fuel : Nat) (s : CommState) (buf : List Nat),
      s.rx_head < 256 → s.rx_tail < 256 → rx_contents s = cs → s.tick_count = start_time →
      cs.length + timeout_ms + 2 ≤ fuel →
      (receive_loop buffer_size timeout_ms start_time fuel s buf).isSome = true := by
  intro cs
  induction cs with
  | nil =>
    intro fuel s buf hh ht hc htick hf
    simp only [List.length_nil] at hf
    apply receive_loop_empty_returns buffer_size timeout_ms start_time hto hmax hstart fuel
      s buf hh ht hc
    · rw [htick]; exact hstart
    · rw [htick]; omega
    · rw [htick]; omega
  | cons b cs ih =>
    intro fuel s buf hh ht hc htick hf
    simp only [List.length_cons] at hf
    obtain ⟨f, rfl⟩ : ∃ f, fuel = f + 1 := ⟨fuel - 1, by omega⟩
    by_cases hlt : buf.length < buffer_size
    · obtain ⟨s1, hget, hc1, hs1, ht1⟩ := get_rx_byte_cons s b cs hh ht hc
      have hh1 : s1.rx_head < 256 := by rw [hs1]; exact hh
      have htick1 : s1.tick_count = start_time := by rw [hs1]; exact htick
      simp only [receive_loop, hlt, if_true, hget]
      exact ih f s1 _ hh1 ht1 hc1 htick1 (by omega)
    · simp only [receive_loop, hlt, if_false]
      rfl

/-- With a timeout between 1 and `0xFFFFFFFE` ticks and no interrupt taken,
the call `communication_receive` returns. -/
theorem communication_receive_returns (s : CommState) (buffer_size timeout_ms fuel : Nat)
    (hh : s.rx_head < 256) (ht : s.rx_tail < 256) (hto : 0 < timeout_ms)
    (hmax : timeout_ms + 1 < 4294967296)
    (hfuel : (rx_contents s).length + timeout_ms + 2 ≤ fuel) :
    (communication_receive s buffer_size timeout_ms fuel).isSome = true := by
  unfold communication_receive
  split_ifs
  · rfl
  · have hlt : (get_system_tick s).1 < 4294967296 := Nat.mod_lt _ (by norm_num)
    exact receive_loop_returns buffer_size timeout_ms (get_system_tick s).1 hto hmax hlt
      (rx_contents s) fuel (get_system_tick s).2 [] hh ht rfl rfl hfuel

theorem receive_loop_spins (buffer_size timeout_ms start_time : Nat)
    (hspin : timeout_ms = 0 ∨ 4294967295 ≤ timeout_ms) :
    ∀ (fuel : Nat) (s : CommState) (buf : List Nat),
      s.rx_head < 256 → s.rx_tail < 256 → rx_contents s = [] → buf.length < buffer_size →
      receive_loop buffer_size timeout_ms start_time fuel s buf = none := by
  intro fuel
  induction fuel with
  | zero => intro s buf _ _ _ _; rfl
  | succ f ih =>
    intro s buf hh ht hc hlt
    have hget := get_rx_byte_nil s hh ht hc
    simp only [receive_loop, hlt, if_true, hget]
    by_cases hto : timeout_ms > 0
    · have hel : ¬ ((get_system_tick s).1 + 4294967296 - start_time) % 4294967296 >
          timeout_ms := by
        have := Nat.mod_lt ((get_system_tick s).1 + 4294967296 - start_time)
          (by norm_num : 4294967296 > 0)
        omega
      simp only [hto, if_true, hel, if_false]
      exact ih (get_system_tick s).2 buf hh ht hc hlt
    · simp only [hto, if_false]
      exact ih s buf hh ht hc hlt

theorem communication_receive_spins (s : CommState) (buffer_size timeout_ms : Nat)
    (hh : s.rx_head < 256) (ht : s.rx_tail < 256) (hc : rx_contents s = [])
    (hbs : 1 ≤ buffer_size) (hspin : timeout_ms = 0 ∨ 4294967295 ≤ timeout_ms) (fuel : Nat) :
    communication_receive s buffer_size timeout_ms fuel = none := by
  have hbs2 : ¬ buffer_size = 0 := by omega
  simp only [communication_receive, hbs2, if_false]
  exact receive_loop_spins buffer_size timeout_ms _ hspin fuel (get_system_tick s).2 [] hh ht
    hc (by simp only [List.length_nil]; omega)

/-- C24, as the code has it. For every RX ring state with indices within the
buffer and every buffer size, with no byte arriving during the call: when
`timeout_ms` is between 1 and `0xFFFFFFFE`, `communication_receive_line` and
`communication_receive` return within as many loop iterations as the ring
holds bytes plus `timeout_ms + 2`. When `timeout_ms` is 0 or `0xFFFFFFFF` and
the ring is empty, `communication_receive_line` with a buffer of at least 2
bytes and `communication_receive` with a buffer of at least 1 byte return for
no number of loop iterations: the calls block. -/
theorem C24_receive_returns_or_blocks (s : CommState) (buffer_size : Nat)
    (hh : s.rx_head < 256) (ht : s.rx_tail < 256) :
    (∀ timeout_ms fuel : Nat, 0 < timeout_ms → timeout_ms < 4294967295 →
      (rx_contents s).length + timeout_ms + 2 ≤ fuel →
      (communication_receive_line s buffer_size timeout_ms fuel).isSome = true ∧
      (communication_receive s buffer_size timeout_ms fuel).isSome = true) ∧
    (rx_contents s = [] → ∀ timeout_ms : Nat, (timeout_ms = 0 ∨ timeout_ms = 4294967295) →
      ∀ fuel : Nat,
        (2 ≤ buffer_size → communication_receive_line s buffer_size timeout_ms fuel = none) ∧
        (1 ≤ buffer_size → communication_receive s buffer_size timeout_ms fuel = none)) := by
  constructor
  · intro timeout_ms fuel hto hmax hfuel
    exact ⟨communication_receive_line_returns s buffer_size timeout_ms fuel hh ht hto
        (by omega) hfuel,
      communication_receive_returns s buffer_size timeout_ms fuel hh ht hto (by omega) hfuel⟩
  · intro hc timeout_ms hspin fuel
    have hspin2 : timeout_ms = 0 ∨ 4294967295 ≤ timeout_ms := by
      rcases hspin with h | h
      · exact Or.inl h
      · exact Or.inr (by omega)
    exact ⟨fun hbs => communication_receive_line_spins s buffer_size timeout_ms hh ht hc hbs
        hspin2 fuel,
      fun hbs => communication_receive_spins s buffer_size timeout_ms hh ht hc hbs hspin2 fuel⟩

/-- Witness of C24: the ring after `system_init` holding `AB`, with the
128-byte buffer and a timeout of 1000 ticks. -/
theorem C24_witness :
    (communication_receive_line (rx_fill (system_init_comm comm_boot) [65, 66]) 128 1000
        1004).isSome = true ∧
      (communication_receive (rx_fill (system_init_comm comm_boot) [65, 66]) 128 1000
        1004).isSome = true := by
  obtain ⟨hc, hh, ht⟩ := rx_fill_init [65, 66] (by decide)
  exact (C24_receive_returns_or_blocks (rx_fill (system_init_comm comm_boot) [65, 66]) 128 hh
    ht).1 1000 1004 (by decide) (by decide) (by rw [hc]; decide)

/-- C24 as stated fails: on the empty ring after `system_init`, with
`timeout_ms = 0`, `communication_receive_line` and `communication_receive`
with a 128-byte buffer return for no number of loop iterations. -/
theorem C24_counterexample :
    rx_contents (system_init_comm comm_boot) = [] ∧
      (¬ ∃ fuel, (communication_receive_line (system_init_comm comm_boot) 128 0
        fuel).isSome = true) ∧
      ¬ ∃ fuel, (communication_receive (system_init_comm comm_boot) 128 0 fuel).isSome = true := by
  refine ⟨rx_contents_init, ?_, ?_⟩
  · rintro ⟨fuel, h⟩
    rw [communication_receive_line_spins (system_init_comm comm_boot) 128 0 (by decide)
      (by decide) rx_contents_init (by decide) (Or.inl rfl) fuel] at h
    exact absurd h (by decide)
  · rintro ⟨fuel, h⟩
    rw [communication_receive_spins (system_init_comm comm_boot) 128 0 (by decide)
      (by decide) rx_contents_init (by decide) (Or.inl rfl) fuel] at h
    exact absurd h (by decide)

/-! ## The main loop -/

/-- C25 at its failing input. The stream `"A,D,1\nB,D,2\n"` holds two frames
that `parse_sensor_data` accepts, each followed by LF. With the stream in the
RX ring after `system_init`, one iteration of `system_main_loop` hands the
record of the first frame to `database_insert_sensor_data`, which succeeds;
then `communication_process_rx_data` takes the six bytes of the second frame
out of the ring. The ring is empty after that one iteration, one record has
been handed to the store, and the counters are total = 1 and valid = 1. -/
theorem C25_following_frames_drained :
    two_frame_stream = "A,D,1\nB,D,2\n".toList.map Char.toNat ∧
    ((parse_sensor_data id sensor_boot "A,D,1".toList).map (fun r => r.1.is_valid) = some true ∧
      (parse_sensor_data id sensor_boot "B,D,2".toList).map (fun r => r.1.is_valid) =
        some true) ∧
    rx_contents two_frame_state.comm = two_frame_stream ∧
    (system_main_loop id two_frame_state 40).map
        (fun r => (r.1.1.line, r.1.2, rx_contents r.2.comm, r.2.sensor.total_data_count,
          r.2.sensor.valid_data_count)) =
      some (some "A,D,1".toList, some [66, 44, 68, 44, 50, 10], [], 1, 1) ∧
    (system_main_loop id two_frame_state 40).map
        (fun r => r.1.1.insert.map (fun i => (i.1, i.2.success))) =
      some (some ({ type := SENSOR_TYPE_INTERRUPT,
                    data := sensor_union.sensor2
                      { student_id := "A".toList, sensor_name := "D".toList,
                        interrupt_type := INTERRUPT_TYPE_RISING, interrupt_count := 1,
                        status := SENSOR_STATUS_WARNING, timestamp := 1 } }, true)) := by
  refine ⟨by decide, ⟨by decide, by decide⟩, by decide, by decide, by decide⟩

/-! ## Storing a record -/

/-- The record `parse_sensor_data` writes for an accepted frame carries the
type tag of the union member that was written. -/
theorem parse_sensor_data_record_tag (rnd : ℚ → ℚ) (st : SensorState) (frame : List Char)
    (r : parse_result_t × Option sensor_data_t × SensorState)
    (h : parse_sensor_data rnd st frame = some r) (hv : r.1.is_valid = true) :
    ∃ d, r.2.1 = some d ∧
      ((∃ x, d = { type := SENSOR_TYPE_TEMP_HUMIDITY, data := sensor_union.sensor1 x }) ∨
        (∃ y, d = { type := SENSOR_TYPE_INTERRUPT, data := sensor_union.sensor2 y })) := by
  rcases parse_sensor_data_cases rnd st frame r h with h1 | h1 | h1
  · rw [h1] at hv ⊢
    obtain ⟨e1, e2, _⟩ := update_statistics_counters
      (dispatch_sensor1 rnd { st with total_data_count := incr32 st.total_data_count } frame)
    rw [e1] at hv
    rw [e2]
    obtain ⟨d, hd, _⟩ := parse_sensor1_data_timestamp rnd
      { st with total_data_count := incr32 st.total_data_count } frame hv
    exact ⟨{ type := SENSOR_TYPE_TEMP_HUMIDITY, data := sensor_union.sensor1 d },
      by simp only [dispatch_sensor1, hd, Option.map_some'], Or.inl ⟨d, rfl⟩⟩
  · rw [h1] at hv ⊢
    obtain ⟨e1, e2, _⟩ := update_statistics_counters
      (dispatch_sensor2 { st with total_data_count := incr32 st.total_data_count } frame)
    rw [e1] at hv
    rw [e2]
    obtain ⟨d, hd, _⟩ := parse_sensor2_data_timestamp
      { st with total_data_count := incr32 st.total_data_count } frame hv
    exact ⟨{ type := SENSOR_TYPE_INTERRUPT, data := sensor_union.sensor2 d },
      by simp only [dispatch_sensor2, hd, Option.map_some'], Or.inr ⟨d, rfl⟩⟩
  · rw [h1, (update_statistics_counters _).1] at hv
    simp at hv

/-- A failed store call records the message and, when `database_error_callback`
is installed, leaves the store connected. -/
theorem create_error_result_state (db : DbState) (code : Int) (msg : String) :
    (create_error_result db code msg).1.success = false ∧
      (create_error_result db code msg).1.error_message = msg ∧
      (db.error_callback = db_error_callback_t.database_error_callback →
        (create_error_result db code msg).2.current_status =
          db_status_t.DB_STATUS_CONNECTED) := by
  refine ⟨rfl, rfl, fun hcb => ?_⟩
  simp only [create_error_result, database_set_last_error, hcb, database_error_callback,
    database_disconnect, database_connect]
  split_ifs <;> simp_all [create_success_result]

/-- With the store not connected, `database_insert_sensor_data` on a record of
the parser fails with "Database not connected". -/
theorem database_insert_sensor_data_disconnected (db : DbState) (d : sensor_data_t)
    (hd : (∃ x, d = { type := SENSOR_TYPE_TEMP_HUMIDITY, data := sensor_union.sensor1 x }) ∨
      (∃ y, d = { type := SENSOR_TYPE_INTERRUPT, data := sensor_union.sensor2 y }))
    (hs : db.current_status ≠ db_status_t.DB_STATUS_CONNECTED) :
    database_insert_sensor_data db d =
      some (create_error_result db DB_ERROR_CONNECTION "Database not connected") := by
  rcases hd with ⟨x, rfl⟩ | ⟨y, rfl⟩
  · simp [database_insert_sensor_data, database_insert_sensor1_data, hs]
  · have hne : ¬ (SENSOR_TYPE_INTERRUPT = SENSOR_TYPE_TEMP_HUMIDITY) := by decide
    simp [database_insert_sensor_data, database_insert_sensor2_data, hs, hne]

/-- What a call of `process_received_data` that returns has done with the
store: nothing when it reports no insert, and otherwise one call of
`database_insert_sensor_data` on a record the parser accepted. -/
theorem process_received_data_insert (rnd : ℚ → ℚ) (sys : SystemState) (fuel : Nat)
    (rep : process_report) (sys1 : SystemState)
    (h : process_received_data rnd sys fuel = some (rep, sys1)) :
    (rep.insert = none → sys1.db = sys.db) ∧
    (∀ d res, rep.insert = some (d, res) →
      database_insert_sensor_data sys.db d = some (res, sys1.db) ∧
      ((∃ x, d = { type := SENSOR_TYPE_TEMP_HUMIDITY, data := sensor_union.sensor1 x }) ∨
        (∃ y, d = { type := SENSOR_TYPE_INTERRUPT, data := sensor_union.sensor2 y }))) := by
  unfold process_received_data at h
  split_ifs at h with hav
  · simp only [Option.some.injEq, Prod.mk.injEq] at h
    obtain ⟨rfl, rfl⟩ := h
    exact ⟨fun _ => rfl, fun d res hi => by simp [no_report] at hi⟩
  · cases hr : communication_receive_line sys.comm 128 1000 fuel with
    | none => simp [hr] at h
    | some x =>
      obtain ⟨status, line, c1⟩ := x
      rw [hr] at h
      cases line with
      | none =>
        simp only [Option.some.injEq, Prod.mk.injEq] at h
        obtain ⟨rfl, rfl⟩ := h
        exact ⟨fun _ => rfl, fun d res hi => by simp [no_report] at hi⟩
      | some l =>
        simp only at h
        split_ifs at h with hok
        · cases hp : parse_sensor_data rnd sys.sensor (l.map Char.ofNat) with
          | none => simp [hp] at h
          | some pr =>
            obtain ⟨res, rec, st1⟩ := pr
            rw [hp] at h
            simp only at h
            split_ifs at h with hv
            · obtain ⟨d0, hd0, htag⟩ := parse_sensor_data_record_tag rnd sys.sensor _ _ hp hv
              simp only at hd0
              rw [hd0] at h
              simp only at h
              cases hi : database_insert_sensor_data sys.db d0 with
              | none => simp [hi] at h
              | some ir =>
                obtain ⟨dbres, db1⟩ := ir
                rw [hi] at h
                simp only [Option.some.injEq, Prod.mk.injEq] at h
                obtain ⟨rfl, rfl⟩ := h
                refine ⟨fun hn => by simp at hn, fun d res hdr => ?_⟩
                simp only [Option.some.injEq, Prod.mk.injEq] at hdr
                obtain ⟨rfl, rfl⟩ := hdr
                exact ⟨hi, htag⟩
            · simp only [Option.some.injEq, Prod.mk.injEq] at h
              obtain ⟨rfl, rfl⟩ := h
              exact ⟨fun _ => rfl, fun d res hi => by simp at hi⟩
        · simp only [Option.some.injEq, Prod.mk.injEq] at h
          obtain ⟨rfl, rfl⟩ := h
          exact ⟨fun _ => rfl, fun d res hi => by simp [no_report] at hi⟩

/-- C26, as the code has it. For every accepted record `process_received_data`
calls `database_insert_sensor_data` exactly once: the result it reports and the
state of the store after the call are those of one call of
`database_insert_sensor_data` on the state of the store before, and a call that
reports no insert leaves the store as it was. When the store is not connected,
that one call fails with "Database not connected"; the error callback
installed by `system_init` then reconnects the store, but the record is not
handed to the store again. -/
theorem C26_single_insert_attempt (rnd : ℚ → ℚ) (sys : SystemState) (fuel : Nat)
    (rep : process_report) (sys1 : SystemState)
    (h : process_received_data rnd sys fuel = some (rep, sys1)) :
    (rep.insert = none → sys1.db = sys.db) ∧
    (∀ d res, rep.insert = some (d, res) →
      database_insert_sensor_data sys.db d = some (res, sys1.db) ∧
      (sys.db.current_status ≠ db_status_t.DB_STATUS_CONNECTED →
        res.success = false ∧ res.error_message = "Database not connected" ∧
        (sys.db.error_callback = db_error_callback_t.database_error_callback →
          sys1.db.current_status = db_status_t.DB_STATUS_CONNECTED))) := by
  obtain ⟨h1, h2⟩ := process_received_data_insert rnd sys fuel rep sys1 h
  refine ⟨h1, fun d res hi => ?_⟩
  obtain ⟨k1, k2⟩ := h2 d res hi
  refine ⟨k1, fun hs => ?_⟩
  rw [database_insert_sensor_data_disconnected sys.db d k2 hs] at k1
  simp only [Option.some.injEq, Prod.mk.injEq] at k1
  obtain ⟨e1, e2, e3⟩ := create_error_result_state sys.db DB_ERROR_CONNECTION
    "Database not connected"
  rw [k1] at e1 e2 e3
  exact ⟨e1, e2, e3⟩

/-- Witness of C26: the frame `"A,D,1"` received while the store is
disconnected. -/
theorem C26_witness :
    ∃ rep sys1, process_received_data id disconnected_state 40 = some (rep, sys1) ∧
      rep.insert.map (fun i => (i.2.success, i.2.error_message)) =
        some (false, "Database not connected") ∧
      sys1.db.current_status = db_status_t.DB_STATUS_CONNECTED := by
  have hval : (process_received_data id disconnected_state 40).map
      (fun r => r.1.insert.map (fun i => (i.2.success, i.2.error_message))) =
      some (some (false, "Database not connected")) := by decide
  cases hr : process_received_data id disconnected_state 40 with
  | none => rw [hr] at hval; simp at hval
  | some r =>
    obtain ⟨rep, sys1⟩ := r
    rw [hr] at hval
    simp only [Option.map_some', Option.some.injEq] at hval
    refine ⟨rep, sys1, rfl, hval, ?_⟩
    cases hi : rep.insert with
    | none => rw [hi] at hval; simp at hval
    | some i =>
      exact (((C26_single_insert_attempt id disconnected_state 40 rep sys1 hr).2 i.1 i.2 hi).2
        (by decide)).2.2 (by decide)

/-- C26 as stated fails: with the store disconnected and the frame `"A,D,1"`
followed by LF in the ring, the first call of `process_received_data` makes one
insert attempt, which fails with "Database not connected"; the error callback
has reconnected the store, so that a second attempt on the same record would
succeed, but the second call of `process_received_data` finds the ring empty
and hands nothing to the store: the record is dropped. -/
theorem C26_counterexample :
    (process_received_data_times id 40 2 disconnected_state).map
        (fun r => (r.1.map (fun rep => rep.insert.map
            (fun i => (i.2.success, i.2.error_message))),
          rx_contents r.2.comm, r.2.db.current_status)) =
      some ([some (false, "Database not connected"), none], [],
        db_status_t.DB_STATUS_CONNECTED) ∧
    (process_received_data id disconnected_state 40).bind
        (fun r => r.1.insert.bind
          (fun i => (database_insert_sensor_data r.2.db i.1).map (fun x => x.1.success))) =
      some true := by
  refine ⟨by decide, by decide⟩

/-! ## Legacy firmware: the packet parser (C31) -/

theorem legacy_find_marker_first (marker : Nat) : ∀ (pre rest : List Nat) (i : Nat),
    (∀ b ∈ pre, b ≠ marker) →
    legacy.find_marker marker (pre ++ marker :: rest) i = some (i + pre.length) := by
  intro pre
  induction pre with
  | nil => intro rest i _; simp [legacy.find_marker]
  | cons a as ih =>
    intro rest i h
    have ha : a ≠ marker := h a (List.mem_cons_self _ _)
    have := ih rest (i + 1) (fun b hb => h b (List.mem_cons_of_mem _ hb))
    rw [List.cons_append, legacy.find_marker, if_neg ha, this, List.length_cons]
    congr 1
    omega

/-- C31. Legacy packet framing round trip: for every prefix of bytes without
`0xAA` and every payload of 1 to `output_size - 1` bytes that contains neither
`0xAA` nor `0x55`, `communication_parse_packet` applied to the prefix, `0xAA`,
the payload and `0x55` returns `true` and writes exactly the payload followed
by NUL to `output`. -/
theorem C31_packet_framing_round_trip (pre payload : List Nat) (output_size : Nat)
    (hpre : ∀ b ∈ pre, b ≠ 170) (hpay : ∀ b ∈ payload, b ≠ 170 ∧ b ≠ 85)
    (h1 : 1 ≤ payload.length) (h2 : payload.length ≤ output_size - 1) :
    legacy.communication_parse_packet (some (pre ++ [170] ++ payload ++ [85])) output_size =
      (true, some (payload ++ [0])) := by
  have hlen : ¬ ((pre ++ [170] ++ payload ++ [85]).length < 3 ∨ output_size = 0) := by
    simp only [List.length_append, List.length_singleton]
    omega
  have hs : legacy.find_marker legacy.PACKET_START_MARKER (pre ++ [170] ++ payload ++ [85]) 0 =
      some pre.length := by
    have := legacy_find_marker_first 170 pre (payload ++ [85]) 0 hpre
    simpa [legacy.PACKET_START_MARKER] using this
  have hdrop : (pre ++ [170] ++ payload ++ [85]).drop (pre.length + 1) = payload ++ [85] := by
    have : pre ++ [170] ++ payload ++ [85] = (pre ++ [170]) ++ (payload ++ [85]) := by
      simp
    rw [this, List.drop_append_eq_append_drop]
    simp
  have he : legacy.find_marker legacy.PACKET_END_MARKER (payload ++ [85]) (pre.length + 1) =
      some (pre.length + 1 + payload.length) := by
    have := legacy_find_marker_first 85 payload [] (pre.length + 1) (fun b hb => (hpay b hb).2)
    simpa [legacy.PACKET_END_MARKER] using this
  simp only [legacy.communication_parse_packet, hlen, if_false, hs, hdrop, he]
  have hle : ¬ pre.length + 1 + payload.length ≤ pre.length + 1 := by omega
  have hsub : pre.length + 1 + payload.length - (pre.length + 1) = payload.length := by omega
  have hfit : ¬ payload.length ≥ output_size := by omega
  simp only [hle, if_false, hsub, hfit]
  simp

theorem C31_witness :
    legacy.communication_parse_packet (some ([] ++ [170] ++ test_packet_payload ++ [85])) 64 =
      (true, some (test_packet_payload ++ [0])) ∧
    test_packet_payload.map Char.ofNat = "2021001ZS,25.6,60.2".toList :=
  ⟨C31_packet_framing_round_trip [] test_packet_payload 64 (by decide) (by decide) (by decide)
    (by decide), by decide⟩

/-! ## Legacy firmware: the frame parsers (C32, C33) -/

theorem strtok_comma_free (x rest : List Char) (hne : x ≠ []) (hx : ∀ c ∈ x, c ≠ ',') :
    strtok (x ++ ',' :: rest) = some (x, rest) ∧ strtok x = some (x, []) := by
  obtain ⟨c, cs, rfl⟩ : ∃ c cs, x = c :: cs := by
    cases x with
    | nil => exact absurd rfl hne
    | cons c cs => exact ⟨c, cs, rfl⟩
  have hc : c ≠ ',' := hx c (List.mem_cons_self _ _)
  have htake : ∀ (l r : List Char), (∀ a ∈ l, a ≠ ',') →
      (l ++ ',' :: r).takeWhile (fun a => a != ',') = l ∧
      (l ++ ',' :: r).dropWhile (fun a => a != ',') = ',' :: r ∧
      l.takeWhile (fun a => a != ',') = l ∧ l.dropWhile (fun a => a != ',') = [] := by
    intro l r
    induction l with
    | nil => intro _; simp
    | cons a l ih =>
      intro h
      have ha : a ≠ ',' := h a (List.mem_cons_self _ _)
      obtain ⟨i1, i2, i3, i4⟩ := ih (fun b hb => h b (List.mem_cons_of_mem _ hb))
      simp [ha, i1, i2, i3, i4]
  obtain ⟨t1, t2, t3, t4⟩ := htake (c :: cs) rest hx
  have hd : ∀ l : List Char, (c :: l).dropWhile (fun a => a == ',') = c :: l := by
    intro l
    simp [hc]
  constructor
  · unfold strtok
    rw [List.cons_append, hd]
    simp only
    rw [← List.cons_append, t1, t2]
    rfl
  · unfold strtok
    rw [hd]
    simp only
    rw [t3, t4]
    rfl

theorem well_formed_decimal_ne_nil (s : List Char) (h : well_formed_decimal s = true) :
    s ≠ [] := by
  intro hs
  subst hs
  simp [well_formed_decimal] at h

theorem well_formed_decimal_comma_free (s : List Char) (h : well_formed_decimal s = true) :
    ∀ c ∈ s, c ≠ ',' := by
  intro c hc hcomma
  subst hcomma
  simp only [well_formed_decimal, Bool.and_eq_true, List.all_eq_true, Bool.or_eq_true,
    beq_iff_eq] at h
  obtain ⟨⟨hall, _⟩, _⟩ := h
  by_cases hneg : s.head? = some '-'
  · rw [if_pos hneg] at hall
    cases s with
    | nil => simp at hc
    | cons a as =>
      simp only [List.head?_cons, Option.some.injEq] at hneg
      subst hneg
      simp only [List.drop_succ_cons, List.drop_zero] at hall
      rcases List.mem_cons.mp hc with h1 | h1
      · exact absurd h1 (by decide)
      · rcases hall ',' h1 with h2 | h2
        · exact absurd h2 (by decide)
        · exact absurd h2 (by decide)
  · rw [if_neg hneg] at hall
    rcases hall ',' hc with h2 | h2
    · exact absurd h2 (by decide)
    · exact absurd h2 (by decide)

/-- C32. Legacy parser: for every frame `id,t,h` shorter than 128 bytes, where
`id` is a non-empty comma-free string of at most 19 bytes and `t`, `h` are
well-formed decimal strings, `parse_sensor1_data` returns `PARSE_SUCCESS` with
`student_id = id`, `temperature` the float value of `t` and `humidity` the float
value of `h`; for `2021001ZS,25.6,60.2` the student id is `2021001ZS`, the
temperature the float value of 25.6 and the humidity the float value of 60.2.
The C library conversion `(float)atof` is `atof_float`; on decimal strings it is
the rounding `rnd` of the exact decimal value. -/
theorem C32_legacy_sensor1_parse (atof_float : List Char → c_float) (rnd : ℚ → ℚ)
    (system_tick : Nat) (old : legacy.sensor1_data_t) (id t h : List Char)
    (hconv : ∀ s, well_formed_decimal s = true → atof_float s = rnd (atof_value s))
    (hid : id ≠ []) (hidc : ∀ c ∈ id, c ≠ ',') (hidl : id.length ≤ 19)
    (ht : well_formed_decimal t = true) (hh : well_formed_decimal h = true)
    (hlen : (id ++ ',' :: t ++ ',' :: h).length < 128) :
    ((legacy.parse_sensor1_data atof_float system_tick (id ++ ',' :: t ++ ',' :: h) old).1 =
        legacy.parse_result_t.PARSE_SUCCESS ∧
      (legacy.parse_sensor1_data atof_float system_tick (id ++ ',' :: t ++ ',' :: h)
        old).2.student_id = id ∧
      (legacy.parse_sensor1_data atof_float system_tick (id ++ ',' :: t ++ ',' :: h)
        old).2.temperature = rnd (atof_value t) ∧
      (legacy.parse_sensor1_data atof_float system_tick (id ++ ',' :: t ++ ',' :: h)
        old).2.humidity = rnd (atof_value h)) ∧
    ((legacy.parse_sensor1_data atof_float system_tick "2021001ZS,25.6,60.2".toList old).1 =
        legacy.parse_result_t.PARSE_SUCCESS ∧
      (legacy.parse_sensor1_data atof_float system_tick "2021001ZS,25.6,60.2".toList
        old).2.student_id = "2021001ZS".toList ∧
      (legacy.parse_sensor1_data atof_float system_tick "2021001ZS,25.6,60.2".toList
        old).2.temperature = rnd (128 / 5) ∧
      (legacy.parse_sensor1_data atof_float system_tick "2021001ZS,25.6,60.2".toList
        old).2.humidity = rnd (301 / 5)) := by
  have main : ∀ (id t h : List Char), id ≠ [] → (∀ c ∈ id, c ≠ ',') → id.length ≤ 19 →
      well_formed_decimal t = true → well_formed_decimal h = true →
      (id ++ ',' :: t ++ ',' :: h).length < 128 →
      (legacy.parse_sensor1_data atof_float system_tick (id ++ ',' :: t ++ ',' :: h) old).1 =
          legacy.parse_result_t.PARSE_SUCCESS ∧
        (legacy.parse_sensor1_data atof_float system_tick (id ++ ',' :: t ++ ',' :: h)
          old).2.student_id = id ∧
        (legacy.parse_sensor1_data atof_float system_tick (id ++ ',' :: t ++ ',' :: h)
          old).2.temperature = rnd (atof_value t) ∧
        (legacy.parse_sensor1_data atof_float system_tick (id ++ ',' :: t ++ ',' :: h)
          old).2.humidity = rnd (atof_value h) := by
    intro id t h hid hidc hidl ht hh hlen
    have htake : (id ++ ',' :: t ++ ',' :: h).take (legacy.MAX_DATA_LENGTH - 1) =
        id ++ ',' :: (t ++ ',' :: h) := by
      rw [List.take_of_length_le (by simp only [legacy.MAX_DATA_LENGTH]; omega)]
      simp
    have hs1 := (strtok_comma_free id (t ++ ',' :: h) hid hidc).1
    have hs2 := (strtok_comma_free t h (well_formed_decimal_ne_nil t ht)
      (well_formed_decimal_comma_free t ht)).1
    have hs3 := (strtok_comma_free h [] (well_formed_decimal_ne_nil h hh)
      (well_formed_decimal_comma_free h hh)).2
    have hidt : id.take (legacy.MAX_STUDENT_ID_LENGTH - 1) = id :=
      List.take_of_length_le (by simp only [legacy.MAX_STUDENT_ID_LENGTH]; omega)
    simp only [legacy.parse_sensor1_data, htake, hs1, hs2, hs3, hidt, hconv t ht, hconv h hh]
    refine ⟨trivial, ?_, ?_, ?_⟩ <;> (split_ifs <;> rfl)
  refine ⟨main id t h hid hidc hidl ht hh hlen, ?_⟩
  have e := main "2021001ZS".toList "25.6".toList "60.2".toList (by decide) (by decide)
    (by decide) (by decide) (by decide) (by decide)
  have a1 : atof_value "25.6".toList = 128 / 5 := atof_value_examples.2.2.2.2.2.2
  have a2 : atof_value "60.2".toList = 301 / 5 := atof_value_examples.2.2.2.2.2.1
  rw [a1, a2] at e
  exact e

theorem C32_witness :
    (∀ s, well_formed_decimal s = true → (fun x => atof_value x) s = id (atof_value s)) ∧
    (legacy.parse_sensor1_data (fun x => atof_value x) 0 "2021001ZS,25.6,60.2".toList
      legacy.sensor1_blank).2.temperature = 128 / 5 ∧
    (legacy.parse_sensor1_data (fun x => atof_value x) 0 "2021001ZS,25.6,60.2".toList
      legacy.sensor1_blank).2.humidity = 301 / 5 :=
  ⟨fun _ _ => rfl,
    (C32_legacy_sensor1_parse (fun x => atof_value x) id 0 legacy.sensor1_blank
      "2021001ZS".toList "25.6".toList "60.2".toList (fun _ _ => rfl) (by decide) (by decide)
      (by decide) (by decide) (by decide) (by decide)).2.2.2.1,
    (C32_legacy_sensor1_parse (fun x => atof_value x) id 0 legacy.sensor1_blank
      "2021001ZS".toList "25.6".toList "60.2".toList (fun _ _ => rfl) (by decide) (by decide)
      (by decide) (by decide) (by decide) (by decide)).2.2.2.2⟩

theorem legacy_parse_sensor1_data_code (atof_float : List Char → c_float) (system_tick : Nat)
    (frame : List Char) (old : legacy.sensor1_data_t) :
    ((tokens (frame.take 127)).length < 3 →
      (legacy.parse_sensor1_data atof_float system_tick frame old).1 =
        legacy.parse_result_t.PARSE_ERROR_FORMAT) ∧
    (3 ≤ (tokens (frame.take 127)).length →
      (legacy.parse_sensor1_data atof_float system_tick frame old).1 =
        legacy.parse_result_t.PARSE_SUCCESS) := by
  simp only [legacy.parse_sensor1_data, legacy.MAX_DATA_LENGTH]
  cases h1 : strtok (frame.take (128 - 1)) with
  | none =>
    have := strtok_none_tokens _ h1
    simp only [Nat.add_one_sub_one] at this
    simp [this]
  | some p1 =>
    obtain ⟨t1, r1⟩ := p1
    have e1 := strtok_some_tokens _ _ _ h1
    simp only [Nat.add_one_sub_one] at e1
    cases h2 : strtok r1 with
    | none =>
      have := strtok_none_tokens _ h2
      simp [h2, e1, this]
    | some p2 =>
      obtain ⟨t2, r2⟩ := p2
      have e2 := strtok_some_tokens _ _ _ h2
      cases h3 : strtok r2 with
      | none =>
        have := strtok_none_tokens _ h3
        simp [h2, h3, e1, e2, this]
      | some p3 =>
        obtain ⟨t3, r3⟩ := p3
        have e3 := strtok_some_tokens _ _ _ h3
        simp [h2, h3, e1, e2, e3]

theorem legacy_parse_sensor2_data_code (atoi_int : List Char → Int) (system_tick : Nat)
    (frame : List Char) (old : legacy.sensor2_data_t) :
    ((tokens (frame.take 127)).length < 3 →
      (legacy.parse_sensor2_data atoi_int system_tick frame old).1 =
        legacy.parse_result_t.PARSE_ERROR_FORMAT) ∧
    (3 ≤ (tokens (frame.take 127)).length →
      (legacy.parse_sensor2_data atoi_int system_tick frame old).1 =
        legacy.parse_result_t.PARSE_SUCCESS) := by
  simp only [legacy.parse_sensor2_data, legacy.MAX_DATA_LENGTH]
  cases h1 : strtok (frame.take (128 - 1)) with
  | none =>
    have := strtok_none_tokens _ h1
    simp only [Nat.add_one_sub_one] at this
    simp [this]
  | some p1 =>
    obtain ⟨t1, r1⟩ := p1
    have e1 := strtok_some_tokens _ _ _ h1
    simp only [Nat.add_one_sub_one] at e1
    cases h2 : strtok r1 with
    | none =>
      have := strtok_none_tokens _ h2
      simp [h2, e1, this]
    | some p2 =>
      obtain ⟨t2, r2⟩ := p2
      have e2 := strtok_some_tokens _ _ _ h2
      cases h3 : strtok r2 with
      | none =>
        have := strtok_none_tokens _ h3
        simp [h2, h3, e1, e2, this]
      | some p3 =>
        obtain ⟨t3, r3⟩ := p3
        have e3 := strtok_some_tokens _ _ _ h3
        simp [h2, h3, e1, e2, e3]

/-- C33. Legacy parser error handling: `parse_sensor1_data` and
`parse_sensor2_data` return `PARSE_ERROR_FORMAT` if and only if the frame, cut to
its first 127 bytes, has fewer than three non-empty comma-separated tokens, as
for `invalid,data`; with three or more such tokens both return `PARSE_SUCCESS`,
whatever `atof` and `atoi` make of the tokens. -/
theorem C33_legacy_format_error (atof_float : List Char → c_float)
    (atoi_int : List Char → Int) (system_tick : Nat) (frame : List Char)
    (old1 : legacy.sensor1_data_t) (old2 : legacy.sensor2_data_t) :
    ((legacy.parse_sensor1_data atof_float system_tick frame old1).1 =
        legacy.parse_result_t.PARSE_ERROR_FORMAT ↔ (tokens (frame.take 127)).length < 3) ∧
    ((legacy.parse_sensor2_data atoi_int system_tick frame old2).1 =
        legacy.parse_result_t.PARSE_ERROR_FORMAT ↔ (tokens (frame.take 127)).length < 3) ∧
    (3 ≤ (tokens (frame.take 127)).length →
      (legacy.parse_sensor1_data atof_float system_tick frame old1).1 =
        legacy.parse_result_t.PARSE_SUCCESS ∧
      (legacy.parse_sensor2_data atoi_int system_tick frame old2).1 =
        legacy.parse_result_t.PARSE_SUCCESS) ∧
    (tokens ("invalid,data".toList.take 127)).length = 2 ∧
    (legacy.parse_sensor1_data atof_float system_tick "invalid,data".toList old1).1 =
      legacy.parse_result_t.PARSE_ERROR_FORMAT ∧
    (legacy.parse_sensor2_data atoi_int system_tick "invalid,data".toList old2).1 =
      legacy.parse_result_t.PARSE_ERROR_FORMAT := by
  obtain ⟨a1, a2⟩ := legacy_parse_sensor1_data_code atof_float system_tick frame old1
  obtain ⟨b1, b2⟩ := legacy_parse_sensor2_data_code atoi_int system_tick frame old2
  have hex : (tokens ("invalid,data".toList.take 127)).length = 2 := by decide
  refine ⟨⟨fun h => ?_, a1⟩, ⟨fun h => ?_, b1⟩, fun h => ⟨a2 h, b2 h⟩, hex,
    (legacy_parse_sensor1_data_code atof_float system_tick "invalid,data".toList old1).1
      (by rw [hex]; decide),
    (legacy_parse_sensor2_data_code atoi_int system_tick "invalid,data".toList old2).1
      (by rw [hex]; decide)⟩
  · by_contra hn
    rw [a2 (by omega)] at h
    exact absurd h (by decide)
  · by_contra hn
    rw [b2 (by omega)] at h
    exact absurd h (by decide)

/-! ## Successive line reads (C34) -/

theorem communication_data_available_iff (s : CommState) :
    communication_data_available s = true ↔ rx_contents s ≠ [] := by
  rw [communication_data_available, decide_eq_true_iff, ← rx_contents_length]
  exact List.length_pos

theorem rx_contents_length_le (s : CommState) (hh : s.rx_head < 256) (ht : s.rx_tail < 256) :
    (rx_contents s).length ≤ 255 := by
  rw [rx_contents_length, rx_count_eq s hh ht]
  omega

theorem receive_lines_empty (timeout_ms fuel n : Nat) (s : CommState)
    (h : rx_contents s = []) : receive_lines timeout_ms fuel n s = some ([], s) := by
  have hav : communication_data_available s = false := by
    rw [Bool.eq_false_iff, Ne, communication_data_available_iff]
    simpa using h
  cases n <;> simp [receive_lines, hav]

/-- A run of delimiters at the head of the ring costs one call per byte and
yields no line. -/
theorem receive_lines_delimiters (timeout_ms fuel : Nat) (hfuel : 256 ≤ fuel) :
    ∀ (d rest : List Nat) (s : CommState), s.rx_head < 256 → s.rx_tail < 256 →
      rx_contents s = d ++ rest → (∀ b ∈ d, is_delimiter b = true) →
      ∃ s1, rx_contents s1 = rest ∧ s1.rx_head < 256 ∧ s1.rx_tail < 256 ∧
        ∀ n, receive_lines timeout_ms fuel (d.length + n) s =
          receive_lines timeout_ms fuel n s1 := by
  intro d
  induction d with
  | nil =>
    intro rest s hh ht hc _
    exact ⟨s, by simpa using hc, hh, ht, fun n => by simp⟩
  | cons b d ih =>
    intro rest s hh ht hc hd
    have hb := hd b (List.mem_cons_self _ _)
    have hscan : scan_line (128 - 1) [] (rx_contents s) = some ([], d ++ rest) := by
      rw [hc]
      simp [scan_line, hb]
    obtain ⟨s1, hcall, hc1, hh1, ht1, _⟩ := communication_receive_line_scan s 128 timeout_ms fuel
      [] (d ++ rest) (by norm_num) hh ht hscan
      (by have := rx_contents_length_le s hh ht; omega)
    obtain ⟨s2, hc2, hh2, ht2, hrec⟩ := ih rest s1 hh1 ht1 hc1
      (fun x hx => hd x (List.mem_cons_of_mem _ hx))
    refine ⟨s2, hc2, hh2, ht2, fun n => ?_⟩
    have hav : communication_data_available s = true := by
      rw [communication_data_available_iff, hc]; simp
    have hlen : (b :: d).length + n = (d.length + n) + 1 := by
      simp only [List.length_cons]; omega
    rw [hlen, receive_lines, if_pos hav, hcall]
    simp only
    rw [hrec n]
    cases receive_lines timeout_ms fuel n s2 with
    | none => rfl
    | some p => rfl

/-- One frame at the head of the ring, followed by a delimiter: one call
returns it, and what is left starts with the rest of the delimiter run. -/
theorem receive_lines_frame (timeout_ms fuel : Nat) (hfuel : 256 ≤ fuel)
    (f d rest : List Nat) (s : CommState) (hh : s.rx_head < 256) (ht : s.rx_tail < 256)
    (hc : rx_contents s = f ++ d ++ rest) (hfl : f.length ≤ 127)
    (hfp : ∀ b ∈ f, is_printable b = true) (hd : d ≠ [])
    (hdd : ∀ b ∈ d, is_delimiter b = true) :
    ∃ s1 d1, rx_contents s1 = d1 ++ rest ∧ s1.rx_head < 256 ∧ s1.rx_tail < 256 ∧
      (∀ b ∈ d1, is_delimiter b = true) ∧ d1.length ≤ d.length ∧
      communication_receive_line s 128 timeout_ms fuel =
        some (system_status_t.SYSTEM_OK, some f, s1) := by
  obtain ⟨b, d1, rfl⟩ : ∃ b d1, d = b :: d1 := by
    cases d with
    | nil => exact absurd rfl hd
    | cons b d1 => exact ⟨b, d1, rfl⟩
  have hfuel2 : (rx_contents s).length < fuel := by
    have := rx_contents_length_le s hh ht; omega
  by_cases hfull : f.length = 127
  · have hscan : scan_line (128 - 1) [] (rx_contents s) = some (f, (b :: d1) ++ rest) := by
      rw [hc, List.append_assoc]
      have := scan_line_run_full (128 - 1) f [] ((b :: d1) ++ rest) hfp (by simp [hfull])
      simpa using this
    obtain ⟨s1, hcall, hc1, hh1, ht1, _⟩ := communication_receive_line_scan s 128 timeout_ms
      fuel f ((b :: d1) ++ rest) (by norm_num) hh ht hscan hfuel2
    exact ⟨s1, b :: d1, hc1, hh1, ht1, hdd, le_refl _, hcall⟩
  · have hscan : scan_line (128 - 1) [] (rx_contents s) = some (f, d1 ++ rest) := by
      rw [hc, List.append_assoc, List.cons_append]
      have := scan_line_run_delimiter (128 - 1) f [] b (d1 ++ rest) hfp
        (hdd b (List.mem_cons_self _ _)) (by simp only [List.length_nil]; omega)
      simpa using this
    obtain ⟨s1, hcall, hc1, hh1, ht1, _⟩ := communication_receive_line_scan s 128 timeout_ms
      fuel f (d1 ++ rest) (by norm_num) hh ht hscan hfuel2
    exact ⟨s1, d1, hc1, hh1, ht1, fun x hx => hdd x (List.mem_cons_of_mem _ hx),
      by simp, hcall⟩

theorem receive_lines_frames (timeout_ms fuel : Nat) (hfuel : 256 ≤ fuel) :
    ∀ (frames : List (List Nat × List Nat)) (s : CommState) (n : Nat),
      s.rx_head < 256 → s.rx_tail < 256 → rx_contents s = frame_stream frames →
      (∀ p ∈ frames, p.1 ≠ [] ∧ p.1.length ≤ 127 ∧ (∀ b ∈ p.1, is_printable b = true) ∧
        p.2 ≠ [] ∧ ∀ b ∈ p.2, is_delimiter b = true) →
      (frame_stream frames).length ≤ n →
      ∃ s1, receive_lines timeout_ms fuel n s = some (frames.map Prod.fst, s1) ∧
        rx_contents s1 = [] := by
  intro frames
  induction frames with
  | nil =>
    intro s n _ _ hc _ _
    exact ⟨s, receive_lines_empty timeout_ms fuel n s (by simpa [frame_stream] using hc),
      by simpa [frame_stream] using hc⟩
  | cons p ps ih =>
    intro s n hh ht hc hp hn
    obtain ⟨hf, hfl, hfp, hd, hdd⟩ := hp p (List.mem_cons_self _ _)
    simp only [frame_stream] at hc hn
    obtain ⟨s1, d1, hc1, hh1, ht1, hd1, hl1, hcall⟩ := receive_lines_frame timeout_ms fuel hfuel
      p.1 p.2 (frame_stream ps) s hh ht hc hfl hfp hd hdd
    obtain ⟨s2, hc2, hh2, ht2, hrec⟩ := receive_lines_delimiters timeout_ms fuel hfuel d1
      (frame_stream ps) s1 hh1 ht1 hc1 hd1
    have hflen : 0 < p.1.length := List.length_pos.mpr hf
    simp only [List.length_append] at hn
    obtain ⟨m, hm⟩ : ∃ m, n = (d1.length + m) + 1 := ⟨n - 1 - d1.length, by omega⟩
    obtain ⟨s3, hrest, hc3⟩ := ih s2 m hh2 ht2 hc2
      (fun q hq => hp q (List.mem_cons_of_mem _ hq)) (by omega)
    have hav : communication_data_available s = true := by
      rw [communication_data_available_iff, hc]
      intro hnil
      have := congrArg List.length hnil
      simp only [List.length_append, List.length_nil] at this
      omega
    refine ⟨s3, ?_, hc3⟩
    rw [hm, receive_lines, if_pos hav, hcall]
    simp only
    rw [hrec m, hrest]
    obtain ⟨b, l, hbl⟩ : ∃ b l, p.1 = b :: l := by
      cases h : p.1 with
      | nil => exact absurd h hf
      | cons b l => exact ⟨b, l, rfl⟩
    simp only [hbl, List.map_cons]

/-- C34. For a byte stream `f1 d1 ... fN dN` held by the RX ring, each `fi` a
non-empty run of at most 127 printable bytes and each `di` a non-empty run of
CR/LF bytes, the non-empty lines returned by successive
`communication_receive_line` calls with a 128-byte buffer, made while data is
available, are exactly `f1, ..., fN` in that order, and the ring is empty at the
end.  The stream has at most 255 bytes; each call gets fuel for 256 loop
iterations and at most `n` calls are made, `n` being at least the length of the
stream. -/
theorem C34_successive_lines_are_the_frames (frames : List (List Nat × List Nat))
    (s : CommState) (timeout_ms fuel n : Nat)
    (hh : s.rx_head < 256) (ht : s.rx_tail < 256) (hs : rx_contents s = frame_stream frames)
    (hframes : ∀ p ∈ frames, p.1 ≠ [] ∧ p.1.length ≤ 127 ∧ (∀ b ∈ p.1, 32 ≤ b ∧ b ≤ 126) ∧
      p.2 ≠ [] ∧ ∀ b ∈ p.2, b = 13 ∨ b = 10)
    (hfuel : 256 ≤ fuel) (hn : (frame_stream frames).length ≤ n) :
    (frame_stream frames).length ≤ 255 ∧
    ∃ s1, receive_lines timeout_ms fuel n s = some (frames.map Prod.fst, s1) ∧
      rx_contents s1 = [] ∧ communication_data_available s1 = false := by
  have hlen : (frame_stream frames).length ≤ 255 := by
    rw [← hs]; exact rx_contents_length_le s hh ht
  obtain ⟨s1, h1, h2⟩ := receive_lines_frames timeout_ms fuel hfuel frames s n hh ht hs
    (fun p hp => by
      obtain ⟨a, b, c, d, e⟩ := hframes p hp
      exact ⟨a, b, fun x hx => (is_printable_iff x).mpr (c x hx), d,
        fun x hx => (is_delimiter_iff x).mpr (by
          simpa [COMM_CHAR_CR, COMM_CHAR_LF] using e x hx)⟩) hn
  refine ⟨hlen, s1, h1, h2, ?_⟩
  rw [Bool.eq_false_iff, Ne, communication_data_available_iff]
  simpa using h2

theorem C34_witness :
    ∃ s1, receive_lines 1000 256 13
        (rx_fill (system_init_comm comm_boot)
          (frame_stream [([65, 44, 68, 44, 49], [13, 10]), ([66, 44, 68, 44, 50], [10])])) =
        some ([[65, 44, 68, 44, 49], [66, 44, 68, 44, 50]], s1) ∧
      rx_contents s1 = [] ∧ communication_data_available s1 = false :=
  (C34_successive_lines_are_the_frames
    [([65, 44, 68, 44, 49], [13, 10]), ([66, 44, 68, 44, 50], [10])]
    (rx_fill (system_init_comm comm_boot)
      (frame_stream [([65, 44, 68, 44, 49], [13, 10]), ([66, 44, 68, 44, 50], [10])]))
    1000 256 13
    (rx_fill_init _ (by decide)).2.1 (rx_fill_init _ (by decide)).2.2
    (rx_fill_init _ (by decide)).1 (by decide) (by decide) (by decide)).2

/-! ## `trim_whitespace` (C35) -/

theorem is_trim_char_iff (c : Char) :
    is_trim_char c = true ↔ (c = ' ' ∨ c = '\t' ∨ c = '\r' ∨ c = '\n') := by
  simp only [is_trim_char, Bool.or_eq_true, beq_iff_eq, or_assoc]

theorem dropWhile_head_false (p : Char → Bool) (s : List Char) (c : Char) (t : List Char)
    (h : s.dropWhile p = c :: t) : p c = false := by
  induction s with
  | nil => simp at h
  | cons a s ih =>
    rw [List.dropWhile_cons] at h
    by_cases ha : p a = true
    · rw [if_pos ha] at h; exact ih h
    · rw [if_neg ha] at h
      simp only [List.cons.injEq] at h
      rw [← h.1]; simpa using ha

theorem dropWhile_fixed (p : Char → Bool) (s : List Char) :
    (s.dropWhile p).dropWhile p = s.dropWhile p := by
  cases h : s.dropWhile p with
  | nil => rfl
  | cons c t =>
    have := dropWhile_head_false p s c t h
    rw [List.dropWhile_cons, this]; simp

theorem trim_whitespace_eq (s : List Char) :
    trim_whitespace s = ((s.dropWhile is_trim_char).reverse.dropWhile is_trim_char).reverse := by
  unfold trim_whitespace
  cases h : s.dropWhile is_trim_char with
  | nil => rfl
  | cons c t =>
    have hc := dropWhile_head_false _ s c t h
    simp only [List.reverse_cons]
    rw [List.dropWhile_append]
    by_cases he : (t.reverse.dropWhile is_trim_char).isEmpty = true
    · rw [if_pos he]
      have : t.reverse.dropWhile is_trim_char = [] := by simpa using he
      rw [this, List.dropWhile_cons, hc]; simp
    · rw [if_neg he]; simp

/-- C35. `trim_whitespace` removes the maximal leading run and the maximal
trailing run of space, tab, CR and LF: the input is a run of these characters,
then the result, then a run of these characters, and the result neither starts
nor ends with one of them, so interior characters are kept in order; a string
made only of these characters becomes empty; trimming twice is trimming once. -/
theorem C35_trim_whitespace (s : List Char) :
    (∃ l r, s = l ++ trim_whitespace s ++ r ∧
      (∀ c ∈ l, c = ' ' ∨ c = '\t' ∨ c = '\r' ∨ c = '\n') ∧
      (∀ c ∈ r, c = ' ' ∨ c = '\t' ∨ c = '\r' ∨ c = '\n')) ∧
    (∀ c, (trim_whitespace s).head? = some c →
      ¬ (c = ' ' ∨ c = '\t' ∨ c = '\r' ∨ c = '\n')) ∧
    (∀ c, (trim_whitespace s).getLast? = some c →
      ¬ (c = ' ' ∨ c = '\t' ∨ c = '\r' ∨ c = '\n')) ∧
    ((∀ c ∈ s, c = ' ' ∨ c = '\t' ∨ c = '\r' ∨ c = '\n') → trim_whitespace s = []) ∧
    trim_whitespace (trim_whitespace s) = trim_whitespace s := by
  simp only [← is_trim_char_iff]
  have hsplit : ∀ u : List Char, u = u.takeWhile is_trim_char ++ u.dropWhile is_trim_char :=
    fun u => (List.takeWhile_append_dropWhile _ _).symm
  have htake : ∀ u : List Char, ∀ c ∈ u.takeWhile is_trim_char, is_trim_char c = true :=
    fun u c hc => List.mem_takeWhile_imp hc
  have hlast : ∀ c, (trim_whitespace s).getLast? = some c → ¬ is_trim_char c = true := by
    intro c hc
    rw [trim_whitespace_eq, List.getLast?_reverse] at hc
    cases hd : (s.dropWhile is_trim_char).reverse.dropWhile is_trim_char with
    | nil => rw [hd] at hc; simp at hc
    | cons d t =>
      rw [hd] at hc
      simp only [List.head?_cons, Option.some.injEq] at hc
      have := dropWhile_head_false _ _ d t hd
      rw [← hc, this]; simp
  have hhead : ∀ c, (trim_whitespace s).head? = some c → ¬ is_trim_char c = true := by
    intro c hc
    unfold trim_whitespace at hc
    cases hd : s.dropWhile is_trim_char with
    | nil => rw [hd] at hc; simp at hc
    | cons d t =>
      rw [hd] at hc
      simp only [List.head?_cons, Option.some.injEq] at hc
      have := dropWhile_head_false _ _ d t hd
      rw [← hc, this]; simp
  refine ⟨?_, hhead, hlast, ?_, ?_⟩
  · refine ⟨s.takeWhile is_trim_char,
      ((s.dropWhile is_trim_char).reverse.takeWhile is_trim_char).reverse, ?_, htake s, ?_⟩
    · rw [trim_whitespace_eq, List.append_assoc, ← List.reverse_append,
        List.takeWhile_append_dropWhile, List.reverse_reverse, List.takeWhile_append_dropWhile]
    · intro c hc
      exact htake _ c (List.mem_reverse.mp hc)
  · intro hall
    have : s.dropWhile is_trim_char = [] := by
      rw [List.dropWhile_eq_nil_iff]; exact hall
    unfold trim_whitespace; rw [this]
  · rw [trim_whitespace_eq (trim_whitespace s)]
    cases ht : trim_whitespace s with
    | nil => rfl
    | cons c t =>
      have hc : is_trim_char c = false := by
        have := hhead c (by rw [ht]; rfl)
        simpa using this
      rw [List.dropWhile_cons, hc]
      simp only [Bool.false_eq_true, if_false]
      rw [← ht, trim_whitespace_eq, List.reverse_reverse, dropWhile_fixed, ]

/-! ## `communication_send` (C36) -/

theorem put_tx_byte_room (s : CommState) (b : Nat) (hh : s.tx_head < 512) (ht : s.tx_tail < 512)
    (hocc : tx_occupancy s < 511) :
    (put_tx_byte s b).1 = true ∧
      tx_contents (put_tx_byte s b).2 = tx_contents s ++ [b] ∧
      tx_occupancy (put_tx_byte s b).2 = tx_occupancy s + 1 ∧
      (put_tx_byte s b).2.tx_head < 512 ∧ (put_tx_byte s b).2.tx_tail = s.tx_tail ∧
      (put_tx_byte s b).2.statistics = s.statistics := by
  have hfull : ¬ (s.tx_head + 1) % 512 = s.tx_tail := by
    simp only [tx_occupancy] at hocc; omega
  have ho : tx_occupancy (put_tx_byte s b).2 = tx_occupancy s + 1 := by
    simp only [put_tx_byte, TX_BUFFER_SIZE, hfull, if_false, tx_occupancy]
    omega
  refine ⟨by simp [put_tx_byte, TX_BUFFER_SIZE, hfull], ?_, ho,
    by simp only [put_tx_byte, TX_BUFFER_SIZE, hfull, if_false]; exact Nat.mod_lt _ (by norm_num),
    by simp [put_tx_byte, TX_BUFFER_SIZE, hfull], by simp [put_tx_byte, TX_BUFFER_SIZE, hfull]⟩
  simp only [tx_contents, ho]
  simp only [put_tx_byte, TX_BUFFER_SIZE, hfull, if_false, List.range_succ, List.map_append,
    List.map_cons, List.map_nil]
  congr 1
  · apply List.map_congr_left
    intro i hi
    have hi2 : i < tx_occupancy s := List.mem_range.mp hi
    have hne : (s.tx_tail + i) % 512 ≠ s.tx_head := by
      simp only [tx_occupancy] at hi2; omega
    simp [hne]
  · have he : (s.tx_tail + tx_occupancy s) % 512 = s.tx_head := by
      simp only [tx_occupancy]; omega
    simp [he]

theorem send_loop_room : ∀ (data : List Nat) (s : CommState), s.tx_head < 512 →
    s.tx_tail < 512 → tx_occupancy s + data.length ≤ 511 →
    (send_loop s data).1 = true ∧
      tx_contents (send_loop s data).2 = tx_contents s ++ data ∧
      tx_occupancy (send_loop s data).2 = tx_occupancy s + data.length ∧
      (send_loop s data).2.tx_head < 512 ∧ (send_loop s data).2.tx_tail = s.tx_tail ∧
      (send_loop s data).2.statistics = s.statistics := by
  intro data
  induction data with
  | nil => intro s hh ht _; simp [send_loop, hh]
  | cons b bs ih =>
    intro s hh ht hlen
    simp only [List.length_cons] at hlen
    obtain ⟨p1, p2, p3, p4, p5, p6⟩ := put_tx_byte_room s b hh ht (by omega)
    obtain ⟨q1, q2, q3, q4, q5, q6⟩ := ih (put_tx_byte s b).2 p4 (by rw [p5]; exact ht)
      (by rw [p3]; omega)
    have hs : send_loop s (b :: bs) = send_loop (put_tx_byte s b).2 bs := by
      rw [send_loop]
      cases hp : put_tx_byte s b with
      | mk ok s1 =>
        rw [hp] at p1
        simp only at p1
        subst p1
        rfl
    rw [hs]
    refine ⟨q1, ?_, ?_, q4, by rw [q5, p5], by rw [q6, p6]⟩
    · rw [q2, p2, List.append_assoc, List.singleton_append]
    · rw [q3, p3, List.length_cons]; omega

theorem set_last_error_buffer_full_tx (s : CommState) :
    (set_last_error s comm_error_t.COMM_ERROR_BUFFER_FULL).last_error =
        comm_error_t.COMM_ERROR_BUFFER_FULL ∧
      (set_last_error s comm_error_t.COMM_ERROR_BUFFER_FULL).tx_head = s.tx_head ∧
      (set_last_error s comm_error_t.COMM_ERROR_BUFFER_FULL).tx_tail = s.tx_tail ∧
      (set_last_error s comm_error_t.COMM_ERROR_BUFFER_FULL).tx_buffer = s.tx_buffer := by
  simp only [set_last_error, call_error_callback]
  cases s.error_callback <;>
    simp [communication_error_callback, communication_clear_rx_buffer]

/-- C36. `communication_send` is all-or-nothing on the TX ring: for non-null
data of length at least 1, in a state with the ring indices in range, it
returns `SYSTEM_OK` if and only if the length is at most 511 minus the
occupancy; then every `put_tx_byte` of the loop succeeds, the bytes are appended
in order to the ring content, the occupancy grows by the length, `tx_tail` is
kept and `statistics.bytes_transmitted` grows by the length modulo 2^32;
otherwise it returns `SYSTEM_ERROR` with `last_error = COMM_ERROR_BUFFER_FULL`
and `tx_head`, `tx_tail` and the stored bytes unchanged. -/
theorem C36_send_is_all_or_nothing (s : CommState) (data : List Nat) (h : ring_inv s)
    (hne : 1 ≤ data.length) :
    ((communication_send s (some data)).1 = system_status_t.SYSTEM_OK ↔
      data.length ≤ 511 - tx_occupancy s) ∧
    (data.length ≤ 511 - tx_occupancy s →
      (send_loop s data).1 = true ∧
      tx_contents (communication_send s (some data)).2 = tx_contents s ++ data ∧
      tx_occupancy (communication_send s (some data)).2 = tx_occupancy s + data.length ∧
      (communication_send s (some data)).2.tx_tail = s.tx_tail ∧
      (communication_send s (some data)).2.statistics.bytes_transmitted =
        (s.statistics.bytes_transmitted + data.length) % 4294967296) ∧
    (¬ data.length ≤ 511 - tx_occupancy s →
      (communication_send s (some data)).1 = system_status_t.SYSTEM_ERROR ∧
      (communication_send s (some data)).2.last_error = comm_error_t.COMM_ERROR_BUFFER_FULL ∧
      (communication_send s (some data)).2.tx_head = s.tx_head ∧
      (communication_send s (some data)).2.tx_tail = s.tx_tail ∧
      (communication_send s (some data)).2.tx_buffer = s.tx_buffer) := by
  obtain ⟨ho, hsp⟩ := tx_space_of_inv s h
  obtain ⟨_, _, hh, ht⟩ := h
  simp only [TX_BUFFER_SIZE] at hh ht
  have h0 : ¬ data.length = 0 := by omega
  by_cases hfit : data.length ≤ 511 - tx_occupancy s
  · have hlt : ¬ get_tx_buffer_space s < data.length := by rw [hsp]; omega
    obtain ⟨q1, q2, q3, q4, q5, q6⟩ := send_loop_room data s hh ht (by omega)
    have hsend : communication_send s (some data) =
        (system_status_t.SYSTEM_OK,
          { (send_loop s data).2 with
            current_status := comm_status_t.COMM_STATUS_TRANSMITTING
            UART1_CR1 := (send_loop s data).2.UART1_CR1 ||| UART_CR1_TXEIE
            statistics := { (send_loop s data).2.statistics with
              bytes_transmitted :=
                ((send_loop s data).2.statistics.bytes_transmitted + data.length) % 4294967296
              packets_transmitted :=
                incr32 (send_loop s data).2.statistics.packets_transmitted } }) := by
      simp only [communication_send, h0, hlt, if_false]
      cases hp : send_loop s data with
      | mk ok s1 =>
        rw [hp] at q1
        simp only at q1
        subst q1
        rfl
    rw [hsend]
    refine ⟨⟨fun _ => hfit, fun _ => rfl⟩, fun _ => ⟨q1, ?_, ?_, q5, ?_⟩, fun hn => absurd hfit hn⟩
    · rw [← q2]; rfl
    · rw [← q3]; rfl
    · simp only [q6]
  · have hlt : get_tx_buffer_space s < data.length := by rw [hsp]; omega
    have hsend : communication_send s (some data) =
        (system_status_t.SYSTEM_ERROR, set_last_error s comm_error_t.COMM_ERROR_BUFFER_FULL) := by
      simp only [communication_send, h0, hlt, if_false, if_true]
    rw [hsend]
    obtain ⟨e1, e2, e3, e4⟩ := set_last_error_buffer_full_tx s
    exact ⟨⟨fun hh => by simp at hh, fun hh => absurd hh hfit⟩, fun hh => absurd hh hfit,
      fun _ => ⟨rfl, e1, e2, e3, e4⟩⟩

theorem C36_witness :
    ring_inv (system_init_comm comm_boot) ∧ 1 ≤ [72, 105].length ∧
    ((communication_send (system_init_comm comm_boot) (some [72, 105])).1 =
        system_status_t.SYSTEM_OK ↔
      [72, 105].length ≤ 511 - tx_occupancy (system_init_comm comm_boot)) :=
  ⟨by unfold ring_inv; decide, by decide,
    (C36_send_is_all_or_nothing (system_init_comm comm_boot) [72, 105]
      (by unfold ring_inv; decide) (by decide)).1⟩

/-! ## The store refuses what the parser accepts (C37) -/

theorem validate_sql_injection_iff (input : List Char) :
    validate_sql_injection input = true ↔
      ∀ c ∈ input, c ≠ Char.ofNat 39 ∧ c ≠ ';' ∧ c ≠ Char.ofNat 34 ∧ c ≠ Char.ofNat 92 := by
  simp only [validate_sql_injection, List.all_eq_true, dangerous_chars, Bool.not_eq_true',
    List.contains_eq_any_beq, List.any_cons, List.any_nil, Bool.or_false, Bool.or_eq_false_iff,
    beq_eq_false_iff_ne, ne_eq]

theorem create_error_result_connected (db : DbState) (code : Int) (msg : String)
    (hc : db.current_status = db_status_t.DB_STATUS_CONNECTED) :
    (create_error_result db code msg).2.current_status = db_status_t.DB_STATUS_CONNECTED := by
  simp only [create_error_result, database_set_last_error, database_error_callback,
    database_disconnect, database_connect]
  split <;> simp_all [create_success_result]

theorem database_insert_sensor1_data_connected (db : DbState) (d : sensor1_data_t)
    (hc : db.current_status = db_status_t.DB_STATUS_CONNECTED) :
    ((database_insert_sensor1_data db d).1.success = true ↔
      (validate_sensor1_data d = true ∧ validate_sql_injection d.student_id = true ∧
        validate_sql_injection d.sensor_name = true)) ∧
    (database_insert_sensor1_data db d).2.current_status = db_status_t.DB_STATUS_CONNECTED := by
  unfold database_insert_sensor1_data
  have h1 : ¬ db.current_status ≠ db_status_t.DB_STATUS_CONNECTED := fun h => h hc
  rw [if_neg h1]
  cases hv : validate_sensor1_data d
  · simp only [Bool.not_false, if_true]
    exact ⟨by simp [create_error_result], create_error_result_connected db _ _ hc⟩
  · simp only [Bool.not_true, Bool.false_eq_true, if_false]
    cases ha : validate_sql_injection d.student_id
    · simp only [Bool.not_false, Bool.true_or, if_true]
      exact ⟨by simp [create_error_result], create_error_result_connected db _ _ hc⟩
    · cases hb : validate_sql_injection d.sensor_name
      · simp only [Bool.not_false, Bool.or_true, if_true]
        exact ⟨by simp [create_error_result], create_error_result_connected db _ _ hc⟩
      · simp only [Bool.not_true, Bool.or_self, Bool.false_eq_true, if_false]
        exact ⟨by simp [create_success_result], hc⟩

theorem database_insert_sensor2_data_connected (db : DbState) (d : sensor2_data_t)
    (hc : db.current_status = db_status_t.DB_STATUS_CONNECTED) :
    ((database_insert_sensor2_data db d).1.success = true ↔
      (validate_sensor2_data d = true ∧ validate_sql_injection d.student_id = true ∧
        validate_sql_injection d.sensor_name = true)) ∧
    (database_insert_sensor2_data db d).2.current_status = db_status_t.DB_STATUS_CONNECTED := by
  unfold database_insert_sensor2_data
  have h1 : ¬ db.current_status ≠ db_status_t.DB_STATUS_CONNECTED := fun h => h hc
  rw [if_neg h1]
  cases hv : validate_sensor2_data d
  · simp only [Bool.not_false, if_true]
    exact ⟨by simp [create_error_result], create_error_result_connected db _ _ hc⟩
  · simp only [Bool.not_true, Bool.false_eq_true, if_false]
    cases ha : validate_sql_injection d.student_id
    · simp only [Bool.not_false, Bool.true_or, if_true]
      exact ⟨by simp [create_error_result], create_error_result_connected db _ _ hc⟩
    · cases hb : validate_sql_injection d.sensor_name
      · simp only [Bool.not_false, Bool.or_true, if_true]
        exact ⟨by simp [create_error_result], create_error_result_connected db _ _ hc⟩
      · simp only [Bool.not_true, Bool.or_self, Bool.false_eq_true, if_false]
        exact ⟨by simp [create_success_result], hc⟩

/-- The record `parse_sensor_data` writes for the frame `O'NEIL,D,1`. -/
theorem parse_sensor_data_apostrophe :
    parse_sensor_data id sensor_boot apostrophe_frame =
      some ({ is_valid := true, type := some SENSOR_TYPE_INTERRUPT, error_msg := "" },
        some apostrophe_record,
        { total_data_count := 1, valid_data_count := 1, error_data_count := 0,
          tick_count := 1, data_callback := data_callback_t.null }) := by
  decide

/-- C37. With the store connected, `database_insert_sensor_data` succeeds if
and only if the record is a Sensor-1 or Sensor-2 record that passes
`validate_sensor1_data` / `validate_sensor2_data` and whose student id and
sensor name hold no apostrophe, semicolon, double quote or backslash; the status
is `DB_STATUS_CONNECTED` after the call, refused or not; and the frame
`apostrophe_frame`, accepted by `parse_sensor_data`, gives a record the store
refuses with "Invalid characters in data". -/
theorem C37_store_insert_refuses_dangerous_characters (db : DbState) (data : sensor_data_t)
    (r : db_result_t × DbState)
    (hc : db.current_status = db_status_t.DB_STATUS_CONNECTED)
    (h : database_insert_sensor_data db data = some r) :
    (r.1.success = true ↔
      ((data.type = SENSOR_TYPE_TEMP_HUMIDITY ∧
          ∃ d, data.data = sensor_union.sensor1 d ∧ validate_sensor1_data d = true ∧
            (∀ c ∈ d.student_id ++ d.sensor_name,
              c ≠ Char.ofNat 39 ∧ c ≠ ';' ∧ c ≠ Char.ofNat 34 ∧ c ≠ Char.ofNat 92)) ∨
        (data.type = SENSOR_TYPE_INTERRUPT ∧
          ∃ d, data.data = sensor_union.sensor2 d ∧ validate_sensor2_data d = true ∧
            (∀ c ∈ d.student_id ++ d.sensor_name,
              c ≠ Char.ofNat 39 ∧ c ≠ ';' ∧ c ≠ Char.ofNat 34 ∧ c ≠ Char.ofNat 92)))) ∧
    r.2.current_status = db_status_t.DB_STATUS_CONNECTED ∧
    (∃ res d st1, parse_sensor_data id sensor_boot apostrophe_frame = some (res, some d, st1) ∧
      res.is_valid = true ∧
      ∃ r2, database_insert_sensor_data db d = some r2 ∧ r2.1.success = false ∧
        r2.1.error_message = "Invalid characters in data" ∧
        r2.2.current_status = db_status_t.DB_STATUS_CONNECTED) := by
  have hne : ¬ (SENSOR_TYPE_INTERRUPT = SENSOR_TYPE_TEMP_HUMIDITY) := by decide
  rw [← and_assoc]
  refine ⟨?_, _, _, _, parse_sensor_data_apostrophe, rfl, ?_⟩
  swap
  · have hv : validate_sensor2_data
        { student_id := "O".toList ++ [Char.ofNat 39] ++ "NEIL".toList,
          sensor_name := "D".toList, interrupt_type := INTERRUPT_TYPE_RISING,
          interrupt_count := 1, status := SENSOR_STATUS_WARNING, timestamp := 1 } = true := by
      decide
    have hq : validate_sql_injection ("O".toList ++ [Char.ofNat 39] ++ "NEIL".toList) = false := by
      decide
    have h1 : ¬ db.current_status ≠ db_status_t.DB_STATUS_CONNECTED := fun h => h hc
    refine ⟨_, ?_, rfl, rfl, create_error_result_connected db DB_ERROR_INVALID_PARAM
      "Invalid characters in data" hc⟩
    simp only [database_insert_sensor_data, apostrophe_record, hne, if_false, if_true,
      database_insert_sensor2_data,
      h1, hv, hq, Bool.not_true, Bool.not_false, Bool.true_or, Bool.false_eq_true]
  have hmem : ∀ (a b : List Char),
      (∀ c ∈ a ++ b, c ≠ Char.ofNat 39 ∧ c ≠ ';' ∧ c ≠ Char.ofNat 34 ∧ c ≠ Char.ofNat 92) ↔
        (validate_sql_injection a = true ∧ validate_sql_injection b = true) := by
    intro a b
    rw [validate_sql_injection_iff, validate_sql_injection_iff]
    constructor
    · intro h
      exact ⟨fun c hc => h c (List.mem_append_left _ hc),
        fun c hc => h c (List.mem_append_right _ hc)⟩
    · intro h c hc
      rcases List.mem_append.mp hc with h1 | h1
      · exact h.1 c h1
      · exact h.2 c h1
  unfold database_insert_sensor_data at h
  by_cases h1 : data.type = SENSOR_TYPE_TEMP_HUMIDITY
  · rw [if_pos h1] at h
    cases hd : data.data with
    | sensor1 d =>
      rw [hd] at h
      simp only [Option.some.injEq] at h
      subst h
      obtain ⟨e1, e2⟩ := database_insert_sensor1_data_connected db d hc
      refine ⟨?_, e2⟩
      rw [e1]
      constructor
      · intro hh
        exact Or.inl ⟨h1, d, rfl, hh.1, (hmem _ _).mpr hh.2⟩
      · rintro (⟨_, d2, hd2, hv, hm⟩ | ⟨ht, _⟩)
        · simp only [sensor_union.sensor1.injEq] at hd2
          subst hd2
          exact ⟨hv, (hmem _ _).mp hm⟩
        · rw [h1] at ht; exact absurd ht.symm hne
    | sensor2 d => rw [hd] at h; simp at h
  · rw [if_neg h1] at h
    by_cases h2 : data.type = SENSOR_TYPE_INTERRUPT
    · rw [if_pos h2] at h
      cases hd : data.data with
      | sensor2 d =>
        rw [hd] at h
        simp only [Option.some.injEq] at h
        subst h
        obtain ⟨e1, e2⟩ := database_insert_sensor2_data_connected db d hc
        refine ⟨?_, e2⟩
        rw [e1]
        constructor
        · intro hh
          exact Or.inr ⟨h2, d, rfl, hh.1, (hmem _ _).mpr hh.2⟩
        · rintro (⟨ht, _⟩ | ⟨_, d2, hd2, hv, hm⟩)
          · exact absurd ht h1
          · simp only [sensor_union.sensor2.injEq] at hd2
            subst hd2
            exact ⟨hv, (hmem _ _).mp hm⟩
      | sensor1 d => rw [hd] at h; simp at h
    · rw [if_neg h2] at h
      simp only [Option.some.injEq] at h
      subst h
      refine ⟨?_, create_error_result_connected db _ _ hc⟩
      constructor
      · intro hh; simp [create_error_result] at hh
      · rintro (⟨ht, _⟩ | ⟨ht, _⟩)
        · exact absurd ht h1
        · exact absurd ht h2

theorem C37_witness :
    (database_connect db_boot).2.current_status = db_status_t.DB_STATUS_CONNECTED ∧
    database_insert_sensor_data (database_connect db_boot).2 apostrophe_record =
      some (create_error_result (database_connect db_boot).2 DB_ERROR_INVALID_PARAM
        "Invalid characters in data") ∧
    (create_error_result (database_connect db_boot).2 DB_ERROR_INVALID_PARAM
      "Invalid characters in data").2.current_status = db_status_t.DB_STATUS_CONNECTED :=
  ⟨by decide, by decide,
    (C37_store_insert_refuses_dangerous_characters (database_connect db_boot).2
      apostrophe_record _ (by decide) (by decide)).2.1⟩

/-! ## The status of the store (C38) -/

theorem database_set_last_error_inv (db : DbState) (msg : String) (h : db_status_inv db) :
    db_status_inv (database_set_last_error db msg) := by
  unfold db_status_inv at *
  simp only [database_set_last_error, database_error_callback, database_disconnect,
    database_connect]
  split
  · exact h
  · split_ifs <;> simp_all [create_success_result]

theorem create_error_result_inv (db : DbState) (code : Int) (msg : String)
    (h : db_status_inv db) : db_status_inv (create_error_result db code msg).2 :=
  database_set_last_error_inv db msg h

theorem database_execute_update_inv (db : DbState) (sql : Option (List Char))
    (h : db_status_inv db) : db_status_inv (database_execute_update db sql).2 := by
  unfold database_execute_update
  split
  · split_ifs
    · exact create_error_result_inv _ _ _ h
    · exact h
  · exact create_error_result_inv _ _ _ h

theorem database_execute_query_inv (db : DbState) (sql : Option (List Char))
    (h : db_status_inv db) : db_status_inv (database_execute_query db sql).2 := by
  unfold database_execute_query
  split
  · split_ifs
    · exact database_set_last_error_inv _ _ h
    · exact h
  · exact database_set_last_error_inv _ _ h

theorem database_query_sensor_data_inv (table : String) (db : DbState)
    (student_id : Option (List Char)) (limit : Nat) (r : db_query_result_t × DbState)
    (h : db_status_inv db) (hr : database_query_sensor_data table db student_id limit = some r) :
    db_status_inv r.2 := by
  unfold database_query_sensor_data at hr
  by_cases h1 : db.current_status ≠ db_status_t.DB_STATUS_CONNECTED
  · rw [if_pos h1] at hr
    simp only [Option.some.injEq] at hr; subst hr
    exact database_set_last_error_inv _ _ h
  · rw [if_neg h1] at hr
    rcases student_id with _ | _ | ⟨c, cs⟩
    · simp only at hr
      split_ifs at hr
      simp only [Option.some.injEq] at hr; subst hr; exact h
    · simp only at hr
      split_ifs at hr
      simp only [Option.some.injEq] at hr; subst hr; exact h
    · simp only at hr
      split_ifs at hr
      · simp only [Option.some.injEq] at hr; subst hr
        exact database_set_last_error_inv _ _ h
      · simp only [Option.some.injEq] at hr; subst hr; exact h

theorem db_step_inv (db : DbState) (c : DbCall) (db1 : DbState) (h : db_status_inv db)
    (hs : db_step db c = some db1) : db_status_inv db1 := by
  cases c with
  | init =>
    simp only [db_step, Option.some.injEq] at hs; subst hs
    exact Or.inl rfl
  | connect config =>
    simp only [db_step, Option.some.injEq] at hs; subst hs
    unfold database_connect_config
    split_ifs
    · exact create_error_result_inv _ _ _ h
    · exact h
    · exact Or.inr rfl
  | disconnect =>
    simp only [db_step, Option.some.injEq] at hs; subst hs
    unfold database_disconnect
    split_ifs
    · exact h
    · exact Or.inl rfl
  | get_status => simp only [db_step, Option.some.injEq] at hs; subst hs; exact h
  | insert_sensor1 data =>
    cases data with
    | none =>
      simp only [db_step, Option.some.injEq] at hs; subst hs
      exact create_error_result_inv _ _ _ h
    | some d =>
      simp only [db_step, Option.some.injEq] at hs; subst hs
      unfold database_insert_sensor1_data
      split_ifs
      all_goals first | exact create_error_result_inv _ _ _ h | exact h
  | insert_sensor2 data =>
    cases data with
    | none =>
      simp only [db_step, Option.some.injEq] at hs; subst hs
      exact create_error_result_inv _ _ _ h
    | some d =>
      simp only [db_step, Option.some.injEq] at hs; subst hs
      unfold database_insert_sensor2_data
      split_ifs
      all_goals first | exact create_error_result_inv _ _ _ h | exact h
  | insert data =>
    cases data with
    | none =>
      simp only [db_step, Option.some.injEq] at hs; subst hs
      exact create_error_result_inv _ _ _ h
    | some d =>
      simp only [db_step, Option.map_eq_some'] at hs
      obtain ⟨r, hr, rfl⟩ := hs
      unfold database_insert_sensor_data at hr
      split_ifs at hr
      · split at hr
        · simp only [Option.some.injEq] at hr; subst hr
          unfold database_insert_sensor1_data
          split_ifs
          all_goals first | exact create_error_result_inv _ _ _ h | exact h
        · simp at hr
      · split at hr
        · simp only [Option.some.injEq] at hr; subst hr
          unfold database_insert_sensor2_data
          split_ifs
          all_goals first | exact create_error_result_inv _ _ _ h | exact h
        · simp at hr
      · simp only [Option.some.injEq] at hr; subst hr
        exact create_error_result_inv _ _ _ h
  | query_sensor1 student_id limit =>
    simp only [db_step, Option.map_eq_some'] at hs
    obtain ⟨r, hr, rfl⟩ := hs
    exact database_query_sensor_data_inv _ _ _ _ r h hr
  | query_sensor2 student_id limit =>
    simp only [db_step, Option.map_eq_some'] at hs
    obtain ⟨r, hr, rfl⟩ := hs
    exact database_query_sensor_data_inv _ _ _ _ r h hr
  | execute_query sql =>
    simp only [db_step, Option.some.injEq] at hs; subst hs
    exact database_execute_query_inv _ _ h
  | execute_update sql =>
    simp only [db_step, Option.some.injEq] at hs; subst hs
    exact database_execute_update_inv _ _ h
  | free_query_result => simp only [db_step, Option.some.injEq] at hs; subst hs; exact h
  | begin_transaction =>
    simp only [db_step, Option.some.injEq] at hs; subst hs
    unfold database_begin_transaction
    split_ifs
    · exact create_error_result_inv _ _ _ h
    · exact database_execute_update_inv _ _ h
  | commit_transaction =>
    simp only [db_step, Option.some.injEq] at hs; subst hs
    unfold database_commit_transaction
    split_ifs
    · exact create_error_result_inv _ _ _ h
    · exact database_execute_update_inv _ _ h
  | rollback_transaction =>
    simp only [db_step, Option.some.injEq] at hs; subst hs
    unfold database_rollback_transaction
    split_ifs
    · exact create_error_result_inv _ _ _ h
    · exact database_execute_update_inv _ _ h
  | table_exists table_name =>
    simp only [db_step, Option.map_eq_some'] at hs
    obtain ⟨r, hr, rfl⟩ := hs
    unfold database_table_exists at hr
    split at hr
    · simp only [Option.some.injEq] at hr; subst hr; exact h
    · simp only at hr
      split_ifs at hr
      · simp only [Option.some.injEq] at hr; subst hr; exact h
      · simp only [Option.some.injEq] at hr; subst hr
        exact database_execute_query_inv _ _ h
  | create_tables =>
    simp only [db_step, Option.some.injEq] at hs; subst hs
    unfold database_create_tables
    simp only
    split_ifs
    · exact create_error_result_inv _ _ _ h
    · exact database_execute_update_inv _ _ h
    · exact database_execute_update_inv _ _ (database_execute_update_inv _ _ h)
    · exact database_execute_update_inv _ _ (database_execute_update_inv _ _ h)
  | get_statistics c1 c2 =>
    simp only [db_step, Option.some.injEq] at hs; subst hs
    unfold database_get_statistics
    by_cases h1 : db.current_status ≠ db_status_t.DB_STATUS_CONNECTED
    · rw [if_pos h1]
      exact create_error_result_inv db DB_ERROR_CONNECTION "Database not connected" h
    · rw [if_neg h1]
      cases c1 <;> cases c2 <;> simp only [if_true, if_false, Bool.false_eq_true]
      · exact h
      · exact database_execute_query_inv _ _ h
      · exact database_execute_query_inv _ _ h
      · exact database_execute_query_inv _ _ (database_execute_query_inv _ _ h)
  | cleanup_old_data days_old =>
    simp only [db_step, Option.some.injEq] at hs; subst hs
    unfold database_cleanup_old_data
    simp only
    split_ifs
    · exact create_error_result_inv _ _ _ h
    · exact database_execute_update_inv _ _ h
    · exact database_execute_update_inv _ _ (database_execute_update_inv _ _ h)
  | backup backup_path =>
    simp only [db_step, Option.some.injEq] at hs; subst hs
    unfold database_backup
    split
    · exact create_error_result_inv _ _ _ h
    · split_ifs
      · exact create_error_result_inv _ _ _ h
      · exact h
  | restore backup_path =>
    simp only [db_step, Option.some.injEq] at hs; subst hs
    unfold database_restore
    split
    · exact create_error_result_inv _ _ _ h
    · split_ifs
      · exact create_error_result_inv _ _ _ h
      · exact h
  | set_error_callback callback =>
    simp only [db_step, Option.some.injEq] at hs; subst hs
    exact h
  | get_last_error => simp only [db_step, Option.some.injEq] at hs; subst hs; exact h

theorem db_run_inv (calls : List DbCall) : ∀ (db db1 : DbState), db_status_inv db →
    db_run db calls = some db1 → db_status_inv db1 := by
  induction calls with
  | nil =>
    intro db db1 h hr
    simp only [db_run, Option.some.injEq] at hr; subst hr; exact h
  | cons c cs ih =>
    intro db db1 h hr
    simp only [db_run] at hr
    cases hs : db_step db c with
    | none => rw [hs] at hr; simp at hr
    | some d =>
      rw [hs] at hr
      exact ih d db1 (db_step_inv db c d h hs) hr

theorem database_connect_config_default (db : DbState) :
    database_connect_config db (some DEFAULT_DB_CONFIG) = database_connect db := by
  have : is_valid_db_config (some DEFAULT_DB_CONFIG) = true := by decide
  simp only [database_connect_config, this, Bool.not_true, Bool.false_eq_true, if_false,
    database_connect]

/-- C38. In every state reached from `database_init` by calls of the public
operations of database.c, `database_get_status` is `DB_STATUS_DISCONNECTED` or
`DB_STATUS_CONNECTED`, never `DB_STATUS_ERROR` or `DB_STATUS_BUSY`;
`database_connect` with a valid configuration returns success, ends connected
and is idempotent, and so is `database_disconnect`, which ends disconnected. -/
theorem C38_store_status_connected_or_disconnected (db0 : DbState) (calls : List DbCall)
    (db : DbState) (h : db_run (database_init db0) calls = some db) :
    (database_get_status db = db_status_t.DB_STATUS_DISCONNECTED ∨
      database_get_status db = db_status_t.DB_STATUS_CONNECTED) ∧
    database_get_status db ≠ db_status_t.DB_STATUS_ERROR ∧
    database_get_status db ≠ db_status_t.DB_STATUS_BUSY ∧
    (∀ (s : DbState) (config : Option db_config_t), is_valid_db_config config = true →
      (database_connect_config s config).1 = create_success_result 0 0 ∧
      database_get_status (database_connect_config s config).2 =
        db_status_t.DB_STATUS_CONNECTED ∧
      database_connect_config (database_connect_config s config).2 config =
        database_connect_config s config) ∧
    (∀ s : DbState,
      (database_disconnect s).1 = create_success_result 0 0 ∧
      database_get_status (database_disconnect s).2 = db_status_t.DB_STATUS_DISCONNECTED ∧
      database_disconnect (database_disconnect s).2 = database_disconnect s) := by
  have hinv : db_status_inv db := db_run_inv calls _ db (Or.inl rfl) h
  unfold db_status_inv at hinv
  simp only [database_get_status]
  refine ⟨hinv, ?_, ?_, ?_, ?_⟩
  · rcases hinv with e | e <;> rw [e] <;> decide
  · rcases hinv with e | e <;> rw [e] <;> decide
  · intro s config hv
    simp only [database_connect_config, hv, Bool.not_true, Bool.false_eq_true, if_false]
    by_cases hc : s.current_status = db_status_t.DB_STATUS_CONNECTED
    · simp only [hc, if_true, and_self]
    · simp only [hc, if_false, if_true, and_self]
  · intro s
    simp only [database_disconnect]
    by_cases hc : s.current_status = db_status_t.DB_STATUS_DISCONNECTED
    · simp only [hc, if_true, and_self]
    · simp only [hc, if_false, if_true, and_self]

theorem C38_witness :
    db_run (database_init db_boot)
        [DbCall.set_error_callback db_error_callback_t.database_error_callback,
         DbCall.begin_transaction, DbCall.insert (some apostrophe_record),
         DbCall.query_sensor1 (some "A".toList) 5, DbCall.disconnect, DbCall.backup none] =
      some { current_status := db_status_t.DB_STATUS_CONNECTED,
             last_error_message := "Invalid backup path",
             error_callback := db_error_callback_t.database_error_callback } ∧
    database_get_status
        { current_status := db_status_t.DB_STATUS_CONNECTED,
          last_error_message := "Invalid backup path",
          error_callback := db_error_callback_t.database_error_callback } ≠
      db_status_t.DB_STATUS_ERROR := by
  have h : db_run (database_init db_boot)
        [DbCall.set_error_callback db_error_callback_t.database_error_callback,
         DbCall.begin_transaction, DbCall.insert (some apostrophe_record),
         DbCall.query_sensor1 (some "A".toList) 5, DbCall.disconnect, DbCall.backup none] =
      some { current_status := db_status_t.DB_STATUS_CONNECTED,
             last_error_message := "Invalid backup path",
             error_callback := db_error_callback_t.database_error_callback } := by
    decide
  exact ⟨h, (C38_store_status_connected_or_disconnected db_boot _ _ h).2.1⟩

/-! ## The tick and the accepted frames (C39) -/

/-- A parser call either rejects and leaves the tick alone, or accepts, stamps
the record with the tick plus one modulo 2^32 and stores that as the new
tick. -/
theorem parser_step_tick (rnd : ℚ → ℚ) (st : SensorState) (c : ParserCall)
    (t : Option Nat) (st1 : SensorState) (h : parser_step rnd st c = some (t, st1)) :
    (t = none ∧ st1.tick_count = st.tick_count) ∨
      (t = some (incr32 st.tick_count) ∧ st1.tick_count = incr32 st.tick_count) := by
  cases c with
  | sensor1 frame =>
    simp only [parser_step, Option.some.injEq, Prod.mk.injEq] at h
    obtain ⟨h1, h2⟩ := h
    rcases parse_sensor1_data_state rnd st frame with ⟨hv, hs⟩ | ⟨hv, hs⟩
    · left
      rw [hv] at h1
      exact ⟨by simpa using h1.symm, by rw [← h2, hs]⟩
    · right
      obtain ⟨d, hd, ht, hk⟩ := parse_sensor1_data_timestamp rnd st frame hv
      rw [hv, hd] at h1
      exact ⟨by rw [← h1]; simp [ht], by rw [← h2, hk]⟩
  | sensor2 frame =>
    simp only [parser_step, Option.some.injEq, Prod.mk.injEq] at h
    obtain ⟨h1, h2⟩ := h
    rcases parse_sensor2_data_state st frame with ⟨hv, hs⟩ | ⟨hv, hs⟩
    · left
      rw [hv] at h1
      exact ⟨by simpa using h1.symm, by rw [← h2, hs]⟩
    · right
      obtain ⟨d, hd, ht, hk⟩ := parse_sensor2_data_timestamp st frame hv
      rw [hv, hd] at h1
      exact ⟨by rw [← h1]; simp [ht], by rw [← h2, hk]⟩
  | any frame =>
    simp only [parser_step] at h
    cases hp : parse_sensor_data rnd st frame with
    | none => rw [hp] at h; simp at h
    | some r =>
      rw [hp] at h
      simp only [Option.some.injEq, Prod.mk.injEq] at h
      obtain ⟨h1, h2⟩ := h
      by_cases hv : r.1.is_valid = true
      · right
        obtain ⟨d, hd, ht, hk⟩ := parse_sensor_data_timestamp rnd st frame r hp hv
        rw [hv, hd] at h1
        exact ⟨by rw [← h1]; simp [ht], by rw [← h2, hk]⟩
      · left
        have hv2 : r.1.is_valid = false := by simpa using hv
        rw [hv2] at h1
        refine ⟨by simpa using h1.symm, ?_⟩
        rw [← h2]
        rcases parse_sensor_data_cases rnd st frame r hp with e | e | e
        · rw [e] at hv2 ⊢
          obtain ⟨e1, _, _, e4, _⟩ := update_statistics_counters
            (dispatch_sensor1 rnd { st with total_data_count := incr32 st.total_data_count } frame)
          rw [e1] at hv2
          rw [e4]
          rcases parse_sensor1_data_state rnd
            { st with total_data_count := incr32 st.total_data_count } frame with ⟨_, hs⟩ | ⟨hv3, _⟩
          · simp only [dispatch_sensor1, hs]
          · simp only [dispatch_sensor1] at hv2; rw [hv3] at hv2; simp at hv2
        · rw [e] at hv2 ⊢
          obtain ⟨e1, _, _, e4, _⟩ := update_statistics_counters
            (dispatch_sensor2 { st with total_data_count := incr32 st.total_data_count } frame)
          rw [e1] at hv2
          rw [e4]
          rcases parse_sensor2_data_state
            { st with total_data_count := incr32 st.total_data_count } frame with ⟨_, hs⟩ | ⟨hv3, _⟩
          · simp only [dispatch_sensor2, hs]
          · simp only [dispatch_sensor2] at hv2; rw [hv3] at hv2; simp at hv2
        · rw [e]
          obtain ⟨_, _, _, e4, _⟩ := update_statistics_counters
            (({ is_valid := false, type := none, error_msg := ERROR_MSG_INVALID_FORMAT } :
              parse_result_t), (none : Option sensor_data_t),
              { st with total_data_count := incr32 st.total_data_count })
          rw [e4]

theorem accepted_timestamps_from (rnd : ℚ → ℚ) (calls : List ParserCall) :
    ∀ (st : SensorState) (ts : List Nat) (st1 : SensorState),
      accepted_timestamps rnd st calls = some (ts, st1) →
      ts = (List.range ts.length).map (fun k => (st.tick_count + (k + 1)) % 4294967296) ∧
        st1.tick_count % 4294967296 = (st.tick_count + ts.length) % 4294967296 := by
  induction calls with
  | nil =>
    intro st ts st1 h
    simp only [accepted_timestamps, Option.some.injEq, Prod.mk.injEq] at h
    obtain ⟨h1, h2⟩ := h
    subst h1; subst h2
    simp
  | cons c cs ih =>
    intro st ts st1 h
    simp only [accepted_timestamps] at h
    cases hp : parser_step rnd st c with
    | none => rw [hp] at h; simp at h
    | some p =>
      obtain ⟨t, sa⟩ := p
      rw [hp] at h
      simp only at h
      cases hr : accepted_timestamps rnd sa cs with
      | none => rw [hr] at h; simp at h
      | some q =>
        obtain ⟨ts2, sb⟩ := q
        rw [hr] at h
        simp only [Option.some.injEq, Prod.mk.injEq] at h
        obtain ⟨h1, h2⟩ := h
        subst h2
        obtain ⟨i1, i2⟩ := ih sa ts2 sb hr
        rcases parser_step_tick rnd st c t sa hp with ⟨ht, hk⟩ | ⟨ht, hk⟩
        · subst ht
          simp only [Option.toList, List.nil_append] at h1
          subst h1
          rw [hk] at i1 i2
          exact ⟨i1, i2⟩
        · subst ht
          simp only [Option.toList, List.singleton_append] at h1
          subst h1
          rw [hk] at i1 i2
          simp only [incr32] at i1 i2
          constructor
          · rw [List.length_cons, List.range_succ_eq_map, List.map_cons, List.map_map]
            simp only [incr32]
            congr 1
            rw [i1]
            simp only [List.length_map, List.length_range]
            apply List.map_congr_left
            intro k _
            simp only [Function.comp]
            omega
          · rw [i2, List.length_cons]; omega

/-- C39. The tick is consumed by accepted frames only: a call of
`parse_sensor1_data`, `parse_sensor2_data` or `parse_sensor_data` either rejects
and leaves the tick alone, or accepts, stamps the record with the value
`get_timestamp` returns and advances the tick once; hence, from start-up, the
`k`-th accepted record carries timestamp `k mod 2^32` and consecutive accepted
records differ by 1 modulo 2^32, however many rejected frames lie between. -/
theorem C39_tick_consumed_by_accepted_parses (rnd : ℚ → ℚ) (calls : List ParserCall)
    (ts : List Nat) (st1 : SensorState)
    (h : accepted_timestamps rnd sensor_boot calls = some (ts, st1)) :
    (∀ (st : SensorState) (c : ParserCall) (t : Option Nat) (st2 : SensorState),
      parser_step rnd st c = some (t, st2) →
      (t = none ∧ st2.tick_count = st.tick_count) ∨
        (t = some (get_timestamp st).1 ∧ st2.tick_count = (get_timestamp st).2.tick_count)) ∧
    ts = (List.range ts.length).map (fun k => (k + 1) % 4294967296) ∧
    (∀ k a b, ts[k]? = some a → ts[k + 1]? = some b → b = (a + 1) % 4294967296) := by
  obtain ⟨h1, _⟩ := accepted_timestamps_from rnd calls sensor_boot ts st1 h
  simp only [sensor_boot, Nat.zero_add] at h1
  refine ⟨fun st c t st2 hs => parser_step_tick rnd st c t st2 hs, h1, ?_⟩
  intro k a b ha hb
  rw [h1] at ha hb
  simp only [List.getElem?_map, Option.map_eq_some'] at ha hb
  obtain ⟨x, hx, rfl⟩ := ha
  obtain ⟨y, hy, rfl⟩ := hb
  rw [List.getElem?_range] at hx hy
  · simp only [Option.some.injEq] at hx hy
    subst hx; subst hy
    omega
  all_goals
    have := List.getElem?_eq_some.mp hy
    obtain ⟨hlt, _⟩ := this
    simp only [List.length_range] at hlt
    omega

theorem C39_witness :
    accepted_timestamps id sensor_boot
        [ParserCall.any "A,D,1".toList, ParserCall.any "x".toList,
         ParserCall.sensor2 "A,D".toList, ParserCall.sensor2 "A,D,2".toList] =
      some ([1, 2], { total_data_count := 2, valid_data_count := 1, error_data_count := 1,
                      tick_count := 2, data_callback := data_callback_t.null }) ∧
    [1, 2] = (List.range [1, 2].length).map (fun k => (k + 1) % 4294967296) := by
  have h : accepted_timestamps id sensor_boot
        [ParserCall.any "A,D,1".toList, ParserCall.any "x".toList,
         ParserCall.sensor2 "A,D".toList, ParserCall.sensor2 "A,D,2".toList] =
      some ([1, 2], { total_data_count := 2, valid_data_count := 1, error_data_count := 1,
                      tick_count := 2, data_callback := data_callback_t.null }) := by
    decide
  exact ⟨h, (C39_tick_consumed_by_accepted_parses id _ _ _ h).2.1⟩

/-! ## Legacy firmware: the counted rings (C40) -/

theorem legacy_read_loop_counts : ∀ (n : Nat) (m : legacy.comm_module_t),
    (legacy.read_loop n m).2.rx_buf.count = m.rx_buf.count - n ∧
      (legacy.read_loop n m).2.rx_buf.tail % 256 =
        (m.rx_buf.tail + min n m.rx_buf.count) % 256 ∧
      (m.rx_buf.tail < 256 → (legacy.read_loop n m).2.rx_buf.tail < 256) ∧
      (legacy.read_loop n m).2.rx_buf.head = m.rx_buf.head ∧
      (legacy.read_loop n m).2.tx_buf = m.tx_buf := by
  intro n
  induction n with
  | zero => intro m; simp [legacy.read_loop]
  | succ n ih =>
    intro m
    by_cases hc : m.rx_buf.count > 0
    · simp only [legacy.read_loop, hc, if_true, RX_BUFFER_SIZE]
      obtain ⟨a, b, c, d, e⟩ := ih { m with rx_buf := { m.rx_buf with
        tail := (m.rx_buf.tail + 1) % 256, count := m.rx_buf.count - 1 } }
      simp only [RX_BUFFER_SIZE] at a b c d e ⊢
      refine ⟨by rw [a]; omega, ?_, ?_, d, e⟩
      · rw [b]
        have : min (n + 1) m.rx_buf.count = min n (m.rx_buf.count - 1) + 1 := by omega
        rw [this]; omega
      · intro _
        exact c (Nat.mod_lt _ (by norm_num))
    · simp only [legacy.read_loop, hc, if_false]
      have h0 : m.rx_buf.count = 0 := by omega
      simp [h0]

theorem legacy_send_data_loop_counts : ∀ (bytes : List Nat) (m : legacy.comm_module_t),
    (legacy.send_data_loop bytes m).tx_buf.count = m.tx_buf.count + bytes.length ∧
      (legacy.send_data_loop bytes m).tx_buf.head % 512 =
        (m.tx_buf.head + bytes.length) % 512 ∧
      (bytes ≠ [] → (legacy.send_data_loop bytes m).tx_buf.head < 512) ∧
      (legacy.send_data_loop bytes m).tx_buf.tail = m.tx_buf.tail ∧
      (legacy.send_data_loop bytes m).rx_buf = m.rx_buf := by
  intro bytes
  induction bytes with
  | nil => intro m; simp [legacy.send_data_loop]
  | cons b bs ih =>
    intro m
    simp only [legacy.send_data_loop, TX_BUFFER_SIZE]
    obtain ⟨a, b1, c, d, e⟩ := ih { m with tx_buf := { m.tx_buf with
      buffer := fun i => if i = m.tx_buf.head then b else m.tx_buf.buffer i
      head := (m.tx_buf.head + 1) % 512
      count := m.tx_buf.count + 1 } }
    simp only at a b1 c d e
    refine ⟨by rw [a, List.length_cons]; omega, by rw [b1, List.length_cons]; omega, ?_, d, e⟩
    intro _
    cases bs with
    | nil => simp only [legacy.send_data_loop]; exact Nat.mod_lt _ (by norm_num)
    | cons x xs => exact c (by simp)

theorem legacy_counted_inv_step (m : legacy.comm_module_t) (c : legacy.CommCall)
    (h : legacy.counted_inv m) (ht : m.rx_buf.tail < 256 ∧ m.tx_buf.tail < 512) :
    legacy.counted_inv (legacy.comm_step m c) ∧
      (legacy.comm_step m c).rx_buf.tail < 256 ∧ (legacy.comm_step m c).tx_buf.tail < 512 := by
  obtain ⟨h1, h2, h3, h4⟩ := h
  obtain ⟨t1, t2⟩ := ht
  simp only [RX_BUFFER_SIZE, TX_BUFFER_SIZE] at h1 h2 h3 h4
  cases c with
  | rx_interrupt data =>
    simp only [legacy.comm_step, legacy.communication_process_rx_interrupt, legacy.counted_inv,
      RX_BUFFER_SIZE, TX_BUFFER_SIZE]
    split_ifs
    · simp only; omega
    · simp only; omega
  | read_data max_length =>
    simp only [legacy.comm_step, legacy.communication_read_data, legacy.counted_inv,
      RX_BUFFER_SIZE, TX_BUFFER_SIZE]
    split_ifs
    · simp only; omega
    · obtain ⟨a, b, c, d, e⟩ := legacy_read_loop_counts max_length m
      have c1 := c t1
      rw [a, d, e]
      omega
  | send_data data =>
    cases data with
    | none =>
      simp only [legacy.comm_step, legacy.communication_send_data, legacy.counted_inv,
        RX_BUFFER_SIZE, TX_BUFFER_SIZE]
      omega
    | some bytes =>
      simp only [legacy.comm_step, legacy.communication_send_data, legacy.counted_inv,
        RX_BUFFER_SIZE, TX_BUFFER_SIZE]
      split_ifs with hz hfull
      · simp only; omega
      · simp only; omega
      · obtain ⟨a, b, c, d, e⟩ := legacy_send_data_loop_counts bytes m
        have c1 := c (by intro hb; rw [hb] at hz; simp at hz)
        simp only
        rw [a, d, e]
        omega
  | tx_interrupt =>
    simp only [legacy.comm_step, legacy.communication_process_tx_interrupt, legacy.counted_inv,
      RX_BUFFER_SIZE, TX_BUFFER_SIZE]
    split_ifs
    · simp only; omega
    · simp only; omega
    · simp only; omega
  | clear_buffers =>
    simp [legacy.comm_step, legacy.communication_clear_buffers, legacy.counted_inv]

theorem legacy_counted_inv_run (calls : List legacy.CommCall) : ∀ (m : legacy.comm_module_t),
    legacy.counted_inv m → m.rx_buf.tail < 256 ∧ m.tx_buf.tail < 512 →
    legacy.counted_inv (legacy.comm_run m calls) ∧
      (legacy.comm_run m calls).rx_buf.tail < 256 ∧
      (legacy.comm_run m calls).tx_buf.tail < 512 := by
  induction calls with
  | nil => intro m h ht; exact ⟨h, ht⟩
  | cons c cs ih =>
    intro m h ht
    obtain ⟨a, b⟩ := legacy_counted_inv_step m c h ht
    exact ih _ a b

theorem legacy_rx_interrupt_contents (m : legacy.comm_module_t) (data : Nat)
    (h : m.rx_buf.head = (m.rx_buf.tail + m.rx_buf.count) % 256) (hc : m.rx_buf.count < 256) :
    legacy.rx_contents (legacy.communication_process_rx_interrupt m data) =
      legacy.rx_contents m ++ [data] := by
  have hn : ¬ m.rx_buf.count ≥ 256 := by omega
  simp only [legacy.rx_contents, legacy.communication_process_rx_interrupt, RX_BUFFER_SIZE, hn,
    if_false, List.range_succ, List.map_append, List.map_cons, List.map_nil]
  congr 1
  · apply List.map_congr_left
    intro i hi
    have hi2 : i < m.rx_buf.count := List.mem_range.mp hi
    have hne : (m.rx_buf.tail + i) % 256 ≠ m.rx_buf.head := by omega
    simp [hne]
  · simp [h]

theorem legacy_read_loop_contents : ∀ (n : Nat) (m : legacy.comm_module_t),
    m.rx_buf.tail < 256 →
    (legacy.read_loop n m).1 = (legacy.rx_contents m).take n ∧
      legacy.rx_contents (legacy.read_loop n m).2 = (legacy.rx_contents m).drop n := by
  intro n
  induction n with
  | zero => intro m _; simp [legacy.read_loop]
  | succ n ih =>
    intro m ht
    by_cases hc : m.rx_buf.count > 0
    · obtain ⟨k, hk⟩ : ∃ k, m.rx_buf.count = k + 1 := ⟨m.rx_buf.count - 1, by omega⟩
      obtain ⟨a, b⟩ := ih { m with rx_buf := { m.rx_buf with
        tail := (m.rx_buf.tail + 1) % 256, count := m.rx_buf.count - 1 } }
        (Nat.mod_lt _ (by norm_num))
      have hcont : legacy.rx_contents m = m.rx_buf.buffer m.rx_buf.tail ::
          legacy.rx_contents { m with rx_buf := { m.rx_buf with
            tail := (m.rx_buf.tail + 1) % 256, count := m.rx_buf.count - 1 } } := by
        simp only [legacy.rx_contents, hk, List.range_succ_eq_map, List.map_cons, List.map_map,
          RX_BUFFER_SIZE, Nat.add_sub_cancel]
        congr 1
        · rw [Nat.add_zero, Nat.mod_eq_of_lt ht]
        · apply List.map_congr_left
          intro i _
          have : ((m.rx_buf.tail + 1) % 256 + i) % 256 = (m.rx_buf.tail + (i + 1)) % 256 := by
            omega
          simp [this]
      simp only [legacy.read_loop, hc, if_true, RX_BUFFER_SIZE]
      rw [hcont, List.take_succ_cons, List.drop_succ_cons, a, b]
      exact ⟨rfl, rfl⟩
    · have h0 : m.rx_buf.count = 0 := by omega
      simp [legacy.read_loop, hc, legacy.rx_contents, h0]

theorem legacy_rx_fill_contents : ∀ (bytes : List Nat) (m : legacy.comm_module_t),
    legacy.counted_inv m → m.rx_buf.tail < 256 ∧ m.tx_buf.tail < 512 →
    m.rx_buf.count + bytes.length ≤ 256 →
    legacy.rx_contents (legacy.comm_run m (bytes.map legacy.CommCall.rx_interrupt)) =
      legacy.rx_contents m ++ bytes := by
  intro bytes
  induction bytes with
  | nil => intro m _ _ _; simp [legacy.comm_run]
  | cons b bs ih =>
    intro m h ht hlen
    simp only [List.length_cons] at hlen
    obtain ⟨a, c⟩ := legacy_counted_inv_step m (legacy.CommCall.rx_interrupt b) h ht
    have hcont := legacy_rx_interrupt_contents m b h.1 (by omega)
    have hcount : (legacy.comm_step m (legacy.CommCall.rx_interrupt b)).rx_buf.count =
        m.rx_buf.count + 1 := by
      have hn : ¬ m.rx_buf.count ≥ 256 := by omega
      simp [legacy.comm_step, legacy.communication_process_rx_interrupt, RX_BUFFER_SIZE, hn]
    have := ih (legacy.comm_step m (legacy.CommCall.rx_interrupt b)) a c (by rw [hcount]; omega)
    simp only [List.map_cons, legacy.comm_run]
    rw [this]
    simp only [legacy.comm_step]
    rw [hcont, List.append_assoc, List.singleton_append]

theorem legacy_init_inv (m0 : legacy.comm_module_t) :
    legacy.counted_inv (legacy.communication_init m0) ∧
      (legacy.communication_init m0).rx_buf.tail < 256 ∧
      (legacy.communication_init m0).tx_buf.tail < 512 := by
  simp [legacy.counted_inv, legacy.communication_init]

/-- C40. Legacy counted rings: in every state reached from `communication_init`
by calls of `communication_process_rx_interrupt`, `communication_read_data`,
`communication_send_data`, `communication_process_tx_interrupt` and
`communication_clear_buffers`, each ring has `head = (tail + count) mod SIZE`
and `count ≤ SIZE` (256 for RX, 512 for TX); the RX interrupt stores the byte at
the end of the content if `count < 256` and otherwise drops it and sets
`overflow`, so 256 bytes pushed after initialisation are all held; and
`communication_read_data` returns the first `min(count, max_length)` bytes of
the content, in arrival order, leaving the rest. -/
theorem C40_legacy_counted_rings (m0 : legacy.comm_module_t) (calls : List legacy.CommCall) :
    let m := legacy.comm_run (legacy.communication_init m0) calls
    (m.rx_buf.head = (m.rx_buf.tail + m.rx_buf.count) % 256 ∧ m.rx_buf.count ≤ 256 ∧
      m.tx_buf.head = (m.tx_buf.tail + m.tx_buf.count) % 512 ∧ m.tx_buf.count ≤ 512) ∧
    (∀ data : Nat,
      (m.rx_buf.count < 256 →
        legacy.rx_contents (legacy.communication_process_rx_interrupt m data) =
          legacy.rx_contents m ++ [data]) ∧
      (¬ m.rx_buf.count < 256 →
        legacy.rx_contents (legacy.communication_process_rx_interrupt m data) =
          legacy.rx_contents m ∧
        (legacy.communication_process_rx_interrupt m data).rx_buf.overflow = true)) ∧
    (∀ bytes : List Nat, bytes.length ≤ 256 →
      legacy.rx_contents (legacy.comm_run (legacy.communication_init m0)
        (bytes.map legacy.CommCall.rx_interrupt)) = bytes) ∧
    (∀ max_length : Nat,
      (legacy.communication_read_data m max_length).1 =
        (legacy.rx_contents m).take max_length ∧
      (legacy.communication_read_data m max_length).1.length = min m.rx_buf.count max_length ∧
      legacy.rx_contents (legacy.communication_read_data m max_length).2 =
        (legacy.rx_contents m).drop max_length) := by
  intro m
  obtain ⟨i1, i2⟩ := legacy_init_inv m0
  obtain ⟨hinv, ht, _⟩ := legacy_counted_inv_run calls (legacy.communication_init m0) i1 i2
  have hinv2 := hinv
  simp only [legacy.counted_inv, RX_BUFFER_SIZE, TX_BUFFER_SIZE] at hinv2
  refine ⟨hinv2, ?_, ?_, ?_⟩
  · intro data
    refine ⟨fun hc => legacy_rx_interrupt_contents m data hinv2.1 hc, fun hc => ?_⟩
    have hn : m.rx_buf.count ≥ 256 := by omega
    simp [legacy.rx_contents, legacy.communication_process_rx_interrupt, RX_BUFFER_SIZE, hn]
  · intro bytes hb
    have := legacy_rx_fill_contents bytes (legacy.communication_init m0) i1 i2
      (by simp only [legacy.communication_init]; omega)
    rw [this]
    simp [legacy.rx_contents, legacy.communication_init]
  · intro max_length
    have hread : (legacy.communication_read_data m max_length).1 =
          (legacy.rx_contents m).take max_length ∧
        legacy.rx_contents (legacy.communication_read_data m max_length).2 =
          (legacy.rx_contents m).drop max_length := by
      unfold legacy.communication_read_data
      split_ifs with h0
      · subst h0; simp
      · exact legacy_read_loop_contents max_length m ht
    refine ⟨hread.1, ?_, hread.2⟩
    rw [hread.1, List.length_take]
    simp [legacy.rx_contents, Nat.min_comm]

/-! ## The conversion `(float)atof`: rounding to `double`, then to `float` -/

theorem round_half_even_bounds (q : ℚ) :
    ⌊q⌋ ≤ round_half_even q ∧ round_half_even q ≤ ⌊q⌋ + 1 := by
  unfold round_half_even
  split_ifs <;> constructor <;> omega

theorem round_half_even_int (n : Int) : round_half_even (n : ℚ) = n := by
  unfold round_half_even
  simp

theorem round_half_even_ge (q : ℚ) (n : Int) (h : (n : ℚ) ≤ q) : n ≤ round_half_even q :=
  le_trans (Int.le_floor.mpr h) (round_half_even_bounds q).1

theorem round_half_even_le (q : ℚ) (n : Int) (h : q ≤ (n : ℚ)) : round_half_even q ≤ n := by
  by_cases hf : ⌊q⌋ < n
  · have := (round_half_even_bounds q).2
    omega
  · have hfl : (⌊q⌋ : ℚ) ≤ q := Int.floor_le q
    have hn : n ≤ ⌊q⌋ := by omega
    have hq : q = n := by
      have : (n : ℚ) ≤ ⌊q⌋ := by exact_mod_cast hn
      linarith
    rw [hq, round_half_even_int]

theorem round_half_even_mono (q r : ℚ) (h : q ≤ r) : round_half_even q ≤ round_half_even r := by
  have hfl : ⌊q⌋ ≤ ⌊r⌋ := Int.floor_mono h
  by_cases hf : ⌊q⌋ < ⌊r⌋
  · have := (round_half_even_bounds q).2
    have := (round_half_even_bounds r).1
    omega
  · have he : ⌊q⌋ = ⌊r⌋ := by omega
    unfold round_half_even
    rw [he]
    have hsub : q - ⌊r⌋ ≤ r - ⌊r⌋ := by linarith
    split_ifs <;> first | omega | (exfalso; linarith)

theorem round_half_even_error (q : ℚ) : |(round_half_even q : ℚ) - q| ≤ 1 / 2 := by
  have h1 : (⌊q⌋ : ℚ) ≤ q := Int.floor_le q
  have h2 : q < ⌊q⌋ + 1 := Int.lt_floor_add_one q
  unfold round_half_even
  rw [abs_le]
  split_ifs <;> push_cast <;> constructor <;> linarith

theorem round_half_even_near (q : ℚ) (n : Int) (h1 : (n : ℚ) - 1 / 2 < q)
    (h2 : q < (n : ℚ) + 1 / 2) : round_half_even q = n := by
  have hlo := round_half_even_ge q (n - 1) (by push_cast; linarith)
  have hhi := round_half_even_le q (n + 1) (by push_cast; linarith)
  have herr := round_half_even_error q
  rw [abs_le] at herr
  by_contra hne
  rcases (by omega : round_half_even q = n - 1 ∨ round_half_even q = n + 1) with h | h
  · rw [h] at herr; push_cast at herr; linarith
  · rw [h] at herr; push_cast at herr; linarith

theorem two_zpow_pos (n : Int) : (0 : ℚ) < 2 ^ n := zpow_pos (by norm_num) n

/-- Rounding on the grid of spacing `2 ^ (e - (p - 1))` keeps a value below
`2 ^ (e + 1)` at most there. -/
theorem grid_round_le (p : Nat) (e : Int) (x : ℚ) (hx : x ≤ 2 ^ (e + 1)) :
    (round_half_even (x / 2 ^ (e - ((p : Int) - 1))) : ℚ) * 2 ^ (e - ((p : Int) - 1)) ≤
      2 ^ (e + 1) := by
  have hu := two_zpow_pos (e - ((p : Int) - 1))
  have hq : x / 2 ^ (e - ((p : Int) - 1)) ≤ (((2 : Int) ^ p : Int) : ℚ) := by
    rw [div_le_iff₀ hu]
    have : (((2 : Int) ^ p : Int) : ℚ) * 2 ^ (e - ((p : Int) - 1)) = 2 ^ (e + 1) := by
      push_cast
      rw [← zpow_natCast, ← zpow_add₀ (by norm_num : (2 : ℚ) ≠ 0)]
      congr 1
      ring
    rw [this]
    exact hx
  have hr := round_half_even_le _ _ hq
  have hr2 : (round_half_even (x / 2 ^ (e - ((p : Int) - 1))) : ℚ) ≤ (((2 : Int) ^ p : Int) : ℚ) := by
    exact_mod_cast hr
  have : (((2 : Int) ^ p : Int) : ℚ) * 2 ^ (e - ((p : Int) - 1)) = 2 ^ (e + 1) := by
    push_cast
    rw [← zpow_natCast, ← zpow_add₀ (by norm_num : (2 : ℚ) ≠ 0)]
    congr 1
    ring
  rw [← this]
  exact mul_le_mul_of_nonneg_right hr2 (le_of_lt hu)

/-- Rounding on the grid of spacing `2 ^ (e - (p - 1))` keeps a value above
`2 ^ e` at least there. -/
theorem grid_round_ge (p : Nat) (hp : 1 ≤ p) (e : Int) (x : ℚ) (hx : 2 ^ e ≤ x) :
    2 ^ e ≤
      (round_half_even (x / 2 ^ (e - ((p : Int) - 1))) : ℚ) * 2 ^ (e - ((p : Int) - 1)) := by
  have hu := two_zpow_pos (e - ((p : Int) - 1))
  have hpow : (((2 : Int) ^ (p - 1) : Int) : ℚ) * 2 ^ (e - ((p : Int) - 1)) = 2 ^ e := by
    push_cast
    rw [← zpow_natCast, ← zpow_add₀ (by norm_num : (2 : ℚ) ≠ 0)]
    congr 1
    have : ((p - 1 : Nat) : Int) = (p : Int) - 1 := by omega
    rw [this]
    ring
  have hq : (((2 : Int) ^ (p - 1) : Int) : ℚ) ≤ x / 2 ^ (e - ((p : Int) - 1)) := by
    rw [le_div_iff₀ hu, hpow]
    exact hx
  have hr := round_half_even_ge _ _ hq
  have hr2 : (((2 : Int) ^ (p - 1) : Int) : ℚ) ≤
      (round_half_even (x / 2 ^ (e - ((p : Int) - 1))) : ℚ) := by
    exact_mod_cast hr
  rw [← hpow]
  exact mul_le_mul_of_nonneg_right hr2 (le_of_lt hu)

theorem round_binary_nonneg_zero (p : Nat) (emin : Int) : round_binary_nonneg p emin 0 = 0 := by
  simp [round_binary_nonneg, round_half_even]

theorem round_binary_nonneg_nonneg (p : Nat) (emin : Int) (x : ℚ) (hx : 0 ≤ x) :
    0 ≤ round_binary_nonneg p emin x := by
  unfold round_binary_nonneg
  have hu := two_zpow_pos (max (Int.log 2 x) emin - ((p : Int) - 1))
  have hq : ((0 : Int) : ℚ) ≤ x / 2 ^ (max (Int.log 2 x) emin - ((p : Int) - 1)) := by
    push_cast
    exact div_nonneg hx (le_of_lt hu)
  have hr := round_half_even_ge _ _ hq
  have hr2 : (0 : ℚ) ≤
      (round_half_even (x / 2 ^ (max (Int.log 2 x) emin - ((p : Int) - 1))) : ℚ) := by
    exact_mod_cast hr
  exact mul_nonneg hr2 (le_of_lt hu)

theorem round_binary_nonneg_mono (p : Nat) (hp : 1 ≤ p) (emin : Int) (x y : ℚ) (hx : 0 ≤ x)
    (hxy : x ≤ y) : round_binary_nonneg p emin x ≤ round_binary_nonneg p emin y := by
  rcases eq_or_lt_of_le hx with h0 | hpos
  · rw [← h0, round_binary_nonneg_zero]
    exact round_binary_nonneg_nonneg p emin y (le_trans hx hxy)
  have hypos : 0 < y := lt_of_lt_of_le hpos hxy
  have hlog : Int.log 2 x ≤ Int.log 2 y := Int.log_mono_right hpos hxy
  have hE : max (Int.log 2 x) emin ≤ max (Int.log 2 y) emin := max_le_max hlog (le_refl _)
  rcases eq_or_lt_of_le hE with he | hlt
  · unfold round_binary_nonneg
    rw [← he]
    have hu := two_zpow_pos (max (Int.log 2 x) emin - ((p : Int) - 1))
    have hq : x / 2 ^ (max (Int.log 2 x) emin - ((p : Int) - 1)) ≤
        y / 2 ^ (max (Int.log 2 x) emin - ((p : Int) - 1)) :=
      div_le_div_of_nonneg_right hxy (le_of_lt hu)
    have hr := round_half_even_mono _ _ hq
    have hr2 : (round_half_even (x / 2 ^ (max (Int.log 2 x) emin - ((p : Int) - 1))) : ℚ) ≤
        (round_half_even (y / 2 ^ (max (Int.log 2 x) emin - ((p : Int) - 1))) : ℚ) := by
      exact_mod_cast hr
    exact mul_le_mul_of_nonneg_right hr2 (le_of_lt hu)
  · have hy : max (Int.log 2 y) emin = Int.log 2 y := by
      have : emin ≤ max (Int.log 2 x) emin := le_max_right _ _
      rcases max_choice (Int.log 2 y) emin with h | h
      · exact h
      · omega
    have hxlt : x ≤ 2 ^ (max (Int.log 2 x) emin + 1) := by
      have h1 : x < 2 ^ (Int.log 2 x + 1) := by
        have := Int.lt_zpow_succ_log_self (b := 2) (by norm_num) x
        exact_mod_cast this
      have h2 : (2 : ℚ) ^ (Int.log 2 x + 1) ≤ 2 ^ (max (Int.log 2 x) emin + 1) :=
        zpow_le_zpow_right₀ (by norm_num) (by have := le_max_left (Int.log 2 x) emin; omega)
      linarith
    have hyge : (2 : ℚ) ^ (Int.log 2 y) ≤ y := by
      have := Int.zpow_log_le_self (b := 2) (r := y) (by norm_num) hypos
      exact_mod_cast this
    have hup := grid_round_le p (max (Int.log 2 x) emin) x hxlt
    have hlo := grid_round_ge p hp (Int.log 2 y) y hyge
    have hmid : (2 : ℚ) ^ (max (Int.log 2 x) emin + 1) ≤ 2 ^ (Int.log 2 y) :=
      zpow_le_zpow_right₀ (by norm_num) (by omega)
    unfold round_binary_nonneg
    rw [hy]
    linarith

theorem round_binary_mono (p : Nat) (hp : 1 ≤ p) (emin : Int) : Monotone (round_binary p emin) := by
  intro x y hxy
  unfold round_binary
  by_cases hx : x < 0
  · by_cases hy : y < 0
    · rw [if_pos hx, if_pos hy]
      have := round_binary_nonneg_mono p hp emin (-y) (-x) (by linarith) (by linarith)
      linarith
    · rw [if_pos hx, if_neg hy]
      have h1 := round_binary_nonneg_nonneg p emin (-x) (by linarith)
      have h2 := round_binary_nonneg_nonneg p emin y (by linarith)
      linarith
  · have hy : ¬ y < 0 := by intro h; exact hx (lt_of_le_of_lt hxy h)
    rw [if_neg hx, if_neg hy]
    exact round_binary_nonneg_mono p hp emin x y (by linarith) hxy

/-- A number `m * 2 ^ j` with `0 < m < 2 ^ p` and `j` not below the least
exponent of the grid is a floating-point number: rounding leaves it alone. -/
theorem round_binary_nonneg_exact (p : Nat) (emin : Int) (m : Nat) (j : Int) (hm : 0 < m)
    (hmp : m < 2 ^ p) (hj : emin - ((p : Int) - 1) ≤ j) :
    round_binary_nonneg p emin ((m : ℚ) * 2 ^ j) = (m : ℚ) * 2 ^ j := by
  have hxpos : (0 : ℚ) < (m : ℚ) * 2 ^ j :=
    mul_pos (by exact_mod_cast hm) (two_zpow_pos j)
  have hlog : Int.log 2 ((m : ℚ) * 2 ^ j) < (p : Int) + j := by
    have hlt : (m : ℚ) * 2 ^ j < ((2 : Nat) : ℚ) ^ ((p : Int) + j) := by
      push_cast
      rw [zpow_add₀ (by norm_num : (2 : ℚ) ≠ 0), zpow_natCast]
      have : (m : ℚ) < 2 ^ p := by exact_mod_cast hmp
      exact mul_lt_mul_of_pos_right this (two_zpow_pos j)
    exact (Int.lt_zpow_iff_log_lt (b := 2) (by norm_num) hxpos).mp hlt
  have hE : max (Int.log 2 ((m : ℚ) * 2 ^ j)) emin - ((p : Int) - 1) ≤ j := by
    rcases max_choice (Int.log 2 ((m : ℚ) * 2 ^ j)) emin with h | h <;> rw [h] <;> omega
  obtain ⟨t, ht⟩ : ∃ t : Nat, (t : Int) =
      j - (max (Int.log 2 ((m : ℚ) * 2 ^ j)) emin - ((p : Int) - 1)) :=
    ⟨(j - (max (Int.log 2 ((m : ℚ) * 2 ^ j)) emin - ((p : Int) - 1))).toNat,
      Int.toNat_of_nonneg (by omega)⟩
  unfold round_binary_nonneg
  have hu := two_zpow_pos (max (Int.log 2 ((m : ℚ) * 2 ^ j)) emin - ((p : Int) - 1))
  have hq : (m : ℚ) * 2 ^ j / 2 ^ (max (Int.log 2 ((m : ℚ) * 2 ^ j)) emin - ((p : Int) - 1)) =
      (((m * 2 ^ t : Nat) : Int) : ℚ) := by
    rw [mul_div_assoc, ← zpow_sub₀ (by norm_num : (2 : ℚ) ≠ 0), ← ht]
    push_cast
    rw [zpow_natCast]
  rw [hq, round_half_even_int]
  rw [← hq]
  field_simp

theorem round_binary_zero (p : Nat) (emin : Int) : round_binary p emin 0 = 0 := by
  simp [round_binary, round_binary_nonneg_zero]

theorem round_binary_neg (p : Nat) (emin : Int) (x : ℚ) :
    round_binary p emin (-x) = -round_binary p emin x := by
  unfold round_binary
  rcases lt_trichotomy x 0 with h | h | h
  · have h1 : ¬ -x < 0 := by linarith
    rw [if_neg h1, if_pos h, neg_neg]
  · subst h
    simp [round_binary_nonneg_zero]
  · have h1 : -x < 0 := by linarith
    have h2 : ¬ x < 0 := by linarith
    rw [if_pos h1, if_neg h2, neg_neg]

/-- The numbers `m / 2 ^ k` with `|m| ≤ 2 ^ 24` and `k ≤ 64` are floating-point
numbers of every format with at least 24 significand bits whose least exponent
reaches down to them. -/
theorem round_binary_exact (p : Nat) (hp : 24 ≤ p) (emin : Int)
    (hemin : emin - ((p : Int) - 1) ≤ -64) (m : Int) (k : Nat) (hm : |m| ≤ 16777216)
    (hk : k ≤ 64) : round_binary p emin ((m : ℚ) / 2 ^ k) = (m : ℚ) / 2 ^ k := by
  have hpos : ∀ n : Nat, 0 < n → n ≤ 16777216 →
      round_binary p emin ((n : ℚ) / 2 ^ k) = (n : ℚ) / 2 ^ k := by
    intro n hn0 hn
    have hnn : ¬ ((n : ℚ) / 2 ^ k < 0) := by
      have : (0 : ℚ) ≤ (n : ℚ) / 2 ^ k := by positivity
      linarith
    unfold round_binary
    rw [if_neg hnn]
    have h24 : (16777216 : Nat) ≤ 2 ^ p := by
      calc (16777216 : Nat) = 2 ^ 24 := by norm_num
        _ ≤ 2 ^ p := Nat.pow_le_pow_right (by norm_num) hp
    rcases Nat.lt_or_ge n 16777216 with hlt | hge
    · have := round_binary_nonneg_exact p emin n (-(k : Int)) hn0 (by omega) (by omega)
      have he : (n : ℚ) * 2 ^ (-(k : Int)) = (n : ℚ) / 2 ^ k := by
        rw [zpow_neg, zpow_natCast, div_eq_mul_inv]
      rw [he] at this
      exact this
    · have hn2 : n = 16777216 := by omega
      have := round_binary_nonneg_exact p emin 1 (24 - (k : Int)) (by norm_num)
        (Nat.one_lt_two_pow (by omega)) (by omega)
      have he : ((1 : Nat) : ℚ) * 2 ^ (24 - (k : Int)) = (n : ℚ) / 2 ^ k := by
        rw [hn2, zpow_sub₀ (by norm_num : (2 : ℚ) ≠ 0), zpow_natCast]
        norm_num
      rw [he] at this
      exact this
  rcases lt_trichotomy m 0 with h | h | h
  · have hm2 : (-m).toNat ≤ 16777216 := by
      have := abs_le.mp hm
      omega
    have hm3 : ((-m).toNat : Int) = -m := Int.toNat_of_nonneg (by omega)
    have := hpos (-m).toNat (by omega) hm2
    have hc : (((-m).toNat : Nat) : ℚ) = -(m : ℚ) := by
      have : (((-m).toNat : Int) : ℚ) = ((-m : Int) : ℚ) := by rw [hm3]
      push_cast at this
      exact this
    rw [hc, neg_div, round_binary_neg] at this
    linarith
  · subst h
    simp [round_binary_zero]
  · have hm2 : m.toNat ≤ 16777216 := by
      have := abs_le.mp hm
      omega
    have hm3 : (m.toNat : Int) = m := Int.toNat_of_nonneg (by omega)
    have := hpos m.toNat (by omega) hm2
    have hc : ((m.toNat : Nat) : ℚ) = (m : ℚ) := by
      have : ((m.toNat : Int) : ℚ) = (m : ℚ) := by rw [hm3]
      exact_mod_cast this
    rw [hc] at this
    exact this

/-- The conversion `(float)atof` is monotone and exact on the numbers
`m / 2 ^ k` with `|m| ≤ 2 ^ 24`, `k ≤ 64`. -/
theorem float_of_decimal_conversion : float_conversion float_of_decimal := by
  constructor
  · intro x y hxy
    exact round_binary_mono 24 (by norm_num) (-126)
      (round_binary_mono 53 (by norm_num) (-1022) hxy)
  · intro m k hm hk
    unfold float_of_decimal
    rw [round_binary_exact 53 (by norm_num) (-1022) (by norm_num) m k hm hk,
      round_binary_exact 24 (by norm_num) (-126) (by norm_num) m k hm hk]

/-- The value of `round_binary` at a positive number whose exponent `e` and
rounded significand `n` are known. -/
theorem round_binary_value (p : Nat) (emin : Int) (x : ℚ) (e n : Int) (hx : 0 < x)
    (h1 : 2 ^ e ≤ x) (h2 : x < 2 ^ (e + 1)) (he : emin ≤ e)
    (h3 : (n : ℚ) - 1 / 2 < x / 2 ^ (e - ((p : Int) - 1)))
    (h4 : x / 2 ^ (e - ((p : Int) - 1)) < (n : ℚ) + 1 / 2) :
    round_binary p emin x = (n : ℚ) * 2 ^ (e - ((p : Int) - 1)) := by
  have hlog : Int.log 2 x = e := by
    have a : e ≤ Int.log 2 x :=
      (Int.zpow_le_iff_le_log (b := 2) (by norm_num) hx).mp (by exact_mod_cast h1)
    have b : Int.log 2 x < e + 1 :=
      (Int.lt_zpow_iff_log_lt (b := 2) (by norm_num) hx).mp (by exact_mod_cast h2)
    omega
  have hnn : ¬ x < 0 := by linarith
  unfold round_binary round_binary_nonneg
  rw [if_neg hnn, hlog, max_eq_left he, round_half_even_near _ n h3 h4]

/-- The values `(float)atof` stores for 25.6, 60.2 and 85.000001. -/
theorem float_of_decimal_examples :
    float_of_decimal (128 / 5) = 13421773 / 524288 ∧
      float_of_decimal (301 / 5) = 15781069 / 262144 ∧
      float_of_decimal (85000001 / 1000000) = 85 := by
  have d1 : round_binary 53 (-1022) (128 / 5) = 7205759403792794 / 281474976710656 := by
    rw [round_binary_value 53 (-1022) (128 / 5) 4 7205759403792794 (by norm_num) (by norm_num)
      (by norm_num) (by norm_num) (by norm_num) (by norm_num)]
    norm_num
  have f1 : round_binary 24 (-126) (7205759403792794 / 281474976710656) =
      13421773 / 524288 := by
    rw [round_binary_value 24 (-126) _ 4 13421773 (by norm_num) (by norm_num)
      (by norm_num) (by norm_num) (by norm_num) (by norm_num)]
    norm_num
  have d2 : round_binary 53 (-1022) (301 / 5) = 8472396798990746 / 140737488355328 := by
    rw [round_binary_value 53 (-1022) (301 / 5) 5 8472396798990746 (by norm_num) (by norm_num)
      (by norm_num) (by norm_num) (by norm_num) (by norm_num)]
    norm_num
  have f2 : round_binary 24 (-126) (8472396798990746 / 140737488355328) =
      15781069 / 262144 := by
    rw [round_binary_value 24 (-126) _ 5 15781069 (by norm_num) (by norm_num)
      (by norm_num) (by norm_num) (by norm_num) (by norm_num)]
    norm_num
  have d3 : round_binary 53 (-1022) (85000001 / 1000000) =
      5981343325470184 / 70368744177664 := by
    rw [round_binary_value 53 (-1022) (85000001 / 1000000) 6 5981343325470184 (by norm_num)
      (by norm_num) (by norm_num) (by norm_num) (by norm_num) (by norm_num)]
    norm_num
  have f3 : round_binary 24 (-126) (5981343325470184 / 70368744177664) = 85 := by
    rw [round_binary_value 24 (-126) _ 6 11141120 (by norm_num) (by norm_num)
      (by norm_num) (by norm_num) (by norm_num) (by norm_num)]
    norm_num
  unfold float_of_decimal
  rw [d1, f1, d2, f2, d3, f3]
  exact ⟨rfl, rfl, rfl⟩

theorem grid_round_error (u : ℚ) (hu : 0 < u) (x : ℚ) :
    |(round_half_even (x / u) : ℚ) * u - x| ≤ 1 / 2 * u := by
  have herr := round_half_even_error (x / u)
  have he : (round_half_even (x / u) : ℚ) * u - x = ((round_half_even (x / u) : ℚ) - x / u) * u := by
    field_simp
  rw [he, abs_mul, abs_of_pos hu]
  exact mul_le_mul_of_nonneg_right herr (le_of_lt hu)

theorem round_binary_nonneg_error (p : Nat) (emin : Int) (x : ℚ) :
    |round_binary_nonneg p emin x - x| ≤ 2 ^ (max (Int.log 2 x) emin - (p : Int)) := by
  unfold round_binary_nonneg
  have hu := two_zpow_pos (max (Int.log 2 x) emin - ((p : Int) - 1))
  have hhalf : (2 : ℚ) ^ (max (Int.log 2 x) emin - (p : Int)) =
      1 / 2 * 2 ^ (max (Int.log 2 x) emin - ((p : Int) - 1)) := by
    have : max (Int.log 2 x) emin - ((p : Int) - 1) =
        (max (Int.log 2 x) emin - (p : Int)) + 1 := by ring
    rw [this, zpow_add₀ (by norm_num : (2 : ℚ) ≠ 0)]
    ring
  rw [hhalf]
  exact grid_round_error _ hu x

/-- Rounding moves a number of magnitude at most 128 by at most half the
spacing of the grid below 256. -/
theorem round_binary_error_le (p : Nat) (emin : Int) (hemin : emin ≤ 7) (x : ℚ)
    (hx : |x| ≤ 128) : |round_binary p emin x - x| ≤ 2 ^ (7 - (p : Int)) := by
  have key : ∀ y : ℚ, 0 ≤ y → y ≤ 128 →
      |round_binary_nonneg p emin y - y| ≤ 2 ^ (7 - (p : Int)) := by
    intro y hy0 hy
    rcases eq_or_lt_of_le hy0 with h0 | hpos
    · rw [← h0, round_binary_nonneg_zero]
      simp only [sub_zero, abs_zero]
      exact le_of_lt (two_zpow_pos _)
    · have hlog : Int.log 2 y ≤ 7 := by
        have h1 := Int.log_mono_right (b := 2) hpos hy
        have h2 : Int.log 2 (128 : ℚ) = 7 := by
          have := Int.log_zpow (R := ℚ) (b := 2) (by norm_num) 7
          norm_num at this
          exact this
        omega
      have hE : max (Int.log 2 y) emin - (p : Int) ≤ 7 - (p : Int) := by
        have := max_le hlog hemin
        omega
      exact le_trans (round_binary_nonneg_error p emin y)
        (zpow_le_zpow_right₀ (by norm_num) hE)
  have hb := abs_le.mp hx
  unfold round_binary
  by_cases hneg : x < 0
  · rw [if_pos hneg]
    have := key (-x) (by linarith) (by linarith)
    rw [abs_le] at this ⊢
    constructor <;> linarith
  · rw [if_neg hneg]
    exact key x (by linarith) (by linarith)

/-- The stored value of a decimal value of magnitude at most 128 is within
`2 ^ -16` of it. -/
theorem float_of_decimal_error (x : ℚ) (hx : |x| ≤ 128) :
    |float_of_decimal x - x| ≤ 1 / 65536 := by
  have h1 := round_binary_error_le 53 (-1022) (by norm_num) x hx
  have hb := abs_le.mp hx
  have hd : |round_binary 53 (-1022) x| ≤ 128 := by
    have e1 := round_binary_exact 53 (by norm_num) (-1022) (by norm_num) 128 0 (by norm_num)
      (by norm_num)
    have e2 := round_binary_exact 53 (by norm_num) (-1022) (by norm_num) (-128) 0
      (by norm_num) (by norm_num)
    norm_num at e1 e2
    have m1 := round_binary_mono 53 (by norm_num) (-1022) hb.2
    have m2 := round_binary_mono 53 (by norm_num) (-1022) hb.1
    rw [e1] at m1
    rw [e2] at m2
    exact abs_le.mpr ⟨m2, m1⟩
  have h2 := round_binary_error_le 24 (-126) (by norm_num) _ hd
  have h1' : |round_binary 53 (-1022) x - x| ≤ 1 / 70368744177664 := by
    have : (2 : ℚ) ^ (7 - ((53 : Nat) : Int)) = 1 / 70368744177664 := by norm_num
    rw [this] at h1
    exact h1
  have h2' : |round_binary 24 (-126) (round_binary 53 (-1022) x) - round_binary 53 (-1022) x| ≤
      1 / 131072 := by
    have : (2 : ℚ) ^ (7 - ((24 : Nat) : Int)) = 1 / 131072 := by norm_num
    rw [this] at h2
    exact h2
  unfold float_of_decimal
  rw [abs_le] at h1' h2' ⊢
  constructor <;> linarith [h1'.1, h1'.2, h2'.1, h2'.2]

/-- A decimal value whose stored value lies between -128 and 128 has magnitude
at most 128. -/
theorem float_of_decimal_bounded (x : ℚ) (h1 : -128 < float_of_decimal x)
    (h2 : float_of_decimal x < 128) : |x| ≤ 128 := by
  have hc := float_of_decimal_conversion
  have e1 := float_conversion_int float_of_decimal hc 128 (by norm_num)
  have e2 := float_conversion_int float_of_decimal hc (-128) (by norm_num)
  push_cast at e1 e2
  rw [abs_le]
  constructor
  · by_contra hn
    have := hc.1 (le_of_lt (not_le.mp hn))
    rw [e2] at this
    linarith
  · by_contra hn
    have := hc.1 (le_of_lt (not_le.mp hn))
    rw [e1] at this
    linarith

/-! ## The unchecked copy in `parse_sensor_data` (C5) -/

set_option maxRecDepth 8000 in
theorem overlong_frame_facts :
    overlong_frame.count ',' = 2 ∧ overlong_frame.length = 130 := by
  decide

/-- C5 at its failing input.  The frame of 126 times `A` followed by `,D,1` has
two commas and 130 bytes: `parse_sensor_data` passes it to `strcpy` into its
128-byte `input_copy` without a length test, so the call has no defined result
and no defined effect on the three counters, in any state and for any
conversion, and a sequence of calls that contains it reaches no state in which
`total = valid + rejected` could be read; on the same frame `parse_sensor1_data`
and `parse_sensor2_data` make their length test and answer "Buffer too
small". -/
theorem C5_unchecked_copy_of_long_frame (rnd : ℚ → ℚ) (st : SensorState) :
    overlong_frame.count ',' = 2 ∧ overlong_frame.length = 130 ∧
    parse_sensor_data rnd st overlong_frame = none ∧
    sensor_run rnd (sensor_data_init st) [SensorCall.parse overlong_frame] = none ∧
    ((parse_sensor1_data rnd st overlong_frame).1.is_valid = false ∧
      (parse_sensor1_data rnd st overlong_frame).1.error_msg = "Buffer too small") ∧
    ((parse_sensor2_data st overlong_frame).1.is_valid = false ∧
      (parse_sensor2_data st overlong_frame).1.error_msg = "Buffer too small") := by
  obtain ⟨hc, hl⟩ := overlong_frame_facts
  have hge : overlong_frame.length ≥ 128 := by rw [hl]; decide
  have hnone : ∀ s : SensorState, parse_sensor_data rnd s overlong_frame = none := by
    intro s
    simp only [parse_sensor_data, hc, hge, if_true]
  refine ⟨hc, hl, hnone st, ?_, ?_, ?_⟩
  · simp only [sensor_run, sensor_step, hnone, Option.map_none']
  · simp only [parse_sensor1_data, hge, if_true, reject1, ERROR_MSG_BUFFER_TOO_SMALL, and_self]
  · simp only [parse_sensor2_data, hge, if_true, reject2, ERROR_MSG_BUFFER_TOO_SMALL, and_self]

/-! ## The range check against the decimal values (C9) -/

/-- The fields of a Sensor-1 record accepted by `parse_sensor_data` lie in the
ranges of `validate_sensor1_data`. -/
theorem parse_sensor_data_sensor1_range (rnd : ℚ → ℚ) (st : SensorState) (frame : List Char)
    (r : parse_result_t × Option sensor_data_t × SensorState) (d : sensor1_data_t)
    (hr : parse_sensor_data rnd st frame = some r) (hv : r.1.is_valid = true)
    (hd : r.2.1 = some { type := SENSOR_TYPE_TEMP_HUMIDITY, data := sensor_union.sensor1 d }) :
    -40 ≤ d.temperature ∧ d.temperature ≤ 85 ∧ 0 ≤ d.humidity ∧ d.humidity ≤ 100 := by
  obtain ⟨h1, h2⟩ := parse_sensor_data_sensor1_record rnd st frame r SENSOR_TYPE_TEMP_HUMIDITY d
    hr hd
  rw [h1] at hv
  obtain ⟨d2, hd2, hrange⟩ := parse_sensor1_data_accept_range rnd
    { st with total_data_count := incr32 st.total_data_count } frame hv
  rw [h2] at hd2
  simp only [Option.some.injEq] at hd2
  rw [hd2]
  exact hrange

/-- C10, as the code has it.  For every frame that `parse_sensor_data` accepts
as Sensor-1 (valid result of type `SENSOR_TYPE_TEMP_HUMIDITY`), the frame has
exactly three non-empty tokens and the record written has `student_id` equal to
the trimmed first token, `sensor_name` equal to the literal `"TEMP_HUMIDITY"`,
and as temperature and humidity the `float` values `(float)atof` makes of the
trimmed second and third tokens: their decimal values rounded to `double` and
then to `float`, within `2 ^ -16` of the decimal values.  The frame
`"2021001ZS,25.6,60.2"` parsed right after `sensor_data_init` gives the record
with student id `"2021001ZS"`, temperature `13421773 / 524288` (25.6 rounded),
humidity `15781069 / 262144` (60.2 rounded), sensor name `"TEMP_HUMIDITY"` and
status NORMAL, and the counters total 1, valid 1, rejected 0. -/
theorem C10_accepted_sensor1_record (st : SensorState) :
    (∀ (frame : List Char) (r : parse_result_t × Option sensor_data_t × SensorState),
      parse_sensor_data float_of_decimal st frame = some r → r.1.is_valid = true →
      r.1.type = some SENSOR_TYPE_TEMP_HUMIDITY →
      ∃ t1 t2 t3 d, three_tokens frame ∧ tokens frame = [t1, t2, t3] ∧
        r.2.1 = some { type := SENSOR_TYPE_TEMP_HUMIDITY, data := sensor_union.sensor1 d } ∧
        d.student_id = trim_whitespace t1 ∧ d.sensor_name = SENSOR1_NAME ∧
        d.temperature = float_of_decimal (atof_value (trim_whitespace t2)) ∧
        d.humidity = float_of_decimal (atof_value (trim_whitespace t3)) ∧
        |d.temperature - atof_value (trim_whitespace t2)| ≤ 1 / 65536 ∧
        |d.humidity - atof_value (trim_whitespace t3)| ≤ 1 / 65536 ∧
        d.timestamp = incr32 st.tick_count) ∧
    parse_sensor_data float_of_decimal (sensor_data_init st) "2021001ZS,25.6,60.2".toList =
      some ({ is_valid := true, type := some SENSOR_TYPE_TEMP_HUMIDITY, error_msg := "" },
        some { type := SENSOR_TYPE_TEMP_HUMIDITY,
               data := sensor_union.sensor1
                 { student_id := "2021001ZS".toList, sensor_name := SENSOR1_NAME,
                   temperature := 13421773 / 524288, humidity := 15781069 / 262144,
                   status := SENSOR_STATUS_NORMAL, timestamp := incr32 st.tick_count } },
        { total_data_count := 1, valid_data_count := 1, error_data_count := 0,
          tick_count := incr32 st.tick_count, data_callback := data_callback_t.null }) := by
  constructor
  · intro frame r hr hv ht
    obtain ⟨t1, t2, t3, d, h3, htok, hd, f1, f2, f3, f4, f5⟩ :=
      parse_sensor_data_accept_sensor1 float_of_decimal st frame r hr hv ht
    obtain ⟨r1, r2, r3, r4⟩ := parse_sensor_data_sensor1_range float_of_decimal st frame r d
      hr hv hd
    simp only [parse_float_safe] at f3 f4
    refine ⟨t1, t2, t3, d, h3, htok, hd, f1, f2, f3, f4, ?_, ?_, f5⟩
    · rw [f3]
      apply float_of_decimal_error
      apply float_of_decimal_bounded
      · rw [← f3]; linarith
      · rw [← f3]; linarith
    · rw [f4]
      apply float_of_decimal_error
      apply float_of_decimal_bounded
      · rw [← f4]; linarith
      · rw [← f4]; linarith
  · have h := sensor1_frame_s1 float_of_decimal float_of_decimal_conversion st
    rw [float_of_decimal_examples.1, float_of_decimal_examples.2.1] at h
    exact h

/-- Witness of C10 from the state at program start: the record of
`"2021001ZS,25.6,60.2"`. -/
theorem C10_witness :
    parse_sensor_data float_of_decimal (sensor_data_init sensor_boot)
        "2021001ZS,25.6,60.2".toList =
      some ({ is_valid := true, type := some SENSOR_TYPE_TEMP_HUMIDITY, error_msg := "" },
        some { type := SENSOR_TYPE_TEMP_HUMIDITY,
               data := sensor_union.sensor1
                 { student_id := "2021001ZS".toList, sensor_name := SENSOR1_NAME,
                   temperature := 13421773 / 524288, humidity := 15781069 / 262144,
                   status := SENSOR_STATUS_NORMAL, timestamp := 1 } },
        { total_data_count := 1, valid_data_count := 1, error_data_count := 0,
          tick_count := 1, data_callback := data_callback_t.null }) :=
  (C10_accepted_sensor1_record sensor_boot).2

/-- C10 as stated fails: the temperature stored for `"2021001ZS,25.6,60.2"` is
`13421773 / 524288` and the humidity `15781069 / 262144`, not the decimal values
`128 / 5` and `301 / 5` of the second and third tokens, which no `float`
holds. -/
theorem C10_counterexample :
    parse_sensor_data float_of_decimal (sensor_data_init sensor_boot)
        "2021001ZS,25.6,60.2".toList =
      some ({ is_valid := true, type := some SENSOR_TYPE_TEMP_HUMIDITY, error_msg := "" },
        some { type := SENSOR_TYPE_TEMP_HUMIDITY,
               data := sensor_union.sensor1
                 { student_id := "2021001ZS".toList, sensor_name := SENSOR1_NAME,
                   temperature := 13421773 / 524288, humidity := 15781069 / 262144,
                   status := SENSOR_STATUS_NORMAL, timestamp := 1 } },
        { total_data_count := 1, valid_data_count := 1, error_data_count := 0,
          tick_count := 1, data_callback := data_callback_t.null }) ∧
    atof_value "25.6".toList = 128 / 5 ∧ atof_value "60.2".toList = 301 / 5 ∧
    (13421773 / 524288 : ℚ) ≠ 128 / 5 ∧ (15781069 / 262144 : ℚ) ≠ 301 / 5 := by
  have h := sensor1_frame_s1 float_of_decimal float_of_decimal_conversion sensor_boot
  rw [float_of_decimal_examples.1, float_of_decimal_examples.2.1] at h
  refine ⟨h, atof_value_examples.2.2.2.2.2.2, atof_value_examples.2.2.2.2.2.1, ?_, ?_⟩ <;>
    norm_num

/-! ## The third token of a Sensor-2 frame (C13) -/

theorem parse_int_safe_of_fits (s : List Char) (h : atoi_fits s = true) :
    parse_int_safe s = atoi_value s := by
  simp only [atoi_fits, decide_eq_true_eq] at h
  simp only [parse_int_safe]
  simp only [atoi_value] at h ⊢
  omega

/-- The saturating `atoi` of the embedding is one of the `atoi` C allows. -/
theorem parse_int_safe_c_atoi : c_atoi parse_int_safe :=
  fun s h => parse_int_safe_of_fits s h

/-- Where C leaves `atoi` undefined the outcome depends on the library: the
value of the third token of `"A,D,4294967297"` does not fit an `int`; with the
wrapping `atoi` the frame is accepted with interrupt type 1, with the
saturating `atoi` it is rejected with "Data out of range". -/
theorem sensor2_overflowing_third_token :
    atoi_fits "4294967297".toList = false ∧
    (parse_sensor2_data_atoi atoi_wrap sensor_boot "A,D,4294967297".toList).1.is_valid = true ∧
    (parse_sensor2_data_atoi atoi_wrap sensor_boot "A,D,4294967297".toList).2.1.map
      (fun d => d.interrupt_type) = some 1 ∧
    (parse_sensor2_data_atoi parse_int_safe sensor_boot
      "A,D,4294967297".toList).1.is_valid = false ∧
    (parse_sensor2_data_atoi parse_int_safe sensor_boot
      "A,D,4294967297".toList).1.error_msg = "Data out of range" := by
  decide

